import Mathlib

/-!
# Stella 3.9.3 core: cartridge bankswitching, auto-detection and the TIA

A shallow embedding of `src/emucore/CartF4SC.cxx`, `src/emucore/Cart.cxx` and
`src/emucore/TIA.cxx`.  Bytes and machine words are natural numbers or
integers; wrap-around is written out where the C++ types make it matter.
Buffers (`myImage`, `myRAM`, the page table) are total functions from an
index to a value, so a C++ pointer `&buf[k]` is the pair of the buffer and
the offset `k`.
-/

namespace Stella

/-! ## The bus: page table and data-bus latch -/

/-- A pointer into one of the buffers owned by the cartridge. -/
inductive Ptr where
  | ram (off : Nat)
  | image (off : Nat)
  deriving DecidableEq, Repr

/-- The access type recorded in a page (`System::PageAccessType`). -/
inductive PageAccessType where
  | PA_READ
  | PA_WRITE
  | PA_READWRITE
  deriving DecidableEq, Repr

/-- One record of the page table (`System::PageAccess`).  The device field is
left out: every page installed by the code embedded here names the
cartridge itself (`this`).  `codeAccessBase` is kept as an offset into
`myCodeAccessBase`. -/
structure PageAccess where
  directPeekBase : Option Ptr
  directPokeBase : Option Ptr
  codeAccessBase : Nat
  type : PageAccessType
  deriving DecidableEq, Repr

/-- The state of `System` that the cartridge code reads and writes.
`floatingDataBus zmask` is the value the call `getDataBusState(zmask)` returns:
that overload mixes random pin values into the latch, so its result is an
input of the embedding and need not be `myDataBusState`. -/
structure System where
  myPageShift : Nat
  myDataBusState : Nat
  myPageAccessTable : Nat → PageAccess
  floatingDataBus : Nat → Nat

namespace System

def pageShift (sys : System) : Nat := sys.myPageShift

/-- Modelled from the spec: `System::pageMask` is not part of the source
tree; the spec fixes the page size as a power of two chosen at bus
construction, so the mask of the in-page offset is `2^shift - 1`. -/
def pageMask (sys : System) : Nat := 2 ^ sys.myPageShift - 1

/-- Modelled from the spec: `System::setPageAccess` is not part of the source
tree; it stores the record in the page-indexed table. -/
def setPageAccess (sys : System) (page : Nat) (access : PageAccess) : System :=
  { sys with myPageAccessTable := Function.update sys.myPageAccessTable page access }

/-- Modelled from the spec: `System::getDataBusState` is not part of the
source tree; the spec calls its result the current data-bus value. -/
def getDataBusState (sys : System) : Nat := sys.myDataBusState

/-- Modelled from the spec: the overload `System::getDataBusState(uInt8 zmask)`
is not part of the source tree.  `TIA.cxx` says of it that "there is some
randomness injected into the mix", and the spec speaks of undriven read bits
that return random noise: the result is the input `floatingDataBus zmask`. -/
def getDataBusStateMasked (sys : System) (zmask : Nat) : Nat := sys.floatingDataBus zmask

end System

/-- The C++ `for(i = start; i < bound; i += step) body` over a state, with the
loop counter threaded explicitly.  `fuel` bounds the number of iterations. -/
def forLoop {σ : Type} (step bound : Nat) (body : Nat → σ → σ) : Nat → Nat → σ → σ
  | 0, _, s => s
  | fuel + 1, i, s =>
    if i < bound then forLoop step bound body fuel (i + step) (body i s) else s

/-- The value `x & ~mask` for a 16-bit `mask` promoted to a 32-bit int. -/
def andNot (x mask : Nat) : Nat := x &&& (0xFFFFFFFF ^^^ mask)

/-! ## CartridgeF4SC -/

/-- The mutable state of a `CartridgeF4SC` (with the `Cartridge` base class
fields it uses). -/
structure CartridgeF4SC where
  myImage : Nat → Nat
  myRAM : Nat → Nat
  myCurrentBank : Nat
  myStartBank : Nat
  myBankChanged : Bool
  myBankLocked : Bool

/-- A cartridge together with the system it is installed in. -/
structure Machine where
  cart : CartridgeF4SC
  sys : System

namespace CartridgeF4SC

def lockBank (c : CartridgeF4SC) : CartridgeF4SC := { c with myBankLocked := true }
def unlockBank (c : CartridgeF4SC) : CartridgeF4SC := { c with myBankLocked := false }
def bankLocked (c : CartridgeF4SC) : Bool := c.myBankLocked

def bankCount : Nat := 8

/-- The first loop of `bank`: pages of the hot spots. -/
def bankHotspotBody (offset shift : Nat) (i : Nat) (st : PageAccess × System) :
    PageAccess × System :=
  let access := { st.1 with codeAccessBase := offset + (i &&& 0x0FFF) }
  (access, st.2.setPageAccess (i >>> shift) access)

/-- The second loop of `bank`: direct-read pages of the current bank. -/
def bankRomBody (offset shift : Nat) (address : Nat) (st : PageAccess × System) :
    PageAccess × System :=
  let access := { st.1 with
    directPeekBase := some (Ptr.image (offset + (address &&& 0x0FFF))),
    codeAccessBase := offset + (address &&& 0x0FFF) }
  (access, st.2.setPageAccess (address >>> shift) access)

/-- `CartridgeF4SC::bank(uInt16 bank)`. -/
def bank (m : Machine) (bank : Nat) : Bool × Machine :=
  if m.cart.bankLocked then (false, m)
  else
    let myCurrentBank := bank % 65536
    let offset := (myCurrentBank <<< 12) % 65536
    let shift := m.sys.pageShift
    let mask := m.sys.pageMask
    let access : PageAccess := ⟨none, none, 0, PageAccessType.PA_READ⟩
    let st1 := forLoop (1 <<< shift) 0x2000 (bankHotspotBody offset shift) 0x2000
      (andNot 0x1FF4 mask) (access, m.sys)
    let st2 := forLoop (1 <<< shift) (andNot 0x1FF4 mask) (bankRomBody offset shift) 0x2000
      0x1100 st1
    (true, { cart := { m.cart with myCurrentBank := myCurrentBank, myBankChanged := true },
             sys := st2.2 })

/-- `CartridgeF4SC::peek(uInt16 address)`.  The debugger notification
`triggerReadFromWritePort` changes no cartridge or system state. -/
def peek (m : Machine) (address : Nat) : Nat × Machine :=
  let address := address &&& 0x0FFF
  let m1 := if 0x0FF4 ≤ address ∧ address ≤ 0x0FFB then (bank m (address - 0x0FF4)).2 else m
  if address < 0x0080 then
    let value := m1.sys.getDataBusStateMasked 0xFF
    if m1.cart.bankLocked then (value, m1)
    else (value, { m1 with cart := { m1.cart with myRAM := Function.update m1.cart.myRAM address value } })
  else
    (m1.cart.myImage ((m1.cart.myCurrentBank <<< 12) + address), m1)

/-- `CartridgeF4SC::poke(uInt16 address, uInt8)`. -/
def poke (m : Machine) (address : Nat) (_value : Nat) : Bool × Machine :=
  let address := address &&& 0x0FFF
  let m1 := if 0x0FF4 ≤ address ∧ address ≤ 0x0FFB then (bank m (address - 0x0FF4)).2 else m
  (false, m1)

/-- The first loop of `install`: the RAM writing pages. -/
def installWriteBody (shift : Nat) (j : Nat) (st : PageAccess × System) :
    PageAccess × System :=
  let access := { st.1 with
    directPokeBase := some (Ptr.ram (j &&& 0x007F)),
    codeAccessBase := j &&& 0x007F }
  (access, st.2.setPageAccess (j >>> shift) access)

/-- The second loop of `install`: the RAM reading pages. -/
def installReadBody (shift : Nat) (k : Nat) (st : PageAccess × System) :
    PageAccess × System :=
  let access := { st.1 with
    directPeekBase := some (Ptr.ram (k &&& 0x007F)),
    codeAccessBase := 0x80 + (k &&& 0x007F) }
  (access, st.2.setPageAccess (k >>> shift) access)

/-- `CartridgeF4SC::install(System&)`.  The assertion on the page size is a
precondition of the callers and is not evaluated here. -/
def install (m : Machine) : Machine :=
  let shift := m.sys.pageShift
  let access : PageAccess := ⟨none, none, 0, PageAccessType.PA_READ⟩
  let access := { access with type := PageAccessType.PA_WRITE }
  let st1 := forLoop (1 <<< shift) 0x1080 (installWriteBody shift) 0x1080 0x1000 (access, m.sys)
  let access := { st1.1 with directPokeBase := none, type := PageAccessType.PA_READ }
  let st2 := forLoop (1 <<< shift) 0x1100 (installReadBody shift) 0x1100 0x1080 (access, st1.2)
  (bank { m with sys := st2.2 } m.cart.myStartBank).2

end CartridgeF4SC

/-! ### Bus accesses through the page table -/

/-- The byte a buffer pointer designates. -/
def Machine.deref (m : Machine) : Ptr → Nat
  | Ptr.ram off => m.cart.myRAM off
  | Ptr.image off => m.cart.myImage off

/-- Store a byte through a buffer pointer. -/
def Machine.store (m : Machine) (p : Ptr) (v : Nat) : Machine :=
  match p with
  | Ptr.ram off => { m with cart := { m.cart with myRAM := Function.update m.cart.myRAM off v } }
  | Ptr.image off => { m with cart := { m.cart with myImage := Function.update m.cart.myImage off v } }

/-- Modelled from the spec: `System::peek` is not part of the source tree.
The spec: the byte that would appear on the data bus for a CPU read,
honouring the direct-read base of the page if present, else delegating to
the device; the address space is 13 bits wide. -/
def Machine.busPeek (m : Machine) (addr : Nat) : Nat × Machine :=
  let access := m.sys.myPageAccessTable ((addr &&& 0x1FFF) >>> m.sys.pageShift)
  let r : Nat × Machine :=
    match access.directPeekBase with
    | some (Ptr.ram off) => (m.deref (Ptr.ram (off + (addr &&& m.sys.pageMask))), m)
    | some (Ptr.image off) => (m.deref (Ptr.image (off + (addr &&& m.sys.pageMask))), m)
    | none => CartridgeF4SC.peek m addr
  (r.1, { r.2 with sys := { r.2.sys with myDataBusState := r.1 } })

/-- Modelled from the spec: `System::poke` is not part of the source tree.
The spec: writes are dispatched like reads, through the direct-write base
of the page if present, else to the device. -/
def Machine.busPoke (m : Machine) (addr value : Nat) : Machine :=
  let access := m.sys.myPageAccessTable ((addr &&& 0x1FFF) >>> m.sys.pageShift)
  let m1 : Machine :=
    match access.directPokeBase with
    | some (Ptr.ram off) => m.store (Ptr.ram (off + (addr &&& m.sys.pageMask))) value
    | some (Ptr.image off) => m.store (Ptr.image (off + (addr &&& m.sys.pageMask))) value
    | none => (CartridgeF4SC.poke m addr value).2
  { m1 with sys := { m1.sys with myDataBusState := value } }

/-- Conversion of a signed value to `uInt32`. -/
def toU32 (x : Int) : Nat := (x % 4294967296).toNat

/-- Conversion of an unsigned 32-bit value to `Int32`. -/
def toInt32 (x : Int) : Int := (x + 2147483648) % 4294967296 - 2147483648

/-! ## Cartridge auto-detection (`Cart.cxx`)

A ROM image is the pair of a byte memory `image : Nat → Nat` (the pointer) and
its `size`; `image k` is the C++ `image[k]`. -/

namespace Cartridge

/-- `memcmp(image + a, image + b, n) == 0`: the two blocks are compared byte by
byte from the front; `fuel` is the number of bytes left, `i` the offset. -/
def memcmpEq (image : Nat → Nat) (a b : Nat) : Nat → Nat → Bool
  | 0, _ => true
  | fuel + 1, i => if image (a + i) = image (b + i) then memcmpEq image a b fuel (i + 1) else false

/-- The inner loop of `searchForBytes`: the number of leading signature bytes
found at position `i` (the loop breaks at the first mismatch). -/
def matchLoop (image : Nat → Nat) (signature : List Nat) (i : Nat) : Nat → Nat → Nat → Nat
  | 0, _, acc => acc
  | fuel + 1, j, acc =>
    if image (i + j) = signature.getD j 0 then matchLoop image signature i fuel (j + 1) (acc + 1)
    else acc

/-- The outer loop of `searchForBytes`, for `i < bound`. -/
def searchLoop (image : Nat → Nat) (signature : List Nat) (sigsize minhits bound : Nat) :
    Nat → Nat → Nat → Bool
  | 0, _, count => decide (minhits ≤ count)
  | fuel + 1, i, count =>
    if i < bound then
      let hit := matchLoop image signature i sigsize 0 0 = sigsize
      let count := if hit then count + 1 else count
      let i := if hit then i + sigsize else i
      if minhits ≤ count then decide (minhits ≤ count)
      else searchLoop image signature sigsize minhits bound fuel (i + 1) count
    else decide (minhits ≤ count)

/-- `Cartridge::searchForBytes`.  The loop bound `imagesize - sigsize` is computed
in `uInt32`; the counter grows by at least one per iteration, so `bound`
iterations always suffice. -/
def searchForBytes (image : Nat → Nat) (imagesize : Nat) (signature : List Nat)
    (sigsize minhits : Nat) : Bool :=
  let bound := (imagesize + 4294967296 - sigsize) % 4294967296
  searchLoop image signature sigsize minhits bound bound 0 0

/-- The inner loop of `isProbablySC`: false as soon as a byte of the block
differs from `first`. -/
def scInner (image : Nat → Nat) (base first : Nat) : Nat → Nat → Bool
  | 0, _ => true
  | fuel + 1, j => if image (base + j) ≠ first then false else scInner image base first fuel (j + 1)

/-- The outer loop of `isProbablySC`, over the 4 KiB banks. -/
def scOuter (image : Nat → Nat) : Nat → Nat → Bool
  | 0, _ => true
  | fuel + 1, i =>
    if scInner image (i * 4096) (image (i * 4096)) 256 0 then scOuter image fuel (i + 1)
    else false

/-- `Cartridge::isProbablySC`. -/
def isProbablySC (image : Nat → Nat) (size : Nat) : Bool :=
  let banks := size / 4096
  scOuter image banks 0

/-- `Cartridge::isProbably4KSC`. -/
def isProbably4KSC (image : Nat → Nat) (size : Nat) : Bool :=
  if scInner image 0 (image 0) 255 1 then
    if image (size - 6) = 0x53 ∧ image (size - 5) = 0x43 then true else false
  else false

/-- `Cartridge::isProbablyARM`. -/
def isProbablyARM (image : Nat → Nat) (_size : Nat) : Bool :=
  if searchForBytes image 1024 [0xA0, 0xC1, 0x1F, 0xE0] 4 1 then true
  else searchForBytes image 1024 [0x00, 0x80, 0x02, 0xE0] 4 1

/-- `Cartridge::isProbably0840`. -/
def isProbably0840 (image : Nat → Nat) (size : Nat) : Bool :=
  if [[0xAD, 0x00, 0x08], [0xAD, 0x40, 0x08], [0x2C, 0x00, 0x08]].any
      (fun sig => searchForBytes image size sig 3 2) then true
  else if [[0x0C, 0x00, 0x08, 0x4C], [0x0C, 0xFF, 0x0F, 0x4C]].any
      (fun sig => searchForBytes image size sig 4 2) then true
  else false

/-- `Cartridge::isProbably3E`. -/
def isProbably3E (image : Nat → Nat) (size : Nat) : Bool :=
  searchForBytes image size [0x85, 0x3E, 0xA9, 0x00] 4 1

/-- `Cartridge::isProbably3F`. -/
def isProbably3F (image : Nat → Nat) (size : Nat) : Bool :=
  searchForBytes image size [0x85, 0x3F] 2 2

/-- `Cartridge::isProbably4A50`. -/
def isProbably4A50 (image : Nat → Nat) (size : Nat) : Bool :=
  if image (size - 6) = 0x50 ∧ image (size - 5) = 0x4A then true
  else if (image 0xfffd &&& 0x1f) = 0x1f ∧
      image (image 0xfffd * 256 + image 0xfffc) = 0x0c ∧
      (image (image 0xfffd * 256 + image 0xfffc + 2) &&& 0xfe) = 0x6e then true
  else false

/-- `Cartridge::isProbablyCTY`. -/
def isProbablyCTY (_image : Nat → Nat) (_size : Nat) : Bool := false

/-- `Cartridge::isProbablyCV`. -/
def isProbablyCV (image : Nat → Nat) (size : Nat) : Bool :=
  if searchForBytes image size [0x9D, 0xFF, 0xF3] 3 1 then true
  else searchForBytes image size [0x99, 0x00, 0xF4] 3 1

/-- `Cartridge::isProbablyDPCplus`. -/
def isProbablyDPCplus (image : Nat → Nat) (size : Nat) : Bool :=
  searchForBytes image size [0x44, 0x50, 0x43, 0x2B] 4 2

/-- `Cartridge::isProbablyE0`. -/
def isProbablyE0 (image : Nat → Nat) (size : Nat) : Bool :=
  [[0x8D, 0xE0, 0x1F], [0x8D, 0xE0, 0x5F], [0x8D, 0xE9, 0xFF], [0x0C, 0xE0, 0x1F],
   [0xAD, 0xE0, 0x1F], [0xAD, 0xE9, 0xFF], [0xAD, 0xED, 0xFF], [0xAD, 0xF3, 0xBF]].any
    (fun sig => searchForBytes image size sig 3 1)

/-- `Cartridge::isProbablyE7`. -/
def isProbablyE7 (image : Nat → Nat) (size : Nat) : Bool :=
  [[0xAD, 0xE2, 0xFF], [0xAD, 0xE5, 0xFF], [0xAD, 0xE5, 0x1F], [0xAD, 0xE7, 0x1F],
   [0x0C, 0xE7, 0x1F], [0x8D, 0xE7, 0xFF], [0x8D, 0xE7, 0x1F]].any
    (fun sig => searchForBytes image size sig 3 1)

/-- `Cartridge::isProbablyEF`: `none` when the function returns false, otherwise
the tag it stores through its `type` reference. -/
def isProbablyEF (image : Nat → Nat) (size : Nat) : Option String :=
  if searchForBytes (fun k => image (size - 8 + k)) 8 [0x45, 0x46, 0x45, 0x46] 4 1 then some "EF"
  else if searchForBytes (fun k => image (size - 8 + k)) 8 [0x45, 0x46, 0x53, 0x43] 4 1 then
    some "EFSC"
  else
    let isEF := [[0x0C, 0xE0, 0xFF], [0xAD, 0xE0, 0xFF], [0x0C, 0xE0, 0x1F], [0xAD, 0xE0, 0x1F]].any
      (fun sig => searchForBytes image size sig 3 1)
    if isEF then some (if isProbablySC image size then "EFSC" else "EF") else none

/-- `Cartridge::isProbablyBF`, as `isProbablyEF`. -/
def isProbablyBF (image : Nat → Nat) (size : Nat) : Option String :=
  if searchForBytes (fun k => image (size - 8 + k)) 8 [0x42, 0x46, 0x42, 0x46] 4 1 then some "BF"
  else if searchForBytes (fun k => image (size - 8 + k)) 8 [0x42, 0x46, 0x53, 0x43] 4 1 then
    some "BFSC"
  else none

/-- `Cartridge::isProbablyDF`, as `isProbablyEF`. -/
def isProbablyDF (image : Nat → Nat) (size : Nat) : Option String :=
  if searchForBytes (fun k => image (size - 8 + k)) 8 [0x44, 0x46, 0x44, 0x46] 4 1 then some "DF"
  else if searchForBytes (fun k => image (size - 8 + k)) 8 [0x44, 0x46, 0x53, 0x43] 4 1 then
    some "DFSC"
  else none

/-- The loop of `isProbablyFA2` over `[29K, 32K)`. -/
def fa2Loop (image : Nat → Nat) : Nat → Nat → Bool
  | 0, _ => true
  | fuel + 1, i => if image i ≠ 0 then false else fa2Loop image fuel (i + 1)

/-- `Cartridge::isProbablyFA2`. -/
def isProbablyFA2 (image : Nat → Nat) (_size : Nat) : Bool :=
  fa2Loop image (32 * 1024 - 29 * 1024) (29 * 1024)

/-- `Cartridge::isProbablyFE`. -/
def isProbablyFE (image : Nat → Nat) (size : Nat) : Bool :=
  [[0x20, 0x00, 0xD0, 0xC6, 0xC5], [0x20, 0xC3, 0xF8, 0xA5, 0x82],
   [0xD0, 0xFB, 0x20, 0x73, 0xFE], [0x20, 0x00, 0xF0, 0x84, 0xD6]].any
    (fun sig => searchForBytes image size sig 5 1)

/-- `Cartridge::isProbablySB`. -/
def isProbablySB (image : Nat → Nat) (size : Nat) : Bool :=
  if searchForBytes image size [0xBD, 0x00, 0x08] 3 1 then true
  else searchForBytes image size [0xAD, 0x00, 0x08] 3 1

/-- `Cartridge::isProbablyUA`. -/
def isProbablyUA (image : Nat → Nat) (size : Nat) : Bool :=
  [[0x8D, 0x40, 0x02], [0xAD, 0x40, 0x02], [0xBD, 0x1F, 0x02]].any
    (fun sig => searchForBytes image size sig 3 1)

/-- `Cartridge::isProbablyX07`. -/
def isProbablyX07 (image : Nat → Nat) (size : Nat) : Bool :=
  [[0xAD, 0x0D, 0x08], [0xAD, 0x1D, 0x08], [0xAD, 0x2D, 0x08],
   [0x0C, 0x0D, 0x08], [0x0C, 0x1D, 0x08], [0x0C, 0x2D, 0x08]].any
    (fun sig => searchForBytes image size sig 3 1)

/-- `Cartridge::autodetectType`. -/
def autodetectType (image : Nat → Nat) (size : Nat) : String :=
  if size % 8448 = 0 ∨ size = 6144 then "AR"
  else if size < 2048 then "2K"
  else if size = 2048 ∨ (size = 4096 ∧ memcmpEq image 0 2048 2048 0 = true) then
    if isProbablyCV image size then "CV" else "2K"
  else if size = 4096 then
    if isProbablyCV image size then "CV"
    else if isProbably4KSC image size then "4KSC"
    else "4K"
  else if size = 8 * 1024 then
    let f8 := searchForBytes image size [0x8D, 0xF9, 0x1F] 3 2
    if isProbablySC image size then "F8SC"
    else if memcmpEq image 0 4096 4096 0 then "4K"
    else if isProbablyE0 image size then "E0"
    else if isProbably3E image size then "3E"
    else if isProbably3F image size then "3F"
    else if isProbablyUA image size then "UA"
    else if isProbablyFE image size && !f8 then "FE"
    else if isProbably0840 image size then "0840"
    else "F8"
  else if 10240 ≤ size ∧ size ≤ 10496 then "DPC"
  else if size = 12 * 1024 then "FA"
  else if size = 16 * 1024 then
    if isProbablySC image size then "F6SC"
    else if isProbablyE7 image size then "E7"
    else if isProbably3E image size then "3E"
    else "F6"
  else if size = 24 * 1024 ∨ size = 28 * 1024 then "FA2"
  else if size = 29 * 1024 then
    if isProbablyARM image size then "FA2" else "DPC+"
  else if size = 32 * 1024 then
    if isProbablySC image size then "F4SC"
    else if isProbably3E image size then "3E"
    else if isProbably3F image size then "3F"
    else if isProbablyDPCplus image size then "DPC+"
    else if isProbablyCTY image size then "CTY"
    else if isProbablyFA2 image size then "FA2"
    else "F4"
  else if size = 64 * 1024 then
    if isProbably3E image size then "3E"
    else if isProbably3F image size then "3F"
    else if isProbably4A50 image size then "4A50"
    else match isProbablyEF image size with
      | some t => t
      | none => if isProbablyX07 image size then "X07" else "F0"
  else if size = 128 * 1024 then
    if isProbably3E image size then "3E"
    else match isProbablyDF image size with
      | some t => t
      | none =>
        if isProbably3F image size then "3F"
        else if isProbably4A50 image size then "4A50"
        else if isProbablySB image size then "SB"
        else "MC"
  else if size = 256 * 1024 then
    if isProbably3E image size then "3E"
    else match isProbablyBF image size with
      | some t => t
      | none => if isProbably3F image size then "3F" else "SB"
  else
    if isProbably3E image size then "3E"
    else if isProbably3F image size then "3F"
    else "4K"

/-- What `createFromMultiCart` leaves behind: the slice it selected (`image` is
the offset of the slice in the original image, `size` its length), the new
`id` text, the value stored under the settings key `romloadcount`, and the
returned type tag.  The MD5 digest of the slice is computed by a collaborator
and is not modelled. -/
structure MultiCart where
  image : Nat
  size : Nat
  id : String
  romloadcount : Nat
  type : String
  deriving DecidableEq, Repr

/-- `Cartridge::createFromMultiCart`; `image` is the offset of the image
pointer, `romloadcount` the stored settings value, read as a `uInt32`. -/
def createFromMultiCart (image size numroms : Nat) (romloadcount : Int) : MultiCart :=
  let i : Nat := toU32 romloadcount
  let size : Nat := size / numroms
  let image : Nat := image + (i * size) % 4294967296
  let id : String := " [G" ++ toString ((i + 1) % 4294967296) ++ "]"
  let next : Nat := ((i + 1) % 4294967296) % numroms
  let type : String :=
    if size ≤ 2048 then "2K"
    else if size = 4096 then "4K"
    else if size = 8192 then "F8"
    else "4K"
  ⟨image, size, id, next, type⟩

/-- The cartridge classes `Cartridge::create` instantiates. -/
inductive CartClass where
  | Cartridge0840 | Cartridge2K | Cartridge3E | Cartridge3F | Cartridge4A50
  | Cartridge4K | Cartridge4KSC | CartridgeAR | CartridgeCM | CartridgeCTY
  | CartridgeCV | CartridgeDPC | CartridgeDPCPlus | CartridgeE0 | CartridgeE7
  | CartridgeEF | CartridgeEFSC | CartridgeBF | CartridgeBFSC | CartridgeDF
  | CartridgeDFSC | CartridgeF0 | CartridgeF4 | CartridgeF4SC | CartridgeF6
  | CartridgeF6SC | CartridgeF8 | CartridgeF8SC | CartridgeFA | CartridgeFA2
  | CartridgeFE | CartridgeMC | CartridgeUA | CartridgeSB | CartridgeX07
  deriving DecidableEq, Repr

/-- The state `Cartridge::create` works on: the image pointer (as an offset)
and size, the working `type`, the in/out parameters `dtype` and `id`, and the
stored `romloadcount`. -/
structure CreateState where
  image : Nat
  size : Nat
  type : String
  dtype : String
  id : String
  romloadcount : Int
  deriving DecidableEq, Repr

/-- One multicart branch of `Cartridge::create`: with a valid size the slice is
selected by `createFromMultiCart`, otherwise `dtype` becomes "WRONG_SIZE". -/
def multiCartBranch (c : CreateState) (numroms : Nat) (validSize : Bool) : CreateState :=
  if validSize then
    let m := createFromMultiCart c.image c.size numroms c.romloadcount
    { c with dtype := c.type, type := m.type, image := m.image, size := m.size, id := m.id,
             romloadcount := (m.romloadcount : Int) }
  else { c with dtype := "WRONG_SIZE" }

/-- The multicart check of `Cartridge::create`. -/
def multiCartCheck (c : CreateState) : CreateState :=
  let size := c.size
  if c.type = "2IN1" then
    multiCartBranch c 2
      (decide (size = 2 * 2048 ∨ size = 2 * 4096 ∨ size = 2 * 8192 ∨ size = 2 * 16384))
  else if c.type = "4IN1" then
    multiCartBranch c 4 (decide (size = 4 * 2048 ∨ size = 4 * 4096 ∨ size = 4 * 8192))
  else if c.type = "8IN1" then
    multiCartBranch c 8 (decide (size = 8 * 2048 ∨ size = 8 * 4096 ∨ size = 8 * 8192))
  else if c.type = "16IN1" then
    multiCartBranch c 16 (decide (size = 16 * 2048 ∨ size = 16 * 4096 ∨ size = 16 * 8192))
  else if c.type = "32IN1" then
    multiCartBranch c 32 (decide (size = 32 * 2048 ∨ size = 32 * 4096))
  else if c.type = "64IN1" then
    multiCartBranch c 64 (decide (size = 64 * 2048 ∨ size = 64 * 4096))
  else if c.type = "128IN1" then
    multiCartBranch c 128 (decide (size = 128 * 2048 ∨ size = 128 * 4096))
  else c

/-- The class `Cartridge::create` instantiates for a type tag, `none` when the
chain of comparisons reaches its two final `else` branches. -/
def cartClassOf (type : String) : Option CartClass :=
  if type = "0840" then some CartClass.Cartridge0840
  else if type = "2K" then some CartClass.Cartridge2K
  else if type = "3E" then some CartClass.Cartridge3E
  else if type = "3F" then some CartClass.Cartridge3F
  else if type = "4A50" then some CartClass.Cartridge4A50
  else if type = "4K" then some CartClass.Cartridge4K
  else if type = "4KSC" then some CartClass.Cartridge4KSC
  else if type = "AR" then some CartClass.CartridgeAR
  else if type = "CM" then some CartClass.CartridgeCM
  else if type = "CTY" then some CartClass.CartridgeCTY
  else if type = "CV" then some CartClass.CartridgeCV
  else if type = "DPC" then some CartClass.CartridgeDPC
  else if type = "DPC+" then some CartClass.CartridgeDPCPlus
  else if type = "E0" then some CartClass.CartridgeE0
  else if type = "E7" then some CartClass.CartridgeE7
  else if type = "EF" then some CartClass.CartridgeEF
  else if type = "EFSC" then some CartClass.CartridgeEFSC
  else if type = "BF" then some CartClass.CartridgeBF
  else if type = "BFSC" then some CartClass.CartridgeBFSC
  else if type = "DF" then some CartClass.CartridgeDF
  else if type = "DFSC" then some CartClass.CartridgeDFSC
  else if type = "F0" ∨ type = "MB" then some CartClass.CartridgeF0
  else if type = "F4" then some CartClass.CartridgeF4
  else if type = "F4SC" then some CartClass.CartridgeF4SC
  else if type = "F6" then some CartClass.CartridgeF6
  else if type = "F6SC" then some CartClass.CartridgeF6SC
  else if type = "F8" then some CartClass.CartridgeF8
  else if type = "F8SC" then some CartClass.CartridgeF8SC
  else if type = "FA" ∨ type = "FASC" then some CartClass.CartridgeFA
  else if type = "FA2" then some CartClass.CartridgeFA2
  else if type = "FE" then some CartClass.CartridgeFE
  else if type = "MC" then some CartClass.CartridgeMC
  else if type = "UA" then some CartClass.CartridgeUA
  else if type = "SB" then some CartClass.CartridgeSB
  else if type = "X07" then some CartClass.CartridgeX07
  else none

/-- `Cartridge::create`: the optional auto-detection, the multicart check and the
dispatch on the type tag.  The result is the instantiated class together with
the slice, `dtype`, `id` and counter it was built with, or the text of the
thrown error.  The constructors of the cartridge classes are collaborators;
`rominfo` is the settings flag that forces an auto-detection. -/
def create (image : Nat → Nat) (size : Nat) (dtype id : String) (rominfo : Bool)
    (romloadcount : Int) : Except String (CartClass × CreateState) :=
  let c : CreateState := ⟨0, size, dtype, dtype, id, romloadcount⟩
  let c : CreateState :=
    if c.type = "AUTO" ∨ rominfo = true then { c with type := autodetectType image size }
    else c
  let c : CreateState := multiCartCheck c
  match cartClassOf c.type with
  | some k => Except.ok (k, c)
  | none =>
    if c.dtype = "WRONG_SIZE" then
      Except.error ("Invalid cart size for type '" ++ c.type ++ "'")
    else
      Except.error ("Invalid cart type '" ++ c.type ++ "'")

end Cartridge

/-! ## The TIA (`TIA.cxx`)

Signed C++ quantities (`Int32` clocks, `Int16` positions) are integers; `/` and
`%` of C++ truncate towards zero (`Int.tdiv`, `Int.tmod`), `>>` on a signed
value is the arithmetic shift (floor division by a power of two).  Conversions
to an unsigned type are written out (`toU32`, `% 256`). -/

/-- The names of the write registers, the `case` labels of `TIA::poke`. -/
inductive TIARegister where
  | VSYNC | VBLANK | WSYNC | RSYNC | NUSIZ0 | NUSIZ1 | COLUP0 | COLUP1 | COLUPF | COLUBK
  | CTRLPF | REFP0 | REFP1 | PF0 | PF1 | PF2 | RESP0 | RESP1 | RESM0 | RESM1 | RESBL
  | AUDC0 | AUDC1 | AUDF0 | AUDF1 | AUDV0 | AUDV1 | GRP0 | GRP1 | ENAM0 | ENAM1 | ENABL
  | HMP0 | HMP1 | HMM0 | HMM1 | HMBL | VDELP0 | VDELP1 | VDELBL | RESMP0 | RESMP1
  | HMOVE | HMCLR | CXCLR
  deriving DecidableEq, Repr

/-- The constants and tables of `TIATables.hxx` / `TIATables.cxx`, which are not
part of the source tree: they are parameters of the embedding.
`writeRegister a` is the `case` label that the address `a` (0..63) matches, the
`*Bit` and `*Color` fields are the enumerators used by `TIA.cxx`, and each table
is the function from its indices to the stored value (an index may leave the
C++ array, so it is an integer where the code computes it from signed
values). -/
structure TIATables where
  writeRegister : Nat → Option TIARegister
  P0Bit : Nat
  M0Bit : Nat
  P1Bit : Nat
  M1Bit : Nat
  BLBit : Nat
  PFBit : Nat
  ScoreBit : Nat
  PriorityBit : Nat
  BKColor : Nat
  PFColor : Nat
  P0Color : Nat
  P1Color : Nat
  M0Color : Nat
  M1Color : Nat
  BLColor : Nat
  HBLANKColor : Nat
  PokeDelay : Nat → Int
  PxMask : Nat → Nat → Int → Nat
  MxMask : Nat → Nat → Int → Nat
  BLMask : Nat → Int → Nat
  PFMask : Nat → Int → Nat
  DisabledMask : Int → Nat
  CollisionMask : Nat → Nat
  HMOVEBlankEnableCycles : Int → Bool
  GRPReflect : Nat → Nat
  PxPosResetWhen : Nat → Int → Int → Int

/-- A pointer into one of the mask tables (`myP0Mask`, `myM0Mask`, ...): the row
and the offset of the element it points to. -/
inductive MaskPtr where
  | px (suppress nusiz : Nat) (off : Int)
  | mx (nusiz size : Nat) (off : Int)
  | bl (size : Nat) (off : Int)
  | disabled (off : Int)
  deriving DecidableEq, Repr

/-- The element `ptr[hpos]`. -/
def TIATables.maskAt (T : TIATables) (ptr : MaskPtr) (hpos : Int) : Nat :=
  match ptr with
  | MaskPtr.px a b off => T.PxMask a b (off + hpos)
  | MaskPtr.mx a b off => T.MxMask a b (off + hpos)
  | MaskPtr.bl a off => T.BLMask a (off + hpos)
  | MaskPtr.disabled off => T.DisabledMask (off + hpos)

/-- What `frameReset` reads from `Settings` and `Console`; the frame rate is a
floating-point number in the code and only its comparison with 55.0 is kept. -/
structure TIAEnv where
  framerateSetting : Int
  framerateAbove55 : Bool
  colorloss : Bool

/-- The state of a `TIA`, with the state of its collaborators that `TIA.cxx`
reads or writes: the system cycle counter (`mySystem->cycles()`), whether the
CPU has been told to stop, and whether the CPU's last access was a read. -/
structure TIA where
  cycles : Nat
  cpuStopped : Bool
  lastAccessWasRead : Bool
  myFrameYStart : Nat
  myFrameHeight : Nat
  myMaximumNumberOfScanlines : Nat
  myStartScanline : Nat
  myColorLossEnabled : Bool
  myPartialFrameFlag : Bool
  myAutoFrameEnabled : Bool
  myFrameCounter : Nat
  myPALFrameCounter : Nat
  myBitsEnabled : Bool
  myCollisionsEnabled : Bool
  myCurrentFrameBuffer : Nat → Nat
  myPreviousFrameBuffer : Nat → Nat
  myFramePointer : Nat
  myFramePointerClocks : Nat
  myFramePointerOffset : Nat
  myAUDV0 : Nat
  myAUDV1 : Nat
  myAUDF0 : Nat
  myAUDF1 : Nat
  myAUDC0 : Nat
  myAUDC1 : Nat
  myTIAPinsDriven : Bool
  myEnabledObjects : Nat
  myDisabledObjects : Nat
  myAllowHMOVEBlanks : Bool
  myVSYNC : Nat
  myVBLANK : Nat
  myNUSIZ0 : Nat
  myNUSIZ1 : Nat
  myColor : Nat → Nat
  myFixedColor : Nat → Nat
  myColorPtrIsFixed : Bool
  myPriorityEncoder : Nat → Nat → Nat
  myPlayfieldPriorityAndScore : Nat
  myCTRLPF : Nat
  myREFP0 : Bool
  myREFP1 : Bool
  myPF : Nat
  myGRP0 : Nat
  myGRP1 : Nat
  myDGRP0 : Nat
  myDGRP1 : Nat
  myENAM0 : Bool
  myENAM1 : Bool
  myENABL : Bool
  myDENABL : Bool
  myHMP0 : Nat
  myHMP1 : Nat
  myHMM0 : Nat
  myHMM1 : Nat
  myHMBL : Nat
  myVDELP0 : Bool
  myVDELP1 : Bool
  myVDELBL : Bool
  myRESMP0 : Bool
  myRESMP1 : Bool
  myCollision : Nat
  myCollisionEnabledMask : Nat
  myPOSP0 : Int
  myPOSP1 : Int
  myPOSM0 : Int
  myPOSM1 : Int
  myPOSBL : Int
  myCurrentGRP0 : Nat
  myCurrentGRP1 : Nat
  myMotionClockP0 : Int
  myMotionClockP1 : Int
  myMotionClockM0 : Int
  myMotionClockM1 : Int
  myMotionClockBL : Int
  myStartP0 : Int
  myStartP1 : Int
  myStartM0 : Int
  myStartM1 : Int
  mySuppressP0 : Nat
  mySuppressP1 : Nat
  myHMP0mmr : Bool
  myHMP1mmr : Bool
  myHMM0mmr : Bool
  myHMM1mmr : Bool
  myHMBLmmr : Bool
  myCurrentHMOVEPos : Int
  myPreviousHMOVEPos : Int
  myHMOVEBlankEnabled : Bool
  myDumpEnabled : Bool
  myDumpDisabledCycle : Int
  myINPT4 : Nat
  myINPT5 : Nat
  myScanlineCountForLastFrame : Nat
  myP0Mask : MaskPtr
  myP1Mask : MaskPtr
  myM0Mask : MaskPtr
  myM1Mask : MaskPtr
  myBLMask : MaskPtr
  myPFMask : Nat
  myStopDisplayOffset : Nat
  myClockWhenFrameStarted : Int
  myClockStartDisplay : Int
  myClockStopDisplay : Int
  myClockAtLastUpdate : Int
  myClocksToEndOfScanLine : Int
  myVSYNCFinishClock : Int

/-- The `memset(buf + start, value, count)` of a buffer. -/
def memsetBuf (buf : Nat → Nat) (start count value : Nat) : Nat → Nat :=
  fun i => if start ≤ i ∧ i < start + count then value else buf i

namespace TIA

def HBLANK : Int := 68

/-- The macro `CLAMP_POS(reg)`. -/
def CLAMP_POS (reg : Int) : Int :=
  Int.tmod (if reg < 0 then reg + 160 else reg) 160

/-- The colour table `myColorPtr` points to. -/
def colorPtr (s : TIA) : Nat → Nat := if s.myColorPtrIsFixed then s.myFixedColor else s.myColor

/-- The colour clock of the system, `mySystem->cycles() * 3` as an `Int32`. -/
def clockNow (s : TIA) : Int := toInt32 (((s.cycles * 3) % 4294967296 : Nat) : Int)

/-- Modelled from the spec: `TIA::scanlines()` is declared in `TIA.hxx`, which is
not part of the source tree; it is the number of 228-clock scanlines between
the start of the frame and the current colour clock. -/
def scanlines (s : TIA) : Nat :=
  ((s.cycles * 3 + 4294967296 - toU32 s.myClockWhenFrameStarted) % 4294967296) / 228

/-- `TIA::toggleBit`. -/
def toggleBit (s : TIA) (b : Nat) (mode : Nat) : Bool × TIA :=
  let isOn : Bool := if mode = 0 ∨ mode = 1 then decide (mode ≠ 0)
                   else decide (s.myDisabledObjects &&& b = 0)
  if isOn then (isOn, { s with myDisabledObjects := s.myDisabledObjects ||| b })
  else (isOn, { s with myDisabledObjects := s.myDisabledObjects &&& ((255 ^^^ b) % 256) })

/-- `TIA::enableBits`. -/
def enableBits (T : TIATables) (s : TIA) (mode : Bool) : TIA :=
  let m := if mode then 1 else 0
  let s := (toggleBit s T.P0Bit m).2
  let s := (toggleBit s T.P1Bit m).2
  let s := (toggleBit s T.M0Bit m).2
  let s := (toggleBit s T.M1Bit m).2
  let s := (toggleBit s T.BLBit m).2
  (toggleBit s T.PFBit m).2

/-- The entry `myPriorityEncoder[x][enabled]` computed by `toggleFixedColors`. -/
def priorityEncoderEntry (T : TIATables) (isOn : Bool) (x enabled : Nat) : Nat :=
  if enabled &&& T.PriorityBit ≠ 0 then
    let color := T.BKColor
    let color := if enabled &&& T.M1Bit ≠ 0 then T.M1Color else color
    let color := if enabled &&& T.P1Bit ≠ 0 then T.P1Color else color
    let color := if enabled &&& T.M0Bit ≠ 0 then T.M0Color else color
    let color := if enabled &&& T.P0Bit ≠ 0 then T.P0Color else color
    let color := if enabled &&& T.BLBit ≠ 0 then T.BLColor else color
    let color := if enabled &&& T.PFBit ≠ 0 then T.PFColor else color
    color
  else
    let color := T.BKColor
    let color := if enabled &&& T.BLBit ≠ 0 then T.BLColor else color
    let color := if enabled &&& T.PFBit ≠ 0 then
        (if !isOn ∧ enabled &&& T.ScoreBit ≠ 0 then (if x = 0 then T.P0Color else T.P1Color)
         else T.PFColor)
      else color
    let color := if enabled &&& T.M1Bit ≠ 0 then T.M1Color else color
    let color := if enabled &&& T.P1Bit ≠ 0 then T.P1Color else color
    let color := if enabled &&& T.M0Bit ≠ 0 then T.M0Color else color
    let color := if enabled &&& T.P0Bit ≠ 0 then T.P0Color else color
    color

/-- `TIA::toggleFixedColors`. -/
def toggleFixedColors (T : TIATables) (s : TIA) (mode : Nat) : Bool × TIA :=
  let isOn : Bool := if mode = 0 ∨ mode = 1 then decide (mode ≠ 0) else !s.myColorPtrIsFixed
  (isOn, { s with
    myColorPtrIsFixed := isOn,
    myPriorityEncoder := fun x enabled =>
      if x < 2 ∧ enabled < 256 then priorityEncoderEntry T isOn x enabled
      else s.myPriorityEncoder x enabled })

/-- `TIA::clearBuffers`. -/
def clearBuffers (s : TIA) : TIA :=
  { s with
    myCurrentFrameBuffer := memsetBuf s.myCurrentFrameBuffer 0 (160 * 320) 0,
    myPreviousFrameBuffer := memsetBuf s.myPreviousFrameBuffer 0 (160 * 320) 0 }

/-- `TIA::frameReset`. -/
def frameReset (T : TIATables) (env : TIAEnv) (s : TIA) : TIA :=
  let s : TIA := clearBuffers s
  let s : TIA := { s with
    myFramePointer := 0, myFramePointerOffset := 160 * s.myFrameYStart,
    myAutoFrameEnabled := decide (env.framerateSetting ≤ 0) }
  let s : TIA :=
    if env.framerateAbove55 then
      { s with
        myFixedColor :=
          Function.update (Function.update (Function.update (Function.update (Function.update
            (Function.update (Function.update (Function.update s.myFixedColor
              T.P0Color 0x30) T.P1Color 0x16) T.M0Color 0x38) T.M1Color 0x12) T.BLColor 0x7e)
              T.PFColor 0x76) T.BKColor 0x0a) T.HBLANKColor 0x0e,
        myColorLossEnabled := false,
        myMaximumNumberOfScanlines := 290 }
    else
      { s with
        myFixedColor :=
          Function.update (Function.update (Function.update (Function.update (Function.update
            (Function.update (Function.update (Function.update s.myFixedColor
              T.P0Color 0x62) T.P1Color 0x26) T.M0Color 0x68) T.M1Color 0x2e) T.BLColor 0xde)
              T.PFColor 0xd8) T.BKColor 0x1c) T.HBLANKColor 0x0e,
        myColorLossEnabled := env.colorloss,
        myMaximumNumberOfScanlines := 342 }
  let scanlines := s.myFrameYStart + s.myFrameHeight
  let scanlines := if s.myMaximumNumberOfScanlines = 290 then max scanlines 262
                   else max scanlines 312
  let s : TIA := { s with myStopDisplayOffset := 228 * min scanlines 320 }
  let s : TIA := { s with myClockWhenFrameStarted := clockNow s }
  { s with
    myClockStartDisplay := s.myClockWhenFrameStarted,
    myClockStopDisplay := toInt32 (s.myClockWhenFrameStarted + s.myStopDisplayOffset),
    myClockAtLastUpdate := s.myClockWhenFrameStarted,
    myClocksToEndOfScanLine := 228,
    myVSYNCFinishClock := 0x7FFFFFFF }

/-- `TIA::reset`.  The sound device is a collaborator and is not modelled. -/
def reset (T : TIATables) (env : TIAEnv) (s : TIA) : TIA :=
  let zero8 : Nat → Nat := Function.update (Function.update (Function.update (Function.update
    (Function.update (Function.update (Function.update (Function.update s.myColor
      T.BKColor 0) T.PFColor 0) T.P1Color 0) T.P0Color 0) T.HBLANKColor 0) T.BLColor 0)
      T.M1Color 0) T.M0Color 0
  let s : TIA := { s with
    myEnabledObjects := 0, myDisabledObjects := 0xFF, myAllowHMOVEBlanks := true,
    myVSYNC := 0, myVBLANK := 0, myNUSIZ0 := 0, myNUSIZ1 := 0,
    myColor := zero8,
    myPlayfieldPriorityAndScore := 0, myCTRLPF := 0, myREFP0 := false, myREFP1 := false,
    myPF := 0, myGRP0 := 0, myGRP1 := 0, myDGRP0 := 0, myDGRP1 := 0,
    myENAM0 := false, myENAM1 := false, myENABL := false, myDENABL := false,
    myHMP0 := 0, myHMP1 := 0, myHMM0 := 0, myHMM1 := 0, myHMBL := 0,
    myVDELP0 := false, myVDELP1 := false, myVDELBL := false,
    myRESMP0 := false, myRESMP1 := false,
    myCollision := 0, myCollisionEnabledMask := 0xFFFFFFFF,
    myPOSP0 := 0, myPOSP1 := 0, myPOSM0 := 0, myPOSM1 := 0, myPOSBL := 0,
    myCurrentGRP0 := 0, myCurrentGRP1 := 0,
    myMotionClockP0 := 0, myMotionClockP1 := 0, myMotionClockM0 := 0,
    myMotionClockM1 := 0, myMotionClockBL := 0,
    mySuppressP0 := 0, mySuppressP1 := 0,
    myHMP0mmr := false, myHMP1mmr := false, myHMM0mmr := false, myHMM1mmr := false,
    myHMBLmmr := false,
    myCurrentHMOVEPos := 0x7FFFFFFF, myPreviousHMOVEPos := 0x7FFFFFFF,
    myHMOVEBlankEnabled := false }
  let s : TIA := enableBits T s true
  let s : TIA := { s with
    myDumpEnabled := false, myDumpDisabledCycle := 0, myINPT4 := 0x80, myINPT5 := 0x80,
    myFrameCounter := 0, myPALFrameCounter := 0, myScanlineCountForLastFrame := 0,
    myP0Mask := MaskPtr.px 0 0 0, myP1Mask := MaskPtr.px 0 0 0,
    myM0Mask := MaskPtr.mx 0 0 0, myM1Mask := MaskPtr.mx 0 0 0,
    myBLMask := MaskPtr.bl 0 0, myPFMask := 0 }
  let s : TIA := (toggleFixedColors T s 0).2
  frameReset T env s

/-- One step `pos -= d; if(pos < 0) pos += 160;` of the scanline change. -/
def subWrap (pos d : Int) : Int :=
  if pos - d < 0 then pos - d + 160 else pos - d

/-- The position of one object after the scanline-change block of `updateFrame`:
first the pending motion clocks of an HMOVE started on the previous scanline at
`97 <= hpos < 157` (`pos -= motionClock; if(pos < 0) pos += 160;`), then the
extra 17 clocks of a set more-motion latch. -/
def interLinePos (currentHMOVEPos pos motionClock : Int) (mmr : Bool) : Int :=
  let pos : Int :=
    if currentHMOVEPos ≠ 0x7FFFFFFF ∧ (97 ≤ currentHMOVEPos ∧ currentHMOVEPos < 157)
    then subWrap pos motionClock else pos
  if mmr then subWrap pos 17 else pos

/-- The block of `updateFrame` executed when the loop moves on to a scanline
after the first one (`line != startLine`): the previous HMOVE is forgotten, a
pending HMOVE is applied (and remembered as the previous one when it started
at `97 <= hpos < 157`) and marked completed, the more-motion clocks are
applied, and the playfield mask is reset from `CTRLPF`. -/
def interLine (s : TIA) : TIA :=
  { s with
    myPreviousHMOVEPos :=
      if s.myCurrentHMOVEPos ≠ 0x7FFFFFFF ∧
          (97 ≤ s.myCurrentHMOVEPos ∧ s.myCurrentHMOVEPos < 157)
      then s.myCurrentHMOVEPos else 0x7FFFFFFF,
    myPOSP0 := interLinePos s.myCurrentHMOVEPos s.myPOSP0 s.myMotionClockP0 s.myHMP0mmr,
    myPOSP1 := interLinePos s.myCurrentHMOVEPos s.myPOSP1 s.myMotionClockP1 s.myHMP1mmr,
    myPOSM0 := interLinePos s.myCurrentHMOVEPos s.myPOSM0 s.myMotionClockM0 s.myHMM0mmr,
    myPOSM1 := interLinePos s.myCurrentHMOVEPos s.myPOSM1 s.myMotionClockM1 s.myHMM1mmr,
    myPOSBL := interLinePos s.myCurrentHMOVEPos s.myPOSBL s.myMotionClockBL s.myHMBLmmr,
    myCurrentHMOVEPos :=
      if s.myCurrentHMOVEPos ≠ 0x7FFFFFFF then 0x7FFFFFFF else s.myCurrentHMOVEPos,
    myPFMask := s.myCTRLPF &&& 0x01 }

/-- The missile mask selected in `updateFrame` (with the Cosmic Ark / Stay
Frosty simulation when the more-motion latch is set). -/
def missileMask (mmr : Bool) (nusiz : Nat) (pos : Int) : MaskPtr :=
  if mmr then
    if Int.tmod pos 4 = 3 then
      MaskPtr.mx (nusiz &&& 0x07) (((nusiz &&& 0x30) >>> 4) ||| 1) (160 - ((pos - 1) % 256))
    else if Int.tmod pos 4 = 2 then MaskPtr.disabled 0
    else MaskPtr.mx (nusiz &&& 0x07) ((nusiz &&& 0x30) >>> 4) (160 - (pos % 256))
  else MaskPtr.mx (nusiz &&& 0x07) ((nusiz &&& 0x30) >>> 4) (160 - (pos % 256))

/-- The 6-bit set of objects present at `hpos` (the head of the pixel loop). -/
def pixelEnabled (T : TIATables) (s : TIA) (enabledObjects : Nat) (hpos : Nat) : Nat :=
  let enabled := if enabledObjects &&& T.PFBit ≠ 0 ∧ s.myPF &&& T.PFMask s.myPFMask hpos ≠ 0
                 then T.PFBit else 0
  let enabled := if enabledObjects &&& T.BLBit ≠ 0 ∧ T.maskAt s.myBLMask hpos ≠ 0
                 then enabled ||| T.BLBit else enabled
  let enabled := if enabledObjects &&& T.P1Bit ≠ 0 ∧
                    s.myCurrentGRP1 &&& T.maskAt s.myP1Mask hpos ≠ 0
                 then enabled ||| T.P1Bit else enabled
  let enabled := if enabledObjects &&& T.M1Bit ≠ 0 ∧ T.maskAt s.myM1Mask hpos ≠ 0
                 then enabled ||| T.M1Bit else enabled
  let enabled := if enabledObjects &&& T.P0Bit ≠ 0 ∧
                    s.myCurrentGRP0 &&& T.maskAt s.myP0Mask hpos ≠ 0
                 then enabled ||| T.P0Bit else enabled
  let enabled := if enabledObjects &&& T.M0Bit ≠ 0 ∧ T.maskAt s.myM0Mask hpos ≠ 0
                 then enabled ||| T.M0Bit else enabled
  enabled

/-- The pixel loop of `updateFrame`: `n` pixels from `myFramePointer` on. -/
def pixelLoop (T : TIATables) (enabledObjects : Nat) : Nat → Nat → TIA → TIA
  | 0, _, s => s
  | n + 1, hpos, s =>
    let enabled := pixelEnabled T s enabledObjects hpos
    let color := colorPtr s
      (s.myPriorityEncoder (if hpos < 80 then 0 else 1) (enabled ||| s.myPlayfieldPriorityAndScore))
    pixelLoop T enabledObjects n (hpos + 1)
      { s with
        myCollision := (s.myCollision ||| T.CollisionMask enabled) % 65536,
        myCurrentFrameBuffer := Function.update s.myCurrentFrameBuffer s.myFramePointer color,
        myFramePointer := s.myFramePointer + 1 }

/-- The number of clocks the current iteration of the scanline loop updates
(`clocksToUpdate` before the horizontal blank is skipped). -/
def clocksToUpdateOf (clock : Int) (s : TIA) : Int :=
  if clock > s.myClockAtLastUpdate + s.myClocksToEndOfScanLine then s.myClocksToEndOfScanLine
  else clock - s.myClockAtLastUpdate

/-- The clock bookkeeping at the head of the scanline loop body: either finish
the current scanline or go as far as `clock`. -/
def advanceClocks (clock : Int) (s : TIA) : TIA :=
  if clock > s.myClockAtLastUpdate + s.myClocksToEndOfScanLine then
    { s with
      myClocksToEndOfScanLine := 228,
      myClockAtLastUpdate := s.myClockAtLastUpdate + s.myClocksToEndOfScanLine }
  else
    { s with
      myClocksToEndOfScanLine := s.myClocksToEndOfScanLine - (clock - s.myClockAtLastUpdate),
      myClockAtLastUpdate := clock }

/-- The rendering part of the scanline loop body: skip the horizontal blank,
write `clocksToUpdate` pixels and handle the HMOVE blank.  The arguments are
the values of `clocksFromStartOfScanLine` and `clocksToUpdate` computed at the
head of the body. -/
def renderLine (T : TIATables) (clocksFromStartOfScanLine clocksToUpdate : Int) (s : TIA) :
    TIA :=
  let startOfScanLine : Int := HBLANK
  let tmp : Int :=
    if clocksFromStartOfScanLine < startOfScanLine then
      (if startOfScanLine - clocksFromStartOfScanLine < clocksToUpdate
       then startOfScanLine - clocksFromStartOfScanLine else clocksToUpdate)
    else 0
  let clocksFromStartOfScanLine := clocksFromStartOfScanLine + tmp
  let clocksToUpdate := clocksToUpdate - tmp
  let oldFramePointer := s.myFramePointer
  let s : TIA :=
    if clocksToUpdate ≠ 0 then
      let ending : Nat := (s.myFramePointer + clocksToUpdate).toNat
      let s : TIA := { s with
        myFramePointerClocks := toU32 (s.myFramePointerClocks + clocksToUpdate) }
      let s : TIA :=
        if s.myVBLANK &&& 0x02 ≠ 0 then
          { s with
            myCurrentFrameBuffer :=
              memsetBuf s.myCurrentFrameBuffer s.myFramePointer clocksToUpdate.toNat 0 }
        else
          let s : TIA := { s with
            myP0Mask := MaskPtr.px s.mySuppressP0 (s.myNUSIZ0 &&& 0x07) (160 - (s.myPOSP0 % 256)),
            myP1Mask := MaskPtr.px s.mySuppressP1 (s.myNUSIZ1 &&& 0x07) (160 - (s.myPOSP1 % 256)),
            myBLMask := MaskPtr.bl ((s.myCTRLPF &&& 0x30) >>> 4) (160 - (s.myPOSBL % 256)),
            myM0Mask := missileMask s.myHMM0mmr s.myNUSIZ0 s.myPOSM0,
            myM1Mask := missileMask s.myHMM1mmr s.myNUSIZ1 s.myPOSM1 }
          let enabledObjects := s.myEnabledObjects &&& s.myDisabledObjects
          let hpos := toU32 (clocksFromStartOfScanLine - HBLANK)
          pixelLoop T enabledObjects (ending - s.myFramePointer) hpos s
      { s with myFramePointer := ending }
    else s
  if s.myHMOVEBlankEnabled ∧ startOfScanLine < HBLANK + 8 ∧
      clocksFromStartOfScanLine < HBLANK + 8 then
    let blanks : Int := (HBLANK + 8) - clocksFromStartOfScanLine
    let s : TIA := { s with
      myCurrentFrameBuffer :=
        memsetBuf s.myCurrentFrameBuffer oldFramePointer blanks.toNat
          (colorPtr s T.HBLANKColor) }
    if clocksToUpdate + clocksFromStartOfScanLine ≥ HBLANK + 8 then
      { s with myHMOVEBlankEnabled := false }
    else s
  else s

/-- The end of the scanline loop body: the suppress flags are cleared at the end
of a scanline. -/
def endOfScanLine (s : TIA) : TIA :=
  if s.myClocksToEndOfScanLine = 228 then { s with mySuppressP0 := 0, mySuppressP1 := 0 }
  else s

/-- The body of the scanline loop of `updateFrame` after the scanline-change
block: advance the clocks and render the pixels of this scanline up to `clock`. -/
def updateLine (T : TIATables) (clock : Int) (s : TIA) : TIA :=
  endOfScanLine
    (renderLine T (228 - s.myClocksToEndOfScanLine) (clocksToUpdateOf clock s)
      (advanceClocks clock s))

/-- The scanline loop of `updateFrame`: `n` iterations from `line` on. -/
def lineLoop (T : TIATables) (clock : Int) (startLine : Nat) : Nat → Nat → TIA → TIA
  | 0, _, s => s
  | n + 1, line, s =>
    let s : TIA := if line ≠ startLine then interLine s else s
    lineLoop T clock startLine n (line + 1) (updateLine T clock s)

/-- `TIA::updateFrame(Int32 clock)`. -/
def updateFrame (T : TIATables) (s : TIA) (clock : Int) : TIA :=
  if clock < s.myClockStartDisplay ∨ s.myClockAtLastUpdate ≥ s.myClockStopDisplay ∨
      s.myClockAtLastUpdate ≥ clock then s
  else
    let clock := if clock > s.myClockStopDisplay then s.myClockStopDisplay else clock
    let startLine := toU32 (Int.tdiv (s.myClockAtLastUpdate - s.myClockWhenFrameStarted) 228)
    let endLine := toU32 (Int.tdiv (clock - s.myClockWhenFrameStarted) 228)
    lineLoop T clock startLine (endLine + 1 - startLine) startLine s

/-- `TIA::applyActiveHMOVEMotion`; the member `myCurrentHMOVEPos` is the first
argument and the result is the new value of `pos`. -/
def applyActiveHMOVEMotion (currentHMOVEPos hpos pos motionClock : Int) : Int :=
  if hpos < min (currentHMOVEPos + 6 + 16 * 4) 7 then
    let decrements_passed : Int := (hpos - (currentHMOVEPos + 4)) / 4
    let pos := pos + 8
    if motionClock - decrements_passed > 0 then
      let pos := pos - (motionClock - decrements_passed)
      if pos < 0 then pos + 160 else pos
    else pos
  else pos

/-- `TIA::applyPreviousHMOVEMotion`; the member `myPreviousHMOVEPos` is the first
argument and the result is the new value of `pos`.  `motclk` and
`motclk_passed` are `uInt8`. -/
def applyPreviousHMOVEMotion (previousHMOVEPos hpos pos : Int) (motion : Nat) : Int :=
  if previousHMOVEPos ≠ 0x7FFFFFFF then
    let motclk : Int := (((motion ^^^ 0x80) >>> 4) % 256 : Nat)
    if hpos ≤ previousHMOVEPos - 228 + 5 + motclk * 4 then
      let motclk_passed : Int := ((hpos - (previousHMOVEPos - 228 + 6)) / 4) % 256
      pos - (motclk - motclk_passed)
    else pos
  else pos

/-- The common text of `pokeHMP0`, `pokeHMP1`, `pokeHMM0`, `pokeHMM1` and
`pokeHMBL`, on the register, position, motion clock and more-motion latch of
one object; the result is their new values. -/
def pokeHMxx (s : TIA) (hm : Nat) (pos motionClock : Int) (mmr : Bool) (value : Nat)
    (clock : Int) : Nat × Int × Int × Bool :=
  let value := value &&& 0xF0
  if hm = value then (hm, pos, motionClock, mmr)
  else
    let hpos : Int := Int.tmod (clock - s.myClockWhenFrameStarted) 228 - HBLANK
    if s.myCurrentHMOVEPos ≠ 0x7FFFFFFF ∧
        hpos < min (s.myCurrentHMOVEPos + 6 + motionClock * 4) 7 then
      let newMotion : Int := (((value ^^^ 0x80) >>> 4 : Nat) : Int)
      if newMotion > motionClock ∨ hpos ≤ min (s.myCurrentHMOVEPos + 6 + newMotion * 4) 7 then
        (value, CLAMP_POS (pos - (newMotion - motionClock)), newMotion, mmr)
      else
        (value, CLAMP_POS (pos - (15 - motionClock)), 15,
          if value ≠ 0x70 ∧ value ≠ 0x80 then true else mmr)
    else (value, pos, motionClock, mmr)

/-- `TIA::pokeHMP0`. -/
def pokeHMP0 (s : TIA) (value : Nat) (clock : Int) : TIA :=
  let r := pokeHMxx s s.myHMP0 s.myPOSP0 s.myMotionClockP0 s.myHMP0mmr value clock
  { s with myHMP0 := r.1, myPOSP0 := r.2.1, myMotionClockP0 := r.2.2.1, myHMP0mmr := r.2.2.2 }

/-- `TIA::pokeHMP1`. -/
def pokeHMP1 (s : TIA) (value : Nat) (clock : Int) : TIA :=
  let r := pokeHMxx s s.myHMP1 s.myPOSP1 s.myMotionClockP1 s.myHMP1mmr value clock
  { s with myHMP1 := r.1, myPOSP1 := r.2.1, myMotionClockP1 := r.2.2.1, myHMP1mmr := r.2.2.2 }

/-- `TIA::pokeHMM0`. -/
def pokeHMM0 (s : TIA) (value : Nat) (clock : Int) : TIA :=
  let r := pokeHMxx s s.myHMM0 s.myPOSM0 s.myMotionClockM0 s.myHMM0mmr value clock
  { s with myHMM0 := r.1, myPOSM0 := r.2.1, myMotionClockM0 := r.2.2.1, myHMM0mmr := r.2.2.2 }

/-- `TIA::pokeHMM1`. -/
def pokeHMM1 (s : TIA) (value : Nat) (clock : Int) : TIA :=
  let r := pokeHMxx s s.myHMM1 s.myPOSM1 s.myMotionClockM1 s.myHMM1mmr value clock
  { s with myHMM1 := r.1, myPOSM1 := r.2.1, myMotionClockM1 := r.2.2.1, myHMM1mmr := r.2.2.2 }

/-- `TIA::pokeHMBL`. -/
def pokeHMBL (s : TIA) (value : Nat) (clock : Int) : TIA :=
  let r := pokeHMxx s s.myHMBL s.myPOSBL s.myMotionClockBL s.myHMBLmmr value clock
  { s with myHMBL := r.1, myPOSBL := r.2.1, myMotionClockBL := r.2.2.1, myHMBLmmr := r.2.2.2 }

/-- `myEnabledObjects |= bit` on the `uInt8` field. -/
def orBit (e b : Nat) : Nat := (e ||| b) % 256

/-- `myEnabledObjects &= ~bit` on the `uInt8` field. -/
def andNotBit (e b : Nat) : Nat := e &&& ((255 ^^^ b) % 256)

/-- The colour written by `COLUP0`, `COLUP1`, `COLUPF` and `COLUBK`. -/
def lossColor (s : TIA) (value : Nat) : Nat :=
  let color := value &&& 0xfe
  if s.myColorLossEnabled ∧ s.myScanlineCountForLastFrame &&& 0x01 ≠ 0 then color ||| 0x01
  else color

/-- Recompute the P0, P1 enabled bits from the current graphics (the tail of the
`GRP0`, `GRP1` cases). -/
def setPlayerBits (T : TIATables) (s : TIA) : TIA :=
  let s : TIA := { s with
    myEnabledObjects :=
      if s.myCurrentGRP0 ≠ 0 then orBit s.myEnabledObjects T.P0Bit
      else andNotBit s.myEnabledObjects T.P0Bit }
  { s with
    myEnabledObjects :=
      if s.myCurrentGRP1 ≠ 0 then orBit s.myEnabledObjects T.P1Bit
      else andNotBit s.myEnabledObjects T.P1Bit }

/-- The `PFBit` update shared by the `PF0`, `PF1`, `PF2` cases. -/
def setPFBit (T : TIATables) (s : TIA) : TIA :=
  { s with
    myEnabledObjects :=
      if s.myPF = 0 then andNotBit s.myEnabledObjects T.PFBit
      else orBit s.myEnabledObjects T.PFBit }

/-- The `BLBit` update shared by the `GRP1`, `ENABL`, `VDELBL` cases. -/
def setBLBit (T : TIATables) (s : TIA) : TIA :=
  { s with
    myEnabledObjects :=
      if (if s.myVDELBL then s.myDENABL else s.myENABL) then orBit s.myEnabledObjects T.BLBit
      else andNotBit s.myEnabledObjects T.BLBit }

/-- The `M0Bit` update shared by the `ENAM0`, `RESMP0` cases. -/
def setM0Bit (T : TIATables) (s : TIA) : TIA :=
  { s with
    myEnabledObjects :=
      if s.myENAM0 ∧ ¬ s.myRESMP0 then orBit s.myEnabledObjects T.M0Bit
      else andNotBit s.myEnabledObjects T.M0Bit }

/-- The `M1Bit` update shared by the `ENAM1`, `RESMP1` cases. -/
def setM1Bit (T : TIATables) (s : TIA) : TIA :=
  { s with
    myEnabledObjects :=
      if s.myENAM1 ∧ ¬ s.myRESMP1 then orBit s.myEnabledObjects T.M1Bit
      else andNotBit s.myEnabledObjects T.M1Bit }

/-- The "current" graphics of both players from the delay and reflect state. -/
def setCurrentGRP (T : TIATables) (s : TIA) : TIA :=
  let grp0 := if s.myVDELP0 then s.myDGRP0 else s.myGRP0
  let grp1 := if s.myVDELP1 then s.myDGRP1 else s.myGRP1
  { s with
    myCurrentGRP0 := if s.myREFP0 then T.GRPReflect grp0 else grp0,
    myCurrentGRP1 := if s.myREFP1 then T.GRPReflect grp1 else grp1 }

/-- `cyclesToEndOfLine` of `waitHorizontalSync` and `waitHorizontalRSync`,
computed in `uInt32`. -/
def cyclesToEndOfLine (s : TIA) : Nat :=
  76 - ((s.cycles + 4294967296 - toU32 (Int.tdiv s.myClockWhenFrameStarted 3)) % 4294967296) % 76

/-- `System::incrementCycles`, on the cycle counter kept with the TIA state. -/
def incrementCycles (s : TIA) (amount : Nat) : TIA :=
  { s with cycles := (s.cycles + amount) % 4294967296 }

/-- `TIA::waitHorizontalSync`. -/
def waitHorizontalSync (s : TIA) : TIA :=
  if cyclesToEndOfLine s < 76 then incrementCycles s (cyclesToEndOfLine s) else s

/-- `TIA::waitHorizontalRSync`. -/
def waitHorizontalRSync (s : TIA) : TIA :=
  incrementCycles s ((cyclesToEndOfLine s + 4294967296 - 1) % 4294967296)

/-- The cases `RESP0` and `RESP1` of `TIA::poke`, on the fields of one player;
the result is the state after the optional `updateFrame(clock + 11)`, the new
position and the new suppress flag. -/
def resetPlayer (T : TIATables) (s : TIA) (clock : Int) (motionClock : Int) (hm nusiz : Nat)
    (posOld : Int) (suppress : Nat) : TIA × Int × Nat :=
  let hpos : Int := Int.tmod (clock - s.myClockWhenFrameStarted) 228 - HBLANK
  let newx : Int :=
    if s.myCurrentHMOVEPos ≠ 0x7FFFFFFF then
      applyActiveHMOVEMotion s.myCurrentHMOVEPos hpos (if hpos < 7 then 3 else Int.tmod (hpos + 5) 160) motionClock
    else
      applyPreviousHMOVEMotion s.myPreviousHMOVEPos hpos (if hpos < -2 then 3 else Int.tmod (hpos + 5) 160) hm
  if posOld ≠ newx then
    let delay := T.PxPosResetWhen (nusiz &&& 7) posOld newx
    if delay = 1 then (updateFrame T s (clock + 11), newx, 1)
    else if delay = 0 then (s, newx, 1)
    else if delay = -1 then (s, newx, 0)
    else (s, newx, suppress)
  else (s, posOld, suppress)

/-- The cases `RESM0` and `RESM1` of `TIA::poke`: the new missile position. -/
def resetMissile (s : TIA) (clock : Int) (motionClock : Int) (hm : Nat) : Int :=
  let hpos : Int := Int.tmod (clock - s.myClockWhenFrameStarted) 228 - HBLANK
  if s.myCurrentHMOVEPos ≠ 0x7FFFFFFF then
    applyActiveHMOVEMotion s.myCurrentHMOVEPos hpos (if hpos < 7 then 2 else Int.tmod (hpos + 4) 160) motionClock
  else
    applyPreviousHMOVEMotion s.myPreviousHMOVEPos hpos (if hpos < -1 then 2 else Int.tmod (hpos + 4) 160) hm

/-- The case `RESBL` of `TIA::poke`: the new ball position. -/
def resetBall (s : TIA) (clock : Int) : Int :=
  let hpos : Int := Int.tmod (clock - s.myClockWhenFrameStarted) 228 - HBLANK
  if s.myCurrentHMOVEPos ≠ 0x7FFFFFFF then
    applyActiveHMOVEMotion s.myCurrentHMOVEPos hpos (if hpos < 7 then 2 else Int.tmod (hpos + 4) 160)
      s.myMotionClockBL
  else
    applyPreviousHMOVEMotion s.myPreviousHMOVEPos hpos (if hpos < 0 then 2 else Int.tmod (hpos + 4) 160) s.myHMBL

/-- The position a missile is given when `RESMPx` is released. -/
def resmpPosition (s : TIA) (nusiz : Nat) (posP motionClockP motionClockM : Int) : Int :=
  let middle : Int := if nusiz &&& 0x07 = 0x05 then 8 else if nusiz &&& 0x07 = 0x07 then 16 else 4
  let pos := posP + middle
  let pos := if s.myCurrentHMOVEPos ≠ 0x7FFFFFFF
             then pos - (8 - motionClockP) + (8 - motionClockM) else pos
  CLAMP_POS pos

/-- The first step of the `HMOVE` case on one position: when the HMOVE comes
within the first 17 * 4 clocks of the scanline and the object's more-motion
latch is set, some of the already applied cycles are undone
(`pos = (pos + cycle_fix) % 160`). -/
def hmoveUndo (hpos : Int) (mmr : Bool) (pos : Int) : Int :=
  if hpos + HBLANK < 17 * 4 ∧ mmr then
    Int.tmod (pos + (17 - Int.tdiv (hpos + HBLANK + 7) 4)) 160
  else pos

/-- The motion clock the `HMOVE` case computes from a register `HMxx`:
`(HMxx ^ 0x80) >> 4`, less `skip_motclks` (not below 0) for `97 <= hpos < 151`,
at most `max_motclks` for `-56 <= hpos < -5`. -/
def hmoveMotionClock (hpos : Int) (hm : Nat) : Int :=
  let m : Int := (((hm ^^^ 0x80) >>> 4 : Nat) : Int)
  let m : Int := if 97 ≤ hpos ∧ hpos < 151 then max (m - (160 - hpos - 6) / 4) 0 else m
  if -56 ≤ hpos ∧ hpos < -5 then min m ((7 - (hpos + 5)) / 4) else m

/-- The last step of the `HMOVE` case on one position: the motion is applied
when `hpos < -5` or `hpos >= 157`, then `CLAMP_POS`. -/
def hmoveApply (hpos pos motionClock : Int) : Int :=
  CLAMP_POS (if hpos < -5 ∨ 157 ≤ hpos then pos + (8 - motionClock) else pos)

/-- The case `HMOVE` of `TIA::poke`.  In the branch `-5 <= hpos < 97` the case
leaves through its `break` with the motion clocks zeroed and the HMOVE marked
inactive; otherwise the motion clocks are taken from the `HMxx` registers and
the positions moved and clamped. -/
def pokeHMOVE (T : TIATables) (s : TIA) (clock : Int) : TIA :=
  let hpos : Int := Int.tmod (clock - s.myClockWhenFrameStarted) 228 - HBLANK
  if -5 ≤ hpos ∧ hpos < 97 then
    { s with
      myPOSP0 := hmoveUndo hpos s.myHMP0mmr s.myPOSP0,
      myPOSP1 := hmoveUndo hpos s.myHMP1mmr s.myPOSP1,
      myPOSM0 := hmoveUndo hpos s.myHMM0mmr s.myPOSM0,
      myPOSM1 := hmoveUndo hpos s.myHMM1mmr s.myPOSM1,
      myPOSBL := hmoveUndo hpos s.myHMBLmmr s.myPOSBL,
      myHMP0mmr := false, myHMP1mmr := false, myHMM0mmr := false, myHMM1mmr := false,
      myHMBLmmr := false,
      myMotionClockP0 := 0, myMotionClockP1 := 0, myMotionClockM0 := 0, myMotionClockM1 := 0,
      myMotionClockBL := 0, myHMOVEBlankEnabled := false, myCurrentHMOVEPos := 0x7FFFFFFF }
  else
    { s with
      myCurrentHMOVEPos := hpos,
      myHMOVEBlankEnabled :=
        if s.myAllowHMOVEBlanks then
          T.HMOVEBlankEnableCycles (Int.tdiv (Int.tmod (clock - s.myClockWhenFrameStarted) 228) 3)
        else false,
      myHMP0mmr := false, myHMP1mmr := false, myHMM0mmr := false, myHMM1mmr := false,
      myHMBLmmr := false,
      myMotionClockP0 := hmoveMotionClock hpos s.myHMP0,
      myMotionClockP1 := hmoveMotionClock hpos s.myHMP1,
      myMotionClockM0 := hmoveMotionClock hpos s.myHMM0,
      myMotionClockM1 := hmoveMotionClock hpos s.myHMM1,
      myMotionClockBL := hmoveMotionClock hpos s.myHMBL,
      myPOSP0 := hmoveApply hpos (hmoveUndo hpos s.myHMP0mmr s.myPOSP0)
        (hmoveMotionClock hpos s.myHMP0),
      myPOSP1 := hmoveApply hpos (hmoveUndo hpos s.myHMP1mmr s.myPOSP1)
        (hmoveMotionClock hpos s.myHMP1),
      myPOSM0 := hmoveApply hpos (hmoveUndo hpos s.myHMM0mmr s.myPOSM0)
        (hmoveMotionClock hpos s.myHMM0),
      myPOSM1 := hmoveApply hpos (hmoveUndo hpos s.myHMM1mmr s.myPOSM1)
        (hmoveMotionClock hpos s.myHMM1),
      myPOSBL := hmoveApply hpos (hmoveUndo hpos s.myHMBLmmr s.myPOSBL)
        (hmoveMotionClock hpos s.myHMBL),
      mySuppressP0 := 0, mySuppressP1 := 0 }

/-- The `switch(addr)` of `TIA::poke` for a matched `case` label.  Calls of the
sound device (`mySound.set`) and of the debugger are not modelled. -/
def pokeRegister (T : TIATables) (s : TIA) (reg : TIARegister) (value : Nat) (clock : Int) :
    TIA :=
  match reg with
  | TIARegister.VSYNC =>
    let s : TIA := { s with myVSYNC := value }
    if s.myVSYNC &&& 0x02 ≠ 0 then { s with myVSYNCFinishClock := clock + 228 }
    else if clock ≥ s.myVSYNCFinishClock then
      { s with myVSYNCFinishClock := 0x7FFFFFFF, cpuStopped := true, myPartialFrameFlag := false }
    else s
  | TIARegister.VBLANK =>
    let s : TIA :=
      if s.myVBLANK &&& 0x80 = 0 ∧ value &&& 0x80 ≠ 0 then { s with myDumpEnabled := true }
      else if s.myVBLANK &&& 0x80 ≠ 0 ∧ value &&& 0x80 = 0 then
        { s with
          myDumpEnabled := false,
          myDumpDisabledCycle := toInt32 ((s.cycles % 4294967296 : Nat) : Int) }
      else s
    let s : TIA :=
      if s.myVBLANK &&& 0x40 = 0 then { s with myINPT4 := 0x80, myINPT5 := 0x80 } else s
    let s : TIA :=
      if s.myStartScanline = 0 ∧ value &&& 0x10 = 0 then { s with myStartScanline := scanlines s }
      else s
    { s with myVBLANK := value }
  | TIARegister.WSYNC => if s.lastAccessWasRead then waitHorizontalSync s else s
  | TIARegister.RSYNC => waitHorizontalRSync s
  | TIARegister.NUSIZ0 =>
    let s : TIA := updateFrame T s (clock + 8)
    { s with myNUSIZ0 := value, mySuppressP0 := 0 }
  | TIARegister.NUSIZ1 =>
    let s : TIA := updateFrame T s (clock + 8)
    { s with myNUSIZ1 := value, mySuppressP1 := 0 }
  | TIARegister.COLUP0 =>
    { s with
      myColor :=
        Function.update (Function.update s.myColor T.M0Color (lossColor s value))
        T.P0Color (lossColor s value) }
  | TIARegister.COLUP1 =>
    { s with
      myColor :=
        Function.update (Function.update s.myColor T.M1Color (lossColor s value))
        T.P1Color (lossColor s value) }
  | TIARegister.COLUPF =>
    { s with
      myColor :=
        Function.update (Function.update s.myColor T.BLColor (lossColor s value))
        T.PFColor (lossColor s value) }
  | TIARegister.COLUBK =>
    { s with myColor := Function.update s.myColor T.BKColor (lossColor s value) }
  | TIARegister.CTRLPF =>
    let s : TIA := { s with
      myCTRLPF := value,
      myPlayfieldPriorityAndScore := ((value &&& 0x06) <<< 5) % 256 }
    if Int.tmod (clock - s.myClockWhenFrameStarted) 228 < 68 + 79 then
      { s with myPFMask := s.myCTRLPF &&& 0x01 }
    else s
  | TIARegister.REFP0 =>
    if (value &&& 0x08 ≠ 0 ∧ ¬ s.myREFP0) ∨ (value &&& 0x08 = 0 ∧ s.myREFP0) then
      { s with
        myREFP0 := decide (value &&& 0x08 ≠ 0),
        myCurrentGRP0 := T.GRPReflect s.myCurrentGRP0 }
    else s
  | TIARegister.REFP1 =>
    if (value &&& 0x08 ≠ 0 ∧ ¬ s.myREFP1) ∨ (value &&& 0x08 = 0 ∧ s.myREFP1) then
      { s with
        myREFP1 := decide (value &&& 0x08 ≠ 0),
        myCurrentGRP1 := T.GRPReflect s.myCurrentGRP1 }
    else s
  | TIARegister.PF0 =>
    setPFBit T { s with myPF := (s.myPF &&& 0x000FFFF0) ||| ((value >>> 4) &&& 0x0F) }
  | TIARegister.PF1 =>
    setPFBit T { s with myPF := (s.myPF &&& 0x000FF00F) ||| ((value <<< 4) % 4294967296) }
  | TIARegister.PF2 =>
    setPFBit T { s with myPF := (s.myPF &&& 0x00000FFF) ||| ((value <<< 12) % 4294967296) }
  | TIARegister.RESP0 =>
    let r := resetPlayer T s clock s.myMotionClockP0 s.myHMP0 s.myNUSIZ0 s.myPOSP0 s.mySuppressP0
    { r.1 with myPOSP0 := r.2.1, mySuppressP0 := r.2.2 }
  | TIARegister.RESP1 =>
    let r := resetPlayer T s clock s.myMotionClockP1 s.myHMP1 s.myNUSIZ1 s.myPOSP1 s.mySuppressP1
    { r.1 with myPOSP1 := r.2.1, mySuppressP1 := r.2.2 }
  | TIARegister.RESM0 => { s with myPOSM0 := resetMissile s clock s.myMotionClockM0 s.myHMM0 }
  | TIARegister.RESM1 => { s with myPOSM1 := resetMissile s clock s.myMotionClockM1 s.myHMM1 }
  | TIARegister.RESBL => { s with myPOSBL := resetBall s clock }
  | TIARegister.AUDC0 => { s with myAUDC0 := value &&& 0x0f }
  | TIARegister.AUDC1 => { s with myAUDC1 := value &&& 0x0f }
  | TIARegister.AUDF0 => { s with myAUDF0 := value &&& 0x1f }
  | TIARegister.AUDF1 => { s with myAUDF1 := value &&& 0x1f }
  | TIARegister.AUDV0 => { s with myAUDV0 := value &&& 0x0f }
  | TIARegister.AUDV1 => { s with myAUDV1 := value &&& 0x0f }
  | TIARegister.GRP0 =>
    setPlayerBits T (setCurrentGRP T { s with myGRP0 := value, myDGRP1 := s.myGRP1 })
  | TIARegister.GRP1 =>
    setBLBit T (setPlayerBits T (setCurrentGRP T
      { s with myGRP1 := value, myDGRP0 := s.myGRP0, myDENABL := s.myENABL }))
  | TIARegister.ENAM0 => setM0Bit T { s with myENAM0 := decide (value &&& 0x02 ≠ 0) }
  | TIARegister.ENAM1 => setM1Bit T { s with myENAM1 := decide (value &&& 0x02 ≠ 0) }
  | TIARegister.ENABL => setBLBit T { s with myENABL := decide (value &&& 0x02 ≠ 0) }
  | TIARegister.HMP0 => pokeHMP0 s value clock
  | TIARegister.HMP1 => pokeHMP1 s value clock
  | TIARegister.HMM0 => pokeHMM0 s value clock
  | TIARegister.HMM1 => pokeHMM1 s value clock
  | TIARegister.HMBL => pokeHMBL s value clock
  | TIARegister.VDELP0 =>
    let s : TIA := { s with myVDELP0 := decide (value &&& 0x01 ≠ 0) }
    let grp0 := if s.myVDELP0 then s.myDGRP0 else s.myGRP0
    let s : TIA := { s with myCurrentGRP0 := if s.myREFP0 then T.GRPReflect grp0 else grp0 }
    { s with
      myEnabledObjects :=
        if s.myCurrentGRP0 ≠ 0 then orBit s.myEnabledObjects T.P0Bit
        else andNotBit s.myEnabledObjects T.P0Bit }
  | TIARegister.VDELP1 =>
    let s : TIA := { s with myVDELP1 := decide (value &&& 0x01 ≠ 0) }
    let grp1 := if s.myVDELP1 then s.myDGRP1 else s.myGRP1
    let s : TIA := { s with myCurrentGRP1 := if s.myREFP1 then T.GRPReflect grp1 else grp1 }
    { s with
      myEnabledObjects :=
        if s.myCurrentGRP1 ≠ 0 then orBit s.myEnabledObjects T.P1Bit
        else andNotBit s.myEnabledObjects T.P1Bit }
  | TIARegister.VDELBL => setBLBit T { s with myVDELBL := decide (value &&& 0x01 ≠ 0) }
  | TIARegister.RESMP0 =>
    let s : TIA :=
      if s.myRESMP0 ∧ value &&& 0x02 = 0 then
        { s with
          myPOSM0 :=
            resmpPosition s s.myNUSIZ0 s.myPOSP0 s.myMotionClockP0 s.myMotionClockM0 }
      else s
    setM0Bit T { s with myRESMP0 := decide (value &&& 0x02 ≠ 0) }
  | TIARegister.RESMP1 =>
    let s : TIA :=
      if s.myRESMP1 ∧ value &&& 0x02 = 0 then
        { s with
          myPOSM1 :=
            resmpPosition s s.myNUSIZ1 s.myPOSP1 s.myMotionClockP1 s.myMotionClockM1 }
      else s
    setM1Bit T { s with myRESMP1 := decide (value &&& 0x02 ≠ 0) }
  | TIARegister.HMOVE => pokeHMOVE T s clock
  | TIARegister.HMCLR =>
    pokeHMBL (pokeHMM1 (pokeHMM0 (pokeHMP1 (pokeHMP0 s 0 clock) 0 clock) 0 clock) 0 clock) 0 clock
  | TIARegister.CXCLR => { s with myCollision := 0 }

/-- `TIA::poke(uInt16 addr, uInt8 value)`. -/
def poke (T : TIATables) (s : TIA) (addr value : Nat) : Bool × TIA :=
  let addr := addr &&& 0x003f
  let clock : Int := clockNow s
  let delay : Int := T.PokeDelay addr
  let delay : Int :=
    if delay = -1 then
      let x : Int := Int.tmod (clock - s.myClockWhenFrameStarted) 228
      [4, 5, 2, 3].getD ((Int.tdiv x 3) % 4).toNat 0
    else delay
  let s : TIA := updateFrame T s (clock + delay)
  let s : TIA :=
    if Int.tdiv (clock - s.myClockWhenFrameStarted) 228 ≥ toInt32 s.myMaximumNumberOfScanlines then
      { s with cpuStopped := true, myPartialFrameFlag := false }
    else s
  match T.writeRegister addr with
  | some reg => (true, pokeRegister T s reg value clock)
  | none => (true, s)

end TIA

/-- A sample instance of the table parameters: the write addresses of the TIA
register map in the order of `TIARegister` (`VSYNC` = 0x00 ... `CXCLR` = 0x2C),
one bit per object, one colour index per object, a poke delay of -1 for the
playfield registers, 8 for the missile resets, 3 for `HMOVE` and 0 elsewhere,
and empty mask tables. -/
def sampleTables : TIATables where
  writeRegister := fun a =>
    [TIARegister.VSYNC, TIARegister.VBLANK, TIARegister.WSYNC, TIARegister.RSYNC,
     TIARegister.NUSIZ0, TIARegister.NUSIZ1, TIARegister.COLUP0, TIARegister.COLUP1,
     TIARegister.COLUPF, TIARegister.COLUBK, TIARegister.CTRLPF, TIARegister.REFP0,
     TIARegister.REFP1, TIARegister.PF0, TIARegister.PF1, TIARegister.PF2,
     TIARegister.RESP0, TIARegister.RESP1, TIARegister.RESM0, TIARegister.RESM1,
     TIARegister.RESBL, TIARegister.AUDC0, TIARegister.AUDC1, TIARegister.AUDF0,
     TIARegister.AUDF1, TIARegister.AUDV0, TIARegister.AUDV1, TIARegister.GRP0,
     TIARegister.GRP1, TIARegister.ENAM0, TIARegister.ENAM1, TIARegister.ENABL,
     TIARegister.HMP0, TIARegister.HMP1, TIARegister.HMM0, TIARegister.HMM1,
     TIARegister.HMBL, TIARegister.VDELP0, TIARegister.VDELP1, TIARegister.VDELBL,
     TIARegister.RESMP0, TIARegister.RESMP1, TIARegister.HMOVE, TIARegister.HMCLR,
     TIARegister.CXCLR].get? a
  P0Bit := 0x01
  M0Bit := 0x02
  P1Bit := 0x04
  M1Bit := 0x08
  BLBit := 0x10
  PFBit := 0x20
  ScoreBit := 0x40
  PriorityBit := 0x80
  BKColor := 0
  PFColor := 1
  P0Color := 2
  P1Color := 3
  M0Color := 4
  M1Color := 5
  BLColor := 6
  HBLANKColor := 7
  PokeDelay := fun a =>
    if a = 0x0D ∨ a = 0x0E ∨ a = 0x0F then -1
    else if a = 0x12 ∨ a = 0x13 then 8
    else if a = 0x2A then 3
    else 0
  PxMask := fun _ _ _ => 0
  MxMask := fun _ _ _ => 0
  BLMask := fun _ _ => 0
  PFMask := fun _ _ => 0
  DisabledMask := fun _ => 0
  CollisionMask := fun _ => 0
  HMOVEBlankEnableCycles := fun _ => false
  GRPReflect := fun g => g
  PxPosResetWhen := fun _ _ _ => 0

/-- A sample environment: automatic frame rate, NTSC, no colour loss. -/
def sampleEnv : TIAEnv := ⟨0, true, false⟩

/-- A TIA object before `reset`: every field zero or false, cycle counter 0. -/
def sampleTIA : TIA where
  cycles := 0
  cpuStopped := false
  lastAccessWasRead := false
  myFrameYStart := 34
  myFrameHeight := 210
  myMaximumNumberOfScanlines := 262
  myStartScanline := 0
  myColorLossEnabled := false
  myPartialFrameFlag := false
  myAutoFrameEnabled := false
  myFrameCounter := 0
  myPALFrameCounter := 0
  myBitsEnabled := true
  myCollisionsEnabled := true
  myCurrentFrameBuffer := fun _ => 0
  myPreviousFrameBuffer := fun _ => 0
  myFramePointer := 0
  myFramePointerClocks := 0
  myFramePointerOffset := 0
  myAUDV0 := 0
  myAUDV1 := 0
  myAUDF0 := 0
  myAUDF1 := 0
  myAUDC0 := 0
  myAUDC1 := 0
  myTIAPinsDriven := false
  myEnabledObjects := 0
  myDisabledObjects := 0
  myAllowHMOVEBlanks := false
  myVSYNC := 0
  myVBLANK := 0
  myNUSIZ0 := 0
  myNUSIZ1 := 0
  myColor := fun _ => 0
  myFixedColor := fun _ => 0
  myColorPtrIsFixed := false
  myPriorityEncoder := fun _ _ => 0
  myPlayfieldPriorityAndScore := 0
  myCTRLPF := 0
  myREFP0 := false
  myREFP1 := false
  myPF := 0
  myGRP0 := 0
  myGRP1 := 0
  myDGRP0 := 0
  myDGRP1 := 0
  myENAM0 := false
  myENAM1 := false
  myENABL := false
  myDENABL := false
  myHMP0 := 0
  myHMP1 := 0
  myHMM0 := 0
  myHMM1 := 0
  myHMBL := 0
  myVDELP0 := false
  myVDELP1 := false
  myVDELBL := false
  myRESMP0 := false
  myRESMP1 := false
  myCollision := 0
  myCollisionEnabledMask := 0
  myPOSP0 := 0
  myPOSP1 := 0
  myPOSM0 := 0
  myPOSM1 := 0
  myPOSBL := 0
  myCurrentGRP0 := 0
  myCurrentGRP1 := 0
  myMotionClockP0 := 0
  myMotionClockP1 := 0
  myMotionClockM0 := 0
  myMotionClockM1 := 0
  myMotionClockBL := 0
  myStartP0 := 0
  myStartP1 := 0
  myStartM0 := 0
  myStartM1 := 0
  mySuppressP0 := 0
  mySuppressP1 := 0
  myHMP0mmr := false
  myHMP1mmr := false
  myHMM0mmr := false
  myHMM1mmr := false
  myHMBLmmr := false
  myCurrentHMOVEPos := 0
  myPreviousHMOVEPos := 0
  myHMOVEBlankEnabled := false
  myDumpEnabled := false
  myDumpDisabledCycle := 0
  myINPT4 := 0
  myINPT5 := 0
  myScanlineCountForLastFrame := 0
  myP0Mask := MaskPtr.px 0 0 0
  myP1Mask := MaskPtr.px 0 0 0
  myM0Mask := MaskPtr.mx 0 0 0
  myM1Mask := MaskPtr.mx 0 0 0
  myBLMask := MaskPtr.bl 0 0
  myPFMask := 0
  myStopDisplayOffset := 0
  myClockWhenFrameStarted := 0
  myClockStartDisplay := 0
  myClockStopDisplay := 0
  myClockAtLastUpdate := 0
  myClocksToEndOfScanLine := 0
  myVSYNCFinishClock := 0

/-- Set the system cycle counter, then `poke`: a write made at CPU cycle `c`. -/
def TIA.pokeAt (T : TIATables) (s : TIA) (c addr value : Nat) : TIA :=
  (TIA.poke T { s with cycles := c } addr value).2

/-- The clocks and the horizontal-motion state of a TIA: the fields that decide
when `updateFrame` acts and where the objects are. -/
structure HMState where
  clockWhenFrameStarted : Int
  clockStartDisplay : Int
  clockStopDisplay : Int
  clockAtLastUpdate : Int
  clocksToEndOfScanLine : Int
  currentHMOVEPos : Int
  previousHMOVEPos : Int
  posP0 : Int
  posP1 : Int
  posM0 : Int
  posM1 : Int
  posBL : Int
  motionClockP0 : Int
  motionClockP1 : Int
  motionClockM0 : Int
  motionClockM1 : Int
  motionClockBL : Int
  hmP0 : Nat
  hmP1 : Nat
  hmM0 : Nat
  hmM1 : Nat
  hmBL : Nat
  mmrP0 : Bool
  mmrP1 : Bool
  mmrM0 : Bool
  mmrM1 : Bool
  mmrBL : Bool

/-- The clocks and horizontal-motion state of a TIA state. -/
def TIA.hmState (s : TIA) : HMState where
  clockWhenFrameStarted := s.myClockWhenFrameStarted
  clockStartDisplay := s.myClockStartDisplay
  clockStopDisplay := s.myClockStopDisplay
  clockAtLastUpdate := s.myClockAtLastUpdate
  clocksToEndOfScanLine := s.myClocksToEndOfScanLine
  currentHMOVEPos := s.myCurrentHMOVEPos
  previousHMOVEPos := s.myPreviousHMOVEPos
  posP0 := s.myPOSP0
  posP1 := s.myPOSP1
  posM0 := s.myPOSM0
  posM1 := s.myPOSM1
  posBL := s.myPOSBL
  motionClockP0 := s.myMotionClockP0
  motionClockP1 := s.myMotionClockP1
  motionClockM0 := s.myMotionClockM0
  motionClockM1 := s.myMotionClockM1
  motionClockBL := s.myMotionClockBL
  hmP0 := s.myHMP0
  hmP1 := s.myHMP1
  hmM0 := s.myHMM0
  hmM1 := s.myHMM1
  hmBL := s.myHMBL
  mmrP0 := s.myHMP0mmr
  mmrP1 := s.myHMP1mmr
  mmrM0 := s.myHMM0mmr
  mmrM1 := s.myHMM1mmr
  mmrBL := s.myHMBLmmr

namespace HMState

/-- What `TIA.interLine` does to the clocks and horizontal-motion state. -/
def interLine (h : HMState) : HMState :=
  { h with
    previousHMOVEPos :=
      if h.currentHMOVEPos ≠ 0x7FFFFFFF ∧ (97 ≤ h.currentHMOVEPos ∧ h.currentHMOVEPos < 157)
      then h.currentHMOVEPos else 0x7FFFFFFF,
    posP0 := TIA.interLinePos h.currentHMOVEPos h.posP0 h.motionClockP0 h.mmrP0,
    posP1 := TIA.interLinePos h.currentHMOVEPos h.posP1 h.motionClockP1 h.mmrP1,
    posM0 := TIA.interLinePos h.currentHMOVEPos h.posM0 h.motionClockM0 h.mmrM0,
    posM1 := TIA.interLinePos h.currentHMOVEPos h.posM1 h.motionClockM1 h.mmrM1,
    posBL := TIA.interLinePos h.currentHMOVEPos h.posBL h.motionClockBL h.mmrBL,
    currentHMOVEPos :=
      if h.currentHMOVEPos ≠ 0x7FFFFFFF then 0x7FFFFFFF else h.currentHMOVEPos }

/-- What the `HMOVE` case of `TIA.poke` does to the clocks and horizontal-motion
state. -/
def hmove (h : HMState) (clock : Int) : HMState :=
  let hpos : Int := Int.tmod (clock - h.clockWhenFrameStarted) 228 - TIA.HBLANK
  if -5 ≤ hpos ∧ hpos < 97 then
    { h with
      posP0 := TIA.hmoveUndo hpos h.mmrP0 h.posP0,
      posP1 := TIA.hmoveUndo hpos h.mmrP1 h.posP1,
      posM0 := TIA.hmoveUndo hpos h.mmrM0 h.posM0,
      posM1 := TIA.hmoveUndo hpos h.mmrM1 h.posM1,
      posBL := TIA.hmoveUndo hpos h.mmrBL h.posBL,
      mmrP0 := false, mmrP1 := false, mmrM0 := false, mmrM1 := false, mmrBL := false,
      motionClockP0 := 0, motionClockP1 := 0, motionClockM0 := 0, motionClockM1 := 0,
      motionClockBL := 0, currentHMOVEPos := 0x7FFFFFFF }
  else
    { h with
      currentHMOVEPos := hpos,
      mmrP0 := false, mmrP1 := false, mmrM0 := false, mmrM1 := false, mmrBL := false,
      motionClockP0 := TIA.hmoveMotionClock hpos h.hmP0,
      motionClockP1 := TIA.hmoveMotionClock hpos h.hmP1,
      motionClockM0 := TIA.hmoveMotionClock hpos h.hmM0,
      motionClockM1 := TIA.hmoveMotionClock hpos h.hmM1,
      motionClockBL := TIA.hmoveMotionClock hpos h.hmBL,
      posP0 := TIA.hmoveApply hpos (TIA.hmoveUndo hpos h.mmrP0 h.posP0)
        (TIA.hmoveMotionClock hpos h.hmP0),
      posP1 := TIA.hmoveApply hpos (TIA.hmoveUndo hpos h.mmrP1 h.posP1)
        (TIA.hmoveMotionClock hpos h.hmP1),
      posM0 := TIA.hmoveApply hpos (TIA.hmoveUndo hpos h.mmrM0 h.posM0)
        (TIA.hmoveMotionClock hpos h.hmM0),
      posM1 := TIA.hmoveApply hpos (TIA.hmoveUndo hpos h.mmrM1 h.posM1)
        (TIA.hmoveMotionClock hpos h.hmM1),
      posBL := TIA.hmoveApply hpos (TIA.hmoveUndo hpos h.mmrBL h.posBL)
        (TIA.hmoveMotionClock hpos h.hmBL) }

/-- What the `RESBL` case of `TIA.poke` does to the clocks and horizontal-motion
state. -/
def resetBall (h : HMState) (clock : Int) : HMState :=
  let hpos : Int := Int.tmod (clock - h.clockWhenFrameStarted) 228 - TIA.HBLANK
  { h with
    posBL :=
      if h.currentHMOVEPos ≠ 0x7FFFFFFF then
        TIA.applyActiveHMOVEMotion h.currentHMOVEPos hpos
          (if hpos < 7 then 2 else Int.tmod (hpos + 4) 160) h.motionClockBL
      else
        TIA.applyPreviousHMOVEMotion h.previousHMOVEPos hpos
          (if hpos < 0 then 2 else Int.tmod (hpos + 4) 160) h.hmBL }

/-- What `TIA.updateLine` does to the clocks and horizontal-motion state. -/
def updateLine (clock : Int) (h : HMState) : HMState :=
  if clock > h.clockAtLastUpdate + h.clocksToEndOfScanLine then
    { h with
      clocksToEndOfScanLine := 228,
      clockAtLastUpdate := h.clockAtLastUpdate + h.clocksToEndOfScanLine }
  else
    { h with
      clocksToEndOfScanLine := h.clocksToEndOfScanLine - (clock - h.clockAtLastUpdate),
      clockAtLastUpdate := clock }

/-- What `TIA.lineLoop` does to the clocks and horizontal-motion state. -/
def lineLoop (clock : Int) (startLine : Nat) : Nat → Nat → HMState → HMState
  | 0, _, h => h
  | n + 1, line, h =>
    let h : HMState := if line ≠ startLine then interLine h else h
    lineLoop clock startLine n (line + 1) (updateLine clock h)

/-- What `TIA.updateFrame` does to the clocks and horizontal-motion state. -/
def updateFrame (h : HMState) (clock : Int) : HMState :=
  if clock < h.clockStartDisplay ∨ h.clockAtLastUpdate ≥ h.clockStopDisplay ∨
      h.clockAtLastUpdate ≥ clock then h
  else
    let clock := if clock > h.clockStopDisplay then h.clockStopDisplay else clock
    let startLine := toU32 (Int.tdiv (h.clockAtLastUpdate - h.clockWhenFrameStarted) 228)
    let endLine := toU32 (Int.tdiv (clock - h.clockWhenFrameStarted) 228)
    lineLoop clock startLine (endLine + 1 - startLine) startLine h

end HMState

/-- The part of the system state that page installation never touches. -/
def sysFrame (sys0 : System) (st : PageAccess × System) : Prop :=
  st.2.myDataBusState = sys0.myDataBusState ∧ st.2.myPageShift = sys0.myPageShift

/-- A 4 KiB sample image with the reset vector `$F000` and the instruction
`STA $F3FF,X` at offset 0. -/
def sampleImageCV : Nat → Nat :=
  fun i => if i = 0x0FFD then 0xF0 else [0x9D, 0xFF, 0xF3].getD i 0

/-- A 4 KiB sample image with the reset vector `$F000`, zero elsewhere. -/
def sampleImage4K : Nat → Nat := fun i => if i = 0x0FFD then 0xF0 else 0

/-- The multicart tags. -/
def multiCartTags : List String := ["2IN1", "4IN1", "8IN1", "16IN1", "32IN1", "64IN1", "128IN1"]

/-- The names of the read registers, the `case` labels of `TIA::peek`. -/
inductive TIAReadRegister where
  | CXM0P | CXM1P | CXP0FB | CXP1FB | CXM0FB | CXM1FB | CXBLPF | CXPPMM
  | INPT0 | INPT1 | INPT2 | INPT3 | INPT4 | INPT5
  deriving DecidableEq, Repr

/-- The read side of `TIATables.hxx`, which is not part of the source tree:
`readRegister a` is the `case` label of `TIA::peek` that the address `a` (0..15)
matches, and the `Cx_*` fields are the enumerators of the collision bits. -/
structure TIAReadTables where
  readRegister : Nat → Option TIAReadRegister
  Cx_M0P1 : Nat
  Cx_M0P0 : Nat
  Cx_M1P0 : Nat
  Cx_M1P1 : Nat
  Cx_P0PF : Nat
  Cx_P0BL : Nat
  Cx_P1PF : Nat
  Cx_P1BL : Nat
  Cx_M0PF : Nat
  Cx_M0BL : Nat
  Cx_M1PF : Nat
  Cx_M1BL : Nat
  Cx_BLPF : Nat
  Cx_P0P1 : Nat
  Cx_M0M1 : Nat

/-- What `TIA::peek` reads from its collaborators: the data-bus value
(`getDataBusState()`, and `getDataBusState(0xFF)` with the noise of undriven
pins), the resistances the left and right controllers report on their analog
pins Nine and Five, the constants `Controller::minimumResistance` and
`Controller::maximumResistance` (`Control.hxx` is not part of the source tree),
the value `needed resistance scanlines` of the floating-point expression
`(uInt32)(1.216e-6 * resistance * myScanlineCountForLastFrame * myFramerate)`,
and the two fire buttons. -/
structure TIAInputs where
  busState : Nat
  busNoise : Nat
  leftNine : Int
  leftFive : Int
  rightNine : Int
  rightFive : Int
  minimumResistance : Int
  maximumResistance : Int
  needed : Int → Nat → Nat
  buttonLeft : Bool
  buttonRight : Bool

/-- `TIA::dumpedInputPort(int resistance)`; the difference
`mySystem->cycles() - myDumpDisabledCycle` is a `uInt32`. -/
def TIA.dumpedInputPort (inp : TIAInputs) (s : TIA) (resistance : Int) : Nat :=
  if resistance = inp.minimumResistance then 0x80
  else if resistance = inp.maximumResistance ∨ s.myDumpEnabled then 0x00
  else
    let needed : Nat := inp.needed resistance s.myScanlineCountForLastFrame
    if toU32 ((s.cycles : Int) - s.myDumpDisabledCycle) > needed then 0x80 else 0x00

/-- The two bits `((collision & hi) ? 0x80 : 0x00) | ((collision & lo) ? 0x40 : 0x00)`. -/
def TIA.collisionBits (collision hi lo : Nat) : Nat :=
  (if collision &&& hi ≠ 0 then 0x80 else 0x00) ||| (if collision &&& lo ≠ 0 then 0x40 else 0x00)

/-- `TIA::peek(uInt16 addr)`: the value read and the new state. -/
def TIA.peek (T : TIATables) (R : TIAReadTables) (inp : TIAInputs) (s : TIA) (addr : Nat) :
    Nat × TIA :=
  let s : TIA := updateFrame T s (clockNow s)
  let value : Nat := 0x3F &&& (if !s.myTIAPinsDriven then inp.busState else inp.busNoise)
  let collision : Nat := s.myCollision &&& (s.myCollisionEnabledMask % 65536)
  match R.readRegister (addr &&& 0x000f) with
  | some TIAReadRegister.CXM0P => (value ||| collisionBits collision R.Cx_M0P1 R.Cx_M0P0, s)
  | some TIAReadRegister.CXM1P => (value ||| collisionBits collision R.Cx_M1P0 R.Cx_M1P1, s)
  | some TIAReadRegister.CXP0FB => (value ||| collisionBits collision R.Cx_P0PF R.Cx_P0BL, s)
  | some TIAReadRegister.CXP1FB => (value ||| collisionBits collision R.Cx_P1PF R.Cx_P1BL, s)
  | some TIAReadRegister.CXM0FB => (value ||| collisionBits collision R.Cx_M0PF R.Cx_M0BL, s)
  | some TIAReadRegister.CXM1FB => (value ||| collisionBits collision R.Cx_M1PF R.Cx_M1BL, s)
  | some TIAReadRegister.CXBLPF =>
    ((value &&& 0x7F) ||| (if collision &&& R.Cx_BLPF ≠ 0 then 0x80 else 0x00), s)
  | some TIAReadRegister.CXPPMM => (value ||| collisionBits collision R.Cx_P0P1 R.Cx_M0M1, s)
  | some TIAReadRegister.INPT0 => ((value &&& 0x7F) ||| dumpedInputPort inp s inp.leftNine, s)
  | some TIAReadRegister.INPT1 => ((value &&& 0x7F) ||| dumpedInputPort inp s inp.leftFive, s)
  | some TIAReadRegister.INPT2 => ((value &&& 0x7F) ||| dumpedInputPort inp s inp.rightNine, s)
  | some TIAReadRegister.INPT3 => ((value &&& 0x7F) ||| dumpedInputPort inp s inp.rightFive, s)
  | some TIAReadRegister.INPT4 =>
    let button : Nat := if inp.buttonLeft then 0x80 else 0x00
    let s : TIA := { s with
      myINPT4 := if s.myVBLANK &&& 0x40 ≠ 0 then s.myINPT4 &&& button else button }
    ((value &&& 0x7F) ||| s.myINPT4, s)
  | some TIAReadRegister.INPT5 =>
    let button : Nat := if inp.buttonRight then 0x80 else 0x00
    let s : TIA := { s with
      myINPT5 := if s.myVBLANK &&& 0x40 ≠ 0 then s.myINPT5 &&& button else button }
    ((value &&& 0x7F) ||| s.myINPT5, s)
  | none => (value, s)

/-- `TIA::systemCyclesReset`: the absolute clocks are moved back by the current
cycle count (`Int32 -= uInt32`).  The sound device is a collaborator and is not
modelled. -/
def TIA.systemCyclesReset (s : TIA) : TIA :=
  let cycles : Nat := s.cycles % 4294967296
  let clocks : Nat := (cycles * 3) % 4294967296
  { s with
    myDumpDisabledCycle := toInt32 (s.myDumpDisabledCycle - cycles),
    myClockWhenFrameStarted := toInt32 (s.myClockWhenFrameStarted - clocks),
    myClockStartDisplay := toInt32 (s.myClockStartDisplay - clocks),
    myClockStopDisplay := toInt32 (s.myClockStopDisplay - clocks),
    myClockAtLastUpdate := toInt32 (s.myClockAtLastUpdate - clocks),
    myVSYNCFinishClock := toInt32 (s.myVSYNCFinishClock - clocks) }

/-- Modelled from the spec: `System::resetCycles` is declared in `System.hxx`,
which is not part of the source tree; every subscriber adjusts its absolute
clock bookkeeping by the subtracted amount (for the TIA: `systemCyclesReset`),
then the cycle counter is zero. -/
def TIA.resetCycles (s : TIA) : TIA :=
  { systemCyclesReset s with cycles := 0 }

/-- The colour registers at the start of a frame when colour loss is enabled:
bit 0 of every object colour is set after a frame with an odd scanline count
and cleared otherwise. -/
def TIA.colorLoss (T : TIATables) (odd : Bool) (color : Nat → Nat) : Nat → Nat :=
  fun i =>
    if i = T.P0Color ∨ i = T.P1Color ∨ i = T.PFColor ∨ i = T.BKColor ∨ i = T.M0Color ∨
        i = T.M1Color ∨ i = T.BLColor then
      (if odd then color i ||| 0x01 else color i &&& 0xfe)
    else color i

/-- `TIA::startFrame`. -/
def TIA.startFrame (T : TIATables) (s : TIA) : TIA :=
  let s : TIA := { s with
    myCurrentFrameBuffer := s.myPreviousFrameBuffer,
    myPreviousFrameBuffer := s.myCurrentFrameBuffer }
  let clocks : Nat :=
    (((s.cycles * 3) % 4294967296 + 4294967296 - toU32 s.myClockWhenFrameStarted)
      % 4294967296) % 228
  let s : TIA := resetCycles s
  let s : TIA := { s with myClockWhenFrameStarted := -(clocks : Int) }
  let s : TIA := { s with
    myClockStartDisplay := s.myClockWhenFrameStarted,
    myClockStopDisplay := toInt32 (s.myClockWhenFrameStarted + s.myStopDisplayOffset),
    myClockAtLastUpdate := s.myClockWhenFrameStarted,
    myClocksToEndOfScanLine := 228,
    myFramePointer := 0,
    myFramePointerClocks := 0 }
  let s : TIA :=
    if s.myColorLossEnabled then
      { s with
        myColor := colorLoss T (decide (s.myScanlineCountForLastFrame &&& 0x01 ≠ 0)) s.myColor }
    else s
  { s with
    myStartScanline := 0,
    myFrameCounter := (s.myFrameCounter + 1) % 4294967296,
    myPALFrameCounter :=
      if s.myScanlineCountForLastFrame ≥ 287 then (s.myPALFrameCounter + 1) % 4294967296
      else s.myPALFrameCounter }

/-- `TIA::endFrame`.  The frame rate (`myFramerate`, a `float`, and the call
`myConsole.setFramerate`) is not modelled. -/
def TIA.endFrame (T : TIATables) (s : TIA) : TIA :=
  let currentlines : Nat := scanlines s
  if currentlines ≤ s.myStartScanline then
    let s : TIA := startFrame T s
    { s with myFrameCounter := (s.myFrameCounter + 4294967295) % 4294967296 }
  else
    let previousCount : Nat := s.myScanlineCountForLastFrame
    let s : TIA := { s with myScanlineCountForLastFrame := currentlines }
    let s : TIA :=
      if s.myScanlineCountForLastFrame > (s.myMaximumNumberOfScanlines + 1) % 4294967296 then
        let s : TIA := { s with myScanlineCountForLastFrame := s.myMaximumNumberOfScanlines }
        if previousCount < s.myMaximumNumberOfScanlines then
          { s with
            myCurrentFrameBuffer := memsetBuf s.myCurrentFrameBuffer 0 (160 * 320) 0,
            myPreviousFrameBuffer := memsetBuf s.myPreviousFrameBuffer 0 (160 * 320) 1 }
        else s
      else if s.myScanlineCountForLastFrame < previousCount ∧
          s.myScanlineCountForLastFrame < 320 ∧ previousCount < 320 then
        { s with
          myCurrentFrameBuffer :=
            memsetBuf s.myCurrentFrameBuffer (s.myScanlineCountForLastFrame * 160)
              ((previousCount - s.myScanlineCountForLastFrame) * 160) 0,
          myPreviousFrameBuffer :=
            memsetBuf s.myPreviousFrameBuffer (s.myScanlineCountForLastFrame * 160)
              ((previousCount - s.myScanlineCountForLastFrame) * 160) 1 }
      else s
    if s.myAutoFrameEnabled then
      if (228 * s.myScanlineCountForLastFrame) % 4294967296 > s.myStopDisplayOffset ∧
          (228 * s.myScanlineCountForLastFrame) % 4294967296 < 228 * 320 then
        { s with myStopDisplayOffset := (228 * s.myScanlineCountForLastFrame) % 4294967296 }
      else s
    else s

/-- Set the system cycle counter, then `peek`: a read made at CPU cycle `c`. -/
def TIA.peekAt (T : TIATables) (R : TIAReadTables) (inp : TIAInputs) (s : TIA) (c addr : Nat) :
    Nat × TIA :=
  TIA.peek T R inp { s with cycles := c } addr

/-- A sample instance of the read-side parameters: the read addresses in the
order of `TIAReadRegister` (`CXM0P` = 0x0 ... `INPT5` = 0xD) and one bit per
collision pair. -/
def sampleReadTables : TIAReadTables where
  readRegister := fun a =>
    [TIAReadRegister.CXM0P, TIAReadRegister.CXM1P, TIAReadRegister.CXP0FB,
     TIAReadRegister.CXP1FB, TIAReadRegister.CXM0FB, TIAReadRegister.CXM1FB,
     TIAReadRegister.CXBLPF, TIAReadRegister.CXPPMM, TIAReadRegister.INPT0,
     TIAReadRegister.INPT1, TIAReadRegister.INPT2, TIAReadRegister.INPT3,
     TIAReadRegister.INPT4, TIAReadRegister.INPT5].get? a
  Cx_M0P1 := 0x0001
  Cx_M0P0 := 0x0002
  Cx_M1P0 := 0x0004
  Cx_M1P1 := 0x0008
  Cx_P0PF := 0x0010
  Cx_P0BL := 0x0020
  Cx_P1PF := 0x0040
  Cx_P1BL := 0x0080
  Cx_M0PF := 0x0100
  Cx_M0BL := 0x0200
  Cx_M1PF := 0x0400
  Cx_M1BL := 0x0800
  Cx_BLPF := 0x1000
  Cx_P0P1 := 0x2000
  Cx_M0M1 := 0x4000

/-- Sample collaborator values: an idle data bus, no paddles (every analog pin
reports the maximum resistance), no buttons; the resistance range is that of
the Stella controllers and the needed charge time is taken as proportional to
the resistance. -/
def sampleInputs : TIAInputs where
  busState := 0
  busNoise := 0
  leftNine := 0x7FFFFFFF
  leftFive := 0x7FFFFFFF
  rightNine := 0x7FFFFFFF
  rightFive := 0x7FFFFFFF
  minimumResistance := 0
  maximumResistance := 0x7FFFFFFF
  needed := fun r n => (r.toNat * n) / 50000
  buttonLeft := false
  buttonRight := false

/-- The sample tables with objects that can be seen and can collide: every
player and missile mask entry is set, and the collision mask of a pixel showing
both player 0 and missile 1 is the bit `Cx_M1P0` of `sampleReadTables`. -/
def collisionTables : TIATables :=
  { sampleTables with
    PxMask := fun _ _ _ => 0xFF,
    MxMask := fun _ _ _ => 1,
    CollisionMask := fun e => if e &&& 0x01 ≠ 0 ∧ e &&& 0x08 ≠ 0 then 0x0004 else 0 }

/-- The colour the spec's reference selects for the objects present in `enabled`
on the half `x` of the screen.  With the priority bit clear the first present
object in the order P0, M0, P1, M1, PF, BL selects the colour, and a selecting
playfield takes the colour of P0 on the left half and of P1 on the right half
when the score bit is set; with the priority bit set the order is PF, BL, P0,
M0, P1, M1 and the score bit is ignored.  The background is selected when no
object is present. -/
def specPriorityColor (T : TIATables) (x enabled : Nat) : Nat :=
  if enabled &&& T.PriorityBit = 0 then
    if enabled &&& T.P0Bit ≠ 0 then T.P0Color
    else if enabled &&& T.M0Bit ≠ 0 then T.M0Color
    else if enabled &&& T.P1Bit ≠ 0 then T.P1Color
    else if enabled &&& T.M1Bit ≠ 0 then T.M1Color
    else if enabled &&& T.PFBit ≠ 0 then
      (if enabled &&& T.ScoreBit ≠ 0 then (if x = 0 then T.P0Color else T.P1Color)
       else T.PFColor)
    else if enabled &&& T.BLBit ≠ 0 then T.BLColor
    else T.BKColor
  else
    if enabled &&& T.PFBit ≠ 0 then T.PFColor
    else if enabled &&& T.BLBit ≠ 0 then T.BLColor
    else if enabled &&& T.P0Bit ≠ 0 then T.P0Color
    else if enabled &&& T.M0Bit ≠ 0 then T.M0Color
    else if enabled &&& T.P1Bit ≠ 0 then T.P1Color
    else if enabled &&& T.M1Bit ≠ 0 then T.M1Color
    else T.BKColor

/-- The state `s` with every field that `updateFrame` and the prologue of `poke`
may write taken from `r`: the clock bookkeeping of the scanline, the
horizontal positions and HMOVE markers, the masks, the suppress flags, the
collision latch, the frame buffer and its pointer, the HMOVE blank flag, and
the CPU stop request with the partial-frame flag. -/
def TIA.withFrame (s r : TIA) : TIA :=
  { s with
    cpuStopped := r.cpuStopped,
    myPartialFrameFlag := r.myPartialFrameFlag,
    myClocksToEndOfScanLine := r.myClocksToEndOfScanLine,
    myClockAtLastUpdate := r.myClockAtLastUpdate,
    myPreviousHMOVEPos := r.myPreviousHMOVEPos,
    myCurrentHMOVEPos := r.myCurrentHMOVEPos,
    myPOSP0 := r.myPOSP0, myPOSP1 := r.myPOSP1, myPOSM0 := r.myPOSM0,
    myPOSM1 := r.myPOSM1, myPOSBL := r.myPOSBL,
    myPFMask := r.myPFMask,
    myP0Mask := r.myP0Mask, myP1Mask := r.myP1Mask, myM0Mask := r.myM0Mask,
    myM1Mask := r.myM1Mask, myBLMask := r.myBLMask,
    mySuppressP0 := r.mySuppressP0, mySuppressP1 := r.mySuppressP1,
    myCollision := r.myCollision,
    myCurrentFrameBuffer := r.myCurrentFrameBuffer,
    myFramePointer := r.myFramePointer,
    myFramePointerClocks := r.myFramePointerClocks,
    myHMOVEBlankEnabled := r.myHMOVEBlankEnabled }

/-- The state `poke` works on after its prologue: the frame is updated to the
clock of the write plus the poke delay, and the CPU is stopped when the frame
has run past the maximum number of scanlines. -/
def TIA.pokeFrame (T : TIATables) (s : TIA) (addr : Nat) : TIA :=
  let addr := addr &&& 0x003f
  let clock : Int := clockNow s
  let delay : Int := T.PokeDelay addr
  let delay : Int :=
    if delay = -1 then
      let x : Int := Int.tmod (clock - s.myClockWhenFrameStarted) 228
      [4, 5, 2, 3].getD ((Int.tdiv x 3) % 4).toNat 0
    else delay
  let s : TIA := updateFrame T s (clock + delay)
  if Int.tdiv (clock - s.myClockWhenFrameStarted) 228 ≥ toInt32 s.myMaximumNumberOfScanlines then
    { s with cpuStopped := true, myPartialFrameFlag := false }
  else s

/-- The eight bits of a byte in reversed order (bit `k` moves to bit `7 - k`),
the reading of "PF1 reversed" in the claim. -/
def reverseBits8 (b : Nat) : Nat :=
  (List.range 8).foldl (fun acc k => acc ||| (if b.testBit k then 2 ^ (7 - k) else 0)) 0

/-- The state of the collision scenario before the write to `CXCLR`: after
`reset` and `startFrame`, player 0 and missile 1 are switched on at CPU cycle 0
(`GRP0 = 0xFF`, `ENAM1 = 0x02`) and a write to `COLUBK` at CPU cycle 76 brings
the frame exactly to the end of the first scanline. -/
def collisionScenario : TIA :=
  TIA.pokeAt collisionTables
    (TIA.pokeAt collisionTables
      (TIA.pokeAt collisionTables
        (TIA.startFrame collisionTables (TIA.reset collisionTables sampleEnv sampleTIA))
        0 0x1B 0xFF)
      0 0x1E 0x02)
    76 0x09 0x00

/-- `Cartridge::bankChanged`, on the base-class members kept with the
`CartridgeF4SC` object: the value of the latch, and the object with the latch
cleared. -/
def Cartridge.bankChanged (c : CartridgeF4SC) : Bool × CartridgeF4SC :=
  let changed := c.myBankChanged
  (changed, { c with myBankChanged := false })

/-- The delay `poke` adds to the clock of a write before it updates the frame:
the entry of `PokeDelay`, or for the playfield registers (entry -1) a value that
depends on the position in the scanline. -/
def TIA.pokeDelay (T : TIATables) (s : TIA) (addr : Nat) : Int :=
  if T.PokeDelay (addr &&& 0x003f) = -1 then
    [4, 5, 2, 3].getD
      ((Int.tdiv (Int.tmod (clockNow s - s.myClockWhenFrameStarted) 228) 3) % 4).toNat 0
  else T.PokeDelay (addr &&& 0x003f)

/-- The horizontal position of a write made at the clock of the state:
`((clock - myClockWhenFrameStarted) % 228) - HBLANK`. -/
def TIA.hposOf (s : TIA) : Int :=
  Int.tmod (clockNow s - s.myClockWhenFrameStarted) 228 - HBLANK

/-- The five motion-clock counters, in the order P0, P1, M0, M1, BL. -/
def TIA.motionClocks (s : TIA) : List Int :=
  [s.myMotionClockP0, s.myMotionClockP1, s.myMotionClockM0, s.myMotionClockM1,
   s.myMotionClockBL]

/-- The five horizontal positions, in the order P0, P1, M0, M1, BL. -/
def TIA.positions (s : TIA) : List Int :=
  [s.myPOSP0, s.myPOSP1, s.myPOSM0, s.myPOSM1, s.myPOSBL]

/-- The five registers `HMP0`, `HMP1`, `HMM0`, `HMM1`, `HMBL`. -/
def TIA.hmRegisters (s : TIA) : List Nat :=
  [s.myHMP0, s.myHMP1, s.myHMM0, s.myHMM1, s.myHMBL]

/-- The five more-motion-required latches, in the order P0, P1, M0, M1, BL. -/
def TIA.moreMotion (s : TIA) : List Bool :=
  [s.myHMP0mmr, s.myHMP1mmr, s.myHMM0mmr, s.myHMM1mmr, s.myHMBLmmr]

/-- The power-on state after an HMOVE at CPU cycle 0 and the write
`HMP0 = 0x90` at CPU cycle 6, which comes too late for the running HMOVE and
sets the more-motion latch of player 0. -/
def hmoveScenario : TIA :=
  TIA.pokeAt sampleTables
    (TIA.pokeAt sampleTables (TIA.reset sampleTables sampleEnv sampleTIA) 0 0x2A 0) 6 0x20 0x90

/-- The resistance `TIA::peek` passes to `dumpedInputPort` for the registers
`INPT0`..`INPT3` (pins Nine and Five of the left and of the right controller);
the maximum resistance for the other registers, which read no paddle. -/
def TIAInputs.portResistance (inp : TIAInputs) : TIAReadRegister → Int
  | TIAReadRegister.INPT0 => inp.leftNine
  | TIAReadRegister.INPT1 => inp.leftFive
  | TIAReadRegister.INPT2 => inp.rightNine
  | TIAReadRegister.INPT3 => inp.rightFive
  | _ => inp.maximumResistance

/-- The power-on state run without a VSYNC to CPU cycle 30400 (scanline 400),
ended by `endFrame`, restarted by `startFrame` and run to CPU cycle 30400
again: the second overrun frame in a row, at the point where `endFrame` is
called. -/
def overrunScenario : TIA :=
  { TIA.startFrame sampleTables
      (TIA.endFrame sampleTables
        { TIA.reset sampleTables sampleEnv sampleTIA with cycles := 30400 }) with
    cycles := 30400 }

/-- The state with the five absolute colour clocks moved back by `k` and the
dump-disabled cycle moved back by `d`: the effect of `systemCyclesReset` when
no 32-bit subtraction wraps. -/
def TIA.shiftClocks (k d : Int) (s : TIA) : TIA :=
  { s with
    myDumpDisabledCycle := s.myDumpDisabledCycle - d,
    myClockWhenFrameStarted := s.myClockWhenFrameStarted - k,
    myClockStartDisplay := s.myClockStartDisplay - k,
    myClockStopDisplay := s.myClockStopDisplay - k,
    myClockAtLastUpdate := s.myClockAtLastUpdate - k,
    myVSYNCFinishClock := s.myVSYNCFinishClock - k }

/-- A value that fits an `Int32`. -/
@[reducible] def inInt32 (x : Int) : Prop := -2147483648 ≤ x ∧ x < 2147483648

/-- The first half of the body of `renderLine`: the pixels of the visible part
of the scanline, for the values of `clocksFromStartOfScanLine` and
`clocksToUpdate` left after the horizontal blank has been skipped. -/
def TIA.renderPixels (T : TIATables) (clocksFromStartOfScanLine clocksToUpdate : Int) (s : TIA) :
    TIA :=
  if clocksToUpdate ≠ 0 then
    let ending : Nat := (s.myFramePointer + clocksToUpdate).toNat
    let s : TIA := { s with
      myFramePointerClocks := toU32 (s.myFramePointerClocks + clocksToUpdate) }
    let s : TIA :=
      if s.myVBLANK &&& 0x02 ≠ 0 then
        { s with
          myCurrentFrameBuffer :=
            memsetBuf s.myCurrentFrameBuffer s.myFramePointer clocksToUpdate.toNat 0 }
      else
        let s : TIA := { s with
          myP0Mask := MaskPtr.px s.mySuppressP0 (s.myNUSIZ0 &&& 0x07) (160 - (s.myPOSP0 % 256)),
          myP1Mask := MaskPtr.px s.mySuppressP1 (s.myNUSIZ1 &&& 0x07) (160 - (s.myPOSP1 % 256)),
          myBLMask := MaskPtr.bl ((s.myCTRLPF &&& 0x30) >>> 4) (160 - (s.myPOSBL % 256)),
          myM0Mask := missileMask s.myHMM0mmr s.myNUSIZ0 s.myPOSM0,
          myM1Mask := missileMask s.myHMM1mmr s.myNUSIZ1 s.myPOSM1 }
        let enabledObjects := s.myEnabledObjects &&& s.myDisabledObjects
        let hpos := toU32 (clocksFromStartOfScanLine - HBLANK)
        pixelLoop T enabledObjects (ending - s.myFramePointer) hpos s
    { s with myFramePointer := ending }
  else s

/-- The second half of the body of `renderLine`: the HMOVE blank, drawn from
the frame pointer `oldFramePointer` the scanline segment started at. -/
def TIA.renderHMOVEBlank (T : TIATables) (oldFramePointer : Nat)
    (clocksFromStartOfScanLine clocksToUpdate : Int) (s : TIA) : TIA :=
  if s.myHMOVEBlankEnabled ∧ HBLANK < HBLANK + 8 ∧
      clocksFromStartOfScanLine < HBLANK + 8 then
    let blanks : Int := (HBLANK + 8) - clocksFromStartOfScanLine
    let s : TIA := { s with
      myCurrentFrameBuffer :=
        memsetBuf s.myCurrentFrameBuffer oldFramePointer blanks.toNat
          (colorPtr s T.HBLANKColor) }
    if clocksToUpdate + clocksFromStartOfScanLine ≥ HBLANK + 8 then
      { s with myHMOVEBlankEnabled := false }
    else s
  else s

/-- The clocks of the horizontal blank that `renderLine` skips. -/
def TIA.blankSkip (clocksFromStartOfScanLine clocksToUpdate : Int) : Int :=
  if clocksFromStartOfScanLine < HBLANK then
    (if HBLANK - clocksFromStartOfScanLine < clocksToUpdate
     then HBLANK - clocksFromStartOfScanLine else clocksToUpdate)
  else 0

/-- `CartridgeF4SC::patch(uInt16 address, uInt8 value)`. -/
def CartridgeF4SC.patch (m : Machine) (address value : Nat) : Bool × Machine :=
  let address := address &&& 0x0FFF
  let cart : CartridgeF4SC :=
    if address < 0x0100 then
      { m.cart with myRAM := Function.update m.cart.myRAM (address &&& 0x007F) value }
    else
      { m.cart with
        myImage := Function.update m.cart.myImage ((m.cart.myCurrentBank <<< 12) + address) value }
  (true, { m with cart := { cart with myBankChanged := true } })

/-- The constructor `CartridgeF4SC::CartridgeF4SC(image, size, settings)` after
the base-class constructor `Cartridge::Cartridge`: the first `min(32768, size)`
bytes of the image are copied into `myImage`, the start bank is 0, the bank
counts as changed and is not locked.  What the constructors leave
uninitialised (the rest of `myImage`, `myRAM`, `myCurrentBank`) is taken from
`raw`. -/
def CartridgeF4SC.construct (raw : CartridgeF4SC) (image : Nat → Nat) (size : Nat) :
    CartridgeF4SC :=
  { raw with
    myImage := fun i => if i < min 32768 size then image i else raw.myImage i,
    myStartBank := 0,
    myBankChanged := true,
    myBankLocked := false }

/-- `CartridgeF4SC::reset()`; `ramrandom` is the setting of that name and
`rand i` the byte the random generator of the system returns for cell `i`. -/
def CartridgeF4SC.reset (ramrandom : Bool) (rand : Nat → Nat) (m : Machine) : Machine :=
  let ram : Nat → Nat :=
    if ramrandom then fun i => if i < 128 then rand i % 256 else m.cart.myRAM i
    else fun i => if i < 128 then 0 else m.cart.myRAM i
  let m1 : Machine := { m with cart := { m.cart with myRAM := ram } }
  (bank m1 m1.cart.myStartBank).2

/-- A call of the public interface of the cartridge. -/
inductive F4SCCall where
  | peek (address : Nat)
  | poke (address value : Nat)
  | patch (address value : Nat)
  | lockBank
  | unlockBank

/-- The state after one call. -/
def F4SCCall.run (m : Machine) : F4SCCall → Machine
  | F4SCCall.peek address => (CartridgeF4SC.peek m address).2
  | F4SCCall.poke address value => (CartridgeF4SC.poke m address value).2
  | F4SCCall.patch address value => (CartridgeF4SC.patch m address value).2
  | F4SCCall.lockBank => { m with cart := m.cart.lockBank }
  | F4SCCall.unlockBank => { m with cart := m.cart.unlockBank }

/-- The state after a sequence of calls. -/
def F4SCCall.runAll (m : Machine) (calls : List F4SCCall) : Machine :=
  calls.foldl F4SCCall.run m

/-- Modelled from the spec: the class `Serializer` is not part of the source
tree.  A save-state stream is the sequence of the items written; an item has
the width of the `put` that wrote it (a string, a 32-bit, 16-bit or 8-bit
value, a boolean, a byte array). -/
inductive Item where
  | str (s : String)
  | int (v : Nat)
  | short (v : Nat)
  | byte (v : Nat)
  | bool (b : Bool)
  | bytes (l : List Nat)
  deriving DecidableEq, Repr

/-- Modelled from the spec: `putString` appends the string. -/
def Serializer.putString (out : List Item) (s : String) : List Item := out ++ [Item.str s]

/-- Modelled from the spec: `putInt` appends a 32-bit value. -/
def Serializer.putInt (out : List Item) (v : Int) : List Item := out ++ [Item.int (v % 4294967296).toNat]

/-- Modelled from the spec: `putShort` appends a 16-bit value. -/
def Serializer.putShort (out : List Item) (v : Int) : List Item := out ++ [Item.short (v % 65536).toNat]

/-- Modelled from the spec: `putByte` appends an 8-bit value. -/
def Serializer.putByte (out : List Item) (v : Nat) : List Item := out ++ [Item.byte (v % 256)]

/-- Modelled from the spec: `putBool` appends a boolean. -/
def Serializer.putBool (out : List Item) (b : Bool) : List Item := out ++ [Item.bool b]

/-- Modelled from the spec: `putByteArray(array, size)` appends the first `size`
bytes of the array. -/
def Serializer.putByteArray (out : List Item) (array : Nat → Nat) (size : Nat) : List Item :=
  out ++ [Item.bytes ((List.range size).map (fun i => array i % 256))]

/-- Modelled from the spec: `getString` reads the next item; it fails (the
exception of the deserializer) when the stream has ended or the next item is
of another kind, as do the other `get` functions. -/
def Serializer.getString : List Item → Option (String × List Item)
  | Item.str s :: rest => some (s, rest)
  | _ => none

/-- Modelled from the spec: `getInt` reads a 32-bit value. -/
def Serializer.getInt : List Item → Option (Nat × List Item)
  | Item.int v :: rest => some (v, rest)
  | _ => none

/-- Modelled from the spec: `getShort` reads a 16-bit value. -/
def Serializer.getShort : List Item → Option (Nat × List Item)
  | Item.short v :: rest => some (v, rest)
  | _ => none

/-- Modelled from the spec: `getByte` reads an 8-bit value. -/
def Serializer.getByte : List Item → Option (Nat × List Item)
  | Item.byte v :: rest => some (v, rest)
  | _ => none

/-- Modelled from the spec: `getBool` reads a boolean. -/
def Serializer.getBool : List Item → Option (Bool × List Item)
  | Item.bool b :: rest => some (b, rest)
  | _ => none

/-- Modelled from the spec: `getByteArray(array, size)` reads a byte array of
`size` bytes into the array; it fails when the array in the stream has
another size. -/
def Serializer.getByteArray (array : Nat → Nat) (size : Nat) :
    List Item → Option ((Nat → Nat) × List Item)
  | Item.bytes l :: rest =>
    if l.length = size then some (fun i => if i < size then l.getD i 0 else array i, rest)
    else none
  | _ => none

/-- `CartridgeF4SC::save(Serializer& out)`; `name` is the result of `name()`,
which is defined in `CartF4SC.hxx`, outside the source tree.  The result is the
return value and the stream. -/
def CartridgeF4SC.save (name : String) (c : CartridgeF4SC) (out : List Item) :
    Bool × List Item :=
  let out := Serializer.putString out name
  let out := Serializer.putShort out c.myCurrentBank
  let out := Serializer.putByteArray out c.myRAM 128
  (true, out)

/-- `CartridgeF4SC::load(Serializer& in)`: the return value, the state and the
rest of the stream.  A failing `get` is the exception caught by `catch(...)`. -/
def CartridgeF4SC.load (name : String) (m : Machine) (inp : List Item) :
    Bool × Machine × List Item :=
  match Serializer.getString inp with
  | none => (false, m, inp)
  | some (s, inp) =>
    if s ≠ name then (false, m, inp)
    else
      match Serializer.getShort inp with
      | none => (false, m, inp)
      | some (b, inp) =>
        let m : Machine := { m with cart := { m.cart with myCurrentBank := b } }
        match Serializer.getByteArray m.cart.myRAM 128 inp with
        | none => (false, m, inp)
        | some (ram, inp) =>
          let m : Machine := { m with cart := { m.cart with myRAM := ram } }
          (true, (bank m m.cart.myCurrentBank).2, inp)

/-- The signature stands in the image at position `p`. -/
def occursAt (image : Nat → Nat) (signature : List Nat) (sigsize p : Nat) : Prop :=
  ∀ j, j < sigsize → image (p + j) = signature.getD j 0

/-- The reading of the claim: the signature occurs at least `minhits` times at
pairwise non-overlapping positions within `image[0 .. imagesize)`.  The
positions are listed in increasing order, each window ending before the next
one starts and inside the image. -/
def specSearchForBytes (image : Nat → Nat) (imagesize : Nat) (signature : List Nat)
    (sigsize minhits : Nat) : Prop :=
  ∃ ps : List Nat, ps.length = minhits ∧
    (∀ p, p ∈ ps → p + sigsize ≤ imagesize ∧ occursAt image signature sigsize p) ∧
    ps.Pairwise (fun p q => p + sigsize ≤ q)

/-- An image with `STA $3F` at offsets 0 and 2 (zero from offset 4 on). -/
def sampleImage3F3F : Nat → Nat := fun i => [0x85, 0x3F, 0x85, 0x3F].getD i 0

/-- Conversion of a 16-bit value to `Int16`. -/
def toInt16 (x : Int) : Int := (x + 32768) % 65536 - 32768

/-- `TIA::save(Serializer& out)`: the return value and the stream.  `name` is
the result of `name()`, defined in `TIA.hxx` outside the source tree; the state
of the sound device (`mySound.save(out)`) is a collaborator's and is not
modelled. -/
def TIA.save (name : String) (s : TIA) (out : List Item) : Bool × List Item :=
  let out := Serializer.putString out name
  let out := Serializer.putInt out s.myClockWhenFrameStarted
  let out := Serializer.putInt out s.myClockStartDisplay
  let out := Serializer.putInt out s.myClockStopDisplay
  let out := Serializer.putInt out s.myClockAtLastUpdate
  let out := Serializer.putInt out s.myClocksToEndOfScanLine
  let out := Serializer.putInt out s.myScanlineCountForLastFrame
  let out := Serializer.putInt out s.myVSYNCFinishClock
  let out := Serializer.putByte out s.myEnabledObjects
  let out := Serializer.putByte out s.myDisabledObjects
  let out := Serializer.putByte out s.myVSYNC
  let out := Serializer.putByte out s.myVBLANK
  let out := Serializer.putByte out s.myNUSIZ0
  let out := Serializer.putByte out s.myNUSIZ1
  let out := Serializer.putByteArray out s.myColor 8
  let out := Serializer.putByte out s.myCTRLPF
  let out := Serializer.putByte out s.myPlayfieldPriorityAndScore
  let out := Serializer.putBool out s.myREFP0
  let out := Serializer.putBool out s.myREFP1
  let out := Serializer.putInt out s.myPF
  let out := Serializer.putByte out s.myGRP0
  let out := Serializer.putByte out s.myGRP1
  let out := Serializer.putByte out s.myDGRP0
  let out := Serializer.putByte out s.myDGRP1
  let out := Serializer.putBool out s.myENAM0
  let out := Serializer.putBool out s.myENAM1
  let out := Serializer.putBool out s.myENABL
  let out := Serializer.putBool out s.myDENABL
  let out := Serializer.putByte out s.myHMP0
  let out := Serializer.putByte out s.myHMP1
  let out := Serializer.putByte out s.myHMM0
  let out := Serializer.putByte out s.myHMM1
  let out := Serializer.putByte out s.myHMBL
  let out := Serializer.putBool out s.myVDELP0
  let out := Serializer.putBool out s.myVDELP1
  let out := Serializer.putBool out s.myVDELBL
  let out := Serializer.putBool out s.myRESMP0
  let out := Serializer.putBool out s.myRESMP1
  let out := Serializer.putShort out s.myCollision
  let out := Serializer.putInt out s.myCollisionEnabledMask
  let out := Serializer.putByte out s.myCurrentGRP0
  let out := Serializer.putByte out s.myCurrentGRP1
  let out := Serializer.putBool out s.myDumpEnabled
  let out := Serializer.putInt out s.myDumpDisabledCycle
  let out := Serializer.putShort out s.myPOSP0
  let out := Serializer.putShort out s.myPOSP1
  let out := Serializer.putShort out s.myPOSM0
  let out := Serializer.putShort out s.myPOSM1
  let out := Serializer.putShort out s.myPOSBL
  let out := Serializer.putInt out s.myMotionClockP0
  let out := Serializer.putInt out s.myMotionClockP1
  let out := Serializer.putInt out s.myMotionClockM0
  let out := Serializer.putInt out s.myMotionClockM1
  let out := Serializer.putInt out s.myMotionClockBL
  let out := Serializer.putInt out s.myStartP0
  let out := Serializer.putInt out s.myStartP1
  let out := Serializer.putInt out s.myStartM0
  let out := Serializer.putInt out s.myStartM1
  let out := Serializer.putByte out s.mySuppressP0
  let out := Serializer.putByte out s.mySuppressP1
  let out := Serializer.putBool out s.myHMP0mmr
  let out := Serializer.putBool out s.myHMP1mmr
  let out := Serializer.putBool out s.myHMM0mmr
  let out := Serializer.putBool out s.myHMM1mmr
  let out := Serializer.putBool out s.myHMBLmmr
  let out := Serializer.putInt out s.myCurrentHMOVEPos
  let out := Serializer.putInt out s.myPreviousHMOVEPos
  let out := Serializer.putBool out s.myHMOVEBlankEnabled
  let out := Serializer.putInt out s.myFrameCounter
  let out := Serializer.putInt out s.myPALFrameCounter
  (true, out)

/-- One statement `member = in.get...()` of a `load` function: the value read by
`get` is assigned by `assign`; nothing is read once a `get` has failed. -/
def TIA.loadStep {α : Type} (get : List Item → Option (α × List Item)) (assign : TIA → α → TIA)
    (st : Option (TIA × List Item)) : Option (TIA × List Item) :=
  match st with
  | none => none
  | some (s, inp) =>
    match get inp with
    | none => none
    | some (v, inp) => some (assign s v, inp)

/-- The statement `in.getByteArray(myColor, 8)` of `TIA::load`. -/
def TIA.loadColor (st : Option (TIA × List Item)) : Option (TIA × List Item) :=
  match st with
  | none => none
  | some (s, inp) =>
    match Serializer.getByteArray s.myColor 8 inp with
    | none => none
    | some (v, inp) => some ({ s with myColor := v }, inp)

/-- `TIA::load(Serializer& in)`: `none` when the function returns false (the
name differs or a `get` raises its exception), otherwise the state after the
call and the rest of the stream.  The members a failing call has assigned
before the failure and the state of the sound device (`mySound.load(in)`) are
not modelled. -/
def TIA.load (T : TIATables) (name : String) (s : TIA) (inp : List Item) :
    Option (TIA × List Item) :=
  match Serializer.getString inp with
  | none => none
  | some (device, inp) =>
    if device ≠ name then none
    else
      let st : Option (TIA × List Item) := some (s, inp)
      let st := loadStep Serializer.getInt (fun s v => { s with myClockWhenFrameStarted := toInt32 v }) st
      let st := loadStep Serializer.getInt (fun s v => { s with myClockStartDisplay := toInt32 v }) st
      let st := loadStep Serializer.getInt (fun s v => { s with myClockStopDisplay := toInt32 v }) st
      let st := loadStep Serializer.getInt (fun s v => { s with myClockAtLastUpdate := toInt32 v }) st
      let st := loadStep Serializer.getInt (fun s v => { s with myClocksToEndOfScanLine := toInt32 v }) st
      let st := loadStep Serializer.getInt (fun s v => { s with myScanlineCountForLastFrame := v }) st
      let st := loadStep Serializer.getInt (fun s v => { s with myVSYNCFinishClock := toInt32 v }) st
      let st := loadStep Serializer.getByte (fun s v => { s with myEnabledObjects := v }) st
      let st := loadStep Serializer.getByte (fun s v => { s with myDisabledObjects := v }) st
      let st := loadStep Serializer.getByte (fun s v => { s with myVSYNC := v }) st
      let st := loadStep Serializer.getByte (fun s v => { s with myVBLANK := v }) st
      let st := loadStep Serializer.getByte (fun s v => { s with myNUSIZ0 := v }) st
      let st := loadStep Serializer.getByte (fun s v => { s with myNUSIZ1 := v }) st
      let st := loadColor st
      let st := loadStep Serializer.getByte (fun s v => { s with myCTRLPF := v }) st
      let st := loadStep Serializer.getByte (fun s v => { s with myPlayfieldPriorityAndScore := v }) st
      let st := loadStep Serializer.getBool (fun s v => { s with myREFP0 := v }) st
      let st := loadStep Serializer.getBool (fun s v => { s with myREFP1 := v }) st
      let st := loadStep Serializer.getInt (fun s v => { s with myPF := v }) st
      let st := loadStep Serializer.getByte (fun s v => { s with myGRP0 := v }) st
      let st := loadStep Serializer.getByte (fun s v => { s with myGRP1 := v }) st
      let st := loadStep Serializer.getByte (fun s v => { s with myDGRP0 := v }) st
      let st := loadStep Serializer.getByte (fun s v => { s with myDGRP1 := v }) st
      let st := loadStep Serializer.getBool (fun s v => { s with myENAM0 := v }) st
      let st := loadStep Serializer.getBool (fun s v => { s with myENAM1 := v }) st
      let st := loadStep Serializer.getBool (fun s v => { s with myENABL := v }) st
      let st := loadStep Serializer.getBool (fun s v => { s with myDENABL := v }) st
      let st := loadStep Serializer.getByte (fun s v => { s with myHMP0 := v }) st
      let st := loadStep Serializer.getByte (fun s v => { s with myHMP1 := v }) st
      let st := loadStep Serializer.getByte (fun s v => { s with myHMM0 := v }) st
      let st := loadStep Serializer.getByte (fun s v => { s with myHMM1 := v }) st
      let st := loadStep Serializer.getByte (fun s v => { s with myHMBL := v }) st
      let st := loadStep Serializer.getBool (fun s v => { s with myVDELP0 := v }) st
      let st := loadStep Serializer.getBool (fun s v => { s with myVDELP1 := v }) st
      let st := loadStep Serializer.getBool (fun s v => { s with myVDELBL := v }) st
      let st := loadStep Serializer.getBool (fun s v => { s with myRESMP0 := v }) st
      let st := loadStep Serializer.getBool (fun s v => { s with myRESMP1 := v }) st
      let st := loadStep Serializer.getShort (fun s v => { s with myCollision := v }) st
      let st := loadStep Serializer.getInt (fun s v => { s with myCollisionEnabledMask := v }) st
      let st := loadStep Serializer.getByte (fun s v => { s with myCurrentGRP0 := v }) st
      let st := loadStep Serializer.getByte (fun s v => { s with myCurrentGRP1 := v }) st
      let st := loadStep Serializer.getBool (fun s v => { s with myDumpEnabled := v }) st
      let st := loadStep Serializer.getInt (fun s v => { s with myDumpDisabledCycle := toInt32 v }) st
      let st := loadStep Serializer.getShort (fun s v => { s with myPOSP0 := toInt16 v }) st
      let st := loadStep Serializer.getShort (fun s v => { s with myPOSP1 := toInt16 v }) st
      let st := loadStep Serializer.getShort (fun s v => { s with myPOSM0 := toInt16 v }) st
      let st := loadStep Serializer.getShort (fun s v => { s with myPOSM1 := toInt16 v }) st
      let st := loadStep Serializer.getShort (fun s v => { s with myPOSBL := toInt16 v }) st
      let st := loadStep Serializer.getInt (fun s v => { s with myMotionClockP0 := toInt32 v }) st
      let st := loadStep Serializer.getInt (fun s v => { s with myMotionClockP1 := toInt32 v }) st
      let st := loadStep Serializer.getInt (fun s v => { s with myMotionClockM0 := toInt32 v }) st
      let st := loadStep Serializer.getInt (fun s v => { s with myMotionClockM1 := toInt32 v }) st
      let st := loadStep Serializer.getInt (fun s v => { s with myMotionClockBL := toInt32 v }) st
      let st := loadStep Serializer.getInt (fun s v => { s with myStartP0 := toInt32 v }) st
      let st := loadStep Serializer.getInt (fun s v => { s with myStartP1 := toInt32 v }) st
      let st := loadStep Serializer.getInt (fun s v => { s with myStartM0 := toInt32 v }) st
      let st := loadStep Serializer.getInt (fun s v => { s with myStartM1 := toInt32 v }) st
      let st := loadStep Serializer.getByte (fun s v => { s with mySuppressP0 := v }) st
      let st := loadStep Serializer.getByte (fun s v => { s with mySuppressP1 := v }) st
      let st := loadStep Serializer.getBool (fun s v => { s with myHMP0mmr := v }) st
      let st := loadStep Serializer.getBool (fun s v => { s with myHMP1mmr := v }) st
      let st := loadStep Serializer.getBool (fun s v => { s with myHMM0mmr := v }) st
      let st := loadStep Serializer.getBool (fun s v => { s with myHMM1mmr := v }) st
      let st := loadStep Serializer.getBool (fun s v => { s with myHMBLmmr := v }) st
      let st := loadStep Serializer.getInt (fun s v => { s with myCurrentHMOVEPos := toInt32 v }) st
      let st := loadStep Serializer.getInt (fun s v => { s with myPreviousHMOVEPos := toInt32 v }) st
      let st := loadStep Serializer.getBool (fun s v => { s with myHMOVEBlankEnabled := v }) st
      let st := loadStep Serializer.getInt (fun s v => { s with myFrameCounter := v }) st
      let st := loadStep Serializer.getInt (fun s v => { s with myPALFrameCounter := v }) st
      match st with
      | none => none
      | some (s, inp) =>
        let s : TIA := enableBits T s true
        let s : TIA := (toggleFixedColors T s 0).2
        let s : TIA := { s with myAllowHMOVEBlanks := true }
        some (s, inp)

/-- The fields written by `TIA::save` lie in the range of the type they are
written with: `Int32` for the values passed to `putInt` as signed, `uInt32` for
the unsigned ones, `uInt8` for `putByte` and the colour array, `uInt16` for the
collision latch and `Int16` for the five positions. -/
def TIA.savedFieldsInRange (s : TIA) : Prop :=
  inInt32 s.myClockWhenFrameStarted ∧
  inInt32 s.myClockStartDisplay ∧
  inInt32 s.myClockStopDisplay ∧
  inInt32 s.myClockAtLastUpdate ∧
  inInt32 s.myClocksToEndOfScanLine ∧
  s.myScanlineCountForLastFrame < 4294967296 ∧
  inInt32 s.myVSYNCFinishClock ∧
  s.myEnabledObjects < 256 ∧
  s.myDisabledObjects < 256 ∧
  s.myVSYNC < 256 ∧
  s.myVBLANK < 256 ∧
  s.myNUSIZ0 < 256 ∧
  s.myNUSIZ1 < 256 ∧
  (∀ i, i < 8 → s.myColor i < 256) ∧
  s.myCTRLPF < 256 ∧
  s.myPlayfieldPriorityAndScore < 256 ∧
  s.myPF < 4294967296 ∧
  s.myGRP0 < 256 ∧
  s.myGRP1 < 256 ∧
  s.myDGRP0 < 256 ∧
  s.myDGRP1 < 256 ∧
  s.myHMP0 < 256 ∧
  s.myHMP1 < 256 ∧
  s.myHMM0 < 256 ∧
  s.myHMM1 < 256 ∧
  s.myHMBL < 256 ∧
  s.myCollision < 65536 ∧
  s.myCollisionEnabledMask < 4294967296 ∧
  s.myCurrentGRP0 < 256 ∧
  s.myCurrentGRP1 < 256 ∧
  inInt32 s.myDumpDisabledCycle ∧
  (-32768 ≤ s.myPOSP0 ∧ s.myPOSP0 < 32768) ∧
  (-32768 ≤ s.myPOSP1 ∧ s.myPOSP1 < 32768) ∧
  (-32768 ≤ s.myPOSM0 ∧ s.myPOSM0 < 32768) ∧
  (-32768 ≤ s.myPOSM1 ∧ s.myPOSM1 < 32768) ∧
  (-32768 ≤ s.myPOSBL ∧ s.myPOSBL < 32768) ∧
  inInt32 s.myMotionClockP0 ∧
  inInt32 s.myMotionClockP1 ∧
  inInt32 s.myMotionClockM0 ∧
  inInt32 s.myMotionClockM1 ∧
  inInt32 s.myMotionClockBL ∧
  inInt32 s.myStartP0 ∧
  inInt32 s.myStartP1 ∧
  inInt32 s.myStartM0 ∧
  inInt32 s.myStartM1 ∧
  s.mySuppressP0 < 256 ∧
  s.mySuppressP1 < 256 ∧
  inInt32 s.myCurrentHMOVEPos ∧
  inInt32 s.myPreviousHMOVEPos ∧
  s.myFrameCounter < 4294967296 ∧
  s.myPALFrameCounter < 4294967296

set_option synthInstance.maxSize 2000 in
set_option synthInstance.maxHeartbeats 400000 in
instance (s : TIA) : Decidable s.savedFieldsInRange := by
  unfold TIA.savedFieldsInRange
  infer_instance

/-- A TIA whose player 0 has been switched off with `toggleBit(P0Bit, 0)` after
a reset. -/
def disabledScenario : TIA :=
  (TIA.toggleBit (TIA.reset sampleTables sampleEnv sampleTIA) sampleTables.P0Bit 0).2

/-- A TIA in which the fire-button latch of `INPT4` is enabled (`VBLANK` bit 6)
and has latched a pressed button. -/
def latchedScenario : TIA := { sampleTIA with myVBLANK := 0x40, myINPT4 := 0 }

/-- A 64 KiB image whose reset vector points at its last byte `0x0C`; the byte
`b` stands at offset `0x10001`, behind the image. -/
def imagePast (b : Nat) : Nat → Nat := fun i =>
  if i = 0xFFFC then 0xFF
  else if i = 0xFFFD then 0xFF
  else if i = 0xFFFF then 0x0C
  else if i = 0x10001 then b
  else 0

/-- The six objects with a bit in `myEnabledObjects`. -/
inductive TIAObject where
  | P0 | M0 | P1 | M1 | BL | PF
  deriving DecidableEq, Repr

/-- The enumerator of `TIABit` that stands for an object. -/
def TIATables.bitOf (T : TIATables) : TIAObject → Nat
  | TIAObject.P0 => T.P0Bit
  | TIAObject.M0 => T.M0Bit
  | TIAObject.P1 => T.P1Bit
  | TIAObject.M1 => T.M1Bit
  | TIAObject.BL => T.BLBit
  | TIAObject.PF => T.PFBit

/-- The object enumerators are six different single bits of a byte. -/
def TIATables.objectBits (T : TIATables) : Prop :=
  (∀ b, b ∈ [T.P0Bit, T.M0Bit, T.P1Bit, T.M1Bit, T.BLBit, T.PFBit] →
    b ∈ [1, 2, 4, 8, 16, 32, 64, 128]) ∧
  [T.P0Bit, T.M0Bit, T.P1Bit, T.M1Bit, T.BLBit, T.PFBit].Nodup

instance (T : TIATables) : Decidable T.objectBits := by
  unfold TIATables.objectBits
  infer_instance

/-- The registers say that the object is to be drawn: a player when its current
graphics byte is not zero, a missile when `ENAMx` is set and `RESMPx` is
clear, the ball when `ENABL` (the delayed `ENABL` under `VDELBL`) is set, the
playfield when the playfield register is not zero. -/
def TIA.objectOn (s : TIA) : TIAObject → Prop
  | TIAObject.P0 => s.myCurrentGRP0 ≠ 0
  | TIAObject.M0 => s.myENAM0 = true ∧ s.myRESMP0 = false
  | TIAObject.P1 => s.myCurrentGRP1 ≠ 0
  | TIAObject.M1 => s.myENAM1 = true ∧ s.myRESMP1 = false
  | TIAObject.BL => (if s.myVDELBL then s.myDENABL else s.myENABL) = true
  | TIAObject.PF => s.myPF ≠ 0

/-- The property of the claim: the current graphics bytes and the mask of
enabled objects agree with the registers. -/
def TIA.derivedStateAgrees (T : TIATables) (s : TIA) : Prop :=
  s.myCurrentGRP0 =
    (if s.myREFP0 then reverseBits8 (if s.myVDELP0 then s.myDGRP0 else s.myGRP0)
     else (if s.myVDELP0 then s.myDGRP0 else s.myGRP0)) ∧
  s.myCurrentGRP1 =
    (if s.myREFP1 then reverseBits8 (if s.myVDELP1 then s.myDGRP1 else s.myGRP1)
     else (if s.myVDELP1 then s.myDGRP1 else s.myGRP1)) ∧
  ∀ o : TIAObject, s.myEnabledObjects &&& T.bitOf o ≠ 0 ↔ s.objectOn o

/-- The graphics registers of the players hold bytes. -/
def TIA.graphicsAreBytes (s : TIA) : Prop :=
  s.myGRP0 < 256 ∧ s.myGRP1 < 256 ∧ s.myDGRP0 < 256 ∧ s.myDGRP1 < 256

/-- A sequence of writes, each given by the CPU cycle at which it is made, the
address and the value. -/
def TIA.pokeAll (T : TIATables) (s : TIA) (writes : List (Nat × Nat × Nat)) : TIA :=
  writes.foldl (fun s w => TIA.pokeAt T s w.1 w.2.1 w.2.2) s

/-- The sample tables with the bit-reversal table for `GRPReflect`. -/
def reflectTables : TIATables := { sampleTables with GRPReflect := reverseBits8 }

/-- A 3000-byte image that is zero except for the 3E signature `85 3E A9 00` in
its last four bytes. -/
def sampleImage3ELast : Nat → Nat := fun i =>
  if i = 2996 then 0x85 else if i = 2997 then 0x3E else if i = 2998 then 0xA9 else 0

/-- One of the two CV signatures `9D FF F3` and `99 00 F4` stands in the image
at an offset below `limit`. -/
def cvSignatureBelow (image : Nat → Nat) (limit : Nat) : Prop :=
  ∃ p, p < limit ∧
    (occursAt image [0x9D, 0xFF, 0xF3] 3 p ∨ occursAt image [0x99, 0x00, 0xF4] 3 p)

/-- The first 256 bytes of the image are identical and the bytes at the offsets
4090 and 4091 are the letters `S` and `C`. -/
def tagged4KSC (image : Nat → Nat) : Prop :=
  (∀ t, t < 255 → image (1 + t) = image 0) ∧ image 4090 = 0x53 ∧ image 4091 = 0x43

/-- An 8 KiB sample image: `STA $3E; LDA #$00` at offset 0, `STA $1FE0` at
offset 4, zero elsewhere. -/
def sampleImage3EE0 : Nat → Nat :=
  fun i => [0x85, 0x3E, 0xA9, 0x00, 0x8D, 0xE0, 0x1F].getD i 0

/-- A concrete installed cartridge used to instantiate the statements: the
image byte at offset `i` is `i % 251`, RAM cell `i` holds `i`, 64-byte pages,
the data-bus latch holds `0x5A` and a read of the floating bus gives `0xDB`. -/
def sampleMachine (locked : Bool) : Machine :=
  ⟨⟨fun i => i % 251, fun i => i, 0, 0, false, locked⟩,
   ⟨6, 0x5A, fun _ => ⟨none, none, 0, PageAccessType.PA_READ⟩, fun zmask => 0xDB &&& zmask⟩⟩

/-! # Theorems -/

/-! ## CartridgeF4SC: bank switching and the RAM ports -/

section F4SC
open CartridgeF4SC

theorem forLoop_preserves {σ : Type} (P : σ → Prop) (step bound : Nat) (body : Nat → σ → σ)
    (h : ∀ i s, P s → P (body i s)) :
    ∀ (fuel i : Nat) (s : σ), P s → P (forLoop step bound body fuel i s) := by
  intro fuel
  induction fuel with
  | zero => intro i s hs; simpa [forLoop] using hs
  | succ n ih =>
    intro i s hs
    unfold forLoop
    split
    · exact ih _ _ (h i s hs)
    · exact hs

theorem bankLoops_frame (sys0 : System) (offset shift fuel1 fuel2 b1 b2 i1 i2 : Nat)
    (acc : PageAccess) :
    sysFrame sys0 (forLoop (1 <<< shift) b2 (bankRomBody offset shift) fuel2 i2
      (forLoop (1 <<< shift) b1 (bankHotspotBody offset shift) fuel1 i1 (acc, sys0))) := by
  apply forLoop_preserves (sysFrame sys0)
  · intro i s hs; exact hs
  apply forLoop_preserves (sysFrame sys0)
  · intro i s hs; exact hs
  exact ⟨rfl, rfl⟩

theorem bank_unlocked (m : Machine) (n : Nat) (hl : m.cart.myBankLocked = false) :
    (bank m n).1 = true ∧ (bank m n).2.cart.myCurrentBank = n % 65536 ∧
    (bank m n).2.cart.myBankChanged = true ∧
    (bank m n).2.cart.myImage = m.cart.myImage ∧ (bank m n).2.cart.myRAM = m.cart.myRAM ∧
    (bank m n).2.cart.myBankLocked = false ∧
    (bank m n).2.sys.myDataBusState = m.sys.myDataBusState ∧
    (bank m n).2.sys.myPageShift = m.sys.myPageShift := by
  have hf := bankLoops_frame m.sys (((n % 65536) <<< 12) % 65536) m.sys.pageShift 0x2000 0x2000
    0x2000 (andNot 0x1FF4 m.sys.pageMask) (andNot 0x1FF4 m.sys.pageMask) 0x1100
    ⟨none, none, 0, PageAccessType.PA_READ⟩
  unfold bank
  rw [show m.cart.bankLocked = false from hl]
  simp only [Bool.false_eq_true, if_false]
  exact ⟨trivial, trivial, trivial, trivial, trivial, hl, hf.1, hf.2⟩

theorem bank_locked (m : Machine) (n : Nat) (hl : m.cart.myBankLocked = true) :
    bank m n = (false, m) := by
  simp [bank, bankLocked, hl]

/-- C1: on an unlocked CartridgeF4SC, `bank(n)` with `n < 8` returns true, and a
following `peek(addr)` whose low 12 bits `a` satisfy `0x100 ≤ a < 0xFF4` or
`0xFFB < a ≤ 0xFFF` returns `image[n*4096 + a]` and leaves the current bank
equal to `n`. -/
theorem C1_bank_then_peek (m : Machine) (n addr : Nat)
    (hl : m.cart.myBankLocked = false) (hn : n < bankCount)
    (ha : (0x100 ≤ addr &&& 0x0FFF ∧ addr &&& 0x0FFF < 0xFF4) ∨
          (0xFFB < addr &&& 0x0FFF ∧ addr &&& 0x0FFF ≤ 0xFFF)) :
    (bank m n).1 = true ∧
    (peek (bank m n).2 addr).1 = m.cart.myImage (n * 4096 + (addr &&& 0x0FFF)) ∧
    (peek (bank m n).2 addr).2.cart.myCurrentBank = n := by
  obtain ⟨h1, h2, -, h4, -, -, -, -⟩ := bank_unlocked m n hl
  have hn' : n % 65536 = n := Nat.mod_eq_of_lt (by unfold bankCount at hn; omega)
  have hhot : ¬ (0x0FF4 ≤ addr &&& 0x0FFF ∧ addr &&& 0x0FFF ≤ 0x0FFB) := by omega
  have hram : ¬ (addr &&& 0x0FFF < 0x0080) := by omega
  refine ⟨h1, ?_, ?_⟩
  · simp only [peek, hhot, hram, if_false, h2, h4, hn', Nat.shiftLeft_eq]
  · simp only [peek, hhot, hram, if_false, h2, hn']

theorem C1_bank_then_peek_witness :
    (bank ⟨⟨fun i => i % 256, fun _ => 0, 0, 0, false, false⟩, ⟨6, 0, fun _ => ⟨none, none, 0, PageAccessType.PA_READ⟩, fun _ => 0⟩⟩ 3).1 = true ∧
    (peek (bank ⟨⟨fun i => i % 256, fun _ => 0, 0, 0, false, false⟩, ⟨6, 0, fun _ => ⟨none, none, 0, PageAccessType.PA_READ⟩, fun _ => 0⟩⟩ 3).2 0x1234).1
      = (fun i => i % 256) (3 * 4096 + (0x1234 &&& 0x0FFF)) ∧
    (peek (bank ⟨⟨fun i => i % 256, fun _ => 0, 0, 0, false, false⟩, ⟨6, 0, fun _ => ⟨none, none, 0, PageAccessType.PA_READ⟩, fun _ => 0⟩⟩ 3).2 0x1234).2.cart.myCurrentBank = 3 :=
  C1_bank_then_peek ⟨⟨fun i => i % 256, fun _ => 0, 0, 0, false, false⟩, ⟨6, 0, fun _ => ⟨none, none, 0, PageAccessType.PA_READ⟩, fun _ => 0⟩⟩ 3 0x1234 rfl (by decide) (by decide)

/-- C2: on an unlocked CartridgeF4SC, for `k < 8`, a `peek` or a `poke` at an
address whose low 12 bits are `0xFF4 + k` sets the current bank to `k`; the
peek returns `image[k*4096 + 0xFF4 + k]` (the byte of the newly selected
bank), the poke returns false and changes no ROM or RAM byte. -/
theorem C2_hotspot_access (m : Machine) (k addr v : Nat)
    (hl : m.cart.myBankLocked = false) (hk : k < 8) (ha : addr &&& 0x0FFF = 0xFF4 + k) :
    (peek m addr).2.cart.myCurrentBank = k ∧
    (peek m addr).1 = m.cart.myImage (k * 4096 + 0xFF4 + k) ∧
    (poke m addr v).2.cart.myCurrentBank = k ∧
    (poke m addr v).1 = false ∧
    (poke m addr v).2.cart.myImage = m.cart.myImage ∧
    (poke m addr v).2.cart.myRAM = m.cart.myRAM := by
  obtain ⟨-, h2, -, h4, h5, -, -, -⟩ := bank_unlocked m k hl
  have hk' : k % 65536 = k := Nat.mod_eq_of_lt (by omega)
  have hhot : 0x0FF4 ≤ 0xFF4 + k ∧ 0xFF4 + k ≤ 0x0FFB := by omega
  have hram : ¬ (0xFF4 + k < 0x0080) := by omega
  have hsub : 0xFF4 + k - 0x0FF4 = k := by omega
  simp only [peek, poke, ha, hhot, hram, and_self, if_true, if_false, hsub, h2, h4, h5, hk',
    Nat.shiftLeft_eq, true_and]
  ring_nf
  exact ⟨trivial, trivial⟩

theorem C2_hotspot_access_witness :
    (peek (sampleMachine false) 0x1FF9).2.cart.myCurrentBank = 5 ∧
    (peek (sampleMachine false) 0x1FF9).1 = (sampleMachine false).cart.myImage (5 * 4096 + 0xFF4 + 5) ∧
    (poke (sampleMachine false) 0x1FF9 0).2.cart.myCurrentBank = 5 ∧
    (poke (sampleMachine false) 0x1FF9 0).1 = false ∧
    (poke (sampleMachine false) 0x1FF9 0).2.cart.myImage = (sampleMachine false).cart.myImage ∧
    (poke (sampleMachine false) 0x1FF9 0).2.cart.myRAM = (sampleMachine false).cart.myRAM :=
  C2_hotspot_access (sampleMachine false) 5 0x1FF9 0 rfl (by decide) (by decide)

/-- C4: on a locked CartridgeF4SC, `bank(n)` returns false for every `n` and
leaves the whole state (in particular the current bank and the bank-changed
flag) as it was; `peek` and `poke` at any address, the hot spots
`0x1FF4..0x1FFB` included, leave the current bank unchanged. -/
theorem C4_locked_bank (m : Machine) (n addr v : Nat)
    (hl : m.cart.myBankLocked = true) :
    (bank m n).1 = false ∧
    (bank m n).2.cart.myCurrentBank = m.cart.myCurrentBank ∧
    (bank m n).2.cart.myBankChanged = m.cart.myBankChanged ∧
    (peek m addr).2.cart.myCurrentBank = m.cart.myCurrentBank ∧
    (poke m addr v).2.cart.myCurrentBank = m.cart.myCurrentBank := by
  have hb : ∀ k, bank m k = (false, m) := fun k => bank_locked m k hl
  refine ⟨by rw [hb], by rw [hb], by rw [hb], ?_, ?_⟩
  · simp only [peek, hb, ite_self]
    split <;> [split; skip] <;> rfl
  · simp only [poke, hb, ite_self]

theorem C4_locked_bank_witness :
    (bank (sampleMachine true) 3).1 = false ∧
    (bank (sampleMachine true) 3).2.cart.myCurrentBank = (sampleMachine true).cart.myCurrentBank ∧
    (bank (sampleMachine true) 3).2.cart.myBankChanged = (sampleMachine true).cart.myBankChanged ∧
    (peek (sampleMachine true) 0x1FF6).2.cart.myCurrentBank = (sampleMachine true).cart.myCurrentBank ∧
    (poke (sampleMachine true) 0x1FF6 0).2.cart.myCurrentBank = (sampleMachine true).cart.myCurrentBank :=
  C4_locked_bank (sampleMachine true) 3 0x1FF6 0 rfl

theorem forLoop_preserves_from {σ : Type} (P : σ → Prop) (step bound lo : Nat)
    (body : Nat → σ → σ) (h : ∀ i s, lo ≤ i → P s → P (body i s)) :
    ∀ (fuel i : Nat) (s : σ), lo ≤ i → P s → P (forLoop step bound body fuel i s) := by
  intro fuel
  induction fuel with
  | zero => intro i s _ hs; simpa [forLoop] using hs
  | succ n ih =>
    intro i s hi hs
    unfold forLoop
    split
    · exact ih _ _ (by omega) (h i s hi hs)
    · exact hs

/-- A page-installing loop that starts on a page boundary writes, for every
page of its range, the record computed from the page's base address. -/
theorem forLoop_setPages (s bound : Nat) (body : Nat → PageAccess × System → PageAccess × System)
    (upd : Nat → PageAccess → PageAccess)
    (hbody : ∀ i st, body i st = (upd i st.1, st.2.setPageAccess (i >>> s) (upd i st.1)))
    (hupd : ∀ i j a, upd i (upd j a) = upd i a) :
    ∀ (fuel q : Nat) (acc : PageAccess) (sys : System), bound ≤ (q + fuel) * 2 ^ s →
      ∀ p, (forLoop (2 ^ s) bound body fuel (q * 2 ^ s) (acc, sys)).2.myPageAccessTable p =
        if q ≤ p ∧ p * 2 ^ s < bound then upd (p * 2 ^ s) acc else sys.myPageAccessTable p := by
  have hpos : 0 < 2 ^ s := Nat.pow_pos (by decide)
  intro fuel
  induction fuel with
  | zero =>
    intro q acc sys hb p
    have : ¬ (q ≤ p ∧ p * 2 ^ s < bound) := by
      rintro ⟨h1, h2⟩
      have := Nat.mul_le_mul_right (2 ^ s) h1
      simp only [Nat.add_zero] at hb
      omega
    simp [forLoop, this]
  | succ n ih =>
    intro q acc sys hb p
    unfold forLoop
    split
    next hlt =>
      have hstep : q * 2 ^ s + 2 ^ s = (q + 1) * 2 ^ s := by ring
      rw [hbody, hstep, ih (q + 1) _ _ (by rw [show q + 1 + n = q + (n + 1) by omega]; exact hb) p]
      simp only [hupd, System.setPageAccess, Nat.shiftRight_eq_div_pow,
        Nat.mul_div_cancel _ hpos, Function.update_apply]
      by_cases hqp : q + 1 ≤ p
      · have h1 : q ≤ p := by omega
        have h2 : p ≠ q := by omega
        simp [hqp, h1, h2]
      · by_cases hpq : p = q
        · subst hpq
          simp [hlt]
        · have h1 : ¬ q ≤ p := by omega
          simp [hqp, hpq, h1]
    next hge =>
      have : ¬ (q ≤ p ∧ p * 2 ^ s < bound) := by
        rintro ⟨h1, h2⟩
        have := Nat.mul_le_mul_right (2 ^ s) h1
        omega
      simp [this]

theorem and_7F (j : Nat) : j &&& 0x007F = j % 128 := Nat.and_pow_two_sub_one_eq_mod j 7

theorem and_1FFF (j : Nat) : j &&& 0x1FFF = j % 8192 := Nat.and_pow_two_sub_one_eq_mod j 13

theorem and_0FFF (j : Nat) : j &&& 0x0FFF = j % 4096 := Nat.and_pow_two_sub_one_eq_mod j 12

/-- `bank` never touches the shift, the data-bus latch, the image or the RAM. -/
theorem bank_frame (m : Machine) (n : Nat) :
    (bank m n).2.sys.myPageShift = m.sys.myPageShift ∧
    (bank m n).2.cart.myImage = m.cart.myImage ∧
    (bank m n).2.cart.myRAM = m.cart.myRAM ∧
    (bank m n).2.cart.myBankLocked = m.cart.myBankLocked := by
  cases hl : m.cart.myBankLocked with
  | true => rw [bank_locked m n hl]; exact ⟨rfl, rfl, rfl, hl⟩
  | false =>
    obtain ⟨-, -, -, h4, h5, h6, -, h8⟩ := bank_unlocked m n hl
    exact ⟨h8, h4, h5, h6⟩

/-- Pages below `0x1100` are not written by `bank`. -/
theorem bank_pages_low (m : Machine) (n p s : Nat) (hs' : m.sys.myPageShift = s) (hs : s ≤ 8)
    (hp : p * 2 ^ s < 0x1100) :
    (bank m n).2.sys.myPageAccessTable p = m.sys.myPageAccessTable p := by
  cases hl : m.cart.myBankLocked with
  | true => rw [bank_locked m n hl]
  | false =>
    unfold bank
    rw [show m.cart.bankLocked = false from hl]
    simp only [Bool.false_eq_true, if_false, System.pageShift, System.pageMask]
    rw [hs']
    have key : ∀ i, 0x1100 ≤ i → p ≠ i >>> s := by
      intro i hi
      rw [Nat.shiftRight_eq_div_pow]
      interval_cases s <;> omega
    have hlo : 0x1100 ≤ andNot 0x1FF4 (2 ^ s - 1) := by
      interval_cases s <;> decide
    apply forLoop_preserves_from
      (fun st : PageAccess × System => st.2.myPageAccessTable p = m.sys.myPageAccessTable p)
      _ _ 0x1100 _ _ _ _ _ (le_refl _)
    · apply forLoop_preserves_from
        (fun st : PageAccess × System => st.2.myPageAccessTable p = m.sys.myPageAccessTable p)
        _ _ 0x1100 _ _ _ _ _ hlo
      · rfl
      · intro i st hi hst
        simp only [bankHotspotBody, System.setPageAccess, Function.update_apply, key i hi,
          if_false, hst]
    · intro i st hi hst
      simp only [bankRomBody, System.setPageAccess, Function.update_apply, key i hi,
        if_false, hst]

/-- The two loops of `install` leave the page shift alone. -/
theorem installLoops_shift (sys : System) (s f1 f2 b1 b2 i1 i2 : Nat) (a1 : PageAccess)
    (g : PageAccess → PageAccess) :
    (forLoop (1 <<< s) b2 (installReadBody s) f2 i2
      (g (forLoop (1 <<< s) b1 (installWriteBody s) f1 i1 (a1, sys)).1,
       (forLoop (1 <<< s) b1 (installWriteBody s) f1 i1 (a1, sys)).2)).2.myPageShift
      = sys.myPageShift := by
  apply forLoop_preserves (fun st : PageAccess × System => st.2.myPageShift = sys.myPageShift)
  · intro i st hst; exact hst
  · apply forLoop_preserves (fun st : PageAccess × System => st.2.myPageShift = sys.myPageShift)
    · intro i st hst; exact hst
    · rfl

/-- The records of the RAM pages after `install`, by page number. -/
theorem install_pages_ram (m : Machine) (s : Nat) (hs' : m.sys.myPageShift = s) (hs : s ≤ 7)
    (p : Nat) (hp : p * 2 ^ s < 0x1100) :
    (install m).sys.myPageAccessTable p =
      if 0x1080 / 2 ^ s ≤ p then
        ⟨some (Ptr.ram ((p * 2 ^ s) &&& 0x007F)), none,
          0x80 + ((p * 2 ^ s) &&& 0x007F), PageAccessType.PA_READ⟩
      else if 0x1000 / 2 ^ s ≤ p then
        ⟨none, some (Ptr.ram ((p * 2 ^ s) &&& 0x007F)),
          (p * 2 ^ s) &&& 0x007F, PageAccessType.PA_WRITE⟩
      else m.sys.myPageAccessTable p := by
  unfold install
  simp only [System.pageShift]
  rw [bank_pages_low _ _ p s ((installLoops_shift m.sys m.sys.myPageShift 0x1080 0x1100 0x1080
    0x1100 0x1000 0x1080 ⟨none, none, 0, PageAccessType.PA_WRITE⟩
    (fun a => { a with directPokeBase := none, type := PageAccessType.PA_READ })).trans hs')
    (by omega) hp]
  rw [hs']
  have h1080 : 0x1080 / 2 ^ s * 2 ^ s = 0x1080 := by interval_cases s <;> decide
  have h1000 : 0x1000 / 2 ^ s * 2 ^ s = 0x1000 := by interval_cases s <;> decide
  have hpos : 0 < 2 ^ s := Nat.pow_pos (by decide)
  have hfuelR : 0x1100 ≤ (0x1080 / 2 ^ s + 0x1100) * 2 ^ s := by
    have := Nat.mul_le_mul_left 0x1100 hpos
    rw [Nat.add_mul]; omega
  have hfuelW : 0x1080 ≤ (0x1000 / 2 ^ s + 0x1080) * 2 ^ s := by
    have := Nat.mul_le_mul_left 0x1080 hpos
    rw [Nat.add_mul]; omega
  have hR := forLoop_setPages s 0x1100 (installReadBody s)
    (fun k a => { a with directPeekBase := some (Ptr.ram (k &&& 0x007F)),
                         codeAccessBase := 0x80 + (k &&& 0x007F) })
    (fun i st => rfl) (fun i j a => rfl) 0x1100 (0x1080 / 2 ^ s)
  have hW := forLoop_setPages s 0x1080 (installWriteBody s)
    (fun k a => { a with directPokeBase := some (Ptr.ram (k &&& 0x007F)),
                         codeAccessBase := k &&& 0x007F })
    (fun i st => rfl) (fun i j a => rfl) 0x1080 (0x1000 / 2 ^ s)
    ⟨none, none, 0, PageAccessType.PA_WRITE⟩ m.sys hfuelW p
  rw [h1080] at hR
  rw [h1000] at hW
  rw [Nat.one_shiftLeft, hR _ _ hfuelR p, hW]
  by_cases h1 : 0x1080 / 2 ^ s ≤ p
  · simp only [h1, hp, and_self, if_true]
  · have h3 : p * 2 ^ s < 0x1080 := by
      have : p * 2 ^ s < 0x1080 / 2 ^ s * 2 ^ s :=
        Nat.mul_lt_mul_of_pos_right (by omega) hpos
      omega
    simp only [h1, h3, and_true, false_and, if_false]

theorem install_frame (m : Machine) :
    (install m).sys.myPageShift = m.sys.myPageShift ∧
    (install m).cart.myImage = m.cart.myImage ∧
    (install m).cart.myRAM = m.cart.myRAM ∧
    (install m).cart.myBankLocked = m.cart.myBankLocked := by
  unfold install
  simp only [System.pageShift]
  refine ⟨?_, (bank_frame _ _).2.1, (bank_frame _ _).2.2.1, (bank_frame _ _).2.2.2⟩
  rw [(bank_frame _ _).1]
  exact installLoops_shift m.sys m.sys.myPageShift 0x1080 0x1100 0x1080
    0x1100 0x1000 0x1080 ⟨none, none, 0, PageAccessType.PA_WRITE⟩
    (fun a => { a with directPokeBase := none, type := PageAccessType.PA_READ })

theorem busPoke_direct_ram (m : Machine) (addr v off : Nat)
    (h : (m.sys.myPageAccessTable ((addr &&& 0x1FFF) >>> m.sys.pageShift)).directPokeBase
      = some (Ptr.ram off)) :
    m.busPoke addr v =
      { cart := { m.cart with
                  myRAM := Function.update m.cart.myRAM (off + (addr &&& m.sys.pageMask)) v },
        sys := { m.sys with myDataBusState := v } } := by
  simp only [Machine.busPoke, h, Machine.store]

theorem busPeek_direct_ram (m : Machine) (addr off : Nat)
    (h : (m.sys.myPageAccessTable ((addr &&& 0x1FFF) >>> m.sys.pageShift)).directPeekBase
      = some (Ptr.ram off)) :
    (m.busPeek addr).1 = m.cart.myRAM (off + (addr &&& m.sys.pageMask)) := by
  simp only [Machine.busPeek, h, Machine.deref]

theorem shift_le_of_dvd (s : Nat) (h : 2 ^ s ∣ 0x80) : s ≤ 7 := by
  by_contra hc
  have h8 : 2 ^ 8 ∣ 2 ^ s := Nat.pow_dvd_pow 2 (by omega)
  have : 2 ^ 8 ∣ 0x80 := Nat.dvd_trans h8 h
  omega

/-- The write-port page of an address `j` in `[0x1000, 0x1080)` after `install`. -/
theorem install_write_page (m : Machine) (s : Nat) (hs' : m.sys.myPageShift = s) (hs : s ≤ 7)
    (j : Nat) (h1 : 0x1000 ≤ j) (h2 : j < 0x1080) :
    ∃ off, (install m).sys.myPageAccessTable (j >>> s)
        = ⟨none, some (Ptr.ram off), off, PageAccessType.PA_WRITE⟩ ∧
      off + (j &&& (2 ^ s - 1)) = j &&& 0x007F := by
  refine ⟨((j >>> s) * 2 ^ s) &&& 0x007F, ?_, ?_⟩
  · rw [install_pages_ram m s hs' hs (j >>> s)
      (by rw [Nat.shiftRight_eq_div_pow]; have := Nat.div_mul_le_self j (2 ^ s); omega)]
    have hA : ¬ (0x1080 / 2 ^ s ≤ j >>> s) := by
      rw [Nat.shiftRight_eq_div_pow]; interval_cases s <;> omega
    have hB : 0x1000 / 2 ^ s ≤ j >>> s := by
      rw [Nat.shiftRight_eq_div_pow]; interval_cases s <;> omega
    simp only [hA, hB, if_true, if_false]
  · rw [and_7F, and_7F, Nat.and_pow_two_sub_one_eq_mod, Nat.shiftRight_eq_div_pow]
    interval_cases s <;> omega

/-- The read-port page of an address `k` in `[0x1080, 0x1100)` after `install`. -/
theorem install_read_page (m : Machine) (s : Nat) (hs' : m.sys.myPageShift = s) (hs : s ≤ 7)
    (k : Nat) (h1 : 0x1080 ≤ k) (h2 : k < 0x1100) :
    ∃ off, (install m).sys.myPageAccessTable (k >>> s)
        = ⟨some (Ptr.ram off), none, 0x80 + off, PageAccessType.PA_READ⟩ ∧
      off + (k &&& (2 ^ s - 1)) = k &&& 0x007F := by
  refine ⟨((k >>> s) * 2 ^ s) &&& 0x007F, ?_, ?_⟩
  · rw [install_pages_ram m s hs' hs (k >>> s)
      (by rw [Nat.shiftRight_eq_div_pow]; have := Nat.div_mul_le_self k (2 ^ s); omega)]
    have hA : 0x1080 / 2 ^ s ≤ k >>> s := by
      rw [Nat.shiftRight_eq_div_pow]; interval_cases s <;> omega
    simp only [hA, if_true]
  · rw [and_7F, and_7F, Nat.and_pow_two_sub_one_eq_mod, Nat.shiftRight_eq_div_pow]
    interval_cases s <;> omega

/-- A byte written through the bus at `0x1000 + x` is read back at `0x1080 + x`. -/
theorem install_write_then_read (m : Machine) (s : Nat) (hs' : m.sys.myPageShift = s)
    (hs : s ≤ 7) (x v : Nat) (hx : x < 0x80) :
    (((install m).busPoke (0x1000 + x) v).busPeek (0x1080 + x)).1 = v ∧
    ((install m).busPoke (0x1000 + x) v).cart.myRAM = Function.update m.cart.myRAM x v := by
  obtain ⟨hsh, -, hram, -⟩ := install_frame m
  obtain ⟨offW, hW, hWo⟩ := install_write_page m s hs' hs (0x1000 + x) (by omega) (by omega)
  obtain ⟨offR, hR, hRo⟩ := install_read_page m s hs' hs (0x1080 + x) (by omega) (by omega)
  have hmW : (0x1000 + x) &&& 0x1FFF = 0x1000 + x := by rw [and_1FFF]; omega
  have hmR : (0x1080 + x) &&& 0x1FFF = 0x1080 + x := by rw [and_1FFF]; omega
  have hxW : (0x1000 + x) &&& 0x007F = x := by rw [and_7F]; omega
  have hxR : (0x1080 + x) &&& 0x007F = x := by rw [and_7F]; omega
  have hpk : (install m).sys.pageShift = s := hsh.trans hs'
  have hpm : (install m).sys.pageMask = 2 ^ s - 1 := by
    show 2 ^ (install m).sys.myPageShift - 1 = _
    rw [hsh, hs']
  have hpoke := busPoke_direct_ram (install m) (0x1000 + x) v offW
    (by rw [hmW, hpk, hW])
  rw [hpm, hWo, hxW, hram] at hpoke
  constructor
  · rw [hpoke, busPeek_direct_ram _ (0x1080 + x) offR
      (by simp only [System.pageShift] at hpk ⊢; rw [hmR, hpk, hR])]
    simp only [System.pageMask]
    rw [hsh, hs', hRo, hxR, Function.update_same]
  · rw [hpoke]

/-- C6: for a CartridgeF4SC installed in a system whose page size divides `0x80`,
every address `j` in `[0x1000, 0x1080)` lies on a write-only direct page whose
base plus the in-page offset of `j` is `RAM[j & 0x7F]`, every address `k` in
`[0x1080, 0x1100)` lies on a read-only direct page onto `RAM[k & 0x7F]`, and hence
for every `x < 0x80` a byte written at `0x1000 + x` is the byte read at
`0x1080 + x`. -/
theorem C6_install_ram_ports (m : Machine) (hs : 2 ^ m.sys.pageShift ∣ 0x80) :
    (∀ j, 0x1000 ≤ j → j < 0x1080 → ∃ off,
      (install m).sys.myPageAccessTable (j >>> m.sys.pageShift)
        = ⟨none, some (Ptr.ram off), off, PageAccessType.PA_WRITE⟩ ∧
      off + (j &&& m.sys.pageMask) = j &&& 0x007F) ∧
    (∀ k, 0x1080 ≤ k → k < 0x1100 → ∃ off,
      (install m).sys.myPageAccessTable (k >>> m.sys.pageShift)
        = ⟨some (Ptr.ram off), none, 0x80 + off, PageAccessType.PA_READ⟩ ∧
      off + (k &&& m.sys.pageMask) = k &&& 0x007F) ∧
    (∀ x v, x < 0x80 →
      (((install m).busPoke (0x1000 + x) v).busPeek (0x1080 + x)).1 = v) :=
  ⟨fun j h1 h2 => install_write_page m _ rfl (shift_le_of_dvd _ hs) j h1 h2,
   fun k h1 h2 => install_read_page m _ rfl (shift_le_of_dvd _ hs) k h1 h2,
   fun x v hx => (install_write_then_read m _ rfl (shift_le_of_dvd _ hs) x v hx).1⟩

theorem C6_install_ram_ports_witness :
    2 ^ (sampleMachine false).sys.pageShift ∣ 0x80 ∧
    (((install (sampleMachine false)).busPoke 0x1040 0x5A).busPeek 0x10C0).1 = 0x5A :=
  ⟨by decide, (C6_install_ram_ports (sampleMachine false) (by decide)).2.2 0x40 0x5A (by decide)⟩

theorem andNot_hotspot (s : Nat) (hs : s ≤ 7) :
    andNot 0x1FF4 (2 ^ s - 1) = 0x1FF4 / 2 ^ s * 2 ^ s := by
  interval_cases s <;> decide

/-- The records of the ROM and hot-spot pages after an unlocked `bank`. -/
theorem bank_pages_high (m : Machine) (n s : Nat) (hl : m.cart.myBankLocked = false)
    (hs' : m.sys.myPageShift = s) (hs : s ≤ 7) (p : Nat)
    (h1 : 0x1100 / 2 ^ s ≤ p) (h2 : p * 2 ^ s < 0x2000) :
    (bank m n).2.sys.myPageAccessTable p =
      if p * 2 ^ s < andNot 0x1FF4 (2 ^ s - 1) then
        ⟨some (Ptr.image (((n % 65536) <<< 12) % 65536 + ((p * 2 ^ s) &&& 0x0FFF))), none,
          ((n % 65536) <<< 12) % 65536 + ((p * 2 ^ s) &&& 0x0FFF), PageAccessType.PA_READ⟩
      else
        ⟨none, none, ((n % 65536) <<< 12) % 65536 + ((p * 2 ^ s) &&& 0x0FFF),
          PageAccessType.PA_READ⟩ := by
  unfold bank
  rw [show m.cart.bankLocked = false from hl]
  simp only [Bool.false_eq_true, if_false, System.pageShift, System.pageMask]
  rw [hs', Nat.one_shiftLeft]
  have hH : 0x1FF4 / 2 ^ s * 2 ^ s = andNot 0x1FF4 (2 ^ s - 1) := by
    interval_cases s <;> decide
  have h1100 : 0x1100 / 2 ^ s * 2 ^ s = 0x1100 := by interval_cases s <;> decide
  have hpos : 0 < 2 ^ s := Nat.pow_pos (by decide)
  have hfuel1 : 0x2000 ≤ (0x1FF4 / 2 ^ s + 0x2000) * 2 ^ s := by
    have := Nat.mul_le_mul_left 0x2000 hpos
    rw [Nat.add_mul]; omega
  have hHle : andNot 0x1FF4 (2 ^ s - 1) ≤ 0x2000 := by interval_cases s <;> decide
  have hfuel2 : andNot 0x1FF4 (2 ^ s - 1) ≤ (0x1100 / 2 ^ s + 0x2000) * 2 ^ s := by
    have := Nat.mul_le_mul_left 0x2000 hpos
    rw [Nat.add_mul]; omega
  generalize hoff : ((n % 65536) <<< 12) % 65536 = offset
  have hHot := forLoop_setPages s 0x2000 (bankHotspotBody offset s)
    (fun i a => { a with codeAccessBase := offset + (i &&& 0x0FFF) })
    (fun i st => rfl) (fun i j a => rfl) 0x2000 (0x1FF4 / 2 ^ s)
    ⟨none, none, 0, PageAccessType.PA_READ⟩ m.sys hfuel1 p
  have hRom := forLoop_setPages s (andNot 0x1FF4 (2 ^ s - 1)) (bankRomBody offset s)
    (fun i a => { a with directPeekBase := some (Ptr.image (offset + (i &&& 0x0FFF))),
                         codeAccessBase := offset + (i &&& 0x0FFF) })
    (fun i st => rfl) (fun i j a => rfl) 0x2000 (0x1100 / 2 ^ s)
    (forLoop (2 ^ s) 0x2000 (bankHotspotBody offset s) 0x2000 (andNot 0x1FF4 (2 ^ s - 1))
      ((⟨none, none, 0, PageAccessType.PA_READ⟩ : PageAccess), m.sys)).1
    (forLoop (2 ^ s) 0x2000 (bankHotspotBody offset s) 0x2000 (andNot 0x1FF4 (2 ^ s - 1))
      ((⟨none, none, 0, PageAccessType.PA_READ⟩ : PageAccess), m.sys)).2 hfuel2 p
  have hacc : (forLoop (2 ^ s) 0x2000 (bankHotspotBody offset s) 0x2000
      (andNot 0x1FF4 (2 ^ s - 1))
      ((⟨none, none, 0, PageAccessType.PA_READ⟩ : PageAccess), m.sys)).1.directPokeBase = none ∧
      (forLoop (2 ^ s) 0x2000 (bankHotspotBody offset s) 0x2000
      (andNot 0x1FF4 (2 ^ s - 1))
      ((⟨none, none, 0, PageAccessType.PA_READ⟩ : PageAccess), m.sys)).1.type
        = PageAccessType.PA_READ := by
    apply forLoop_preserves (fun st : PageAccess × System =>
      st.1.directPokeBase = none ∧ st.1.type = PageAccessType.PA_READ)
    · intro i st hst; exact hst
    · exact ⟨rfl, rfl⟩
  rw [h1100, Prod.mk.eta] at hRom
  rw [hH] at hHot
  rw [hRom, hHot]
  by_cases hc : p * 2 ^ s < andNot 0x1FF4 (2 ^ s - 1)
  · simp only [h1, hc, and_self, if_true, hacc.1, hacc.2]
  · have h3 : 0x1FF4 / 2 ^ s ≤ p := by
      by_contra hn
      have : p * 2 ^ s < 0x1FF4 / 2 ^ s * 2 ^ s :=
        Nat.mul_lt_mul_of_pos_right (by omega) hpos
      omega
    simp only [hc, h2, h3, and_false, and_self, if_true, if_false]

theorem poke_ram_unchanged (m : Machine) (a v : Nat) :
    (poke m a v).2.cart.myRAM = m.cart.myRAM := by
  unfold poke
  simp only
  split
  · exact (bank_frame _ _).2.2.1
  · rfl

theorem peek_ram_unchanged (m : Machine) (a : Nat) (h : ¬ (a &&& 0x0FFF < 0x0080)) :
    (peek m a).2.cart.myRAM = m.cart.myRAM := by
  unfold peek
  simp only [h, if_false]
  split
  · exact (bank_frame _ _).2.2.1
  · rfl

/-- The record of a page in `[0x1100, 0x2000)` after `install` on an unlocked
cartridge. -/
theorem install_pages_high (m : Machine) (s : Nat) (hl : m.cart.myBankLocked = false)
    (hs' : m.sys.myPageShift = s) (hs : s ≤ 7) (p : Nat)
    (h1 : 0x1100 / 2 ^ s ≤ p) (h2 : p * 2 ^ s < 0x2000) :
    (install m).sys.myPageAccessTable p =
      if p * 2 ^ s < andNot 0x1FF4 (2 ^ s - 1) then
        ⟨some (Ptr.image (((m.cart.myStartBank % 65536) <<< 12) % 65536
            + ((p * 2 ^ s) &&& 0x0FFF))), none,
          ((m.cart.myStartBank % 65536) <<< 12) % 65536 + ((p * 2 ^ s) &&& 0x0FFF),
          PageAccessType.PA_READ⟩
      else
        ⟨none, none,
          ((m.cart.myStartBank % 65536) <<< 12) % 65536 + ((p * 2 ^ s) &&& 0x0FFF),
          PageAccessType.PA_READ⟩ := by
  unfold install
  simp only [System.pageShift]
  refine bank_pages_high _ _ s ?_ ?_ hs p h1 h2
  · exact hl
  · exact (installLoops_shift m.sys m.sys.myPageShift 0x1080 0x1100
      0x1080 0x1100 0x1000 0x1080 ⟨none, none, 0, PageAccessType.PA_WRITE⟩
      (fun a => { a with directPokeBase := none, type := PageAccessType.PA_READ })).trans hs'

/-- Bus accesses in `[0x1100, 0x2000)` after `install`: no RAM byte changes, and
below the hot-spot page a read returns the ROM byte of the start bank. -/
theorem install_rom_access (m : Machine) (s : Nat) (hl : m.cart.myBankLocked = false)
    (hs' : m.sys.myPageShift = s) (hs : s ≤ 7) (hb : m.cart.myStartBank < 8)
    (a : Nat) (h1 : 0x1100 ≤ a) (h2 : a < 0x2000) :
    (∀ v, ((install m).busPoke a v).cart.myRAM = m.cart.myRAM) ∧
    ((install m).busPeek a).2.cart.myRAM = m.cart.myRAM ∧
    (a < andNot 0x1FF4 (2 ^ s - 1) →
      ((install m).busPeek a).1 = m.cart.myImage (m.cart.myStartBank * 4096 + (a - 0x1000))) := by
  obtain ⟨hsh, himg, hram, -⟩ := install_frame m
  have hpk : (install m).sys.pageShift = s := hsh.trans hs'
  have hpm : (install m).sys.pageMask = 2 ^ s - 1 := by
    show 2 ^ (install m).sys.myPageShift - 1 = _
    rw [hsh, hs']
  have hma : a &&& 0x1FFF = a := by rw [and_1FFF]; omega
  have hpage := install_pages_high m s hl hs' hs (a >>> s)
    (by rw [Nat.shiftRight_eq_div_pow]; interval_cases s <;> omega)
    (by rw [Nat.shiftRight_eq_div_pow]; have := Nat.div_mul_le_self a (2 ^ s); omega)
  have hnotram : ¬ (a &&& 0x0FFF < 0x0080) := by rw [and_0FFF]; omega
  have hoff : ((m.cart.myStartBank % 65536) <<< 12) % 65536 = m.cart.myStartBank * 4096 := by
    rw [Nat.shiftLeft_eq]; omega
  rw [hoff] at hpage
  by_cases hc : (a >>> s) * 2 ^ s < andNot 0x1FF4 (2 ^ s - 1)
  · rw [if_pos hc] at hpage
    have hac : a < andNot 0x1FF4 (2 ^ s - 1) := by
      rw [Nat.shiftRight_eq_div_pow, andNot_hotspot s hs] at hc
      rw [andNot_hotspot s hs]
      interval_cases s <;> omega
    refine ⟨fun v => ?_, ?_, fun _ => ?_⟩
    · simp only [Machine.busPoke, hma, hpk, hpage]
      rw [poke_ram_unchanged, hram]
    · simp only [Machine.busPeek, hma, hpk, hpage]
      exact hram
    · simp only [Machine.busPeek, hma, hpk, hpage, Machine.deref, hpm, himg]
      apply congrArg
      rw [and_0FFF, Nat.and_pow_two_sub_one_eq_mod, Nat.shiftRight_eq_div_pow]
      interval_cases s <;> omega
  · rw [if_neg hc] at hpage
    have hac : ¬ (a < andNot 0x1FF4 (2 ^ s - 1)) := by
      rw [Nat.shiftRight_eq_div_pow, andNot_hotspot s hs] at hc
      rw [andNot_hotspot s hs]
      interval_cases s <;> omega
    refine ⟨fun v => ?_, ?_, fun h => absurd h hac⟩
    · simp only [Machine.busPoke, hma, hpk, hpage]
      rw [poke_ram_unchanged, hram]
    · simp only [Machine.busPeek, hma, hpk, hpage]
      rw [peek_ram_unchanged _ _ hnotram, hram]

/-- C7 (as stated) fails: after `install` on the sample machine (64-byte pages,
`RAM[i] = i`), the mirror base `0x1100` carries no RAM port: a write at `0x1140`
does not reach `RAM[0x40]`, so the ports are not mirrored at every 256-byte
boundary. -/
theorem C7_mirror_counterexample :
    ¬ (∀ b x v : Nat, b ∈ List.map (fun k => 0x1000 + 0x100 * k) (List.range 16) → x < 0x80 →
        ((install (sampleMachine false)).busPoke (b + x) v).cart.myRAM x = v ∧
        (((install (sampleMachine false)).busPoke (b + x) v).busPeek (b + 0x80 + x)).1 = v) := by
  intro h
  have h1 := (h 0x1100 0x40 0x77 (by decide) (by decide)).1
  have h2 := (install_rom_access (sampleMachine false) 6 rfl rfl (by decide) (by decide)
    (0x1100 + 0x40) (by decide) (by decide)).1 0x77
  rw [h2] at h1
  exact absurd h1 (by decide)

/-- C7 (amended): the superchip RAM ports of a CartridgeF4SC exist once, at the
base of the 4 KiB window, and are not mirrored.  With a page size dividing
`0x80`, an unlocked cartridge and a start bank below 8: for `x < 0x80` a write at
`0x1000 + x` stores into `RAM[x]` and a read at `0x1080 + x` returns `RAM[x]`;
for every address `a` in `[0x1100, 0x2000)` (all other 256-byte bases) a write
and a read change no RAM byte, and below the hot-spot page the read returns the
ROM byte `image[bank*4096 + (a - 0x1000)]` of the start bank. -/
theorem C7_ram_ports_only_at_base (m : Machine) (hs : 2 ^ m.sys.pageShift ∣ 0x80)
    (hl : m.cart.myBankLocked = false) (hb : m.cart.myStartBank < bankCount) :
    (∀ x v, x < 0x80 →
      ((install m).busPoke (0x1000 + x) v).cart.myRAM = Function.update m.cart.myRAM x v) ∧
    (∀ x, x < 0x80 → ((install m).busPeek (0x1080 + x)).1 = m.cart.myRAM x) ∧
    (∀ a v, 0x1100 ≤ a → a < 0x2000 → ((install m).busPoke a v).cart.myRAM = m.cart.myRAM) ∧
    (∀ a, 0x1100 ≤ a → a < 0x2000 → ((install m).busPeek a).2.cart.myRAM = m.cart.myRAM) ∧
    (∀ a, 0x1100 ≤ a → a < andNot 0x1FF4 m.sys.pageMask →
      ((install m).busPeek a).1 = m.cart.myImage (m.cart.myStartBank * 4096 + (a - 0x1000))) := by
  have hs7 := shift_le_of_dvd _ hs
  have hHle : andNot 0x1FF4 m.sys.pageMask ≤ 0x2000 := by
    show andNot 0x1FF4 (2 ^ m.sys.myPageShift - 1) ≤ 0x2000
    simp only [System.pageShift] at hs7
    generalize m.sys.myPageShift = s at hs7
    interval_cases s <;> decide
  refine ⟨fun x v hx => (install_write_then_read m _ rfl hs7 x v hx).2, ?_,
    fun a v h1 h2 => (install_rom_access m _ hl rfl hs7 hb a h1 h2).1 v,
    fun a h1 h2 => (install_rom_access m _ hl rfl hs7 hb a h1 h2).2.1,
    fun a h1 h2 => (install_rom_access m _ hl rfl hs7 hb a h1 (by omega)).2.2 h2⟩
  intro x hx
  obtain ⟨hsh, -, hram, -⟩ := install_frame m
  obtain ⟨offR, hR, hRo⟩ := install_read_page m _ rfl hs7 (0x1080 + x) (by omega) (by omega)
  have hmR : (0x1080 + x) &&& 0x1FFF = 0x1080 + x := by rw [and_1FFF]; omega
  have hxR : (0x1080 + x) &&& 0x007F = x := by rw [and_7F]; omega
  rw [busPeek_direct_ram _ (0x1080 + x) offR
    (by simp only [System.pageShift] at hR ⊢; rw [hmR, hsh, hR])]
  simp only [System.pageMask]
  rw [hsh, hRo, hxR, hram]

theorem C7_ram_ports_only_at_base_witness :
    ((install (sampleMachine false)).busPoke 0x1140 0x77).cart.myRAM
      = (sampleMachine false).cart.myRAM ∧
    ((install (sampleMachine false)).busPeek 0x11C0).1
      = (sampleMachine false).cart.myImage ((sampleMachine false).cart.myStartBank * 4096
          + (0x11C0 - 0x1000)) :=
  ⟨(C7_ram_ports_only_at_base (sampleMachine false) (by decide) rfl (by decide)).2.2.1
      0x1140 0x77 (by decide) (by decide),
   (C7_ram_ports_only_at_base (sampleMachine false) (by decide) rfl (by decide)).2.2.2.2
      0x11C0 (by decide) (by decide)⟩

theorem bankChanged_iterate (c : CartridgeF4SC) :
    ∀ k, ((fun x => (Cartridge.bankChanged x).2)^[k + 1] c).myBankChanged = false := by
  intro k
  induction k with
  | zero => rfl
  | succ k ih =>
    rw [Function.iterate_succ_apply']
    rfl

/-- C30: `bankChanged()` returns the bank-changed latch and clears it, leaving
the rest of the cartridge alone; after a successful `bank(n)` on an unlocked
CartridgeF4SC the first call returns true and the call after any number
`k + 1` of calls returns false. -/
theorem C30_bankChanged_once (m : Machine) (n : Nat) (hl : m.cart.myBankLocked = false) :
    (∀ c : CartridgeF4SC, (Cartridge.bankChanged c).1 = c.myBankChanged ∧
      (Cartridge.bankChanged c).2 = { c with myBankChanged := false }) ∧
    (bank m n).1 = true ∧
    (Cartridge.bankChanged (bank m n).2.cart).1 = true ∧
    (∀ k, (Cartridge.bankChanged
      ((fun x => (Cartridge.bankChanged x).2)^[k + 1] (bank m n).2.cart)).1 = false) := by
  obtain ⟨h1, -, h3, -⟩ := bank_unlocked m n hl
  refine ⟨fun c => ⟨rfl, rfl⟩, h1, h3, fun k => ?_⟩
  exact bankChanged_iterate _ k

theorem C30_bankChanged_once_witness :
    (Cartridge.bankChanged (bank (sampleMachine false) 3).2.cart).1 = true ∧
    (Cartridge.bankChanged
      (Cartridge.bankChanged (bank (sampleMachine false) 3).2.cart).2).1 = false :=
  ⟨(C30_bankChanged_once (sampleMachine false) 3 rfl).2.2.1,
   (C30_bankChanged_once (sampleMachine false) 3 rfl).2.2.2 0⟩

theorem and_0FFF_7F (a : Nat) : (a &&& 0x0FFF) &&& 0x007F = a &&& 0x007F := by
  rw [Nat.and_assoc]
  rfl

theorem patch_bank (m : Machine) (addr v : Nat) :
    (patch m addr v).2.cart.myCurrentBank = m.cart.myCurrentBank ∧
    (patch m addr v).2.cart.myBankLocked = m.cart.myBankLocked ∧
    (patch m addr v).2.sys = m.sys := by
  unfold patch
  dsimp only
  split <;> exact ⟨rfl, rfl, rfl⟩

/-- C31: `patch(addr, v)` returns true.  If `(addr & 0x0FFF) < 0x100` it stores
`v` in `RAM[addr & 0x7F]`, in the write-port half and in the read-port half
alike, and leaves the image alone; otherwise it stores `v` in
`image[bank*4096 + (addr & 0x0FFF)]` and leaves the RAM alone, and a later
`peek` of `addr`, if `addr` is no hot spot, returns `v` and stays in the bank.
No other RAM or image byte changes, and the bank is kept. -/
theorem C31_patch (m : Machine) (addr v : Nat) :
    (patch m addr v).1 = true ∧
    (patch m addr v).2.cart.myCurrentBank = m.cart.myCurrentBank ∧
    (addr &&& 0x0FFF < 0x100 →
      (patch m addr v).2.cart.myRAM = Function.update m.cart.myRAM (addr &&& 0x7F) v ∧
      (patch m addr v).2.cart.myImage = m.cart.myImage) ∧
    (¬ addr &&& 0x0FFF < 0x100 →
      (patch m addr v).2.cart.myImage =
        Function.update m.cart.myImage (m.cart.myCurrentBank * 4096 + (addr &&& 0x0FFF)) v ∧
      (patch m addr v).2.cart.myRAM = m.cart.myRAM ∧
      (¬ (0x0FF4 ≤ addr &&& 0x0FFF ∧ addr &&& 0x0FFF ≤ 0x0FFB) →
        (peek (patch m addr v).2 addr).1 = v ∧
        (peek (patch m addr v).2 addr).2.cart.myCurrentBank = m.cart.myCurrentBank)) := by
  refine ⟨rfl, (patch_bank m addr v).1, fun h => ?_, fun h => ?_⟩
  · unfold patch
    dsimp only
    rw [if_pos h, and_0FFF_7F]
    exact ⟨rfl, rfl⟩
  · have e : (patch m addr v).2 =
        { m with cart := { m.cart with
            myImage := Function.update m.cart.myImage
              (m.cart.myCurrentBank * 4096 + (addr &&& 0x0FFF)) v,
            myBankChanged := true } } := by
      unfold patch
      dsimp only
      rw [if_neg h, Nat.shiftLeft_eq]
    rw [e]
    refine ⟨rfl, rfl, fun hh => ?_⟩
    unfold peek
    dsimp only
    rw [if_neg hh, if_neg (by omega)]
    dsimp only
    rw [Nat.shiftLeft_eq]
    exact ⟨Function.update_same _ _ _, rfl⟩

theorem C31_patch_witness :
    (peek (patch (sampleMachine false) 0x1234 0x42).2 0x1234).1 = 0x42 :=
  ((C31_patch (sampleMachine false) 0x1234 0x42).2.2.2 (by decide)).2.2 (by decide) |>.1

theorem bank_current (m : Machine) (n : Nat) (hn : n < 8) (hb : m.cart.myCurrentBank < 8) :
    (bank m n).2.cart.myCurrentBank < 8 := by
  cases hl : m.cart.myBankLocked with
  | true => rw [bank_locked m n hl]; exact hb
  | false =>
    rw [(bank_unlocked m n hl).2.1]
    omega

theorem peek_current (m : Machine) (address : Nat) (hb : m.cart.myCurrentBank < 8) :
    (peek m address).2.cart.myCurrentBank < 8 := by
  unfold peek
  dsimp only
  split_ifs <;> first | exact hb | exact bank_current m _ (by omega) hb

theorem poke_current (m : Machine) (address value : Nat) (hb : m.cart.myCurrentBank < 8) :
    (poke m address value).2.cart.myCurrentBank < 8 := by
  unfold poke
  dsimp only
  split_ifs with h1
  · exact bank_current m _ (by omega) hb
  · exact hb

theorem run_current (m : Machine) (c : F4SCCall) (hb : m.cart.myCurrentBank < 8) :
    (F4SCCall.run m c).cart.myCurrentBank < 8 := by
  cases c with
  | peek address => exact peek_current m address hb
  | poke address value => exact poke_current m address value hb
  | patch address value => exact lt_of_eq_of_lt (patch_bank m address value).1 hb
  | lockBank => exact hb
  | unlockBank => exact hb

theorem runAll_current (calls : List F4SCCall) :
    ∀ m : Machine, m.cart.myCurrentBank < 8 →
      (F4SCCall.runAll m calls).cart.myCurrentBank < 8 := by
  induction calls with
  | nil => intro m hb; exact hb
  | cons c l ih => intro m hb; exact ih _ (run_current m c hb)

theorem bank_start (m : Machine) (hl : m.cart.myBankLocked = false)
    (hs : m.cart.myStartBank = 0) :
    (bank m m.cart.myStartBank).2.cart.myCurrentBank = 0 ∧
    (bank m m.cart.myStartBank).2.cart.myBankLocked = false ∧
    (bank m m.cart.myStartBank).2.cart.myStartBank = 0 := by
  obtain ⟨-, h2, -, -, -, h6, -, -⟩ := bank_unlocked m m.cart.myStartBank hl
  refine ⟨by rw [h2, hs], h6, ?_⟩
  unfold bank
  rw [show m.cart.bankLocked = false from hl]
  exact hs

/-- C40: after the constructor, `install` and `reset`, every sequence of calls
of `peek`, `poke`, `patch`, `lockBank` and `unlockBank` leaves the current bank
below 8; so for every address the image index
`(bank << 12) + (addr & 0x0FFF)` of `peek` and `patch` is below 32768, and the
RAM indices, `addr & 0x0FFF` below `0x80` in `peek` and `addr & 0x7F` in
`patch`, are below 128. -/
theorem C40_bank_below_8 (raw : CartridgeF4SC) (image : Nat → Nat) (size : Nat) (sys : System)
    (ramrandom : Bool) (rand : Nat → Nat) (calls : List F4SCCall) (addr : Nat) :
    (F4SCCall.runAll
      (reset ramrandom rand (install ⟨construct raw image size, sys⟩)) calls).cart.myCurrentBank
        < 8 ∧
    ((F4SCCall.runAll
      (reset ramrandom rand (install ⟨construct raw image size, sys⟩)) calls).cart.myCurrentBank
        <<< 12) + (addr &&& 0x0FFF) < 32768 ∧
    (addr &&& 0x0FFF < 0x0080 → addr &&& 0x0FFF < 128) ∧
    addr &&& 0x007F < 128 := by
  have hi : (install ⟨construct raw image size, sys⟩).cart.myCurrentBank = 0 ∧
      (install ⟨construct raw image size, sys⟩).cart.myBankLocked = false ∧
      (install ⟨construct raw image size, sys⟩).cart.myStartBank = 0 := by
    unfold install
    exact bank_start _ rfl rfl
  have hr : (reset ramrandom rand (install ⟨construct raw image size, sys⟩)).cart.myCurrentBank
      = 0 := by
    unfold reset
    exact (bank_start _ hi.2.1 hi.2.2).1
  have hb := runAll_current calls _ (by rw [hr]; decide)
  refine ⟨hb, ?_, fun h => h, ?_⟩
  · rw [Nat.shiftLeft_eq, and_0FFF]
    omega
  · rw [and_7F]
    omega

theorem toNat_natCast_mod (n k : Nat) : (((n : Int) % (k : Int))).toNat = n % k := by
  rw [← Int.natCast_mod, Int.toNat_natCast]

/-- The stream `save` writes from the empty stream. -/
theorem save_stream (name : String) (c : CartridgeF4SC) :
    save name c [] =
      (true, [Item.str name, Item.short (c.myCurrentBank % 65536),
        Item.bytes ((List.range 128).map (fun i => c.myRAM i % 256))]) := by
  unfold save Serializer.putString Serializer.putShort Serializer.putByteArray
  dsimp only
  rw [show (65536 : Int) = ((65536 : Nat) : Int) from rfl, toNat_natCast_mod]
  rfl

theorem bank_current_eq (m : Machine) (hb : m.cart.myCurrentBank < 65536) :
    (bank m m.cart.myCurrentBank).2.cart.myCurrentBank = m.cart.myCurrentBank := by
  cases hl : m.cart.myBankLocked with
  | true => rw [bank_locked m _ hl]
  | false => rw [(bank_unlocked m _ hl).2.1, Nat.mod_eq_of_lt hb]

theorem getD_map_range (f : Nat → Nat) (n i : Nat) (hi : i < n) :
    ((List.range n).map f).getD i 0 = f i := by
  rw [List.getD_eq_getElem?_getD, List.getElem?_map, List.getElem?_range hi]
  rfl

/-- The result of `load` on the stream of `save`. -/
theorem load_save (name : String) (c : CartridgeF4SC) (m : Machine) :
    load name m (save name c []).2 =
      (true,
        (bank { m with cart := { m.cart with
            myCurrentBank := c.myCurrentBank % 65536,
            myRAM := fun i => if i < 128
              then ((List.range 128).map (fun i => c.myRAM i % 256)).getD i 0
              else m.cart.myRAM i } } (c.myCurrentBank % 65536)).2, []) := by
  rw [save_stream]
  unfold load Serializer.getString Serializer.getShort Serializer.getByteArray
  dsimp only
  rw [if_neg (by simp), if_pos (by simp)]

/-- C32: `save` writes, in this order, the name string, the current bank as a
16-bit value and the 128 RAM bytes; `load` of that stream into any cartridge,
unlocked or locked, returns true and leaves its current bank and its 128 RAM
bytes equal to those of the saved cartridge (whose bank is a `uInt16` and whose
RAM cells are bytes). -/
theorem C32_save_load (name : String) (c : CartridgeF4SC) (m : Machine)
    (hb : c.myCurrentBank < 65536) (hr : ∀ i, i < 128 → c.myRAM i < 256) :
    save name c [] =
      (true, [Item.str name, Item.short c.myCurrentBank,
        Item.bytes ((List.range 128).map c.myRAM)]) ∧
    (load name m (save name c []).2).1 = true ∧
    (load name m (save name c []).2).2.1.cart.myCurrentBank = c.myCurrentBank ∧
    (∀ i, i < 128 → (load name m (save name c []).2).2.1.cart.myRAM i = c.myRAM i) := by
  refine ⟨?_, ?_, ?_, ?_⟩
  · rw [save_stream, Nat.mod_eq_of_lt hb]
    have e : (List.range 128).map (fun i => c.myRAM i % 256) = (List.range 128).map c.myRAM :=
      List.map_congr_left (fun i hi => Nat.mod_eq_of_lt (hr i (List.mem_range.mp hi)))
    rw [e]
  · rw [load_save]
  · rw [load_save]
    dsimp only
    have h := bank_current_eq { m with cart := { m.cart with
        myCurrentBank := c.myCurrentBank % 65536,
        myRAM := fun i => if i < 128
          then ((List.range 128).map (fun i => c.myRAM i % 256)).getD i 0
          else m.cart.myRAM i } } (Nat.mod_lt _ (by decide))
    exact h.trans (Nat.mod_eq_of_lt hb)
  · intro i hi
    rw [load_save]
    dsimp only
    rw [(bank_frame _ _).2.2.1]
    dsimp only
    rw [if_pos hi, getD_map_range _ _ _ hi, Nat.mod_eq_of_lt (hr i hi)]

theorem C32_save_load_witness :
    (load "CartridgeF4SC" (sampleMachine false)
      (save "CartridgeF4SC" { (sampleMachine false).cart with myCurrentBank := 5 } []).2
      ).2.1.cart.myCurrentBank = 5 :=
  (C32_save_load "CartridgeF4SC" { (sampleMachine false).cart with myCurrentBank := 5 }
    (sampleMachine false) (by decide) (by decide)).2.2.1

/-- The function `load` assigns `myCurrentBank` as soon as the 16-bit value has
been read.  On a stream that ends after the name and the bank, the read of the
RAM bytes fails and `load` returns false, but the current bank is the one of
the stream. -/
theorem load_truncated_after_bank (name : String) (m : Machine) (b : Nat) :
    (load name m [Item.str name, Item.short b]).1 = false ∧
    (load name m [Item.str name, Item.short b]).2.1.cart.myCurrentBank = b ∧
    (sampleMachine false).cart.myCurrentBank = 0 ∧
    (load "CartridgeF4SC" (sampleMachine false)
      [Item.str "CartridgeF4SC", Item.short 5]).2.1.cart.myCurrentBank = 5 := by
  have e : ∀ (n : String) (k : Machine), load n k [Item.str n, Item.short b] =
      (false, { k with cart := { k.cart with myCurrentBank := b } }, []) := by
    intro n k
    unfold load Serializer.getString Serializer.getShort Serializer.getByteArray
    dsimp only
    rw [if_neg (by simp)]
  have e5 : load "CartridgeF4SC" (sampleMachine false)
      [Item.str "CartridgeF4SC", Item.short 5] =
      (false, { sampleMachine false with
        cart := { (sampleMachine false).cart with myCurrentBank := 5 } }, []) := by
    unfold load Serializer.getString Serializer.getShort Serializer.getByteArray
    dsimp only
    rw [if_neg (by simp)]
  rw [e, e5]
  exact ⟨rfl, rfl, rfl, rfl⟩

/-- When `load` fails on the name or before the bank has been read, the state
is the one before the call. -/
theorem load_fails_early (name : String) (m : Machine) (inp : List Item)
    (h : Serializer.getString inp = none ∨
      (∃ s rest, Serializer.getString inp = some (s, rest) ∧
        (s ≠ name ∨ Serializer.getShort rest = none))) :
    (load name m inp).1 = false ∧ (load name m inp).2.1 = m := by
  unfold load
  rcases h with h | ⟨s, rest, h, h2⟩
  · rw [h]
    exact ⟨rfl, rfl⟩
  · rw [h]
    dsimp only
    rcases h2 with h2 | h2
    · rw [if_pos h2]
      exact ⟨rfl, rfl⟩
    · by_cases hn : s ≠ name
      · rw [if_pos hn]
        exact ⟨rfl, rfl⟩
      · rw [if_neg hn, h2]
        exact ⟨rfl, rfl⟩

/-- C33 fails as stated: the sample cartridge is in bank 0; `load` on a stream
that holds the name and the bank 5 and then ends returns false, and the current
bank after the call is 5. -/
theorem C33_failed_load_leaves_new_bank :
    (sampleMachine false).cart.myCurrentBank = 0 ∧
    (load "CartridgeF4SC" (sampleMachine false)
      [Item.str "CartridgeF4SC", Item.short 5]).1 = false ∧
    (load "CartridgeF4SC" (sampleMachine false)
      [Item.str "CartridgeF4SC", Item.short 5]).2.1.cart.myCurrentBank = 5 :=
  ⟨rfl, (load_truncated_after_bank "CartridgeF4SC" (sampleMachine false) 5).1,
    (load_truncated_after_bank "CartridgeF4SC" (sampleMachine false) 5).2.2.2⟩

/-- C33 (amended): whenever `load` returns false, either the name string could
not be read or differs from `name()` or the bank value could not be read, and
then the cartridge and the system are exactly what they were before the call;
or the name and the bank value `b` were read and the read of the RAM array
failed, and then the current bank is `b`, the value of the stream, while the
image and the pages installed in the system are those of before the call. -/
theorem C33_load_failure (name : String) (m : Machine) (inp : List Item)
    (h : (load name m inp).1 = false) :
    ((Serializer.getString inp = none ∨
        (∃ s rest, Serializer.getString inp = some (s, rest) ∧
          (s ≠ name ∨ Serializer.getShort rest = none))) ∧
      (load name m inp).2.1 = m) ∨
    (∃ r1 b r2, Serializer.getString inp = some (name, r1) ∧
      Serializer.getShort r1 = some (b, r2) ∧
      Serializer.getByteArray m.cart.myRAM 128 r2 = none ∧
      (load name m inp).2.1.cart.myCurrentBank = b ∧
      (load name m inp).2.1.cart.myImage = m.cart.myImage ∧
      (load name m inp).2.1.sys = m.sys) := by
  cases h1 : Serializer.getString inp with
  | none => exact Or.inl ⟨Or.inl rfl, (load_fails_early name m inp (Or.inl h1)).2⟩
  | some sr =>
    obtain ⟨s, r1⟩ := sr
    by_cases hn : s ≠ name
    · exact Or.inl ⟨Or.inr ⟨s, r1, rfl, Or.inl hn⟩,
        (load_fails_early name m inp (Or.inr ⟨s, r1, h1, Or.inl hn⟩)).2⟩
    · have hs : s = name := not_not.mp hn
      subst hs
      cases h2 : Serializer.getShort r1 with
      | none =>
        exact Or.inl ⟨Or.inr ⟨s, r1, rfl, Or.inr h2⟩,
          (load_fails_early s m inp (Or.inr ⟨s, r1, h1, Or.inr h2⟩)).2⟩
      | some br =>
        obtain ⟨b, r2⟩ := br
        cases h3 : Serializer.getByteArray m.cart.myRAM 128 r2 with
        | none =>
          refine Or.inr ⟨r1, b, r2, rfl, h2, h3, ?_⟩
          unfold load
          rw [h1]
          dsimp only
          rw [if_neg hn, h2]
          dsimp only
          rw [h3]
          exact ⟨rfl, rfl, rfl⟩
        | some ar =>
          exfalso
          unfold load at h
          rw [h1] at h
          dsimp only at h
          rw [if_neg hn, h2] at h
          dsimp only at h
          rw [h3] at h
          exact Bool.noConfusion h

/-- C33 (witness): the truncated stream of the counterexample is the second
case. -/
theorem C33_load_failure_witness :
    ((Serializer.getString [Item.str "CartridgeF4SC", Item.short 5] = none ∨
        (∃ s rest, Serializer.getString [Item.str "CartridgeF4SC", Item.short 5]
            = some (s, rest) ∧
          (s ≠ "CartridgeF4SC" ∨ Serializer.getShort rest = none))) ∧
      (load "CartridgeF4SC" (sampleMachine false)
        [Item.str "CartridgeF4SC", Item.short 5]).2.1 = sampleMachine false) ∨
    (∃ r1 b r2, Serializer.getString [Item.str "CartridgeF4SC", Item.short 5]
        = some ("CartridgeF4SC", r1) ∧
      Serializer.getShort r1 = some (b, r2) ∧
      Serializer.getByteArray (sampleMachine false).cart.myRAM 128 r2 = none ∧
      (load "CartridgeF4SC" (sampleMachine false)
        [Item.str "CartridgeF4SC", Item.short 5]).2.1.cart.myCurrentBank = b ∧
      (load "CartridgeF4SC" (sampleMachine false)
        [Item.str "CartridgeF4SC", Item.short 5]).2.1.cart.myImage
          = (sampleMachine false).cart.myImage ∧
      (load "CartridgeF4SC" (sampleMachine false)
        [Item.str "CartridgeF4SC", Item.short 5]).2.1.sys = (sampleMachine false).sys) :=
  C33_load_failure "CartridgeF4SC" (sampleMachine false)
    [Item.str "CartridgeF4SC", Item.short 5]
    (load_truncated_after_bank "CartridgeF4SC" (sampleMachine false) 5).1

end F4SC

/-! ## Cartridge auto-detection -/

section Autodetect
open Cartridge

/-- C8: in these size classes `autodetectType` returns a tag fixed by the size
alone, whatever the image bytes are: a multiple of 8448 or 6144 gives "AR"; a
size below 2048 that is not a multiple of 8448 gives "2K"; a size in
`10240..10496` gives "DPC"; 12288 gives "FA"; 24576 and 28672 give "FA2". -/
theorem C8_size_classes (image : Nat → Nat) (size : Nat) :
    ((size % 8448 = 0 ∨ size = 6144) → autodetectType image size = "AR") ∧
    ((size < 2048 ∧ size % 8448 ≠ 0) → autodetectType image size = "2K") ∧
    ((10240 ≤ size ∧ size ≤ 10496) → autodetectType image size = "DPC") ∧
    (size = 12288 → autodetectType image size = "FA") ∧
    ((size = 24576 ∨ size = 28672) → autodetectType image size = "FA2") := by
  refine ⟨?_, ?_, ?_, ?_, ?_⟩
  · intro h
    unfold autodetectType
    rw [if_pos h]
  · intro h
    unfold autodetectType
    rw [if_neg (by omega), if_pos h.1]
  · intro h
    unfold autodetectType
    repeat rw [if_neg (by omega)]
    rw [if_pos h]
  · intro h
    unfold autodetectType
    repeat rw [if_neg (by omega)]
    rw [if_pos (by omega)]
  · intro h
    unfold autodetectType
    repeat rw [if_neg (by omega)]
    rw [if_pos (by omega)]

theorem C8_size_classes_witness :
    autodetectType (fun i => i % 256) 8448 = "AR" ∧
    autodetectType (fun i => i % 256) 1024 = "2K" ∧
    autodetectType (fun i => i % 256) 10495 = "DPC" ∧
    autodetectType (fun i => i % 256) 12288 = "FA" ∧
    autodetectType (fun i => i % 256) 28672 = "FA2" :=
  ⟨(C8_size_classes _ 8448).1 (by decide),
   (C8_size_classes _ 1024).2.1 (by decide),
   (C8_size_classes _ 10495).2.2.1 (by decide),
   (C8_size_classes _ 12288).2.2.2.1 rfl,
   (C8_size_classes _ 28672).2.2.2.2 (by decide)⟩

theorem scInner_iff (image : Nat → Nat) (base first : Nat) :
    ∀ (n j : Nat), scInner image base first n j = true ↔
      ∀ t, t < n → image (base + (j + t)) = first := by
  intro n
  induction n with
  | zero => intro j; simp [scInner]
  | succ n ih =>
    intro j
    unfold scInner
    by_cases h : image (base + j) = first
    · simp only [h, ne_eq, not_true_eq_false, if_false, ih]
      constructor
      · intro hall t ht
        cases t with
        | zero => simpa using h
        | succ t =>
          have := hall t (by omega)
          rwa [show j + 1 + t = j + (t + 1) by omega] at this
      · intro hall t ht
        have := hall (t + 1) (by omega)
        rwa [show j + (t + 1) = j + 1 + t by omega] at this
    · simp only [h, ne_eq, not_false_eq_true, if_true, Bool.false_eq_true, false_iff]
      intro hall
      exact h (by simpa using hall 0 (by omega))

theorem scOuter_iff (image : Nat → Nat) :
    ∀ (n i : Nat), scOuter image n i = true ↔
      ∀ t, t < n → ∀ u, u < 256 → image ((i + t) * 4096 + u) = image ((i + t) * 4096) := by
  intro n
  induction n with
  | zero => intro i; simp [scOuter]
  | succ n ih =>
    intro i
    unfold scOuter
    by_cases h : scInner image (i * 4096) (image (i * 4096)) 256 0 = true
    · simp only [h, if_true, ih]
      rw [scInner_iff] at h
      constructor
      · intro hall t ht u hu
        cases t with
        | zero => simpa using h u hu
        | succ t =>
          have := hall t (by omega) u hu
          rwa [show i + 1 + t = i + (t + 1) by omega] at this
      · intro hall t ht u hu
        have := hall (t + 1) (by omega) u hu
        rwa [show i + (t + 1) = i + 1 + t by omega] at this
    · simp only [h, if_false, Bool.false_eq_true, false_iff]
      intro hall
      apply h
      rw [scInner_iff]
      intro t ht
      simpa using hall 0 (by omega) t ht

/-- `isProbablySC` holds exactly when the first 256 bytes of every 4 KiB bank
equal the bank's first byte. -/
theorem isProbablySC_iff_first (image : Nat → Nat) (size : Nat) :
    isProbablySC image size = true ↔
      ∀ i, i < size / 4096 → ∀ u, u < 256 → image (i * 4096 + u) = image (i * 4096) := by
  unfold isProbablySC
  simp only [scOuter_iff, Nat.zero_add]

/-- C10: `isProbablySC(image, size)` is true exactly when, for every 4 KiB bank
`i < size/4096`, the 256 bytes `image[i*4096 .. i*4096+255]` are all equal to
one another; and when it is true for an image of 8, 16 or 32 KiB,
`autodetectType` returns "F8SC", "F6SC" or "F4SC", whatever the other tests of
that size say. -/
theorem C10_superchip_detection (image : Nat → Nat) (size : Nat) :
    (isProbablySC image size = true ↔
      ∀ i, i < size / 4096 → ∀ j k, j < 256 → k < 256 →
        image (i * 4096 + j) = image (i * 4096 + k)) ∧
    (isProbablySC image 8192 = true → autodetectType image 8192 = "F8SC") ∧
    (isProbablySC image 16384 = true → autodetectType image 16384 = "F6SC") ∧
    (isProbablySC image 32768 = true → autodetectType image 32768 = "F4SC") := by
  refine ⟨?_, ?_, ?_, ?_⟩
  · rw [isProbablySC_iff_first]
    constructor
    · intro h i hi j k hj hk
      rw [h i hi j hj, h i hi k hk]
    · intro h i hi u hu
      simpa using h i hi u 0 hu (by omega)
  · intro h
    unfold autodetectType
    repeat rw [if_neg (by omega)]
    rw [if_pos (by omega)]
    simp only [h, if_true]
  · intro h
    unfold autodetectType
    repeat rw [if_neg (by omega)]
    rw [if_pos (by omega)]
    simp only [h, if_true]
  · intro h
    unfold autodetectType
    repeat rw [if_neg (by omega)]
    rw [if_pos (by omega)]
    simp only [h, if_true]

theorem C10_superchip_detection_witness :
    autodetectType (fun _ => 0xFF) 8192 = "F8SC" ∧
    autodetectType (fun _ => 0xFF) 16384 = "F6SC" ∧
    autodetectType (fun _ => 0xFF) 32768 = "F4SC" :=
  ⟨(C10_superchip_detection _ 8192).2.1
      ((C10_superchip_detection (fun _ => 0xFF) 8192).1.mpr (fun _ _ _ _ _ _ => rfl)),
   (C10_superchip_detection _ 16384).2.2.1
      ((C10_superchip_detection (fun _ => 0xFF) 16384).1.mpr (fun _ _ _ _ _ _ => rfl)),
   (C10_superchip_detection _ 32768).2.2.2
      ((C10_superchip_detection (fun _ => 0xFF) 32768).1.mpr (fun _ _ _ _ _ _ => rfl))⟩

theorem memcmpEq_iff (image : Nat → Nat) (a b : Nat) :
    ∀ (n i : Nat), memcmpEq image a b n i = true ↔
      ∀ t, t < n → image (a + (i + t)) = image (b + (i + t)) := by
  intro n
  induction n with
  | zero => intro i; simp [memcmpEq]
  | succ n ih =>
    intro i
    unfold memcmpEq
    by_cases h : image (a + i) = image (b + i)
    · simp only [h, if_true, ih]
      constructor
      · intro hall t ht
        cases t with
        | zero => simpa using h
        | succ t =>
          have := hall t (by omega)
          rwa [show i + 1 + t = i + (t + 1) by omega] at this
      · intro hall t ht
        have := hall (t + 1) (by omega)
        rwa [show i + (t + 1) = i + 1 + t by omega] at this
    · simp only [h, if_false, Bool.false_eq_true, false_iff]
      intro hall
      exact h (by simpa using hall 0 (by omega))

theorem sampleImage3EE0_tests :
    isProbably3E sampleImage3EE0 8192 = true ∧ isProbablyE0 sampleImage3EE0 8192 = true ∧
    isProbablySC sampleImage3EE0 8192 = false ∧
    memcmpEq sampleImage3EE0 0 4096 4096 0 = false := by
  refine ⟨by decide, by decide, by decide, by decide⟩

/-- The 8 KiB branch of `autodetectType` up to the E0 and 3E tests. -/
theorem autodetect_8K_head (image : Nat → Nat) :
    (isProbablySC image 8192 = true → autodetectType image 8192 = "F8SC") ∧
    (isProbablySC image 8192 = false → (∀ i, i < 4096 → image i = image (4096 + i)) →
      autodetectType image 8192 = "4K") ∧
    (isProbablySC image 8192 = false → ¬ (∀ i, i < 4096 → image i = image (4096 + i)) →
      isProbablyE0 image 8192 = true → autodetectType image 8192 = "E0") ∧
    (isProbablySC image 8192 = false → ¬ (∀ i, i < 4096 → image i = image (4096 + i)) →
      isProbablyE0 image 8192 = false → isProbably3E image 8192 = true →
      autodetectType image 8192 = "3E") := by
  have hm := memcmpEq_iff image 0 4096 4096 0
  simp only [Nat.zero_add] at hm
  refine ⟨?_, ?_, ?_, ?_⟩
  · intro h
    unfold autodetectType
    repeat rw [if_neg (by omega)]
    rw [if_pos (by omega)]
    simp only [h, if_true]
  · intro h hh
    unfold autodetectType
    repeat rw [if_neg (by omega)]
    rw [if_pos (by omega)]
    simp only [h, hm.mpr hh, if_true, Bool.false_eq_true, if_false]
  · intro h hh hE0
    have hmf : memcmpEq image 0 4096 4096 0 = false := by
      cases hc : memcmpEq image 0 4096 4096 0 with
      | true => exact absurd (hm.mp hc) hh
      | false => rfl
    unfold autodetectType
    repeat rw [if_neg (by omega)]
    rw [if_pos (by omega)]
    simp only [h, hmf, hE0, if_true, Bool.false_eq_true, if_false]
  · intro h hh hE0 h3E
    have hmf : memcmpEq image 0 4096 4096 0 = false := by
      cases hc : memcmpEq image 0 4096 4096 0 with
      | true => exact absurd (hm.mp hc) hh
      | false => rfl
    unfold autodetectType
    repeat rw [if_neg (by omega)]
    rw [if_pos (by omega)]
    simp only [h, hmf, hE0, h3E, if_true, Bool.false_eq_true, if_false]

theorem sampleImage3EE0_halves : ¬ (∀ i, i < 4096 → sampleImage3EE0 i = sampleImage3EE0 (4096 + i)) :=
  fun hall => absurd (hall 0 (by omega)) (by decide)

/-- C9 (as stated) fails: the sample 8 KiB image passes both the 3E test and the
E0 test and is not classified "3E". -/
theorem C9_order_counterexample :
    ¬ (∀ image : Nat → Nat, isProbably3E image 8192 = true → isProbablyE0 image 8192 = true →
        autodetectType image 8192 = "3E") := by
  intro h
  have h1 := h sampleImage3EE0 sampleImage3EE0_tests.1 sampleImage3EE0_tests.2.1
  rw [(autodetect_8K_head sampleImage3EE0).2.2.1 sampleImage3EE0_tests.2.2.1
    sampleImage3EE0_halves sampleImage3EE0_tests.2.1] at h1
  exact absurd h1 (by decide)

/-- C9 (amended): among the signature tests of one size `autodetectType` follows
the order of its own branch, not the order of the spec's table.  For an 8 KiB
image the order is SC-family, two identical 4 KiB halves ("4K"), E0, 3E: an image
passing both the 3E and the E0 test is classified "F8SC" if the SC test
succeeds, otherwise "4K" if its halves are identical, otherwise "E0"; "3E" is
returned only when the SC, identical-halves and E0 tests all fail. -/
theorem C9_8K_E0_before_3E (image : Nat → Nat) (h3E : isProbably3E image 8192 = true) :
    (isProbablyE0 image 8192 = true →
      (isProbablySC image 8192 = true → autodetectType image 8192 = "F8SC") ∧
      (isProbablySC image 8192 = false → (∀ i, i < 4096 → image i = image (4096 + i)) →
        autodetectType image 8192 = "4K") ∧
      (isProbablySC image 8192 = false → ¬ (∀ i, i < 4096 → image i = image (4096 + i)) →
        autodetectType image 8192 = "E0")) ∧
    (autodetectType image 8192 = "3E" ↔
      (isProbablySC image 8192 = false ∧ ¬ (∀ i, i < 4096 → image i = image (4096 + i)) ∧
        isProbablyE0 image 8192 = false)) := by
  obtain ⟨hSC, h4K, hE0, h3⟩ := autodetect_8K_head image
  refine ⟨fun he => ⟨hSC, h4K, fun a b => hE0 a b he⟩, ?_, ?_⟩
  · intro hres
    cases hsc : isProbablySC image 8192 with
    | true => rw [hSC hsc] at hres; exact absurd hres (by decide)
    | false =>
      by_cases hh : ∀ i, i < 4096 → image i = image (4096 + i)
      · rw [h4K hsc hh] at hres; exact absurd hres (by decide)
      · cases he : isProbablyE0 image 8192 with
        | true => rw [hE0 hsc hh he] at hres; exact absurd hres (by decide)
        | false => exact ⟨rfl, hh, rfl⟩
  · rintro ⟨hsc, hh, he⟩
    exact h3 hsc hh he h3E

theorem C9_8K_E0_before_3E_witness :
    isProbably3E sampleImage3EE0 8192 = true ∧ isProbablyE0 sampleImage3EE0 8192 = true ∧
    autodetectType sampleImage3EE0 8192 = "E0" :=
  ⟨sampleImage3EE0_tests.1, sampleImage3EE0_tests.2.1,
   ((C9_8K_E0_before_3E sampleImage3EE0 sampleImage3EE0_tests.1).1
      sampleImage3EE0_tests.2.1).2.2 sampleImage3EE0_tests.2.2.1 sampleImage3EE0_halves⟩

/-- For a size of at least 2048 that is not a multiple of 8448 and is none of the
sizes with a branch of their own, `autodetectType` reaches its last branch:
the tests `isProbably3E` and `isProbably3F`, then "4K". -/
theorem autodetectType_default (image : Nat → Nat) (size : Nat)
    (h1 : 2048 ≤ size) (h2 : size % 8448 ≠ 0)
    (h3 : size ≠ 2048 ∧ size ≠ 4096 ∧ size ≠ 6144 ∧ size ≠ 8192 ∧
      ¬ (10240 ≤ size ∧ size ≤ 10496) ∧ size ≠ 12288 ∧ size ≠ 16384 ∧ size ≠ 24576 ∧
      size ≠ 28672 ∧ size ≠ 29696 ∧ size ≠ 32768 ∧ size ≠ 65536 ∧ size ≠ 131072 ∧
      size ≠ 262144) :
    autodetectType image size =
      if isProbably3E image size = true then "3E"
      else if isProbably3F image size = true then "3F"
      else "4K" := by
  unfold autodetectType
  repeat rw [if_neg (by omega)]

/-- A signature whose first byte occurs nowhere in the image is never found. -/
theorem searchLoop_first_absent (image : Nat → Nat) (signature : List Nat)
    (k minhits bound : Nat) (hm : 1 ≤ minhits)
    (habs : ∀ i, image i ≠ signature.getD 0 0) :
    ∀ fuel i, searchLoop image signature (k + 1) minhits bound fuel i 0 = false := by
  intro fuel
  induction fuel with
  | zero =>
    intro i
    simp only [searchLoop, decide_eq_false_iff_not]
    omega
  | succ n ih =>
    intro i
    have hml : matchLoop image signature i (k + 1) 0 0 = 0 := by
      simp only [matchLoop, Nat.add_zero, habs i, if_false]
    unfold searchLoop
    by_cases hb : i < bound
    · rw [if_pos hb]
      dsimp only
      rw [hml]
      simp only [show ¬ (0 = k + 1) by omega, if_false]
      rw [if_neg (by omega)]
      exact ih (i + 1)
    · rw [if_neg hb]
      simp only [decide_eq_false_iff_not]
      omega

/-- The same for `searchForBytes`. -/
theorem searchForBytes_first_absent (image : Nat → Nat) (imagesize : Nat)
    (signature : List Nat) (k minhits : Nat) (hm : 1 ≤ minhits)
    (habs : ∀ i, image i ≠ signature.getD 0 0) :
    searchForBytes image imagesize signature (k + 1) minhits = false := by
  unfold searchForBytes
  exact searchLoop_first_absent image signature k minhits _ hm habs _ _

/-- C12 fails as stated: a 4096-byte image with the reset vector `$F000` that
contains a CV signature is classified "CV", not "4K". -/
theorem C12_reset_vector_counterexample :
    sampleImageCV 0x0FFC = 0x00 ∧ sampleImageCV 0x0FFD = 0xF0 ∧
    autodetectType sampleImageCV 4096 = "CV" ∧ autodetectType sampleImageCV 4096 ≠ "4K" := by
  refine ⟨by decide, by decide, by decide, by decide⟩

/-- The two cases of the 4096-byte branch of `autodetectType` in terms of its
tests: with identical 2048-byte halves `isProbablyCV` decides between "CV" and
"2K", with different halves `isProbablyCV` and `isProbably4KSC` decide between
"CV", "4KSC" and "4K". -/
theorem autodetectType_4K_tests (image : Nat → Nat) :
    ((∀ i, i < 2048 → image i = image (2048 + i)) →
      autodetectType image 4096 = if isProbablyCV image 4096 = true then "CV" else "2K") ∧
    (¬ (∀ i, i < 2048 → image i = image (2048 + i)) →
      autodetectType image 4096 =
        if isProbablyCV image 4096 = true then "CV"
        else if isProbably4KSC image 4096 = true then "4KSC"
        else "4K") := by
  have hm := memcmpEq_iff image 0 2048 2048 0
  simp only [Nat.zero_add] at hm
  refine ⟨fun hh => ?_, fun hh => ?_⟩
  · unfold autodetectType
    rw [if_neg (by decide), if_neg (by decide), if_pos (Or.inr ⟨rfl, hm.mpr hh⟩)]
  · have hmf : ¬ (memcmpEq image 0 2048 2048 0 = true) := fun hc => hh (hm.mp hc)
    unfold autodetectType
    rw [if_neg (by decide), if_neg (by decide),
      if_neg (by rintro (h | ⟨_, h⟩); exact absurd h (by decide); exact hmf h), if_pos rfl]

theorem toU32_natCast (i : Nat) (h : i < 4294967296) : toU32 (i : Int) = i := by
  unfold toU32
  omega

/-- C13: with a stored counter `i < N`, `createFromMultiCart` selects the slice
of length `s = size / N` at offset `i * s` (which lies inside the image), stores
`(i + 1) mod N` as the next counter (below `N`, and 0 after slice `N - 1`), and
returns a tag that depends on `s` alone. -/
theorem C13_multicart_slice (image size N i : Nat) (hi : i < N) (hN : N < 4294967296)
    (hs : size < 4294967296) :
    (createFromMultiCart image size N (i : Int)).size = size / N ∧
    (createFromMultiCart image size N (i : Int)).image = image + i * (size / N) ∧
    (i + 1) * (size / N) ≤ size ∧
    (createFromMultiCart image size N (i : Int)).romloadcount = (i + 1) % N ∧
    (createFromMultiCart image size N (i : Int)).romloadcount < N ∧
    (i = N - 1 → (createFromMultiCart image size N (i : Int)).romloadcount = 0) ∧
    (createFromMultiCart image size N (i : Int)).type =
      (if size / N ≤ 2048 then "2K" else if size / N = 4096 then "4K"
       else if size / N = 8192 then "F8" else "4K") := by
  have hle : (i + 1) * (size / N) ≤ size :=
    le_trans (Nat.mul_le_mul_right _ hi) (Nat.mul_div_le size N)
  have hlt : i * (size / N) < 4294967296 := by
    have : i * (size / N) ≤ (i + 1) * (size / N) := Nat.mul_le_mul_right _ (Nat.le_succ i)
    omega
  have hu : toU32 (i : Int) = i := toU32_natCast i (by omega)
  unfold createFromMultiCart
  dsimp only
  rw [hu, Nat.mod_eq_of_lt hlt, Nat.mod_eq_of_lt (show i + 1 < 4294967296 by omega)]
  refine ⟨rfl, rfl, hle, rfl, Nat.mod_lt _ (by omega), ?_, rfl⟩
  intro h
  rw [h, Nat.sub_add_cancel (by omega), Nat.mod_self]

theorem C13_multicart_slice_witness :
    (createFromMultiCart 0 16384 4 3).image = 12288 ∧
    (createFromMultiCart 0 16384 4 3).size = 4096 ∧
    (createFromMultiCart 0 16384 4 3).romloadcount = 0 ∧
    (createFromMultiCart 0 16384 4 3).type = "4K" := by
  have h := C13_multicart_slice 0 16384 4 3 (by decide) (by decide) (by decide)
  exact ⟨h.2.1, h.1, h.2.2.2.2.2.1 rfl, h.2.2.2.2.2.2⟩

/-- An explicit type that is no multicart tag and that the dispatch does not
know raises "Invalid cart type", unless it is the text "WRONG_SIZE". -/
theorem create_unknown_type (image : Nat → Nat) (size : Nat) (t id : String) (rc : Int)
    (hauto : t ≠ "AUTO") (hmulti : t ∉ multiCartTags) (hnone : cartClassOf t = none)
    (hws : t ≠ "WRONG_SIZE") :
    create image size t id false rc = Except.error ("Invalid cart type '" ++ t ++ "'") := by
  simp only [multiCartTags, List.mem_cons, List.mem_singleton, not_or, List.not_mem_nil,
    not_false_eq_true, and_true] at hmulti
  obtain ⟨h2, h4, h8, h16, h32, h64, h128⟩ := hmulti
  unfold create
  dsimp only
  rw [if_neg (by simp [hauto])]
  unfold multiCartCheck
  dsimp only
  rw [if_neg h2, if_neg h4, if_neg h8, if_neg h16, if_neg h32, if_neg h64, if_neg h128]
  dsimp only
  rw [hnone]
  dsimp only
  rw [if_neg hws]

/-- A multicart tag with a size outside its accepted sizes raises "Invalid cart
size". -/
theorem create_multicart_wrong_size (image : Nat → Nat) (size : Nat) (id : String) (rc : Int) :
    (¬ (size = 2 * 2048 ∨ size = 2 * 4096 ∨ size = 2 * 8192 ∨ size = 2 * 16384) →
      create image size "2IN1" id false rc
        = Except.error "Invalid cart size for type '2IN1'") ∧
    (¬ (size = 4 * 2048 ∨ size = 4 * 4096 ∨ size = 4 * 8192) →
      create image size "4IN1" id false rc
        = Except.error "Invalid cart size for type '4IN1'") ∧
    (¬ (size = 8 * 2048 ∨ size = 8 * 4096 ∨ size = 8 * 8192) →
      create image size "8IN1" id false rc
        = Except.error "Invalid cart size for type '8IN1'") ∧
    (¬ (size = 16 * 2048 ∨ size = 16 * 4096 ∨ size = 16 * 8192) →
      create image size "16IN1" id false rc
        = Except.error "Invalid cart size for type '16IN1'") ∧
    (¬ (size = 32 * 2048 ∨ size = 32 * 4096) →
      create image size "32IN1" id false rc
        = Except.error "Invalid cart size for type '32IN1'") ∧
    (¬ (size = 64 * 2048 ∨ size = 64 * 4096) →
      create image size "64IN1" id false rc
        = Except.error "Invalid cart size for type '64IN1'") ∧
    (¬ (size = 128 * 2048 ∨ size = 128 * 4096) →
      create image size "128IN1" id false rc
        = Except.error "Invalid cart size for type '128IN1'") := by
  refine ⟨?_, ?_, ?_, ?_, ?_, ?_, ?_⟩ <;>
  · intro h
    unfold create
    dsimp only
    rw [if_neg (by decide)]
    unfold multiCartCheck multiCartBranch
    dsimp only
    simp only [String.reduceEq, if_false, if_true, decide_eq_true_eq, h]
    rfl

/-- C14 (refuted by the code at one type string): the explicit type
"WRONG_SIZE" is no multicart tag and is outside the supported tag list, yet
`create` fails with the "Invalid cart size" error instead of "Invalid cart
type": the final `else if(dtype == "WRONG_SIZE")` mistakes the caller's own
type string for the marker the multicart check writes. -/
theorem C14_wrong_size_sentinel (image : Nat → Nat) (size : Nat) (id : String) (rc : Int) :
    create image size "WRONG_SIZE" id false rc
      = Except.error "Invalid cart size for type 'WRONG_SIZE'" := by
  unfold create
  dsimp only
  rw [if_neg (by decide)]
  unfold multiCartCheck
  dsimp only
  rw [if_neg (by decide), if_neg (by decide), if_neg (by decide), if_neg (by decide),
    if_neg (by decide), if_neg (by decide), if_neg (by decide)]
  rfl

/-- C35 (refuted by the code): the loop of `searchForBytes` runs over
`i < imagesize - sigsize`, so the last window is never compared, and after a
hit it adds `sigsize` to `i` before the `++i` of the loop, so the window right
behind a hit is skipped.  The byte pair `85 3F` occurs once in the 2-byte image
`85 3F` and is not found with `minhits = 1`; it occurs at the offsets 0 and 2 of
`85 3F 85 3F`, followed by zeros or not, and `searchForBytes` with
`minhits = 2` and `isProbably3F` return false for the sizes 4 and 8. -/
theorem C35_search_misses_occurrences :
    specSearchForBytes sampleImage3F3F 2 [0x85, 0x3F] 2 1 ∧
    searchForBytes sampleImage3F3F 2 [0x85, 0x3F] 2 1 = false ∧
    specSearchForBytes sampleImage3F3F 4 [0x85, 0x3F] 2 2 ∧
    searchForBytes sampleImage3F3F 4 [0x85, 0x3F] 2 2 = false ∧
    isProbably3F sampleImage3F3F 4 = false ∧
    specSearchForBytes sampleImage3F3F 8 [0x85, 0x3F] 2 2 ∧
    searchForBytes sampleImage3F3F 8 [0x85, 0x3F] 2 2 = false ∧
    isProbably3F sampleImage3F3F 8 = false := by
  have h0 : occursAt sampleImage3F3F [0x85, 0x3F] 2 0 := by
    intro j hj
    interval_cases j <;> rfl
  have h2 : occursAt sampleImage3F3F [0x85, 0x3F] 2 2 := by
    intro j hj
    interval_cases j <;> rfl
  refine ⟨⟨[0], rfl, ?_, List.pairwise_singleton _ _⟩, by decide,
    ⟨[0, 2], rfl, ?_, by decide⟩, by decide, by decide,
    ⟨[0, 2], rfl, ?_, by decide⟩, by decide, by decide⟩
  · intro p hp
    rw [List.mem_singleton] at hp
    subst hp
    exact ⟨by decide, h0⟩
  · intro p hp
    simp only [List.mem_cons, List.mem_singleton, List.not_mem_nil, or_false] at hp
    rcases hp with rfl | rfl
    · exact ⟨by decide, h0⟩
    · exact ⟨by decide, h2⟩
  · intro p hp
    simp only [List.mem_cons, List.mem_singleton, List.not_mem_nil, or_false] at hp
    rcases hp with rfl | rfl
    · exact ⟨by decide, h0⟩
    · exact ⟨by decide, h2⟩

theorem autodetectType_64K (image : Nat → Nat) :
    autodetectType image 65536 =
      if isProbably3E image 65536 then "3E"
      else if isProbably3F image 65536 then "3F"
      else if isProbably4A50 image 65536 then "4A50"
      else match isProbablyEF image 65536 with
        | some t => t
        | none => if isProbablyX07 image 65536 then "X07" else "F0" := by
  unfold autodetectType
  repeat rw [if_neg (by omega)]
  rw [if_pos (by omega)]

theorem isProbablyEF_tag (image : Nat → Nat) (size : Nat) (t : String)
    (h : isProbablyEF image size = some t) : t = "EF" ∨ t = "EFSC" := by
  unfold isProbablyEF at h
  dsimp only at h
  split_ifs at h <;> first
    | exact Or.inl (Option.some.inj h).symm
    | exact Or.inr (Option.some.inj h).symm

theorem imagePast_no_85 (b : Nat) (hb : b ≠ 0x85) (i : Nat) : imagePast b i ≠ 0x85 := by
  unfold imagePast
  split_ifs <;> first | exact hb | decide

/-- C39 (code divergence): for a 64 KiB image `isProbably4A50` reads the byte at
`image[0xFFFD] * 256 + image[0xFFFC] + 2`, which is offset `0x10001` when the
reset vector is `0xFFFF`.  Two images with the same 65536 bytes that differ
only in the byte behind the image at that offset get different answers from
`isProbably4A50` and different tags from `autodetectType`. -/
theorem C39_4A50_reads_behind_the_image :
    (∀ i, i < 65536 → imagePast 0x6E i = imagePast 0 i) ∧
    imagePast 0x6E 0xFFFD * 256 + imagePast 0x6E 0xFFFC + 2 = 0x10001 ∧
    isProbably4A50 (imagePast 0x6E) 65536 = true ∧
    isProbably4A50 (imagePast 0) 65536 = false ∧
    autodetectType (imagePast 0x6E) 65536 = "4A50" ∧
    autodetectType (imagePast 0) 65536 ≠ "4A50" := by
  have hA : isProbably4A50 (imagePast 0x6E) 65536 = true := by decide
  have hB : isProbably4A50 (imagePast 0) 65536 = false := by decide
  have h3E : ∀ b, b ≠ 0x85 → isProbably3E (imagePast b) 65536 = false := fun b hb =>
    searchForBytes_first_absent _ _ _ 3 1 (le_refl 1) (imagePast_no_85 b hb)
  have h3F : ∀ b, b ≠ 0x85 → isProbably3F (imagePast b) 65536 = false := fun b hb =>
    searchForBytes_first_absent _ _ _ 1 2 (by decide) (imagePast_no_85 b hb)
  refine ⟨?_, by decide, hA, hB, ?_, ?_⟩
  · intro i hi
    unfold imagePast
    rw [if_neg (show i ≠ 0x10001 by omega), if_neg (show i ≠ 0x10001 by omega)]
  · rw [autodetectType_64K, h3E _ (by decide), h3F _ (by decide), hA]
    rfl
  · rw [autodetectType_64K, h3E _ (by decide), h3F _ (by decide), hB]
    cases h : isProbablyEF (imagePast 0) 65536 with
    | some t =>
      rcases isProbablyEF_tag _ _ _ h with rfl | rfl <;> decide
    | none =>
      split_ifs <;> decide

/-- The inner loop counts the leading bytes of the signature that stand at the
position; it reaches `acc + fuel` exactly when all of them do. -/
theorem matchLoop_full (image : Nat → Nat) (signature : List Nat) (p : Nat) :
    ∀ fuel j acc, matchLoop image signature p fuel j acc ≤ acc + fuel ∧
      (matchLoop image signature p fuel j acc = acc + fuel ↔
        ∀ t, t < fuel → image (p + (j + t)) = signature.getD (j + t) 0) := by
  intro fuel
  induction fuel with
  | zero =>
    intro j acc
    exact ⟨le_refl _, fun _ => fun t ht => absurd ht (Nat.not_lt_zero t), fun _ => rfl⟩
  | succ n ih =>
    intro j acc
    unfold matchLoop
    by_cases h : image (p + j) = signature.getD j 0
    · rw [if_pos h]
      obtain ⟨hle, hiff⟩ := ih (j + 1) (acc + 1)
      refine ⟨by omega, ?_⟩
      rw [show acc + (n + 1) = acc + 1 + n by omega, hiff]
      constructor
      · intro hh t ht
        rcases Nat.eq_zero_or_pos t with h0 | h0
        · subst h0
          exact h
        · have := hh (t - 1) (by omega)
          rw [show j + 1 + (t - 1) = j + t by omega] at this
          exact this
      · intro hh t ht
        have := hh (t + 1) (by omega)
        rw [show j + (t + 1) = j + 1 + t by omega] at this
        exact this
    · rw [if_neg h]
      refine ⟨by omega, ?_⟩
      constructor
      · intro hh
        omega
      · intro hh
        exact absurd (hh 0 (by omega)) h

/-- The test of the outer loop at a position is the occurrence of the signature
there. -/
theorem matchLoop_occurs (image : Nat → Nat) (signature : List Nat) (k p : Nat) :
    matchLoop image signature p k 0 0 = k ↔ occursAt image signature k p := by
  have h := (matchLoop_full image signature p k 0 0).2
  rw [Nat.zero_add] at h
  rw [h]
  unfold occursAt
  constructor
  · intro hh j hj
    have := hh j hj
    rw [Nat.zero_add] at this
    exact this
  · intro hh t ht
    rw [Nat.zero_add]
    exact hh t ht

/-- Without a hit at the positions still to be compared the count stays below
`minhits` and the search fails. -/
theorem searchLoop_no_hit (image : Nat → Nat) (signature : List Nat)
    (k minhits bound i0 : Nat)
    (h : ∀ i, i0 ≤ i → i < bound → ¬ occursAt image signature k i) :
    ∀ fuel i count, i0 ≤ i → count < minhits →
      searchLoop image signature k minhits bound fuel i count = false := by
  intro fuel
  induction fuel with
  | zero =>
    intro i count _ hc
    simp only [searchLoop, decide_eq_false_iff_not]
    omega
  | succ n ih =>
    intro i count hi hc
    unfold searchLoop
    by_cases hb : i < bound
    · rw [if_pos hb]
      dsimp only
      have hno : ¬ (matchLoop image signature i k 0 0 = k) := fun hm =>
        h i hi hb ((matchLoop_occurs image signature k i).mp hm)
      simp only [hno, if_false]
      rw [if_neg (by omega)]
      exact ih (i + 1) count (by omega) hc
    · rw [if_neg hb]
      simp only [decide_eq_false_iff_not]
      omega

/-- One step of the outer loop at a hit that does not complete the count: the
next position compared is `i + sigsize + 1`. -/
theorem searchLoop_hit (image : Nat → Nat) (signature : List Nat)
    (k minhits bound fuel i count : Nat) (hb : i < bound)
    (ho : occursAt image signature k i) (hc : count + 1 < minhits) :
    searchLoop image signature k minhits bound (fuel + 1) i count =
      searchLoop image signature k minhits bound fuel (i + k + 1) (count + 1) := by
  have hm := (matchLoop_occurs image signature k i).mpr ho
  rw [searchLoop, if_pos hb]
  dsimp only
  simp only [hm, if_true]
  rw [if_neg (by omega)]

theorem sampleImage3F3F_from_3 (i : Nat) (hi : 3 ≤ i) : sampleImage3F3F i ≠ 0x85 := by
  unfold sampleImage3F3F
  rcases Nat.eq_or_lt_of_le hi with h | h
  · subst h
    decide
  · rw [List.getD_eq_default _ _ (by simpa using h)]
    decide

/-- C11 (code divergence): in the default branch a signature that is in the
image is missed by the search loop of `searchForBytes`.  In the 3000-byte image
`85 3F 85 3F 00 ...` the 3E signature occurs nowhere and the 3F signature occurs
at the offsets 0 and 2, yet `autodetectType` returns "4K": after the hit at
offset 0 the loop goes on at offset 3.  In the 3000-byte image with the 3E
signature in its last four bytes `autodetectType` returns "4K": the loop stops
before the last window. -/
theorem C11_default_branch_misses_signatures :
    (∀ p, ¬ occursAt sampleImage3F3F [0x85, 0x3E, 0xA9, 0x00] 4 p) ∧
    specSearchForBytes sampleImage3F3F 3000 [0x85, 0x3F] 2 2 ∧
    autodetectType sampleImage3F3F 3000 = "4K" ∧
    specSearchForBytes sampleImage3ELast 3000 [0x85, 0x3E, 0xA9, 0x00] 4 1 ∧
    autodetectType sampleImage3ELast 3000 = "4K" := by
  have hA3E : ∀ p, ¬ occursAt sampleImage3F3F [0x85, 0x3E, 0xA9, 0x00] 4 p := by
    intro p ho
    have h0 : sampleImage3F3F (p + 0) = 0x85 := ho 0 (by decide)
    have h1 : sampleImage3F3F (p + 1) = 0x3E := ho 1 (by decide)
    rcases Nat.lt_or_ge p 3 with hp | hp
    · interval_cases p
      · exact absurd h1 (by decide)
      · exact absurd h0 (by decide)
      · exact absurd h1 (by decide)
    · exact sampleImage3F3F_from_3 p hp h0
  have hA0 : occursAt sampleImage3F3F [0x85, 0x3F] 2 0 := by
    intro j hj
    interval_cases j <;> rfl
  have hA2 : occursAt sampleImage3F3F [0x85, 0x3F] 2 2 := by
    intro j hj
    interval_cases j <;> rfl
  have hA3F : ∀ i, 3 ≤ i → i < 2998 → ¬ occursAt sampleImage3F3F [0x85, 0x3F] 2 i :=
    fun i hi _ ho => sampleImage3F3F_from_3 i hi (ho 0 (by decide))
  have hB3E : ∀ i, 0 ≤ i → i < 2996 → ¬ occursAt sampleImage3ELast [0x85, 0x3E, 0xA9, 0x00] 4 i := by
    intro i _ hi ho
    have h0 : sampleImage3ELast (i + 0) = 0x85 := ho 0 (by decide)
    unfold sampleImage3ELast at h0
    rw [if_neg (by omega), if_neg (by omega), if_neg (by omega)] at h0
    exact absurd h0 (by decide)
  have hB3F : ∀ i, 0 ≤ i → i < 2998 → ¬ occursAt sampleImage3ELast [0x85, 0x3F] 2 i := by
    intro i _ hi ho
    have h0 : sampleImage3ELast (i + 0) = 0x85 := ho 0 (by decide)
    have h1 : sampleImage3ELast (i + 1) = 0x3F := ho 1 (by decide)
    unfold sampleImage3ELast at h0 h1
    by_cases hi6 : i = 2996
    · subst hi6
      exact absurd h1 (by decide)
    · rw [Nat.add_zero, if_neg hi6] at h0
      split_ifs at h0 <;> exact absurd h0 (by decide)
  have hBocc : occursAt sampleImage3ELast [0x85, 0x3E, 0xA9, 0x00] 4 2996 := by
    intro j hj
    interval_cases j <;> rfl
  have eA3E : isProbably3E sampleImage3F3F 3000 = false :=
    searchLoop_no_hit _ _ 4 1 _ 0 (fun i _ _ => hA3E i) _ 0 0 (le_refl 0) (by decide)
  have eA3F : isProbably3F sampleImage3F3F 3000 = false := by
    unfold isProbably3F searchForBytes
    dsimp only
    rw [show (3000 + 4294967296 - 2) % 4294967296 = 2997 + 1 from rfl,
      searchLoop_hit _ _ 2 2 (2997 + 1) 2997 0 0 (by decide) hA0 (by decide)]
    exact searchLoop_no_hit _ _ 2 2 _ 3 hA3F _ _ _ (le_refl 3) (by decide)
  have eB3E : isProbably3E sampleImage3ELast 3000 = false :=
    searchLoop_no_hit _ _ 4 1 _ 0 hB3E _ 0 0 (le_refl 0) (by decide)
  have eB3F : isProbably3F sampleImage3ELast 3000 = false :=
    searchLoop_no_hit _ _ 2 2 _ 0 hB3F _ 0 0 (le_refl 0) (by decide)
  refine ⟨hA3E, ⟨[0, 2], rfl, ?_, by decide⟩, ?_, ⟨[2996], rfl, ?_, List.pairwise_singleton _ _⟩, ?_⟩
  · intro p hp
    simp only [List.mem_cons, List.mem_singleton, List.not_mem_nil, or_false] at hp
    rcases hp with rfl | rfl
    · exact ⟨by decide, hA0⟩
    · exact ⟨by decide, hA2⟩
  · rw [autodetectType_default _ 3000 (by decide) (by decide) (by decide), eA3E, eA3F]
    rfl
  · intro p hp
    rw [List.mem_singleton] at hp
    subst hp
    exact ⟨by decide, hBocc⟩
  · rw [autodetectType_default _ 3000 (by decide) (by decide) (by decide), eB3E, eB3F]
    rfl

/-- With `minhits = 1` the outer loop succeeds exactly when the signature stands
at one of the positions it compares. -/
theorem searchLoop_one_iff (image : Nat → Nat) (signature : List Nat) (k bound : Nat) :
    ∀ fuel i, bound ≤ i + fuel →
      (searchLoop image signature k 1 bound fuel i 0 = true ↔
        ∃ p, i ≤ p ∧ p < bound ∧ occursAt image signature k p) := by
  intro fuel
  induction fuel with
  | zero =>
    intro i hi
    simp only [searchLoop]
    constructor
    · intro h
      exact absurd h (by decide)
    · rintro ⟨p, h1, h2, _⟩
      omega
  | succ n ih =>
    intro i hi
    unfold searchLoop
    by_cases hb : i < bound
    · rw [if_pos hb]
      dsimp only
      by_cases hm : matchLoop image signature i k 0 0 = k
      · simp only [hm, if_true]
        rw [if_pos (by omega)]
        constructor
        · intro _
          exact ⟨i, le_refl i, hb, (matchLoop_occurs image signature k i).mp hm⟩
        · intro _
          exact decide_eq_true (by omega)
      · simp only [hm, if_false]
        rw [if_neg (by omega), ih (i + 1) (by omega)]
        constructor
        · rintro ⟨p, h1, h2, h3⟩
          exact ⟨p, by omega, h2, h3⟩
        · rintro ⟨p, h1, h2, h3⟩
          rcases Nat.eq_or_lt_of_le h1 with he | hl
          · subst he
            exact absurd ((matchLoop_occurs image signature k i).mpr h3) hm
          · exact ⟨p, hl, h2, h3⟩
    · rw [if_neg hb]
      constructor
      · intro h
        exact absurd h (by decide)
      · rintro ⟨p, h1, h2, _⟩
        omega

/-- The search for one occurrence: the signature is found exactly when it
stands at an offset `p` with `p + sigsize < imagesize`. -/
theorem searchForBytes_one_iff (image : Nat → Nat) (n : Nat) (signature : List Nat) (k : Nat)
    (hk : k ≤ n) (hn : n < 4294967296) :
    searchForBytes image n signature k 1 = true ↔
      ∃ p, p + k < n ∧ occursAt image signature k p := by
  unfold searchForBytes
  dsimp only
  rw [show (n + 4294967296 - k) % 4294967296 = n - k by omega,
    searchLoop_one_iff image signature k (n - k) (n - k) 0 (by omega)]
  constructor
  · rintro ⟨p, _, h2, h3⟩
    exact ⟨p, by omega, h3⟩
  · rintro ⟨p, h2, h3⟩
    exact ⟨p, Nat.zero_le p, by omega, h3⟩

theorem isProbablyCV_iff (image : Nat → Nat) :
    isProbablyCV image 4096 = true ↔ cvSignatureBelow image 4093 := by
  have h1 := searchForBytes_one_iff image 4096 [0x9D, 0xFF, 0xF3] 3 (by decide) (by decide)
  have h2 := searchForBytes_one_iff image 4096 [0x99, 0x00, 0xF4] 3 (by decide) (by decide)
  unfold isProbablyCV cvSignatureBelow
  by_cases hs : searchForBytes image 4096 [0x9D, 0xFF, 0xF3] 3 1 = true
  · rw [if_pos hs]
    obtain ⟨p, hp, ho⟩ := h1.mp hs
    exact ⟨fun _ => ⟨p, by omega, Or.inl ho⟩, fun _ => rfl⟩
  · rw [if_neg hs, h2]
    constructor
    · rintro ⟨p, hp, ho⟩
      exact ⟨p, by omega, Or.inr ho⟩
    · rintro ⟨p, hp, ho | ho⟩
      · exact absurd (h1.mpr ⟨p, by omega, ho⟩) hs
      · exact ⟨p, by omega, ho⟩

theorem isProbably4KSC_iff (image : Nat → Nat) :
    isProbably4KSC image 4096 = true ↔ tagged4KSC image := by
  have h := scInner_iff image 0 (image 0) 255 1
  simp only [Nat.zero_add] at h
  unfold isProbably4KSC tagged4KSC
  by_cases hs : scInner image 0 (image 0) 255 1 = true
  · rw [if_pos hs]
    by_cases ht : image (4096 - 6) = 0x53 ∧ image (4096 - 5) = 0x43
    · rw [if_pos ht]
      exact ⟨fun _ => ⟨h.mp hs, ht.1, ht.2⟩, fun _ => rfl⟩
    · rw [if_neg ht]
      exact ⟨fun hf => absurd hf (by decide), fun hf => absurd ⟨hf.2.1, hf.2.2⟩ ht⟩
  · rw [if_neg hs]
    exact ⟨fun hf => absurd hf (by decide), fun hf => absurd (h.mpr hf.1) hs⟩

/-- C12 (amended): the classification of a 4096-byte image does not depend on
its reset vector.  With two identical 2048-byte halves it is "CV" when a CV
signature stands at an offset below 4093 and "2K" when none does; with
different halves it is "CV" when a CV signature stands at an offset below 4093,
otherwise "4KSC" when the first 256 bytes are identical and the bytes 4090 and
4091 are `S` and `C`, otherwise "4K".  So it is "4K" exactly when the halves
differ, no CV signature stands below offset 4093 and the image does not carry
the 4KSC marks. -/
theorem C12_4K_classification (image : Nat → Nat) :
    ((∀ i, i < 2048 → image i = image (2048 + i)) → cvSignatureBelow image 4093 →
      autodetectType image 4096 = "CV") ∧
    ((∀ i, i < 2048 → image i = image (2048 + i)) → ¬ cvSignatureBelow image 4093 →
      autodetectType image 4096 = "2K") ∧
    (¬ (∀ i, i < 2048 → image i = image (2048 + i)) → cvSignatureBelow image 4093 →
      autodetectType image 4096 = "CV") ∧
    (¬ (∀ i, i < 2048 → image i = image (2048 + i)) → ¬ cvSignatureBelow image 4093 →
      tagged4KSC image → autodetectType image 4096 = "4KSC") ∧
    (autodetectType image 4096 = "4K" ↔
      (¬ (∀ i, i < 2048 → image i = image (2048 + i)) ∧
        ¬ cvSignatureBelow image 4093 ∧ ¬ tagged4KSC image)) := by
  obtain ⟨k1, k2⟩ := autodetectType_4K_tests image
  have hcv := isProbablyCV_iff image
  have hsc := isProbably4KSC_iff image
  refine ⟨fun hh hc => ?_, fun hh hc => ?_, fun hh hc => ?_, fun hh hc ht => ?_, ?_⟩
  · rw [k1 hh, if_pos (hcv.mpr hc)]
  · rw [k1 hh, if_neg (fun h => hc (hcv.mp h))]
  · rw [k2 hh, if_pos (hcv.mpr hc)]
  · rw [k2 hh, if_neg (fun h => hc (hcv.mp h)), if_pos (hsc.mpr ht)]
  · by_cases hh : ∀ i, i < 2048 → image i = image (2048 + i)
    · rw [k1 hh]
      constructor
      · intro h
        exfalso
        revert h
        split <;> decide
      · rintro ⟨hn, _, _⟩
        exact absurd hh hn
    · rw [k2 hh]
      by_cases hc : isProbablyCV image 4096 = true
      · rw [if_pos hc]
        exact ⟨fun h => absurd h (by decide), fun h => absurd (hcv.mp hc) h.2.1⟩
      · rw [if_neg hc]
        by_cases ht : isProbably4KSC image 4096 = true
        · rw [if_pos ht]
          exact ⟨fun h => absurd h (by decide), fun h => absurd (hsc.mp ht) h.2.2⟩
        · rw [if_neg ht]
          exact ⟨fun _ => ⟨hh, fun h => hc (hcv.mpr h), fun h => ht (hsc.mpr h)⟩, fun _ => rfl⟩

/-- C12 (witness): the 4096-byte image that is zero except for the reset vector
`$F000` has different halves, no CV signature and no 4KSC marks, and is
classified "4K". -/
theorem C12_4K_classification_witness :
    sampleImage4K 0x0FFC = 0x00 ∧ sampleImage4K 0x0FFD = 0xF0 ∧
    autodetectType sampleImage4K 4096 = "4K" := by
  have hv : ∀ (b : Nat), b ≠ 0 → b ≠ 0xF0 → ∀ i, sampleImage4K i ≠ b := by
    intro b h0 hF i
    unfold sampleImage4K
    split
    · exact fun h => hF h.symm
    · exact fun h => h0 h.symm
  refine ⟨by decide, by decide, (C12_4K_classification sampleImage4K).2.2.2.2.mpr ⟨?_, ?_, ?_⟩⟩
  · exact fun h => absurd (h 0x7FD (by decide)) (by decide)
  · rintro ⟨p, _, ho | ho⟩
    · exact hv 0x9D (by decide) (by decide) (p + 0) (ho 0 (by decide))
    · exact hv 0x99 (by decide) (by decide) (p + 0) (ho 0 (by decide))
  · intro h
    exact hv 0x53 (by decide) (by decide) 4090 h.2.1

end Autodetect

/-! ## The TIA: clocks and horizontal motion -/

section TIAProofs
open TIA

theorem pixelLoop_eq (T : TIATables) (e : Nat) :
    ∀ (n hpos : Nat) (s : TIA), pixelLoop T e n hpos s =
      { s with
        myCollision := (pixelLoop T e n hpos s).myCollision,
        myCurrentFrameBuffer := (pixelLoop T e n hpos s).myCurrentFrameBuffer,
        myFramePointer := (pixelLoop T e n hpos s).myFramePointer } := by
  intro n
  induction n with
  | zero => intro hpos s; rfl
  | succ n ih =>
    intro hpos s
    show pixelLoop T e n (hpos + 1) _ = _
    exact (ih _ _).trans rfl

theorem hmState_pixelLoop (T : TIATables) (e n hpos : Nat) (s : TIA) :
    (pixelLoop T e n hpos s).hmState = s.hmState := by
  rw [pixelLoop_eq]; rfl

theorem hmState_endOfScanLine (s : TIA) : (endOfScanLine s).hmState = s.hmState := by
  unfold endOfScanLine; split <;> rfl

theorem hmState_advanceClocks (clock : Int) (s : TIA) :
    (advanceClocks clock s).hmState = HMState.updateLine clock s.hmState := by
  unfold advanceClocks HMState.updateLine
  simp only [TIA.hmState]
  split <;> rfl

set_option maxHeartbeats 2000000 in
theorem hmState_renderLine (T : TIATables) (a b : Int) (s : TIA) :
    (renderLine T a b s).hmState = s.hmState := by
  unfold renderLine
  dsimp only
  split_ifs <;> first | rfl | (rw [pixelLoop_eq]; rfl)

theorem hmState_updateLine (T : TIATables) (clock : Int) (s : TIA) :
    (updateLine T clock s).hmState = HMState.updateLine clock s.hmState := by
  unfold updateLine
  rw [hmState_endOfScanLine, hmState_renderLine, hmState_advanceClocks]

theorem hmState_interLine (s : TIA) : (interLine s).hmState = HMState.interLine s.hmState :=
  rfl

theorem hmState_lineLoop (T : TIATables) (clock : Int) (startLine : Nat) :
    ∀ (n line : Nat) (s : TIA),
      (lineLoop T clock startLine n line s).hmState
        = HMState.lineLoop clock startLine n line s.hmState := by
  intro n
  induction n with
  | zero => intro line s; rfl
  | succ n ih =>
    intro line s
    unfold lineLoop HMState.lineLoop
    dsimp only
    rw [ih, hmState_updateLine]
    split
    · rw [hmState_interLine]
    · rfl

theorem hmState_updateFrame (T : TIATables) (s : TIA) (clock : Int) :
    (updateFrame T s clock).hmState = HMState.updateFrame s.hmState clock := by
  unfold updateFrame HMState.updateFrame
  by_cases hg : clock < s.myClockStartDisplay ∨ s.myClockAtLastUpdate ≥ s.myClockStopDisplay ∨
      s.myClockAtLastUpdate ≥ clock
  · rw [if_pos hg]
    exact (if_pos hg).symm
  · rw [if_neg hg]
    dsimp only
    rw [hmState_lineLoop]
    exact (if_neg hg).symm

theorem hmState_pokeHMOVE (T : TIATables) (s : TIA) (clock : Int) :
    (pokeHMOVE T s clock).hmState = HMState.hmove s.hmState clock := by
  unfold pokeHMOVE HMState.hmove
  dsimp only [TIA.hmState]
  split <;> rfl

theorem hmState_resetBall (s : TIA) (clock : Int) :
    ({ s with myPOSBL := resetBall s clock } : TIA).hmState = HMState.resetBall s.hmState clock :=
  rfl

theorem toU32_tdiv_228 (x : Int) (k : Nat) (h1 : 228 * (k : Int) ≤ x)
    (h2 : x < 228 * ((k : Int) + 1)) (hk : x < 4294967296) : toU32 (Int.tdiv x 228) = k := by
  have hx : 0 ≤ x := by omega
  rw [Int.tdiv_eq_ediv hx (by decide)]
  unfold toU32
  omega

/-- An `updateFrame` that stays on the scanline of the last update is one pass
of the scanline loop body. -/
theorem HMState.updateFrame_sameLine (h : HMState) (c : Int) (L : Nat)
    (hg1 : h.clockStartDisplay ≤ c) (hg2 : h.clockAtLastUpdate < h.clockStopDisplay)
    (hg3 : h.clockAtLastUpdate < c) (hc : c ≤ h.clockStopDisplay)
    (hL1 : toU32 (Int.tdiv (h.clockAtLastUpdate - h.clockWhenFrameStarted) 228) = L)
    (hL2 : toU32 (Int.tdiv (c - h.clockWhenFrameStarted) 228) = L) :
    HMState.updateFrame h c = HMState.updateLine c h := by
  unfold HMState.updateFrame
  rw [if_neg (by omega)]
  dsimp only
  rw [if_neg (by omega), hL1, hL2, Nat.add_sub_cancel_left]
  simp [HMState.lineLoop]

/-- An `updateFrame` that reaches the scanline after the one of the last update
runs the scanline-change block once, between two passes of the loop body. -/
theorem HMState.updateFrame_nextLine (h : HMState) (c : Int) (L : Nat)
    (hg1 : h.clockStartDisplay ≤ c) (hg2 : h.clockAtLastUpdate < h.clockStopDisplay)
    (hg3 : h.clockAtLastUpdate < c) (hc : c ≤ h.clockStopDisplay)
    (hL1 : toU32 (Int.tdiv (h.clockAtLastUpdate - h.clockWhenFrameStarted) 228) = L)
    (hL2 : toU32 (Int.tdiv (c - h.clockWhenFrameStarted) 228) = L + 1) :
    HMState.updateFrame h c
      = HMState.updateLine c (HMState.interLine (HMState.updateLine c h)) := by
  unfold HMState.updateFrame
  rw [if_neg (by omega)]
  dsimp only
  rw [if_neg (by omega), hL1, hL2, show L + 1 + 1 - L = 2 by omega]
  simp [HMState.lineLoop]

theorem HMState.updateLine_eq (c : Int) (h : HMState) :
    HMState.updateLine c h =
      { h with
        clocksToEndOfScanLine :=
          if c > h.clockAtLastUpdate + h.clocksToEndOfScanLine then 228
          else h.clocksToEndOfScanLine - (c - h.clockAtLastUpdate),
        clockAtLastUpdate :=
          if c > h.clockAtLastUpdate + h.clocksToEndOfScanLine
          then h.clockAtLastUpdate + h.clocksToEndOfScanLine else c } := by
  unfold HMState.updateLine
  split <;> rfl

/-- The late-HMOVE scenario on the clocks and horizontal-motion state: after
`reset` at cycle 0, an `HMOVE` write at colour clock 216 (`hpos = 148`) whose
frame update reaches clock `216 + d1`, then a `RESBL` write at colour clock
228 (`hpos = -68`) whose frame update reaches clock `228 + d2`. -/
theorem hmState_late_hmove_resbl (h : HMState) (d1 d2 : Int)
    (h0 : h.clockWhenFrameStarted = 0) (h1 : h.clockStartDisplay = 0)
    (h2 : 59736 ≤ h.clockStopDisplay) (h3 : h.clockAtLastUpdate = 0)
    (h4 : h.clocksToEndOfScanLine = 228)
    (h5 : h.currentHMOVEPos = 0x7FFFFFFF) (h6 : h.hmBL = 0)
    (hd1 : 0 ≤ d1 ∧ d1 ≤ 11) (hd2 : 0 ≤ d2 ∧ d2 < 228) :
    (HMState.resetBall
      (HMState.updateFrame (HMState.hmove (HMState.updateFrame h (216 + d1)) 216) (228 + d2))
      228).posBL = -5 := by
  obtain ⟨start, sd, stop, last, toEnd, cur, prev, p0, p1, m0, m1, bl, c0, c1, cm0, cm1, cbl,
    g0, g1, gm0, gm1, gbl, r0, r1, rm0, rm1, rbl⟩ := h
  dsimp only at h0 h1 h2 h3 h4 h5 h6
  subst h0 h1 h3 h4 h5 h6
  rw [HMState.updateFrame_sameLine _ (216 + d1) 0 (by dsimp only; omega) (by dsimp only; omega)
    (by dsimp only; omega) (by dsimp only; omega) (by dsimp only; decide)
    (toU32_tdiv_228 _ 0 (by dsimp only; omega) (by dsimp only; omega) (by dsimp only; omega))]
  have hu1 : HMState.updateLine (216 + d1)
      ⟨0, 0, stop, 0, 228, 0x7FFFFFFF, prev, p0, p1, m0, m1, bl, c0, c1, cm0, cm1, cbl,
        g0, g1, gm0, gm1, 0, r0, r1, rm0, rm1, rbl⟩
      = ⟨0, 0, stop, 216 + d1, 228 - (216 + d1 - 0), 0x7FFFFFFF, prev, p0, p1, m0, m1, bl,
        c0, c1, cm0, cm1, cbl, g0, g1, gm0, gm1, 0, r0, r1, rm0, rm1, rbl⟩ := by
    unfold HMState.updateLine
    rw [if_neg (by dsimp only; omega)]
  rw [hu1]
  have hmv : HMState.hmove
      ⟨0, 0, stop, 216 + d1, 228 - (216 + d1 - 0), 0x7FFFFFFF, prev, p0, p1, m0, m1, bl,
        c0, c1, cm0, cm1, cbl, g0, g1, gm0, gm1, 0, r0, r1, rm0, rm1, rbl⟩ 216
      = ⟨0, 0, stop, 216 + d1, 228 - (216 + d1 - 0), 148, prev,
        hmoveApply 148 (hmoveUndo 148 r0 p0) (hmoveMotionClock 148 g0),
        hmoveApply 148 (hmoveUndo 148 r1 p1) (hmoveMotionClock 148 g1),
        hmoveApply 148 (hmoveUndo 148 rm0 m0) (hmoveMotionClock 148 gm0),
        hmoveApply 148 (hmoveUndo 148 rm1 m1) (hmoveMotionClock 148 gm1),
        hmoveApply 148 (hmoveUndo 148 rbl bl) (hmoveMotionClock 148 0),
        hmoveMotionClock 148 g0, hmoveMotionClock 148 g1, hmoveMotionClock 148 gm0,
        hmoveMotionClock 148 gm1, 7, g0, g1, gm0, gm1, 0, false, false, false, false, false⟩ := by
    unfold HMState.hmove
    have e : Int.tmod (216 - 0) 228 - HBLANK = 148 := by decide
    dsimp only
    rw [e, if_neg (by decide)]
    have e7 : hmoveMotionClock 148 0 = 7 := by decide
    rw [e7]
  rw [hmv]
  rw [HMState.updateFrame_nextLine _ (228 + d2) 0 (by dsimp only; omega) (by dsimp only; omega)
    (by dsimp only; omega) (by dsimp only; omega)
    (toU32_tdiv_228 _ 0 (by dsimp only; omega) (by dsimp only; omega) (by dsimp only; omega))
    (toU32_tdiv_228 _ 1 (by dsimp only; omega) (by dsimp only; omega) (by dsimp only; omega))]
  rw [HMState.updateLine_eq, HMState.updateLine_eq]
  unfold HMState.resetBall HMState.interLine
  dsimp only
  decide

/-- The delay `poke` adds to the clock before it updates the frame. -/
theorem hmState_poke_HMOVE (T : TIATables) (s : TIA) (addr value : Nat)
    (hr : T.writeRegister (addr &&& 0x003f) = some TIARegister.HMOVE)
    (hd : T.PokeDelay (addr &&& 0x003f) ≠ -1) :
    (poke T s addr value).2.hmState
      = HMState.hmove (HMState.updateFrame s.hmState (clockNow s + T.PokeDelay (addr &&& 0x003f)))
          (clockNow s) := by
  unfold poke
  dsimp only
  rw [if_neg hd, hr]
  dsimp only [pokeRegister]
  rw [hmState_pokeHMOVE]
  split
  · exact congrArg (fun h => HMState.hmove h (clockNow s)) (hmState_updateFrame T s _)
  · exact congrArg (fun h => HMState.hmove h (clockNow s)) (hmState_updateFrame T s _)

theorem hmState_poke_RESBL (T : TIATables) (s : TIA) (addr value : Nat)
    (hr : T.writeRegister (addr &&& 0x003f) = some TIARegister.RESBL)
    (hd : T.PokeDelay (addr &&& 0x003f) ≠ -1) :
    (poke T s addr value).2.hmState
      = HMState.resetBall
          (HMState.updateFrame s.hmState (clockNow s + T.PokeDelay (addr &&& 0x003f)))
          (clockNow s) := by
  unfold poke
  dsimp only
  rw [if_neg hd, hr]
  dsimp only [pokeRegister]
  rw [hmState_resetBall]
  split
  · exact congrArg (fun h => HMState.resetBall h (clockNow s)) (hmState_updateFrame T s _)
  · exact congrArg (fun h => HMState.resetBall h (clockNow s)) (hmState_updateFrame T s _)

theorem hmState_frameReset (T : TIATables) (env : TIAEnv) (s : TIA) :
    (frameReset T env s).myClockWhenFrameStarted = clockNow s ∧
    (frameReset T env s).myClockStartDisplay = clockNow s ∧
    (frameReset T env s).myClockAtLastUpdate = clockNow s ∧
    (frameReset T env s).myClocksToEndOfScanLine = 228 ∧
    (frameReset T env s).myClockStopDisplay
      = toInt32 (clockNow s + ((frameReset T env s).myStopDisplayOffset : Int)) ∧
    59736 ≤ (frameReset T env s).myStopDisplayOffset ∧
    (frameReset T env s).myStopDisplayOffset ≤ 72960 ∧
    (frameReset T env s).myCurrentHMOVEPos = s.myCurrentHMOVEPos ∧
    (frameReset T env s).myHMBL = s.myHMBL := by
  unfold frameReset
  dsimp only
  split
  · refine ⟨rfl, rfl, rfl, rfl, rfl, ?_, ?_, rfl, rfl⟩
    · dsimp only [clearBuffers]
      rw [if_pos rfl]
      omega
    · dsimp only [clearBuffers]
      omega
  · refine ⟨rfl, rfl, rfl, rfl, rfl, ?_, ?_, rfl, rfl⟩
    · dsimp only [clearBuffers]
      rw [if_neg (by decide)]
      omega
    · dsimp only [clearBuffers]
      omega

theorem frameReset_at_zero (T : TIATables) (env : TIAEnv) (s : TIA) (hc : clockNow s = 0)
    (h5 : s.myCurrentHMOVEPos = 0x7FFFFFFF) (h6 : s.myHMBL = 0) :
    (frameReset T env s).hmState.clockWhenFrameStarted = 0 ∧
    (frameReset T env s).hmState.clockStartDisplay = 0 ∧
    59736 ≤ (frameReset T env s).hmState.clockStopDisplay ∧
    (frameReset T env s).hmState.clockAtLastUpdate = 0 ∧
    (frameReset T env s).hmState.clocksToEndOfScanLine = 228 ∧
    (frameReset T env s).hmState.currentHMOVEPos = 0x7FFFFFFF ∧
    (frameReset T env s).hmState.hmBL = 0 := by
  obtain ⟨a1, a2, a3, a4, a5, a6, a7, a8, a9⟩ := hmState_frameReset T env s
  refine ⟨a1.trans hc, a2.trans hc, ?_, a3.trans hc, a4, a8.trans h5, a9.trans h6⟩
  show 59736 ≤ (frameReset T env s).myClockStopDisplay
  rw [a5, hc]
  unfold toInt32
  omega

theorem toggleBit_eq (s : TIA) (b mode : Nat) :
    ∃ d, (toggleBit s b mode).2 = { s with myDisabledObjects := d } := by
  unfold toggleBit
  dsimp only
  split_ifs
  · exact ⟨_, rfl⟩
  · exact ⟨_, rfl⟩
  · exact ⟨_, rfl⟩
  · exact ⟨_, rfl⟩

theorem enableBits_eq (T : TIATables) (s : TIA) (mode : Bool) :
    ∃ d, enableBits T s mode = { s with myDisabledObjects := d } := by
  unfold enableBits
  dsimp only
  obtain ⟨d1, h1⟩ := toggleBit_eq s T.P0Bit (if mode then 1 else 0)
  rw [h1]
  obtain ⟨d2, h2⟩ := toggleBit_eq { s with myDisabledObjects := d1 } T.P1Bit (if mode then 1 else 0)
  rw [h2]
  obtain ⟨d3, h3⟩ := toggleBit_eq { s with myDisabledObjects := d2 } T.M0Bit (if mode then 1 else 0)
  rw [h3]
  obtain ⟨d4, h4⟩ := toggleBit_eq { s with myDisabledObjects := d3 } T.M1Bit (if mode then 1 else 0)
  rw [h4]
  obtain ⟨d5, h5⟩ := toggleBit_eq { s with myDisabledObjects := d4 } T.BLBit (if mode then 1 else 0)
  rw [h5]
  exact toggleBit_eq { s with myDisabledObjects := d5 } T.PFBit (if mode then 1 else 0)

theorem hmState_reset (T : TIATables) (env : TIAEnv) (s : TIA) (hc : s.cycles = 0) :
    (reset T env s).hmState.clockWhenFrameStarted = 0 ∧
    (reset T env s).hmState.clockStartDisplay = 0 ∧
    59736 ≤ (reset T env s).hmState.clockStopDisplay ∧
    (reset T env s).hmState.clockAtLastUpdate = 0 ∧
    (reset T env s).hmState.clocksToEndOfScanLine = 228 ∧
    (reset T env s).hmState.currentHMOVEPos = 0x7FFFFFFF ∧
    (reset T env s).hmState.hmBL = 0 := by
  unfold reset
  dsimp only
  obtain ⟨d, hd⟩ := enableBits_eq T
    { s with
      myEnabledObjects := 0, myDisabledObjects := 0xFF, myAllowHMOVEBlanks := true,
      myVSYNC := 0, myVBLANK := 0, myNUSIZ0 := 0, myNUSIZ1 := 0,
      myColor := Function.update (Function.update (Function.update (Function.update
        (Function.update (Function.update (Function.update (Function.update s.myColor
        T.BKColor 0) T.PFColor 0) T.P1Color 0) T.P0Color 0) T.HBLANKColor 0) T.BLColor 0)
        T.M1Color 0) T.M0Color 0,
      myPlayfieldPriorityAndScore := 0, myCTRLPF := 0, myREFP0 := false, myREFP1 := false,
      myPF := 0, myGRP0 := 0, myGRP1 := 0, myDGRP0 := 0, myDGRP1 := 0,
      myENAM0 := false, myENAM1 := false, myENABL := false, myDENABL := false,
      myHMP0 := 0, myHMP1 := 0, myHMM0 := 0, myHMM1 := 0, myHMBL := 0,
      myVDELP0 := false, myVDELP1 := false, myVDELBL := false,
      myRESMP0 := false, myRESMP1 := false,
      myCollision := 0, myCollisionEnabledMask := 0xFFFFFFFF,
      myPOSP0 := 0, myPOSP1 := 0, myPOSM0 := 0, myPOSM1 := 0, myPOSBL := 0,
      myCurrentGRP0 := 0, myCurrentGRP1 := 0,
      myMotionClockP0 := 0, myMotionClockP1 := 0, myMotionClockM0 := 0,
      myMotionClockM1 := 0, myMotionClockBL := 0,
      mySuppressP0 := 0, mySuppressP1 := 0,
      myHMP0mmr := false, myHMP1mmr := false, myHMM0mmr := false, myHMM1mmr := false,
      myHMBLmmr := false,
      myCurrentHMOVEPos := 0x7FFFFFFF, myPreviousHMOVEPos := 0x7FFFFFFF,
      myHMOVEBlankEnabled := false } true
  rw [hd]
  apply frameReset_at_zero
  · show toInt32 (((s.cycles * 3) % 4294967296 : Nat) : Int) = 0
    rw [hc]
    decide
  · rfl
  · rfl

theorem clockNow_cycles (s : TIA) (c : Nat) (hc : c * 3 < 2147483648) :
    clockNow { s with cycles := c } = ((c * 3 : Nat) : Int) := by
  show toInt32 (((c * 3) % 4294967296 : Nat) : Int) = _
  unfold toInt32
  omega

/-- C3 (refuted by the code): the horizontal positions do not stay in
`0 <= position < 160`.  From the state left by `reset` at cycle 0, a write to
`HMOVE` at CPU cycle 72 (colour clock 216, `hpos = 148`) followed by a write to
`RESBL` at CPU cycle 76 (colour clock 228, `hpos = -68`) leaves `myPOSBL = -5`:
`applyPreviousHMOVEMotion` subtracts the remaining motion clocks from the reset
position 2 and, unlike its sibling paths, does not wrap the result.  This holds
for every table set that maps the two addresses to `HMOVE` and `RESBL` with
poke delays of at most 11 and below 228 clocks. -/
theorem C3_position_leaves_range (T : TIATables) (env : TIAEnv) (s0 : TIA)
    (aH vH aB vB : Nat) (hc : s0.cycles = 0)
    (hH : T.writeRegister (aH &&& 0x003f) = some TIARegister.HMOVE)
    (hB : T.writeRegister (aB &&& 0x003f) = some TIARegister.RESBL)
    (hdH : 0 ≤ T.PokeDelay (aH &&& 0x003f) ∧ T.PokeDelay (aH &&& 0x003f) ≤ 11)
    (hdB : 0 ≤ T.PokeDelay (aB &&& 0x003f) ∧ T.PokeDelay (aB &&& 0x003f) < 228) :
    (pokeAt T (pokeAt T (reset T env s0) 72 aH vH) 76 aB vB).myPOSBL = -5 := by
  show (pokeAt T (pokeAt T (reset T env s0) 72 aH vH) 76 aB vB).hmState.posBL = -5
  unfold pokeAt
  rw [hmState_poke_RESBL T _ aB vB hB (by omega)]
  have e76 : ∀ x : TIA, clockNow { x with cycles := 76 } = 228 :=
    fun x => clockNow_cycles x 76 (by decide)
  have e72 : ∀ x : TIA, clockNow { x with cycles := 72 } = 216 :=
    fun x => clockNow_cycles x 72 (by decide)
  rw [e76]
  have f76 : ∀ x : TIA, ({ x with cycles := 76 } : TIA).hmState = x.hmState := fun _ => rfl
  have f72 : ∀ x : TIA, ({ x with cycles := 72 } : TIA).hmState = x.hmState := fun _ => rfl
  rw [f76, hmState_poke_HMOVE T _ aH vH hH (by omega), e72, f72]
  obtain ⟨h0, h1, h2, h3, h4, h5, h6⟩ := hmState_reset T env s0 hc
  exact hmState_late_hmove_resbl _ _ _ h0 h1 h2 h3 h4 h5 h6 hdH hdB

theorem C3_position_leaves_range_witness :
    (pokeAt sampleTables (pokeAt sampleTables (reset sampleTables sampleEnv sampleTIA)
      72 0x2A 0) 76 0x14 0).myPOSBL = -5 :=
  C3_position_leaves_range sampleTables sampleEnv sampleTIA 0x2A 0 0x14 0 rfl
    (by decide) (by decide) (by decide) (by decide)

/-- C15: `updateFrame(t)` with `t <= clockAtLastUpdate`, with
`t < clockStartDisplay`, or with `clockAtLastUpdate >= clockStopDisplay`
returns the state it was given: no field of the TIA changes (frame buffers,
frame pointer, positions, collision latch, HMOVE and suppress flags, clocks). -/
theorem C15_updateFrame_noop (T : TIATables) (s : TIA) (t : Int)
    (h : t ≤ s.myClockAtLastUpdate ∨ t < s.myClockStartDisplay ∨
      s.myClockAtLastUpdate ≥ s.myClockStopDisplay) :
    updateFrame T s t = s := by
  unfold updateFrame
  rw [if_pos]
  rcases h with h | h | h
  · exact Or.inr (Or.inr h)
  · exact Or.inl h
  · exact Or.inr (Or.inl h)

theorem C15_updateFrame_noop_witness :
    updateFrame sampleTables (reset sampleTables sampleEnv sampleTIA) 0
      = reset sampleTables sampleEnv sampleTIA :=
  C15_updateFrame_noop sampleTables (reset sampleTables sampleEnv sampleTIA) 0
    (Or.inl (by decide))

theorem priorityEncoderEntry_spec (T : TIATables) (x enabled : Nat) :
    priorityEncoderEntry T false x enabled = specPriorityColor T x enabled := by
  unfold priorityEncoderEntry specPriorityColor
  dsimp only
  by_cases hP : enabled &&& T.PriorityBit = 0
  · rw [if_neg (not_not.mpr hP), if_pos hP]
    simp only [Bool.not_false, true_and]
  · rw [if_pos hP, if_neg hP]

/-- C18: the table built by `toggleFixedColors(0)` is the spec's reference on
both halves and all 256 keys. -/
theorem C18_priority_encoder (T : TIATables) (s : TIA) (x enabled : Nat)
    (hx : x < 2) (he : enabled < 256) :
    (toggleFixedColors T s 0).2.myPriorityEncoder x enabled = specPriorityColor T x enabled := by
  unfold toggleFixedColors
  dsimp only
  rw [if_pos ⟨hx, he⟩]
  exact priorityEncoderEntry_spec T x enabled

theorem C18_priority_encoder_witness :
    (toggleFixedColors sampleTables sampleTIA 0).2.myPriorityEncoder 1 0x61
      = specPriorityColor sampleTables 1 0x61 :=
  C18_priority_encoder sampleTables sampleTIA 1 0x61 (by decide) (by decide)

theorem withFrame_self (s : TIA) : s.withFrame s = s := rfl

theorem withFrame_withFrame (s a b : TIA) : (s.withFrame a).withFrame b = s.withFrame b := rfl

theorem interLine_frame (s : TIA) : interLine s = s.withFrame (interLine s) := rfl

theorem advanceClocks_frame (clock : Int) (s : TIA) :
    advanceClocks clock s = s.withFrame (advanceClocks clock s) := by
  unfold advanceClocks
  split <;> rfl

theorem endOfScanLine_frame (s : TIA) : endOfScanLine s = s.withFrame (endOfScanLine s) := by
  unfold endOfScanLine
  split <;> rfl

set_option maxHeartbeats 4000000 in
theorem renderLine_frame (T : TIATables) (a b : Int) (s : TIA) :
    renderLine T a b s = s.withFrame (renderLine T a b s) := by
  unfold renderLine
  dsimp only
  split_ifs <;> first | rfl | (rw [pixelLoop_eq]; rfl)

theorem frame_comp (f : TIA → TIA) (s m : TIA) (hm : m = s.withFrame m)
    (hf : f m = m.withFrame (f m)) : f m = s.withFrame (f m) := by
  rw [hf, hm]
  rfl

theorem updateLine_frame (T : TIATables) (clock : Int) (s : TIA) :
    updateLine T clock s = s.withFrame (updateLine T clock s) := by
  unfold updateLine
  have h1 := advanceClocks_frame clock s
  have h2 := frame_comp (renderLine T (228 - s.myClocksToEndOfScanLine) (clocksToUpdateOf clock s))
    s _ h1 (renderLine_frame T _ _ _)
  exact frame_comp endOfScanLine s _ h2 (endOfScanLine_frame _)

theorem lineLoop_frame (T : TIATables) (clock : Int) (startLine : Nat) :
    ∀ (n line : Nat) (s : TIA),
      lineLoop T clock startLine n line s = s.withFrame (lineLoop T clock startLine n line s) := by
  intro n
  induction n with
  | zero => intro line s; rfl
  | succ n ih =>
    intro line s
    unfold lineLoop
    dsimp only
    have h0 : (if line ≠ startLine then interLine s else s)
        = s.withFrame (if line ≠ startLine then interLine s else s) := by
      split
      · exact interLine_frame s
      · rfl
    have h1 := frame_comp (updateLine T clock) s _ h0 (updateLine_frame T clock _)
    exact frame_comp (lineLoop T clock startLine n (line + 1)) s _ h1 (ih _ _)

theorem updateFrame_frame (T : TIATables) (s : TIA) (clock : Int) :
    updateFrame T s clock = s.withFrame (updateFrame T s clock) := by
  unfold updateFrame
  split
  · rfl
  · exact lineLoop_frame T _ _ _ _ s

theorem stop_frame (s u : TIA) (c : Prop) [Decidable c] (h : u = s.withFrame u) :
    (if c then { u with cpuStopped := true, myPartialFrameFlag := false } else u)
      = s.withFrame (if c then { u with cpuStopped := true, myPartialFrameFlag := false }
          else u) := by
  split
  · rw [h]
    rfl
  · exact h

theorem pokeFrame_frame (T : TIATables) (s : TIA) (addr : Nat) :
    pokeFrame T s addr = s.withFrame (pokeFrame T s addr) := by
  unfold pokeFrame
  dsimp only
  exact stop_frame s _ _ (updateFrame_frame T s _)

theorem poke_eq (T : TIATables) (s : TIA) (addr value : Nat) (reg : TIARegister)
    (hr : T.writeRegister (addr &&& 0x003f) = some reg) :
    (poke T s addr value).2 = pokeRegister T (pokeFrame T s addr) reg value (clockNow s) := by
  unfold poke pokeFrame
  dsimp only
  rw [hr]

theorem testBit_byte (v : Nat) (hv : v < 256) (j : Nat) (hj : 8 ≤ j) : v.testBit j = false :=
  Nat.testBit_lt_two_pow (lt_of_lt_of_le hv (Nat.pow_le_pow_right (by decide) hj : 2 ^ 8 ≤ 2 ^ j))

theorem testBit_FFFF0 (i : Nat) : Nat.testBit 0xFFFF0 i = (decide (4 ≤ i) && decide (i < 20)) := by
  rcases Nat.lt_or_ge i 20 with h | h
  · interval_cases i <;> rfl
  · rw [Nat.testBit_lt_two_pow (lt_of_lt_of_le (by decide : 0xFFFF0 < 2 ^ 20)
      (Nat.pow_le_pow_right (by decide) h))]
    simp
    omega

theorem testBit_FF00F (i : Nat) :
    Nat.testBit 0xFF00F i = (decide (i < 4) || (decide (12 ≤ i) && decide (i < 20))) := by
  rcases Nat.lt_or_ge i 20 with h | h
  · interval_cases i <;> rfl
  · rw [Nat.testBit_lt_two_pow (lt_of_lt_of_le (by decide : 0xFF00F < 2 ^ 20)
      (Nat.pow_le_pow_right (by decide) h))]
    simp
    omega

theorem testBit_FFF (i : Nat) : Nat.testBit 0xFFF i = decide (i < 12) := by
  rcases Nat.lt_or_ge i 12 with h | h
  · interval_cases i <;> rfl
  · rw [Nat.testBit_lt_two_pow (lt_of_lt_of_le (by decide : 0xFFF < 2 ^ 12)
      (Nat.pow_le_pow_right (by decide) h))]
    simp
    omega

theorem testBit_F (i : Nat) : Nat.testBit 0xF i = decide (i < 4) := by
  rcases Nat.lt_or_ge i 4 with h | h
  · interval_cases i <;> rfl
  · rw [Nat.testBit_lt_two_pow (lt_of_lt_of_le (by decide : 0xF < 2 ^ 4)
      (Nat.pow_le_pow_right (by decide) h))]
    simp
    omega

theorem myPF_withFrame (s r : TIA) : (s.withFrame r).myPF = s.myPF := rfl

theorem myPF_pokeFrame (T : TIATables) (s : TIA) (addr : Nat) :
    (pokeFrame T s addr).myPF = s.myPF := by
  rw [pokeFrame_frame, myPF_withFrame]

theorem myPF_poke_PF0 (T : TIATables) (s : TIA) (addr value : Nat)
    (hr : T.writeRegister (addr &&& 0x003f) = some TIARegister.PF0) :
    (poke T s addr value).2.myPF = (s.myPF &&& 0x000FFFF0) ||| ((value >>> 4) &&& 0x0F) := by
  rw [poke_eq T s addr value _ hr]
  show ((pokeFrame T s addr).myPF &&& 0x000FFFF0) ||| ((value >>> 4) &&& 0x0F) = _
  rw [myPF_pokeFrame]

theorem myPF_poke_PF1 (T : TIATables) (s : TIA) (addr value : Nat)
    (hr : T.writeRegister (addr &&& 0x003f) = some TIARegister.PF1) :
    (poke T s addr value).2.myPF
      = (s.myPF &&& 0x000FF00F) ||| ((value <<< 4) % 4294967296) := by
  rw [poke_eq T s addr value _ hr]
  show ((pokeFrame T s addr).myPF &&& 0x000FF00F) ||| ((value <<< 4) % 4294967296) = _
  rw [myPF_pokeFrame]

theorem myPF_poke_PF2 (T : TIATables) (s : TIA) (addr value : Nat)
    (hr : T.writeRegister (addr &&& 0x003f) = some TIARegister.PF2) :
    (poke T s addr value).2.myPF
      = (s.myPF &&& 0x00000FFF) ||| ((value <<< 12) % 4294967296) := by
  rw [poke_eq T s addr value _ hr]
  show ((pokeFrame T s addr).myPF &&& 0x00000FFF) ||| ((value <<< 12) % 4294967296) = _
  rw [myPF_pokeFrame]

/-- Bit `i` of the playfield register after a write of the byte `a` to `PF0`. -/
theorem testBit_PF0 (x a : Nat) (i : Nat) :
    ((x &&& 0x000FFFF0) ||| ((a >>> 4) &&& 0x0F)).testBit i
      = if i < 4 then a.testBit (i + 4) else (decide (i < 20) && x.testBit i) := by
  simp only [Nat.testBit_or, Nat.testBit_and, Nat.testBit_shiftRight, testBit_FFFF0, testBit_F]
  by_cases h : i < 4
  · simp [h, show ¬ (4 ≤ i) by omega, Nat.add_comm]
  · simp [h, show 4 ≤ i by omega, Bool.and_comm]

/-- Bit `i` of the playfield register after a write of the byte `b` to `PF1`. -/
theorem testBit_PF1 (x b : Nat) (hb : b < 256) (i : Nat) :
    ((x &&& 0x000FF00F) ||| ((b <<< 4) % 4294967296)).testBit i
      = if 4 ≤ i ∧ i < 12 then b.testBit (i - 4) else (decide (i < 20) && x.testBit i) := by
  have hm : (b <<< 4) % 4294967296 = b <<< 4 := by
    rw [Nat.shiftLeft_eq]
    omega
  rw [hm]
  simp only [Nat.testBit_or, Nat.testBit_and, Nat.testBit_shiftLeft, testBit_FF00F]
  by_cases h1 : i < 4
  · simp [h1, show ¬ (4 ≤ i) by omega, show i < 20 by omega, Bool.and_comm]
  · by_cases h2 : i < 12
    · simp [h1, h2, show 4 ≤ i by omega, show ¬ (12 ≤ i) by omega]
    · have hb' := testBit_byte b hb (i - 4) (by omega)
      by_cases h3 : i < 20
      · simp [h1, h2, h3, hb', show 12 ≤ i by omega, Bool.and_comm]
      · simp [h1, h2, h3, hb']

/-- Bit `i` of the playfield register after a write of the byte `c` to `PF2`. -/
theorem testBit_PF2 (x c : Nat) (hc : c < 256) (i : Nat) :
    ((x &&& 0x00000FFF) ||| ((c <<< 12) % 4294967296)).testBit i
      = if 12 ≤ i then c.testBit (i - 12) else x.testBit i := by
  have hm : (c <<< 12) % 4294967296 = c <<< 12 := by
    rw [Nat.shiftLeft_eq]
    omega
  rw [hm]
  simp only [Nat.testBit_or, Nat.testBit_and, Nat.testBit_shiftLeft, testBit_FFF]
  by_cases h1 : i < 12
  · simp [h1, show ¬ (12 ≤ i) by omega, Bool.and_comm]
  · simp [h1, show 12 ≤ i by omega]

/-- Bit `i` of the assembled value `(a >> 4) | (b << 4) | (c << 12)`. -/
theorem testBit_assembled (a b c : Nat) (ha : a < 256) (hb : b < 256) (hc : c < 256) (i : Nat) :
    ((a >>> 4) ||| (b <<< 4) ||| (c <<< 12)).testBit i
      = if i < 4 then a.testBit (i + 4)
        else if i < 12 then b.testBit (i - 4)
        else if i < 20 then c.testBit (i - 12)
        else false := by
  simp only [Nat.testBit_or, Nat.testBit_shiftLeft, Nat.testBit_shiftRight]
  by_cases h1 : i < 4
  · simp [h1, show ¬ (4 ≤ i) by omega, show ¬ (12 ≤ i) by omega, Nat.add_comm]
  · have ha' := testBit_byte a ha (4 + i) (by omega)
    by_cases h2 : i < 12
    · simp [h1, h2, ha', show 4 ≤ i by omega, show ¬ (12 ≤ i) by omega]
    · have hb' := testBit_byte b hb (i - 4) (by omega)
      by_cases h3 : i < 20
      · simp [h1, h2, h3, ha', hb', show 12 ≤ i by omega]
      · have hc' := testBit_byte c hc (i - 12) (by omega)
        simp [h1, h2, h3, ha', hb', hc']

theorem myPF_pokeAt_PF0 (T : TIATables) (s : TIA) (n addr value : Nat)
    (hr : T.writeRegister (addr &&& 0x003f) = some TIARegister.PF0) :
    (pokeAt T s n addr value).myPF = (s.myPF &&& 0x000FFFF0) ||| ((value >>> 4) &&& 0x0F) :=
  myPF_poke_PF0 T _ addr value hr

theorem myPF_pokeAt_PF1 (T : TIATables) (s : TIA) (n addr value : Nat)
    (hr : T.writeRegister (addr &&& 0x003f) = some TIARegister.PF1) :
    (pokeAt T s n addr value).myPF
      = (s.myPF &&& 0x000FF00F) ||| ((value <<< 4) % 4294967296) :=
  myPF_poke_PF1 T _ addr value hr

theorem myPF_pokeAt_PF2 (T : TIATables) (s : TIA) (n addr value : Nat)
    (hr : T.writeRegister (addr &&& 0x003f) = some TIARegister.PF2) :
    (pokeAt T s n addr value).myPF
      = (s.myPF &&& 0x00000FFF) ||| ((value <<< 12) % 4294967296) :=
  myPF_poke_PF2 T _ addr value hr

/-- C20 fails as stated: a write of `0x01` to `PF1` sets bit 4 of the playfield
register, the lowest bit of the PF1 field, while the bit-reversed byte would
set bit 11. -/
theorem C20_PF1_not_reversed :
    (pokeAt sampleTables (reset sampleTables sampleEnv sampleTIA) 0 0x0E 0x01).myPF = 0x10 ∧
    (reverseBits8 0x01) <<< 4 = 0x800 := by
  refine ⟨?_, by decide⟩
  rw [myPF_pokeAt_PF1 sampleTables _ 0 0x0E 0x01 (by decide)]
  have h : (reset sampleTables sampleEnv sampleTIA).myPF = 0 := by
    unfold reset
    dsimp only
    rfl
  rw [h]
  decide

/-- C20 (amended): after writes `PF0 = a`, `PF1 = b`, `PF2 = c` in any order
the playfield register is `(a >> 4) | (b << 4) | (c << 12)`, a value below
`2^20` that holds the high nibble of `a` in bits 0..3, the bits of `b` in
bits 4..11 in their own order (bit `k` of `b` is bit `4 + k`) and the bits of
`c` in bits 12..19; each single write changes only the bits of its own field
among bits 0..19. -/
theorem C20_playfield_assembly (T : TIATables) (s : TIA) (a0 a1 a2 n0 n1 n2 a b c : Nat)
    (h0 : T.writeRegister (a0 &&& 0x003f) = some TIARegister.PF0)
    (h1 : T.writeRegister (a1 &&& 0x003f) = some TIARegister.PF1)
    (h2 : T.writeRegister (a2 &&& 0x003f) = some TIARegister.PF2)
    (ha : a < 256) (hb : b < 256) (hc : c < 256) :
    (∀ i, (pokeAt T s n0 a0 a).myPF.testBit i
        = if i < 4 then a.testBit (i + 4) else (decide (i < 20) && s.myPF.testBit i)) ∧
    (∀ i, (pokeAt T s n0 a1 b).myPF.testBit i
        = if 4 ≤ i ∧ i < 12 then b.testBit (i - 4) else (decide (i < 20) && s.myPF.testBit i)) ∧
    (∀ i, (pokeAt T s n0 a2 c).myPF.testBit i
        = if 12 ≤ i then c.testBit (i - 12) else s.myPF.testBit i) ∧
    (pokeAt T (pokeAt T (pokeAt T s n0 a0 a) n1 a1 b) n2 a2 c).myPF
      = (a >>> 4) ||| (b <<< 4) ||| (c <<< 12) ∧
    (pokeAt T (pokeAt T (pokeAt T s n0 a0 a) n1 a2 c) n2 a1 b).myPF
      = (a >>> 4) ||| (b <<< 4) ||| (c <<< 12) ∧
    (pokeAt T (pokeAt T (pokeAt T s n0 a1 b) n1 a0 a) n2 a2 c).myPF
      = (a >>> 4) ||| (b <<< 4) ||| (c <<< 12) ∧
    (pokeAt T (pokeAt T (pokeAt T s n0 a1 b) n1 a2 c) n2 a0 a).myPF
      = (a >>> 4) ||| (b <<< 4) ||| (c <<< 12) ∧
    (pokeAt T (pokeAt T (pokeAt T s n0 a2 c) n1 a0 a) n2 a1 b).myPF
      = (a >>> 4) ||| (b <<< 4) ||| (c <<< 12) ∧
    (pokeAt T (pokeAt T (pokeAt T s n0 a2 c) n1 a1 b) n2 a0 a).myPF
      = (a >>> 4) ||| (b <<< 4) ||| (c <<< 12) ∧
    (a >>> 4) ||| (b <<< 4) ||| (c <<< 12) < 2 ^ 20 ∧
    (∀ i, ((a >>> 4) ||| (b <<< 4) ||| (c <<< 12)).testBit i
        = if i < 4 then a.testBit (i + 4)
          else if i < 12 then b.testBit (i - 4)
          else if i < 20 then c.testBit (i - 12)
          else false) := by
  have e0 := fun (x : TIA) (n : Nat) => myPF_pokeAt_PF0 T x n a0 a h0
  have e1 := fun (x : TIA) (n : Nat) => myPF_pokeAt_PF1 T x n a1 b h1
  have e2 := fun (x : TIA) (n : Nat) => myPF_pokeAt_PF2 T x n a2 c h2
  have t0 := fun (x : Nat) => testBit_PF0 x a
  have t1 := fun (x : Nat) => testBit_PF1 x b hb
  have t2 := fun (x : Nat) => testBit_PF2 x c hc
  have tv := testBit_assembled a b c ha hb hc
  have hc20 : ∀ i, 20 ≤ i → c.testBit (i - 12) = false :=
    fun i hi => testBit_byte c hc (i - 12) (by omega)
  refine ⟨fun i => by rw [e0, t0], fun i => by rw [e1, t1], fun i => by rw [e2, t2],
    ?_, ?_, ?_, ?_, ?_, ?_, ?_, tv⟩
  · apply Nat.eq_of_testBit_eq
    intro i
    rw [e2, e1, e0, t2, t1, t0, tv]
    clear e0 e1 e2 t0 t1 t2 tv
    split_ifs <;> first | rfl | omega | (simp_all; done) | (simp_all; omega)
  · apply Nat.eq_of_testBit_eq
    intro i
    rw [e1, e2, e0, t1, t2, t0, tv]
    clear e0 e1 e2 t0 t1 t2 tv
    split_ifs <;> first | rfl | omega | (simp_all; done) | (simp_all; omega)
  · apply Nat.eq_of_testBit_eq
    intro i
    rw [e2, e0, e1, t2, t0, t1, tv]
    clear e0 e1 e2 t0 t1 t2 tv
    split_ifs <;> first | rfl | omega | (simp_all; done) | (simp_all; omega)
  · apply Nat.eq_of_testBit_eq
    intro i
    rw [e0, e2, e1, t0, t2, t1, tv]
    clear e0 e1 e2 t0 t1 t2 tv
    split_ifs <;> first | rfl | omega | (simp_all; done) | (simp_all; omega)
  · apply Nat.eq_of_testBit_eq
    intro i
    rw [e1, e0, e2, t1, t0, t2, tv]
    clear e0 e1 e2 t0 t1 t2 tv
    split_ifs <;> first | rfl | omega | (simp_all; done) | (simp_all; omega)
  · apply Nat.eq_of_testBit_eq
    intro i
    rw [e0, e1, e2, t0, t1, t2, tv]
    clear e0 e1 e2 t0 t1 t2 tv
    split_ifs <;> first | rfl | omega | (simp_all; done) | (simp_all; omega)
  · apply Nat.lt_pow_two_of_testBit
    intro i hi
    rw [tv]
    split_ifs <;> first | rfl | omega

theorem C20_playfield_assembly_witness :
    (pokeAt sampleTables (pokeAt sampleTables (pokeAt sampleTables sampleTIA 0 0x0D 0xA0)
      1 0x0E 0x01) 2 0x0F 0x80).myPF = 0x8001A :=
  (C20_playfield_assembly sampleTables sampleTIA 0x0D 0x0E 0x0F 0 1 2 0xA0 0x01 0x80
    (by decide) (by decide) (by decide) (by decide) (by decide) (by decide)).2.2.2.1

/-- The clock fields after an `updateFrame` that ends exactly on the boundary
between the first and the second scanline of a fresh frame. -/
theorem HMState.updateFrame_to_boundary (h : HMState) (σ : Int)
    (h0 : h.clockWhenFrameStarted = σ) (h1 : h.clockStartDisplay = σ)
    (h2 : σ + 228 ≤ h.clockStopDisplay) (h3 : h.clockAtLastUpdate = σ)
    (h4 : h.clocksToEndOfScanLine = 228) :
    (HMState.updateFrame h (σ + 228)).clockWhenFrameStarted = σ ∧
    (HMState.updateFrame h (σ + 228)).clockStartDisplay = σ ∧
    (HMState.updateFrame h (σ + 228)).clockStopDisplay = h.clockStopDisplay ∧
    (HMState.updateFrame h (σ + 228)).clockAtLastUpdate = σ + 228 ∧
    (HMState.updateFrame h (σ + 228)).clocksToEndOfScanLine = 0 := by
  rw [HMState.updateFrame_nextLine h (σ + 228) 0 (by omega) (by omega) (by omega) h2
    (toU32_tdiv_228 _ 0 (by omega) (by omega) (by omega))
    (toU32_tdiv_228 _ 1 (by omega) (by omega) (by omega))]
  rw [HMState.updateLine_eq, HMState.updateLine_eq]
  unfold HMState.interLine
  dsimp only
  rw [h0, h1, h3, h4]
  refine ⟨rfl, rfl, rfl, ?_, ?_⟩ <;> (split_ifs <;> omega)

/-- An `updateFrame` to a clock of the current scanline, on a state whose last
update ended exactly on the scanline boundary (`clocksToEndOfScanLine = 0`),
only starts the scanline: the clock of the last update does not move. -/
theorem HMState.updateFrame_stalls (h : HMState) (c : Int) (L : Nat)
    (hg1 : h.clockStartDisplay ≤ c) (hg2 : h.clockAtLastUpdate < h.clockStopDisplay)
    (hg3 : h.clockAtLastUpdate < c) (hc : c ≤ h.clockStopDisplay)
    (hL1 : toU32 (Int.tdiv (h.clockAtLastUpdate - h.clockWhenFrameStarted) 228) = L)
    (hL2 : toU32 (Int.tdiv (c - h.clockWhenFrameStarted) 228) = L)
    (hz : h.clocksToEndOfScanLine = 0) :
    (HMState.updateFrame h c).clockAtLastUpdate = h.clockAtLastUpdate ∧
    (HMState.updateFrame h c).clocksToEndOfScanLine = 228 := by
  rw [HMState.updateFrame_sameLine h c L hg1 hg2 hg3 hc hL1 hL2, HMState.updateLine_eq]
  dsimp only
  rw [hz, if_pos (by omega), if_pos (by omega)]
  exact ⟨by omega, rfl⟩

/-- The clocks `startFrame` sets up: the frame starts at `-c` for the number
`c < 228` of clocks already passed on the current scanline. -/
theorem startFrame_clocks (T : TIATables) (s : TIA) :
    ∃ c : Int, 0 ≤ c ∧ c < 228 ∧
      (startFrame T s).myClockWhenFrameStarted = -c ∧
      (startFrame T s).myClockStartDisplay = -c ∧
      (startFrame T s).myClockAtLastUpdate = -c ∧
      (startFrame T s).myClocksToEndOfScanLine = 228 ∧
      (startFrame T s).myClockStopDisplay = toInt32 (-c + (s.myStopDisplayOffset : Int)) := by
  refine ⟨(((((s.cycles * 3) % 4294967296 + 4294967296 - toU32 s.myClockWhenFrameStarted)
      % 4294967296) % 228 : Nat) : Int), by omega, by omega, ?_⟩
  unfold startFrame
  dsimp only
  split_ifs <;> exact ⟨rfl, rfl, rfl, rfl, rfl⟩

/-- C16 (refuted by the code): `updateFrame` does not always advance
`clockAtLastUpdate`.  After `startFrame`, an `updateFrame` to the clock 228
after the frame start ends exactly on the scanline boundary and leaves
`clocksToEndOfScanLine = 0`; the next `updateFrame(t)` with `t` on the following
scanline passes the guard (`t >= clockStartDisplay`, `t > clockAtLastUpdate`,
`clockAtLastUpdate < clockStopDisplay`) but its only loop pass "finishes" the
already finished scanline with zero clocks, so `clockAtLastUpdate` is what it
was before the call. -/
theorem C16_update_stalls_at_boundary (T : TIATables) (s0 : TIA) (d : Int)
    (hd : 0 < d ∧ d < 228)
    (hoff : 684 ≤ s0.myStopDisplayOffset ∧ s0.myStopDisplayOffset < 2147483648) :
    (updateFrame T (startFrame T s0)
        ((startFrame T s0).myClockWhenFrameStarted + 228)).myClockStartDisplay
      ≤ (startFrame T s0).myClockWhenFrameStarted + 228 + d ∧
    (updateFrame T (startFrame T s0)
        ((startFrame T s0).myClockWhenFrameStarted + 228)).myClockAtLastUpdate
      < (startFrame T s0).myClockWhenFrameStarted + 228 + d ∧
    (updateFrame T (startFrame T s0)
        ((startFrame T s0).myClockWhenFrameStarted + 228)).myClockAtLastUpdate
      < (updateFrame T (startFrame T s0)
        ((startFrame T s0).myClockWhenFrameStarted + 228)).myClockStopDisplay ∧
    (updateFrame T
        (updateFrame T (startFrame T s0) ((startFrame T s0).myClockWhenFrameStarted + 228))
        ((startFrame T s0).myClockWhenFrameStarted + 228 + d)).myClockAtLastUpdate
      = (updateFrame T (startFrame T s0)
          ((startFrame T s0).myClockWhenFrameStarted + 228)).myClockAtLastUpdate := by
  obtain ⟨c, hc0, hc1, e0, e1, e3, e4, e2⟩ := startFrame_clocks T s0
  have hstop : (startFrame T s0).myClockStopDisplay = -c + (s0.myStopDisplayOffset : Int) := by
    rw [e2]
    unfold toInt32
    omega
  rw [e0]
  generalize hs1 : startFrame T s0 = s1 at *
  have b := HMState.updateFrame_to_boundary s1.hmState (-c) e0 e1
    (by show -c + 228 ≤ s1.myClockStopDisplay; omega) e3 e4
  rw [← hmState_updateFrame T s1 (-c + 228)] at b
  generalize hs2 : updateFrame T s1 (-c + 228) = s2 at *
  obtain ⟨b0, b1, b2, b3, b4⟩ := b
  have b0' : s2.myClockWhenFrameStarted = -c := b0
  have b1' : s2.myClockStartDisplay = -c := b1
  have b2' : s2.myClockStopDisplay = s1.myClockStopDisplay := b2
  have b3' : s2.myClockAtLastUpdate = -c + 228 := b3
  have st := HMState.updateFrame_stalls s2.hmState (-c + 228 + d) 1
    (by show s2.myClockStartDisplay ≤ _; omega)
    (by show s2.myClockAtLastUpdate < s2.myClockStopDisplay; omega)
    (by show s2.myClockAtLastUpdate < _; omega)
    (by show _ ≤ s2.myClockStopDisplay; omega)
    (toU32_tdiv_228 _ 1 (by show 228 * ((1 : Nat) : Int) ≤ s2.myClockAtLastUpdate - s2.myClockWhenFrameStarted; omega)
      (by show s2.myClockAtLastUpdate - s2.myClockWhenFrameStarted < _; omega)
      (by show s2.myClockAtLastUpdate - s2.myClockWhenFrameStarted < _; omega))
    (toU32_tdiv_228 _ 1 (by show 228 * ((1 : Nat) : Int) ≤ _ - s2.myClockWhenFrameStarted; omega)
      (by show _ - s2.myClockWhenFrameStarted < _; omega)
      (by show _ - s2.myClockWhenFrameStarted < _; omega))
    b4
  rw [← hmState_updateFrame T s2 (-c + 228 + d)] at st
  refine ⟨by omega, by omega, by omega, st.1⟩

theorem C16_update_stalls_at_boundary_witness :
    (updateFrame sampleTables
        (updateFrame sampleTables (startFrame sampleTables (reset sampleTables sampleEnv sampleTIA))
          ((startFrame sampleTables
            (reset sampleTables sampleEnv sampleTIA)).myClockWhenFrameStarted + 228))
        ((startFrame sampleTables
          (reset sampleTables sampleEnv sampleTIA)).myClockWhenFrameStarted + 228 + 5)).myClockAtLastUpdate
      = (updateFrame sampleTables (startFrame sampleTables (reset sampleTables sampleEnv sampleTIA))
          ((startFrame sampleTables
            (reset sampleTables sampleEnv sampleTIA)).myClockWhenFrameStarted + 228)).myClockAtLastUpdate :=
  (C16_update_stalls_at_boundary sampleTables (reset sampleTables sampleEnv sampleTIA) 5
    (by decide) (by decide)).2.2.2

/-- An `updateFrame` to a clock that is not after the last update does nothing. -/
theorem updateFrame_up_to_date (T : TIATables) (s : TIA) (t : Int) (h : t ≤ s.myClockAtLastUpdate) :
    updateFrame T s t = s := by
  unfold updateFrame
  rw [if_pos (Or.inr (Or.inr h))]

theorem pixelLoop_collision (T : TIATables) (e : Nat) (i : Nat) (hi : i < 16) :
    ∀ (n hpos : Nat) (s : TIA), s.myCollision.testBit i = true →
      (pixelLoop T e n hpos s).myCollision.testBit i = true := by
  intro n
  induction n with
  | zero => intro hpos s h; exact h
  | succ n ih =>
    intro hpos s h
    unfold pixelLoop
    apply ih
    show ((s.myCollision ||| T.CollisionMask (pixelEnabled T s e hpos)) % 2 ^ 16).testBit i = true
    rw [Nat.testBit_mod_two_pow, Nat.testBit_or, h]
    simp [hi]

theorem advanceClocks_collision (clock : Int) (s : TIA) :
    (advanceClocks clock s).myCollision = s.myCollision := by
  unfold advanceClocks
  split <;> rfl

theorem endOfScanLine_collision (s : TIA) : (endOfScanLine s).myCollision = s.myCollision := by
  unfold endOfScanLine
  split <;> rfl

set_option maxHeartbeats 4000000 in
theorem renderLine_collision (T : TIATables) (a b : Int) (s : TIA) (i : Nat) (hi : i < 16)
    (h : s.myCollision.testBit i = true) :
    (renderLine T a b s).myCollision.testBit i = true := by
  unfold renderLine
  dsimp only
  split_ifs <;> first | exact h | exact pixelLoop_collision T _ i hi _ _ _ h

theorem updateLine_collision (T : TIATables) (clock : Int) (s : TIA) (i : Nat) (hi : i < 16)
    (h : s.myCollision.testBit i = true) :
    (updateLine T clock s).myCollision.testBit i = true := by
  unfold updateLine
  rw [endOfScanLine_collision]
  apply renderLine_collision T _ _ _ i hi
  rw [advanceClocks_collision]
  exact h

theorem lineLoop_collision (T : TIATables) (clock : Int) (startLine : Nat) (i : Nat)
    (hi : i < 16) :
    ∀ (n line : Nat) (s : TIA), s.myCollision.testBit i = true →
      (lineLoop T clock startLine n line s).myCollision.testBit i = true := by
  intro n
  induction n with
  | zero => intro line s h; exact h
  | succ n ih =>
    intro line s h
    unfold lineLoop
    dsimp only
    apply ih
    apply updateLine_collision T clock _ i hi
    split
    · exact h
    · exact h

/-- No `updateFrame` call clears a bit of the 16-bit collision latch. -/
theorem updateFrame_collision (T : TIATables) (s : TIA) (clock : Int) (i : Nat) (hi : i < 16)
    (h : s.myCollision.testBit i = true) :
    (updateFrame T s clock).myCollision.testBit i = true := by
  unfold updateFrame
  split
  · exact h
  · exact lineLoop_collision T _ _ i hi _ _ s h

/-- A write of any value to `CXCLR` leaves the collision latch equal to 0. -/
theorem poke_CXCLR_collision (T : TIATables) (s : TIA) (addr value : Nat)
    (hr : T.writeRegister (addr &&& 0x003f) = some TIARegister.CXCLR) :
    (poke T s addr value).2.myCollision = 0 := by
  rw [poke_eq T s addr value _ hr]
  rfl

/-- When the frame is already up to date at the clock of the read, a read of
`CXM1P` on an empty collision latch returns bits 7 and 6 clear. -/
theorem peek_CXM1P_clear (T : TIATables) (R : TIAReadTables) (inp : TIAInputs) (s : TIA)
    (addr : Nat) (hr : R.readRegister (addr &&& 0x000f) = some TIAReadRegister.CXM1P)
    (hc : s.myCollision = 0) (hup : clockNow s ≤ s.myClockAtLastUpdate) :
    (peek T R inp s addr).1 &&& 0xC0 = 0 := by
  unfold peek
  dsimp only
  rw [hr]
  dsimp only
  rw [updateFrame_up_to_date T s (clockNow s) hup, hc]
  simp only [Nat.zero_and, collisionBits, ne_eq, not_true_eq_false, if_false, Nat.or_zero]
  apply Nat.eq_of_testBit_eq
  intro i
  simp only [Nat.testBit_and, Nat.zero_testBit]
  rcases Nat.lt_or_ge i 6 with h | h
  · have : Nat.testBit 0xC0 i = false := by interval_cases i <;> rfl
    rw [this, Bool.and_false]
  · have : Nat.testBit 0x3F i = false :=
      Nat.testBit_lt_two_pow (lt_of_lt_of_le (by decide : 0x3F < 2 ^ 6)
        (Nat.pow_le_pow_right (by decide) h))
    rw [this, Bool.false_and, Bool.false_and]

set_option maxRecDepth 100000 in
/-- C19 (refuted by the code in its last part): a read of `CXM1P` made at the
same CPU cycle as a write to `CXCLR` can return bit 7 set.  In
`collisionScenario` the last frame update ended exactly on a scanline boundary;
the `updateFrame` of the `CXCLR` write (CPU cycle 110, colour clock 330) then
only starts the new scanline, the latch is cleared, and the `updateFrame` of
the read at the same clock draws the pixels before clock 330, on which player 0
and missile 1 overlap, into the cleared latch. -/
theorem C19_stale_collision_after_CXCLR :
    (pokeAt collisionTables collisionScenario 110 0x2C 0x00).myCollision = 0 ∧
    (peekAt collisionTables sampleReadTables sampleInputs
      (pokeAt collisionTables collisionScenario 110 0x2C 0x00) 110 0x01).1 = 0x80 := by
  decide

/-- The five `HMxx` registers and more-motion latches after the common text of
the `pokeHMxx` methods: the register holds the high nibble of the value, and a
set latch stays set. -/
theorem pokeHMxx_spec (s : TIA) (hm : Nat) (pos motionClock : Int) (mmr : Bool) (value : Nat)
    (clock : Int) :
    (pokeHMxx s hm pos motionClock mmr value clock).1 = value &&& 0xF0 ∧
    (mmr = true → (pokeHMxx s hm pos motionClock mmr value clock).2.2.2 = true) := by
  unfold pokeHMxx
  dsimp only
  split_ifs with h1 h2 h3 h4
  · exact ⟨h1, fun h => h⟩
  · exact ⟨rfl, fun h => h⟩
  · exact ⟨rfl, fun _ => rfl⟩
  · exact ⟨rfl, fun h => h⟩
  · exact ⟨rfl, fun h => h⟩

/-- The registers and latches after `pokeHMP0`. -/
theorem pokeHMP0_regs (s : TIA) (value : Nat) (clock : Int) :
    (pokeHMP0 s value clock).myHMP0 = value &&& 0xF0 ∧
    (s.myHMP0mmr = true → (pokeHMP0 s value clock).myHMP0mmr = true) ∧
    (pokeHMP0 s value clock).myHMP1 = s.myHMP1 ∧
    (pokeHMP0 s value clock).myHMP1mmr = s.myHMP1mmr ∧
    (pokeHMP0 s value clock).myHMM0 = s.myHMM0 ∧
    (pokeHMP0 s value clock).myHMM0mmr = s.myHMM0mmr ∧
    (pokeHMP0 s value clock).myHMM1 = s.myHMM1 ∧
    (pokeHMP0 s value clock).myHMM1mmr = s.myHMM1mmr ∧
    (pokeHMP0 s value clock).myHMBL = s.myHMBL ∧
    (pokeHMP0 s value clock).myHMBLmmr = s.myHMBLmmr := by
  unfold pokeHMP0
  dsimp only
  exact ⟨(pokeHMxx_spec _ _ _ _ _ value clock).1, (pokeHMxx_spec _ _ _ _ _ value clock).2,
    rfl, rfl, rfl, rfl, rfl, rfl, rfl, rfl⟩

/-- The registers and latches after `pokeHMP1`. -/
theorem pokeHMP1_regs (s : TIA) (value : Nat) (clock : Int) :
    (pokeHMP1 s value clock).myHMP1 = value &&& 0xF0 ∧
    (s.myHMP1mmr = true → (pokeHMP1 s value clock).myHMP1mmr = true) ∧
    (pokeHMP1 s value clock).myHMP0 = s.myHMP0 ∧
    (pokeHMP1 s value clock).myHMP0mmr = s.myHMP0mmr ∧
    (pokeHMP1 s value clock).myHMM0 = s.myHMM0 ∧
    (pokeHMP1 s value clock).myHMM0mmr = s.myHMM0mmr ∧
    (pokeHMP1 s value clock).myHMM1 = s.myHMM1 ∧
    (pokeHMP1 s value clock).myHMM1mmr = s.myHMM1mmr ∧
    (pokeHMP1 s value clock).myHMBL = s.myHMBL ∧
    (pokeHMP1 s value clock).myHMBLmmr = s.myHMBLmmr := by
  unfold pokeHMP1
  dsimp only
  exact ⟨(pokeHMxx_spec _ _ _ _ _ value clock).1, (pokeHMxx_spec _ _ _ _ _ value clock).2,
    rfl, rfl, rfl, rfl, rfl, rfl, rfl, rfl⟩

/-- The registers and latches after `pokeHMM0`. -/
theorem pokeHMM0_regs (s : TIA) (value : Nat) (clock : Int) :
    (pokeHMM0 s value clock).myHMM0 = value &&& 0xF0 ∧
    (s.myHMM0mmr = true → (pokeHMM0 s value clock).myHMM0mmr = true) ∧
    (pokeHMM0 s value clock).myHMP0 = s.myHMP0 ∧
    (pokeHMM0 s value clock).myHMP0mmr = s.myHMP0mmr ∧
    (pokeHMM0 s value clock).myHMP1 = s.myHMP1 ∧
    (pokeHMM0 s value clock).myHMP1mmr = s.myHMP1mmr ∧
    (pokeHMM0 s value clock).myHMM1 = s.myHMM1 ∧
    (pokeHMM0 s value clock).myHMM1mmr = s.myHMM1mmr ∧
    (pokeHMM0 s value clock).myHMBL = s.myHMBL ∧
    (pokeHMM0 s value clock).myHMBLmmr = s.myHMBLmmr := by
  unfold pokeHMM0
  dsimp only
  exact ⟨(pokeHMxx_spec _ _ _ _ _ value clock).1, (pokeHMxx_spec _ _ _ _ _ value clock).2,
    rfl, rfl, rfl, rfl, rfl, rfl, rfl, rfl⟩

/-- The registers and latches after `pokeHMM1`. -/
theorem pokeHMM1_regs (s : TIA) (value : Nat) (clock : Int) :
    (pokeHMM1 s value clock).myHMM1 = value &&& 0xF0 ∧
    (s.myHMM1mmr = true → (pokeHMM1 s value clock).myHMM1mmr = true) ∧
    (pokeHMM1 s value clock).myHMP0 = s.myHMP0 ∧
    (pokeHMM1 s value clock).myHMP0mmr = s.myHMP0mmr ∧
    (pokeHMM1 s value clock).myHMP1 = s.myHMP1 ∧
    (pokeHMM1 s value clock).myHMP1mmr = s.myHMP1mmr ∧
    (pokeHMM1 s value clock).myHMM0 = s.myHMM0 ∧
    (pokeHMM1 s value clock).myHMM0mmr = s.myHMM0mmr ∧
    (pokeHMM1 s value clock).myHMBL = s.myHMBL ∧
    (pokeHMM1 s value clock).myHMBLmmr = s.myHMBLmmr := by
  unfold pokeHMM1
  dsimp only
  exact ⟨(pokeHMxx_spec _ _ _ _ _ value clock).1, (pokeHMxx_spec _ _ _ _ _ value clock).2,
    rfl, rfl, rfl, rfl, rfl, rfl, rfl, rfl⟩

/-- The registers and latches after `pokeHMBL`. -/
theorem pokeHMBL_regs (s : TIA) (value : Nat) (clock : Int) :
    (pokeHMBL s value clock).myHMBL = value &&& 0xF0 ∧
    (s.myHMBLmmr = true → (pokeHMBL s value clock).myHMBLmmr = true) ∧
    (pokeHMBL s value clock).myHMP0 = s.myHMP0 ∧
    (pokeHMBL s value clock).myHMP0mmr = s.myHMP0mmr ∧
    (pokeHMBL s value clock).myHMP1 = s.myHMP1 ∧
    (pokeHMBL s value clock).myHMP1mmr = s.myHMP1mmr ∧
    (pokeHMBL s value clock).myHMM0 = s.myHMM0 ∧
    (pokeHMBL s value clock).myHMM0mmr = s.myHMM0mmr ∧
    (pokeHMBL s value clock).myHMM1 = s.myHMM1 ∧
    (pokeHMBL s value clock).myHMM1mmr = s.myHMM1mmr := by
  unfold pokeHMBL
  dsimp only
  exact ⟨(pokeHMxx_spec _ _ _ _ _ value clock).1, (pokeHMxx_spec _ _ _ _ _ value clock).2,
    rfl, rfl, rfl, rfl, rfl, rfl, rfl, rfl⟩

theorem pokeRegister_HMCLR_eq (T : TIATables) (s : TIA) (value : Nat) (clock : Int) :
    pokeRegister T s TIARegister.HMCLR value clock
      = pokeHMBL (pokeHMM1 (pokeHMM0 (pokeHMP1 (pokeHMP0 s 0 clock) 0 clock) 0 clock) 0 clock)
          0 clock := rfl

/-- The case `HMCLR` on any state. -/
theorem pokeRegister_HMCLR (T : TIATables) (s : TIA) (value : Nat) (clock : Int) :
    (pokeRegister T s TIARegister.HMCLR value clock).myHMP0 = 0 ∧
    (pokeRegister T s TIARegister.HMCLR value clock).myHMP1 = 0 ∧
    (pokeRegister T s TIARegister.HMCLR value clock).myHMM0 = 0 ∧
    (pokeRegister T s TIARegister.HMCLR value clock).myHMM1 = 0 ∧
    (pokeRegister T s TIARegister.HMCLR value clock).myHMBL = 0 ∧
    (s.myHMP0mmr = true → (pokeRegister T s TIARegister.HMCLR value clock).myHMP0mmr = true) ∧
    (s.myHMP1mmr = true → (pokeRegister T s TIARegister.HMCLR value clock).myHMP1mmr = true) ∧
    (s.myHMM0mmr = true → (pokeRegister T s TIARegister.HMCLR value clock).myHMM0mmr = true) ∧
    (s.myHMM1mmr = true → (pokeRegister T s TIARegister.HMCLR value clock).myHMM1mmr = true) ∧
    (s.myHMBLmmr = true → (pokeRegister T s TIARegister.HMCLR value clock).myHMBLmmr = true) := by
  rw [pokeRegister_HMCLR_eq]
  have a0 := pokeHMP0_regs s 0 clock
  generalize pokeHMP0 s 0 clock = s1 at a0 ⊢
  have a1 := pokeHMP1_regs s1 0 clock
  generalize pokeHMP1 s1 0 clock = s2 at a1 ⊢
  have a2 := pokeHMM0_regs s2 0 clock
  generalize pokeHMM0 s2 0 clock = s3 at a2 ⊢
  have a3 := pokeHMM1_regs s3 0 clock
  generalize pokeHMM1 s3 0 clock = s4 at a3 ⊢
  have a4 := pokeHMBL_regs s4 0 clock
  generalize pokeHMBL s4 0 clock = s5 at a4 ⊢
  have z : 0 &&& 0xF0 = 0 := rfl
  rw [z] at a0 a1 a2 a3 a4
  obtain ⟨b0, c0, d0⟩ := a0
  obtain ⟨b1, c1, d1⟩ := a1
  obtain ⟨b2, c2, d2⟩ := a2
  obtain ⟨b3, c3, d3⟩ := a3
  obtain ⟨b4, c4, d4⟩ := a4
  simp_all

/-- The case `HMOVE` on any state: the five more-motion latches are clear. -/
theorem pokeHMOVE_mmr (T : TIATables) (s : TIA) (clock : Int) :
    (pokeHMOVE T s clock).myHMP0mmr = false ∧ (pokeHMOVE T s clock).myHMP1mmr = false ∧
    (pokeHMOVE T s clock).myHMM0mmr = false ∧ (pokeHMOVE T s clock).myHMM1mmr = false ∧
    (pokeHMOVE T s clock).myHMBLmmr = false := by
  unfold pokeHMOVE
  dsimp only
  split <;> exact ⟨rfl, rfl, rfl, rfl, rfl⟩

theorem withFrame_mmr (s r : TIA) :
    (s.withFrame r).myHMP0mmr = s.myHMP0mmr ∧ (s.withFrame r).myHMP1mmr = s.myHMP1mmr ∧
    (s.withFrame r).myHMM0mmr = s.myHMM0mmr ∧ (s.withFrame r).myHMM1mmr = s.myHMM1mmr ∧
    (s.withFrame r).myHMBLmmr = s.myHMBLmmr :=
  ⟨rfl, rfl, rfl, rfl, rfl⟩

/-- The prologue of `poke` leaves the more-motion latches alone. -/
theorem pokeFrame_mmr (T : TIATables) (s : TIA) (addr : Nat) :
    (pokeFrame T s addr).myHMP0mmr = s.myHMP0mmr ∧
    (pokeFrame T s addr).myHMP1mmr = s.myHMP1mmr ∧
    (pokeFrame T s addr).myHMM0mmr = s.myHMM0mmr ∧
    (pokeFrame T s addr).myHMM1mmr = s.myHMM1mmr ∧
    (pokeFrame T s addr).myHMBLmmr = s.myHMBLmmr := by
  rw [pokeFrame_frame]
  exact withFrame_mmr s _

/-- C25: a write to `HMCLR` leaves the five registers `HMP0`, `HMP1`, `HMM0`,
`HMM1`, `HMBL` equal to 0 and never clears a more-motion latch that was set; a
write to `HMOVE`, at any horizontal position, leaves the five more-motion
latches clear. -/
theorem C25_HMCLR_and_HMOVE_latches (T : TIATables) (s : TIA) (aC aM value : Nat)
    (hC : T.writeRegister (aC &&& 0x003f) = some TIARegister.HMCLR)
    (hM : T.writeRegister (aM &&& 0x003f) = some TIARegister.HMOVE) :
    ((poke T s aC value).2.myHMP0 = 0 ∧ (poke T s aC value).2.myHMP1 = 0 ∧
      (poke T s aC value).2.myHMM0 = 0 ∧ (poke T s aC value).2.myHMM1 = 0 ∧
      (poke T s aC value).2.myHMBL = 0) ∧
    ((s.myHMP0mmr = true → (poke T s aC value).2.myHMP0mmr = true) ∧
      (s.myHMP1mmr = true → (poke T s aC value).2.myHMP1mmr = true) ∧
      (s.myHMM0mmr = true → (poke T s aC value).2.myHMM0mmr = true) ∧
      (s.myHMM1mmr = true → (poke T s aC value).2.myHMM1mmr = true) ∧
      (s.myHMBLmmr = true → (poke T s aC value).2.myHMBLmmr = true)) ∧
    ((poke T s aM value).2.myHMP0mmr = false ∧ (poke T s aM value).2.myHMP1mmr = false ∧
      (poke T s aM value).2.myHMM0mmr = false ∧ (poke T s aM value).2.myHMM1mmr = false ∧
      (poke T s aM value).2.myHMBLmmr = false) := by
  rw [poke_eq T s aC value _ hC, poke_eq T s aM value _ hM]
  obtain ⟨r0, r1, r2, r3, r4, l0, l1, l2, l3, l4⟩ :=
    pokeRegister_HMCLR T (pokeFrame T s aC) value (clockNow s)
  obtain ⟨m0, m1, m2, m3, m4⟩ := pokeFrame_mmr T s aC
  rw [m0] at l0
  rw [m1] at l1
  rw [m2] at l2
  rw [m3] at l3
  rw [m4] at l4
  exact ⟨⟨r0, r1, r2, r3, r4⟩, ⟨l0, l1, l2, l3, l4⟩,
    pokeHMOVE_mmr T (pokeFrame T s aM) (clockNow s)⟩

theorem C25_HMCLR_and_HMOVE_latches_witness :
    (poke sampleTables (reset sampleTables sampleEnv sampleTIA) 0x2B 0xFF).2.myHMP0 = 0 ∧
    (poke sampleTables (reset sampleTables sampleEnv sampleTIA) 0x2A 0xFF).2.myHMBLmmr = false :=
  ⟨(C25_HMCLR_and_HMOVE_latches sampleTables (reset sampleTables sampleEnv sampleTIA)
      0x2B 0x2A 0xFF (by decide) (by decide)).1.1,
   (C25_HMCLR_and_HMOVE_latches sampleTables (reset sampleTables sampleEnv sampleTIA)
      0x2B 0x2A 0xFF (by decide) (by decide)).2.2.2.2.2.2⟩

theorem withFrame_fixed (s r : TIA) :
    (s.withFrame r).cycles = s.cycles ∧
    (s.withFrame r).lastAccessWasRead = s.lastAccessWasRead ∧
    (s.withFrame r).myClockWhenFrameStarted = s.myClockWhenFrameStarted ∧
    (s.withFrame r).myMaximumNumberOfScanlines = s.myMaximumNumberOfScanlines ∧
    (s.withFrame r).myVSYNCFinishClock = s.myVSYNCFinishClock :=
  ⟨rfl, rfl, rfl, rfl, rfl⟩

/-- The fields the scanline loop never writes, after `updateFrame`. -/
theorem updateFrame_fixed (T : TIATables) (s : TIA) (t : Int) :
    (updateFrame T s t).cycles = s.cycles ∧
    (updateFrame T s t).lastAccessWasRead = s.lastAccessWasRead ∧
    (updateFrame T s t).myClockWhenFrameStarted = s.myClockWhenFrameStarted ∧
    (updateFrame T s t).myMaximumNumberOfScanlines = s.myMaximumNumberOfScanlines ∧
    (updateFrame T s t).myVSYNCFinishClock = s.myVSYNCFinishClock := by
  rw [updateFrame_frame]
  exact withFrame_fixed s _

theorem pokeFrame_fixed (T : TIATables) (s : TIA) (addr : Nat) :
    (pokeFrame T s addr).cycles = s.cycles ∧
    (pokeFrame T s addr).lastAccessWasRead = s.lastAccessWasRead ∧
    (pokeFrame T s addr).myClockWhenFrameStarted = s.myClockWhenFrameStarted ∧
    (pokeFrame T s addr).myMaximumNumberOfScanlines = s.myMaximumNumberOfScanlines ∧
    (pokeFrame T s addr).myVSYNCFinishClock = s.myVSYNCFinishClock := by
  rw [pokeFrame_frame]
  exact withFrame_fixed s _

theorem pixelLoop_flags (T : TIATables) (e n hpos : Nat) (s : TIA) :
    (pixelLoop T e n hpos s).cpuStopped = s.cpuStopped ∧
    (pixelLoop T e n hpos s).myPartialFrameFlag = s.myPartialFrameFlag := by
  rw [pixelLoop_eq]
  exact ⟨rfl, rfl⟩

theorem advanceClocks_flags (clock : Int) (s : TIA) :
    (advanceClocks clock s).cpuStopped = s.cpuStopped ∧
    (advanceClocks clock s).myPartialFrameFlag = s.myPartialFrameFlag := by
  unfold advanceClocks
  split <;> exact ⟨rfl, rfl⟩

theorem endOfScanLine_flags (s : TIA) :
    (endOfScanLine s).cpuStopped = s.cpuStopped ∧
    (endOfScanLine s).myPartialFrameFlag = s.myPartialFrameFlag := by
  unfold endOfScanLine
  split <;> exact ⟨rfl, rfl⟩

set_option maxHeartbeats 4000000 in
theorem renderLine_flags (T : TIATables) (a b : Int) (s : TIA) :
    (renderLine T a b s).cpuStopped = s.cpuStopped ∧
    (renderLine T a b s).myPartialFrameFlag = s.myPartialFrameFlag := by
  unfold renderLine
  dsimp only
  split_ifs <;> first | exact ⟨rfl, rfl⟩ | exact pixelLoop_flags T _ _ _ _

theorem updateLine_flags (T : TIATables) (clock : Int) (s : TIA) :
    (updateLine T clock s).cpuStopped = s.cpuStopped ∧
    (updateLine T clock s).myPartialFrameFlag = s.myPartialFrameFlag := by
  unfold updateLine
  obtain ⟨a1, a2⟩ := endOfScanLine_flags
    (renderLine T (228 - s.myClocksToEndOfScanLine) (clocksToUpdateOf clock s)
      (advanceClocks clock s))
  obtain ⟨b1, b2⟩ := renderLine_flags T (228 - s.myClocksToEndOfScanLine)
    (clocksToUpdateOf clock s) (advanceClocks clock s)
  obtain ⟨c1, c2⟩ := advanceClocks_flags clock s
  exact ⟨a1.trans (b1.trans c1), a2.trans (b2.trans c2)⟩

theorem lineLoop_flags (T : TIATables) (clock : Int) (startLine : Nat) :
    ∀ (n line : Nat) (s : TIA),
      (lineLoop T clock startLine n line s).cpuStopped = s.cpuStopped ∧
      (lineLoop T clock startLine n line s).myPartialFrameFlag = s.myPartialFrameFlag := by
  intro n
  induction n with
  | zero => intro line s; exact ⟨rfl, rfl⟩
  | succ n ih =>
    intro line s
    unfold lineLoop
    dsimp only
    obtain ⟨a1, a2⟩ := ih (line + 1)
      (updateLine T clock (if line ≠ startLine then interLine s else s))
    obtain ⟨b1, b2⟩ := updateLine_flags T clock (if line ≠ startLine then interLine s else s)
    have c : (if line ≠ startLine then interLine s else s).cpuStopped = s.cpuStopped ∧
        (if line ≠ startLine then interLine s else s).myPartialFrameFlag
          = s.myPartialFrameFlag := by
      split <;> exact ⟨rfl, rfl⟩
    exact ⟨a1.trans (b1.trans c.1), a2.trans (b2.trans c.2)⟩

/-- `updateFrame` neither stops the CPU nor touches the partial-frame flag. -/
theorem updateFrame_flags (T : TIATables) (s : TIA) (t : Int) :
    (updateFrame T s t).cpuStopped = s.cpuStopped ∧
    (updateFrame T s t).myPartialFrameFlag = s.myPartialFrameFlag := by
  unfold updateFrame
  split
  · exact ⟨rfl, rfl⟩
  · exact lineLoop_flags T _ _ _ _ s

/-- Below the scanline limit the prologue of `poke` is the frame update alone. -/
theorem pokeFrame_below_limit (T : TIATables) (s : TIA) (addr : Nat)
    (h : Int.tdiv (clockNow s - s.myClockWhenFrameStarted) 228
      < toInt32 s.myMaximumNumberOfScanlines) :
    pokeFrame T s addr = updateFrame T s (clockNow s + pokeDelay T s addr) := by
  unfold pokeFrame pokeDelay
  dsimp only
  rw [(updateFrame_fixed T s _).2.2.1, (updateFrame_fixed T s _).2.2.2.1, if_neg (by omega)]

/-- At or above the scanline limit the prologue of `poke` also stops the CPU and
clears the partial-frame flag. -/
theorem pokeFrame_at_limit (T : TIATables) (s : TIA) (addr : Nat)
    (h : Int.tdiv (clockNow s - s.myClockWhenFrameStarted) 228
      ≥ toInt32 s.myMaximumNumberOfScanlines) :
    pokeFrame T s addr =
      { updateFrame T s (clockNow s + pokeDelay T s addr) with
        cpuStopped := true, myPartialFrameFlag := false } := by
  unfold pokeFrame pokeDelay
  dsimp only
  rw [(updateFrame_fixed T s _).2.2.1, (updateFrame_fixed T s _).2.2.2.1, if_pos h]

/-- C26: a write to `VSYNC` at colour clock `clock` below the scanline limit.
With bit 1 of the value set, `myVSYNCFinishClock` becomes `clock + 228` and the
partial-frame flag is unchanged; with bit 1 clear and
`clock >= myVSYNCFinishClock` the CPU is stopped, the partial-frame flag is
cleared and `myVSYNCFinishClock` is the sentinel `0x7FFFFFFF`; with bit 1 clear
and `clock < myVSYNCFinishClock` the flag and `myVSYNCFinishClock` are
unchanged. -/
theorem C26_VSYNC_write (T : TIATables) (s : TIA) (addr value : Nat)
    (hr : T.writeRegister (addr &&& 0x003f) = some TIARegister.VSYNC)
    (hlim : Int.tdiv (clockNow s - s.myClockWhenFrameStarted) 228
      < toInt32 s.myMaximumNumberOfScanlines) :
    (value &&& 0x02 ≠ 0 →
      (poke T s addr value).2.myVSYNCFinishClock = clockNow s + 228 ∧
      (poke T s addr value).2.myPartialFrameFlag = s.myPartialFrameFlag) ∧
    (value &&& 0x02 = 0 → clockNow s ≥ s.myVSYNCFinishClock →
      (poke T s addr value).2.cpuStopped = true ∧
      (poke T s addr value).2.myPartialFrameFlag = false ∧
      (poke T s addr value).2.myVSYNCFinishClock = 0x7FFFFFFF) ∧
    (value &&& 0x02 = 0 → clockNow s < s.myVSYNCFinishClock →
      (poke T s addr value).2.myPartialFrameFlag = s.myPartialFrameFlag ∧
      (poke T s addr value).2.myVSYNCFinishClock = s.myVSYNCFinishClock) := by
  rw [poke_eq T s addr value _ hr, pokeFrame_below_limit T s addr hlim]
  obtain ⟨-, -, -, -, hv⟩ := updateFrame_fixed T s (clockNow s + pokeDelay T s addr)
  obtain ⟨-, hp⟩ := updateFrame_flags T s (clockNow s + pokeDelay T s addr)
  generalize updateFrame T s (clockNow s + pokeDelay T s addr) = u at hv hp ⊢
  unfold pokeRegister
  dsimp only
  refine ⟨fun h1 => ?_, fun h1 h2 => ?_, fun h1 h2 => ?_⟩
  · rw [if_pos h1]
    exact ⟨rfl, hp⟩
  · rw [if_neg (not_not.mpr h1), if_pos (by rw [hv]; exact h2)]
    exact ⟨rfl, rfl, rfl⟩
  · rw [if_neg (not_not.mpr h1), if_neg (by rw [hv]; omega)]
    exact ⟨hp, hv⟩

theorem C26_VSYNC_write_witness :
    (poke sampleTables (reset sampleTables sampleEnv sampleTIA) 0x00 0x02).2.myVSYNCFinishClock
      = clockNow (reset sampleTables sampleEnv sampleTIA) + 228 :=
  ((C26_VSYNC_write sampleTables (reset sampleTables sampleEnv sampleTIA) 0x00 0x02
    (by decide) (by decide)).1 (by decide)).1

theorem cyclesToEndOfLine_congr (u s : TIA) (hc : u.cycles = s.cycles)
    (hs : u.myClockWhenFrameStarted = s.myClockWhenFrameStarted) :
    cyclesToEndOfLine u = cyclesToEndOfLine s := by
  unfold cyclesToEndOfLine
  rw [hc, hs]

/-- The cycle counter and the frame start after the case `WSYNC`. -/
theorem pokeRegister_WSYNC (T : TIATables) (u : TIA) (value : Nat) (clock : Int) :
    (pokeRegister T u TIARegister.WSYNC value clock).cycles =
      (if u.lastAccessWasRead = true ∧ cyclesToEndOfLine u < 76
       then (u.cycles + cyclesToEndOfLine u) % 4294967296 else u.cycles) ∧
    (pokeRegister T u TIARegister.WSYNC value clock).myClockWhenFrameStarted
      = u.myClockWhenFrameStarted := by
  show (if u.lastAccessWasRead = true then waitHorizontalSync u else u).cycles = _ ∧
    (if u.lastAccessWasRead = true then waitHorizontalSync u else u).myClockWhenFrameStarted = _
  unfold waitHorizontalSync
  by_cases h1 : u.lastAccessWasRead = true
  · by_cases h2 : cyclesToEndOfLine u < 76
    · rw [if_pos h1, if_pos h2, if_pos ⟨h1, h2⟩]
      exact ⟨rfl, rfl⟩
    · rw [if_pos h1, if_neg h2, if_neg (fun h => h2 h.2)]
      exact ⟨rfl, rfl⟩
  · rw [if_neg h1, if_neg (fun h => h1 h.1)]
    exact ⟨rfl, rfl⟩

/-- The cycle counter after the case `RSYNC`. -/
theorem pokeRegister_RSYNC (T : TIATables) (u : TIA) (value : Nat) (clock : Int) :
    (pokeRegister T u TIARegister.RSYNC value clock).cycles =
      (u.cycles + (cyclesToEndOfLine u + 4294967296 - 1) % 4294967296) % 4294967296 := rfl

/-- The number of cycles to the end of the scanline, from the phase of the CPU
in the 76-cycle scanline. -/
theorem cyclesToEndOfLine_phase (s : TIA)
    (h0 : 0 ≤ (s.cycles : Int) - Int.tdiv s.myClockWhenFrameStarted 3)
    (h1 : (s.cycles : Int) - Int.tdiv s.myClockWhenFrameStarted 3 < 4294967296) :
    (cyclesToEndOfLine s : Int)
      = 76 - ((s.cycles : Int) - Int.tdiv s.myClockWhenFrameStarted 3) % 76 := by
  unfold cyclesToEndOfLine toU32
  generalize Int.tdiv s.myClockWhenFrameStarted 3 = d at *
  omega

/-- C27: with `p = (cycles - clockWhenFrameStarted / 3) mod 76` the phase of
the CPU in the 76-cycle scanline (and no 32-bit overflow of the cycle counter),
a `WSYNC` write whose last CPU access was a read advances the cycle counter by
`76 - p` when `p != 0` and by 0 when `p = 0`, so the phase afterwards is 0; a
`WSYNC` write whose last access was not a read advances nothing; an `RSYNC`
write advances the counter by `76 - p - 1`. -/
theorem C27_WSYNC_RSYNC (T : TIATables) (s : TIA) (aW aR value : Nat)
    (hW : T.writeRegister (aW &&& 0x003f) = some TIARegister.WSYNC)
    (hR : T.writeRegister (aR &&& 0x003f) = some TIARegister.RSYNC)
    (h0 : 0 ≤ (s.cycles : Int) - Int.tdiv s.myClockWhenFrameStarted 3)
    (h1 : (s.cycles : Int) - Int.tdiv s.myClockWhenFrameStarted 3 + 76 < 4294967296)
    (h2 : s.cycles + 76 < 4294967296) :
    (s.lastAccessWasRead = true →
      ((poke T s aW value).2.cycles : Int) = s.cycles +
        (if ((s.cycles : Int) - Int.tdiv s.myClockWhenFrameStarted 3) % 76 = 0 then 0
         else 76 - ((s.cycles : Int) - Int.tdiv s.myClockWhenFrameStarted 3) % 76) ∧
      (((poke T s aW value).2.cycles : Int)
        - Int.tdiv (poke T s aW value).2.myClockWhenFrameStarted 3) % 76 = 0) ∧
    (s.lastAccessWasRead = false → (poke T s aW value).2.cycles = s.cycles) ∧
    ((poke T s aR value).2.cycles : Int) = s.cycles +
      (76 - ((s.cycles : Int) - Int.tdiv s.myClockWhenFrameStarted 3) % 76 - 1) := by
  have hc := cyclesToEndOfLine_phase s h0 (by omega)
  obtain ⟨w1, w2, w3, -, -⟩ := pokeFrame_fixed T s aW
  obtain ⟨r1, -, r3, -, -⟩ := pokeFrame_fixed T s aR
  have cw := cyclesToEndOfLine_congr _ s w1 w3
  have cr := cyclesToEndOfLine_congr _ s r1 r3
  obtain ⟨e1, e2⟩ := pokeRegister_WSYNC T (pokeFrame T s aW) value (clockNow s)
  have e3 := pokeRegister_RSYNC T (pokeFrame T s aR) value (clockNow s)
  rw [poke_eq T s aW value _ hW, poke_eq T s aR value _ hR, e1, e2, e3, cw, cr, w1, w2, w3, r1]
  generalize Int.tdiv s.myClockWhenFrameStarted 3 = d at *
  generalize cyclesToEndOfLine s = c at *
  generalize s.cycles = n at *
  clear e1 e2 e3 cw cr w1 w2 w3 r1 r3 hW hR
  refine ⟨fun hread => ?_, fun hread => ?_, ?_⟩
  · simp only [hread, true_and]
    split_ifs <;> omega
  · simp only [hread, Bool.false_eq_true, false_and, if_false]
  · omega

theorem C27_WSYNC_RSYNC_witness :
    ((poke sampleTables
        { reset sampleTables sampleEnv sampleTIA with cycles := 10, lastAccessWasRead := true }
        0x02 0).2.cycles : Int) = 76 :=
  ((C27_WSYNC_RSYNC sampleTables
    { reset sampleTables sampleEnv sampleTIA with cycles := 10, lastAccessWasRead := true }
    0x02 0x03 0 (by decide) (by decide) (by decide) (by decide) (by decide)).1 rfl).1.trans
    (by decide)

theorem HMState.updateLine_hmove (c : Int) (h : HMState) :
    (HMState.updateLine c h).currentHMOVEPos = h.currentHMOVEPos ∧
    (HMState.updateLine c h).previousHMOVEPos = h.previousHMOVEPos := by
  rw [HMState.updateLine_eq]
  exact ⟨rfl, rfl⟩

theorem HMState.interLine_inactive (h : HMState) (h1 : h.currentHMOVEPos = 0x7FFFFFFF) :
    (HMState.interLine h).currentHMOVEPos = 0x7FFFFFFF ∧
    (HMState.interLine h).previousHMOVEPos = 0x7FFFFFFF := by
  unfold HMState.interLine
  dsimp only
  rw [h1]
  exact ⟨rfl, rfl⟩

theorem HMState.lineLoop_inactive (clock : Int) (startLine : Nat) :
    ∀ (n line : Nat) (h : HMState), h.currentHMOVEPos = 0x7FFFFFFF →
      h.previousHMOVEPos = 0x7FFFFFFF →
      (HMState.lineLoop clock startLine n line h).currentHMOVEPos = 0x7FFFFFFF ∧
      (HMState.lineLoop clock startLine n line h).previousHMOVEPos = 0x7FFFFFFF := by
  intro n
  induction n with
  | zero => intro line h h1 h2; exact ⟨h1, h2⟩
  | succ n ih =>
    intro line h h1 h2
    unfold HMState.lineLoop
    dsimp only
    apply ih
    · rw [(HMState.updateLine_hmove clock _).1]
      split
      · exact (HMState.interLine_inactive h h1).1
      · exact h1
    · rw [(HMState.updateLine_hmove clock _).2]
      split
      · exact (HMState.interLine_inactive h h1).2
      · exact h2

/-- With no HMOVE active and none propagating, `updateFrame` leaves it so. -/
theorem HMState.updateFrame_inactive (h : HMState) (t : Int)
    (h1 : h.currentHMOVEPos = 0x7FFFFFFF) (h2 : h.previousHMOVEPos = 0x7FFFFFFF) :
    (HMState.updateFrame h t).currentHMOVEPos = 0x7FFFFFFF ∧
    (HMState.updateFrame h t).previousHMOVEPos = 0x7FFFFFFF := by
  unfold HMState.updateFrame
  split
  · exact ⟨h1, h2⟩
  · exact HMState.lineLoop_inactive _ _ _ _ h h1 h2

/-- The clocks and horizontal-motion state after the prologue of `poke`. -/
theorem hmState_pokeFrame (T : TIATables) (s : TIA) (addr : Nat) :
    (pokeFrame T s addr).hmState
      = HMState.updateFrame s.hmState (clockNow s + pokeDelay T s addr) := by
  by_cases h : Int.tdiv (clockNow s - s.myClockWhenFrameStarted) 228
      < toInt32 s.myMaximumNumberOfScanlines
  · rw [pokeFrame_below_limit T s addr h, hmState_updateFrame]
  · rw [pokeFrame_at_limit T s addr (by omega), ← hmState_updateFrame]
    rfl

theorem hmState_hmove (s : TIA) :
    s.hmState.currentHMOVEPos = s.myCurrentHMOVEPos ∧
    s.hmState.previousHMOVEPos = s.myPreviousHMOVEPos := ⟨rfl, rfl⟩

theorem pokeFrame_inactive (T : TIATables) (s : TIA) (addr : Nat)
    (h1 : s.myCurrentHMOVEPos = 0x7FFFFFFF) (h2 : s.myPreviousHMOVEPos = 0x7FFFFFFF) :
    (pokeFrame T s addr).myCurrentHMOVEPos = 0x7FFFFFFF ∧
    (pokeFrame T s addr).myPreviousHMOVEPos = 0x7FFFFFFF := by
  have h := HMState.updateFrame_inactive s.hmState (clockNow s + pokeDelay T s addr) h1 h2
  rw [← hmState_pokeFrame, (hmState_hmove _).1, (hmState_hmove _).2] at h
  exact h

/-- The position computed by the cases `RESP0` and `RESP1`. -/
theorem resetPlayer_pos (T : TIATables) (u : TIA) (clock motionClock : Int) (hm nusiz : Nat)
    (posOld : Int) (suppress : Nat) :
    (resetPlayer T u clock motionClock hm nusiz posOld suppress).2.1 =
      if u.myCurrentHMOVEPos ≠ 0x7FFFFFFF then
        applyActiveHMOVEMotion u.myCurrentHMOVEPos
          (Int.tmod (clock - u.myClockWhenFrameStarted) 228 - HBLANK)
          (if Int.tmod (clock - u.myClockWhenFrameStarted) 228 - HBLANK < 7 then 3
           else Int.tmod (Int.tmod (clock - u.myClockWhenFrameStarted) 228 - HBLANK + 5) 160)
          motionClock
      else
        applyPreviousHMOVEMotion u.myPreviousHMOVEPos
          (Int.tmod (clock - u.myClockWhenFrameStarted) 228 - HBLANK)
          (if Int.tmod (clock - u.myClockWhenFrameStarted) 228 - HBLANK < -2 then 3
           else Int.tmod (Int.tmod (clock - u.myClockWhenFrameStarted) 228 - HBLANK + 5) 160)
          hm := by
  unfold resetPlayer
  dsimp only
  split_ifs with h1 h2 h3 h4 h5 h6 h7 h8 h9 <;> first | rfl | (exact not_not.mp ‹_›)

theorem withFrame_motion (s r : TIA) :
    ((s.withFrame r).myMotionClockP0 = s.myMotionClockP0 ∧
      (s.withFrame r).myMotionClockP1 = s.myMotionClockP1 ∧
      (s.withFrame r).myMotionClockM0 = s.myMotionClockM0 ∧
      (s.withFrame r).myMotionClockM1 = s.myMotionClockM1 ∧
      (s.withFrame r).myMotionClockBL = s.myMotionClockBL) ∧
    ((s.withFrame r).myHMP0 = s.myHMP0 ∧ (s.withFrame r).myHMP1 = s.myHMP1 ∧
      (s.withFrame r).myHMM0 = s.myHMM0 ∧ (s.withFrame r).myHMM1 = s.myHMM1 ∧
      (s.withFrame r).myHMBL = s.myHMBL) :=
  ⟨⟨rfl, rfl, rfl, rfl, rfl⟩, ⟨rfl, rfl, rfl, rfl, rfl⟩⟩

/-- The prologue of `poke` leaves the motion clocks and the `HMxx` registers
alone. -/
theorem pokeFrame_motion (T : TIATables) (s : TIA) (addr : Nat) :
    ((pokeFrame T s addr).myMotionClockP0 = s.myMotionClockP0 ∧
      (pokeFrame T s addr).myMotionClockP1 = s.myMotionClockP1 ∧
      (pokeFrame T s addr).myMotionClockM0 = s.myMotionClockM0 ∧
      (pokeFrame T s addr).myMotionClockM1 = s.myMotionClockM1 ∧
      (pokeFrame T s addr).myMotionClockBL = s.myMotionClockBL) ∧
    ((pokeFrame T s addr).myHMP0 = s.myHMP0 ∧ (pokeFrame T s addr).myHMP1 = s.myHMP1 ∧
      (pokeFrame T s addr).myHMM0 = s.myHMM0 ∧ (pokeFrame T s addr).myHMM1 = s.myHMM1 ∧
      (pokeFrame T s addr).myHMBL = s.myHMBL) := by
  rw [pokeFrame_frame]
  exact withFrame_motion s _

theorem applyPreviousHMOVEMotion_inactive (hpos pos : Int) (motion : Nat) :
    applyPreviousHMOVEMotion 0x7FFFFFFF hpos pos motion = pos := by
  unfold applyPreviousHMOVEMotion
  rw [if_neg (by decide)]

theorem pokeRegister_RESP0 (T : TIATables) (u : TIA) (value : Nat) (clock : Int) :
    (pokeRegister T u TIARegister.RESP0 value clock).myPOSP0
      = (resetPlayer T u clock u.myMotionClockP0 u.myHMP0 u.myNUSIZ0 u.myPOSP0
          u.mySuppressP0).2.1 := rfl

theorem pokeRegister_RESP1 (T : TIATables) (u : TIA) (value : Nat) (clock : Int) :
    (pokeRegister T u TIARegister.RESP1 value clock).myPOSP1
      = (resetPlayer T u clock u.myMotionClockP1 u.myHMP1 u.myNUSIZ1 u.myPOSP1
          u.mySuppressP1).2.1 := rfl

/-- The position after a write to `RESP0`. -/
theorem poke_RESP0_pos (T : TIATables) (s : TIA) (addr value : Nat)
    (hr : T.writeRegister (addr &&& 0x003f) = some TIARegister.RESP0) :
    (poke T s addr value).2.myPOSP0 =
      if (pokeFrame T s addr).myCurrentHMOVEPos ≠ 0x7FFFFFFF then
        applyActiveHMOVEMotion (pokeFrame T s addr).myCurrentHMOVEPos (hposOf s)
          (if hposOf s < 7 then 3 else Int.tmod (hposOf s + 5) 160) s.myMotionClockP0
      else
        applyPreviousHMOVEMotion (pokeFrame T s addr).myPreviousHMOVEPos (hposOf s)
          (if hposOf s < -2 then 3 else Int.tmod (hposOf s + 5) 160) s.myHMP0 := by
  rw [poke_eq T s addr value _ hr, pokeRegister_RESP0, resetPlayer_pos,
    (pokeFrame_fixed T s addr).2.2.1, (pokeFrame_motion T s addr).1.1,
    (pokeFrame_motion T s addr).2.1]
  rfl

/-- The position after a write to `RESP1`. -/
theorem poke_RESP1_pos (T : TIATables) (s : TIA) (addr value : Nat)
    (hr : T.writeRegister (addr &&& 0x003f) = some TIARegister.RESP1) :
    (poke T s addr value).2.myPOSP1 =
      if (pokeFrame T s addr).myCurrentHMOVEPos ≠ 0x7FFFFFFF then
        applyActiveHMOVEMotion (pokeFrame T s addr).myCurrentHMOVEPos (hposOf s)
          (if hposOf s < 7 then 3 else Int.tmod (hposOf s + 5) 160) s.myMotionClockP1
      else
        applyPreviousHMOVEMotion (pokeFrame T s addr).myPreviousHMOVEPos (hposOf s)
          (if hposOf s < -2 then 3 else Int.tmod (hposOf s + 5) 160) s.myHMP1 := by
  rw [poke_eq T s addr value _ hr, pokeRegister_RESP1, resetPlayer_pos,
    (pokeFrame_fixed T s addr).2.2.1, (pokeFrame_motion T s addr).1.2.1,
    (pokeFrame_motion T s addr).2.2.1]
  rfl

/-- For a position at or right of the threshold the C++ remainder is the
mathematical one. -/
theorem reset_base (hpos t k : Int) (htk : 0 ≤ t + k) (c : Int) :
    (if hpos < t then c else Int.tmod (hpos + k) 160)
      = if hpos < t then c else (hpos + k) % 160 := by
  split
  · rfl
  · exact Int.tmod_eq_emod (by omega) (by decide)

/-- C21: with `hpos = ((clock - clockWhenFrameStarted) mod 228) - 68`.  When no
HMOVE is active and no previous HMOVE is propagating, a write to `RESP0` (or
`RESP1`) sets the position of that player to 3 if `hpos < -2` and to
`(hpos + 5) mod 160` otherwise.  When an HMOVE is active at the write, the
position is the active-HMOVE adjustment of the value 3 if `hpos < 7` and
`(hpos + 5) mod 160` otherwise. -/
theorem C21_player_reset (T : TIATables) (s : TIA) (a0 a1 value : Nat)
    (h0 : T.writeRegister (a0 &&& 0x003f) = some TIARegister.RESP0)
    (h1 : T.writeRegister (a1 &&& 0x003f) = some TIARegister.RESP1) :
    (s.myCurrentHMOVEPos = 0x7FFFFFFF → s.myPreviousHMOVEPos = 0x7FFFFFFF →
      (poke T s a0 value).2.myPOSP0 = (if hposOf s < -2 then 3 else (hposOf s + 5) % 160) ∧
      (poke T s a1 value).2.myPOSP1 = (if hposOf s < -2 then 3 else (hposOf s + 5) % 160)) ∧
    ((pokeFrame T s a0).myCurrentHMOVEPos ≠ 0x7FFFFFFF →
      (poke T s a0 value).2.myPOSP0 =
        applyActiveHMOVEMotion (pokeFrame T s a0).myCurrentHMOVEPos (hposOf s)
          (if hposOf s < 7 then 3 else (hposOf s + 5) % 160) s.myMotionClockP0) ∧
    ((pokeFrame T s a1).myCurrentHMOVEPos ≠ 0x7FFFFFFF →
      (poke T s a1 value).2.myPOSP1 =
        applyActiveHMOVEMotion (pokeFrame T s a1).myCurrentHMOVEPos (hposOf s)
          (if hposOf s < 7 then 3 else (hposOf s + 5) % 160) s.myMotionClockP1) := by
  rw [poke_RESP0_pos T s a0 value h0, poke_RESP1_pos T s a1 value h1]
  refine ⟨fun hc hp => ?_, fun hc => ?_, fun hc => ?_⟩
  · obtain ⟨c0, p0⟩ := pokeFrame_inactive T s a0 hc hp
    obtain ⟨c1, p1⟩ := pokeFrame_inactive T s a1 hc hp
    rw [c0, p0, c1, p1, if_neg (show ¬ ((0x7FFFFFFF : Int) ≠ 0x7FFFFFFF) by decide),
      applyPreviousHMOVEMotion_inactive, reset_base (hposOf s) (-2) 5 (by decide),
      if_neg (show ¬ ((0x7FFFFFFF : Int) ≠ 0x7FFFFFFF) by decide),
      applyPreviousHMOVEMotion_inactive]
    exact ⟨rfl, rfl⟩
  · rw [if_pos hc, reset_base (hposOf s) 7 5 (by decide)]
  · rw [if_pos hc, reset_base (hposOf s) 7 5 (by decide)]

theorem C21_player_reset_witness :
    (poke sampleTables { reset sampleTables sampleEnv sampleTIA with cycles := 50 }
      0x10 0).2.myPOSP0 = 87 :=
  ((C21_player_reset sampleTables { reset sampleTables sampleEnv sampleTIA with cycles := 50 }
    0x10 0x11 0 (by decide) (by decide)).1 (by decide) (by decide)).1.trans (by decide)

theorem pokeRegister_RESM0 (T : TIATables) (u : TIA) (value : Nat) (clock : Int) :
    (pokeRegister T u TIARegister.RESM0 value clock).myPOSM0
      = resetMissile u clock u.myMotionClockM0 u.myHMM0 := rfl

theorem pokeRegister_RESM1 (T : TIATables) (u : TIA) (value : Nat) (clock : Int) :
    (pokeRegister T u TIARegister.RESM1 value clock).myPOSM1
      = resetMissile u clock u.myMotionClockM1 u.myHMM1 := rfl

theorem pokeRegister_RESBL (T : TIATables) (u : TIA) (value : Nat) (clock : Int) :
    (pokeRegister T u TIARegister.RESBL value clock).myPOSBL = resetBall u clock := rfl

/-- The missile reset with no HMOVE active and none propagating. -/
theorem resetMissile_inactive (u : TIA) (clock motionClock : Int) (hm : Nat)
    (h1 : u.myCurrentHMOVEPos = 0x7FFFFFFF) (h2 : u.myPreviousHMOVEPos = 0x7FFFFFFF) :
    resetMissile u clock motionClock hm =
      if Int.tmod (clock - u.myClockWhenFrameStarted) 228 - HBLANK < -1 then 2
      else (Int.tmod (clock - u.myClockWhenFrameStarted) 228 - HBLANK + 4) % 160 := by
  unfold resetMissile
  dsimp only
  rw [h1, h2, if_neg (show ¬ ((0x7FFFFFFF : Int) ≠ 0x7FFFFFFF) by decide),
    applyPreviousHMOVEMotion_inactive, reset_base _ (-1) 4 (by decide)]

/-- The ball reset with no HMOVE active and none propagating. -/
theorem resetBall_inactive (u : TIA) (clock : Int)
    (h1 : u.myCurrentHMOVEPos = 0x7FFFFFFF) (h2 : u.myPreviousHMOVEPos = 0x7FFFFFFF) :
    resetBall u clock =
      if Int.tmod (clock - u.myClockWhenFrameStarted) 228 - HBLANK < 0 then 2
      else (Int.tmod (clock - u.myClockWhenFrameStarted) 228 - HBLANK + 4) % 160 := by
  unfold resetBall
  dsimp only
  rw [h1, h2, if_neg (show ¬ ((0x7FFFFFFF : Int) ≠ 0x7FFFFFFF) by decide),
    applyPreviousHMOVEMotion_inactive, reset_base _ 0 4 (by decide)]

/-- C22 fails as stated: in the power-on state a write to `RESM0` at CPU cycle 0
(`hpos = -68 < -1`) sets the missile position to 2, and a write to `RESBL`
there sets the ball position to 2, not 3. -/
theorem C22_reset_in_blank_gives_2 :
    hposOf (reset sampleTables sampleEnv sampleTIA) = -68 ∧
    (reset sampleTables sampleEnv sampleTIA).myCurrentHMOVEPos = 0x7FFFFFFF ∧
    (reset sampleTables sampleEnv sampleTIA).myPreviousHMOVEPos = 0x7FFFFFFF ∧
    (poke sampleTables (reset sampleTables sampleEnv sampleTIA) 0x12 0).2.myPOSM0 = 2 ∧
    (poke sampleTables (reset sampleTables sampleEnv sampleTIA) 0x14 0).2.myPOSBL = 2 := by
  decide

/-- C22 (amended): with no HMOVE active or propagating, a write to `RESM0` or
`RESM1` sets the missile position to 2 if `hpos < -1` and to
`(hpos + 4) mod 160` otherwise; a write to `RESBL` sets the ball position to 2
if `hpos < 0` and to `(hpos + 4) mod 160` otherwise. -/
theorem C22_missile_ball_reset (T : TIATables) (s : TIA) (a0 a1 aB value : Nat)
    (h0 : T.writeRegister (a0 &&& 0x003f) = some TIARegister.RESM0)
    (h1 : T.writeRegister (a1 &&& 0x003f) = some TIARegister.RESM1)
    (hB : T.writeRegister (aB &&& 0x003f) = some TIARegister.RESBL)
    (hc : s.myCurrentHMOVEPos = 0x7FFFFFFF) (hp : s.myPreviousHMOVEPos = 0x7FFFFFFF) :
    (poke T s a0 value).2.myPOSM0 = (if hposOf s < -1 then 2 else (hposOf s + 4) % 160) ∧
    (poke T s a1 value).2.myPOSM1 = (if hposOf s < -1 then 2 else (hposOf s + 4) % 160) ∧
    (poke T s aB value).2.myPOSBL = (if hposOf s < 0 then 2 else (hposOf s + 4) % 160) := by
  obtain ⟨c0, p0⟩ := pokeFrame_inactive T s a0 hc hp
  obtain ⟨c1, p1⟩ := pokeFrame_inactive T s a1 hc hp
  obtain ⟨cB, pB⟩ := pokeFrame_inactive T s aB hc hp
  rw [poke_eq T s a0 value _ h0, poke_eq T s a1 value _ h1, poke_eq T s aB value _ hB,
    pokeRegister_RESM0, pokeRegister_RESM1, pokeRegister_RESBL,
    resetMissile_inactive _ _ _ _ c0 p0, resetMissile_inactive _ _ _ _ c1 p1,
    resetBall_inactive _ _ cB pB, (pokeFrame_fixed T s a0).2.2.1,
    (pokeFrame_fixed T s a1).2.2.1, (pokeFrame_fixed T s aB).2.2.1]
  exact ⟨rfl, rfl, rfl⟩

theorem C22_missile_ball_reset_witness :
    (poke sampleTables { reset sampleTables sampleEnv sampleTIA with cycles := 50 }
      0x14 0).2.myPOSBL = 86 :=
  (C22_missile_ball_reset sampleTables
    { reset sampleTables sampleEnv sampleTIA with cycles := 50 }
    0x12 0x13 0x14 0 (by decide) (by decide) (by decide) (by decide) (by decide)).2.2.trans
    (by decide)

theorem nibble_range (v : Nat) (h : v < 256) : ((v ^^^ 0x80) >>> 4) < 16 := by
  have hx : v ^^^ 0x80 < 2 ^ 8 := Nat.xor_lt_two_pow h (by decide)
  rw [Nat.shiftRight_eq_div_pow]
  omega

theorem hmoveMotionClock_range (hpos : Int) (hm : Nat) (h : hm < 256) :
    0 ≤ hmoveMotionClock hpos hm ∧ hmoveMotionClock hpos hm ≤ 15 := by
  have hn := nibble_range hm h
  unfold hmoveMotionClock
  dsimp only
  generalize (hm ^^^ 0x80) >>> 4 = m at hn
  split_ifs <;> omega

theorem hmoveMotionClock_early (hpos : Int) (hm : Nat) (h : hpos < -56) :
    hmoveMotionClock hpos hm = (((hm ^^^ 0x80) >>> 4 : Nat) : Int) := by
  unfold hmoveMotionClock
  dsimp only
  rw [if_neg (by omega), if_neg (by omega)]

theorem hmoveApply_early (hpos pos m : Int) (h : hpos < -56) (hp : -153 ≤ pos)
    (hm : 0 ≤ m ∧ m ≤ 15) :
    hmoveApply hpos pos m = (pos + 8 - m) % 160 := by
  unfold hmoveApply CLAMP_POS
  rw [if_pos (Or.inl (by omega))]
  split
  · rw [Int.tmod_eq_emod (by omega) (by decide)]
    omega
  · rw [Int.tmod_eq_emod (by omega) (by decide)]
    omega

theorem hmoveUndo_clear (hpos pos : Int) : hmoveUndo hpos false pos = pos := by
  unfold hmoveUndo
  rw [if_neg (by simp)]

theorem pokeHMxx_motion (s : TIA) (hm : Nat) (pos motionClock : Int) (mmr : Bool) (value : Nat)
    (clock : Int) (h : 0 ≤ motionClock ∧ motionClock ≤ 15) :
    0 ≤ (pokeHMxx s hm pos motionClock mmr value clock).2.2.1 ∧
    (pokeHMxx s hm pos motionClock mmr value clock).2.2.1 ≤ 15 := by
  have hn := nibble_range (value &&& 0xF0)
    (lt_of_le_of_lt Nat.and_le_right (by decide))
  unfold pokeHMxx
  dsimp only
  generalize ((value &&& 0xF0) ^^^ 0x80) >>> 4 = m at hn
  split_ifs <;> dsimp only <;> omega

theorem lists_pokeFrame (T : TIATables) (s : TIA) (addr : Nat) :
    motionClocks (pokeFrame T s addr) = motionClocks s ∧
    hmRegisters (pokeFrame T s addr) = hmRegisters s ∧
    moreMotion (pokeFrame T s addr) = moreMotion s := by
  obtain ⟨⟨m0, m1, m2, m3, m4⟩, ⟨r0, r1, r2, r3, r4⟩⟩ := pokeFrame_motion T s addr
  obtain ⟨l0, l1, l2, l3, l4⟩ := pokeFrame_mmr T s addr
  unfold motionClocks hmRegisters moreMotion
  rw [m0, m1, m2, m3, m4, r0, r1, r2, r3, r4, l0, l1, l2, l3, l4]
  exact ⟨rfl, rfl, rfl⟩

/-- The motion clocks after the case `HMOVE`. -/
theorem motionClocks_pokeHMOVE (T : TIATables) (u : TIA) (clock : Int) :
    motionClocks (pokeHMOVE T u clock) =
      if -5 ≤ Int.tmod (clock - u.myClockWhenFrameStarted) 228 - HBLANK ∧
          Int.tmod (clock - u.myClockWhenFrameStarted) 228 - HBLANK < 97 then [0, 0, 0, 0, 0]
      else (hmRegisters u).map
        (hmoveMotionClock (Int.tmod (clock - u.myClockWhenFrameStarted) 228 - HBLANK)) := by
  unfold pokeHMOVE
  dsimp only
  split <;> rfl

/-- The positions after the case `HMOVE` outside `-5 <= hpos < 97`. -/
theorem positions_pokeHMOVE (T : TIATables) (u : TIA) (clock : Int)
    (h : ¬ (-5 ≤ Int.tmod (clock - u.myClockWhenFrameStarted) 228 - HBLANK ∧
          Int.tmod (clock - u.myClockWhenFrameStarted) 228 - HBLANK < 97)) :
    positions (pokeHMOVE T u clock) =
      List.zipWith (fun (pm : Int × Bool) (hm : Nat) =>
          hmoveApply (Int.tmod (clock - u.myClockWhenFrameStarted) 228 - HBLANK)
            (hmoveUndo (Int.tmod (clock - u.myClockWhenFrameStarted) 228 - HBLANK) pm.2 pm.1)
            (hmoveMotionClock (Int.tmod (clock - u.myClockWhenFrameStarted) 228 - HBLANK) hm))
        ((positions u).zip (moreMotion u)) (hmRegisters u) := by
  unfold pokeHMOVE
  dsimp only
  rw [if_neg h]
  rfl

theorem motionClocks_in_range (T : TIATables) (u : TIA) (clock : Int)
    (hreg : ∀ hm ∈ hmRegisters u, hm < 256) :
    ∀ m ∈ motionClocks (pokeHMOVE T u clock), 0 ≤ m ∧ m ≤ 15 := by
  rw [motionClocks_pokeHMOVE]
  split
  · intro m hm
    simp only [List.mem_cons, List.mem_singleton, List.not_mem_nil, or_false, or_self] at hm
    omega
  · intro m hm
    rw [List.mem_map] at hm
    obtain ⟨r, hr, rfl⟩ := hm
    exact hmoveMotionClock_range _ r (hreg r hr)

/-- The motion clocks stay in `0..15` under a write to one of the five `HMxx`
registers. -/
theorem motionClocks_pokeHMxx (T : TIATables) (u : TIA) (reg : TIARegister) (value : Nat)
    (clock : Int)
    (hreg : reg = TIARegister.HMP0 ∨ reg = TIARegister.HMP1 ∨ reg = TIARegister.HMM0 ∨
      reg = TIARegister.HMM1 ∨ reg = TIARegister.HMBL)
    (h : ∀ m ∈ motionClocks u, 0 ≤ m ∧ m ≤ 15) :
    ∀ m ∈ motionClocks (pokeRegister T u reg value clock), 0 ≤ m ∧ m ≤ 15 := by
  have h0 := h u.myMotionClockP0 (by simp [motionClocks])
  have h1 := h u.myMotionClockP1 (by simp [motionClocks])
  have h2 := h u.myMotionClockM0 (by simp [motionClocks])
  have h3 := h u.myMotionClockM1 (by simp [motionClocks])
  have h4 := h u.myMotionClockBL (by simp [motionClocks])
  intro m hm
  rcases hreg with rfl | rfl | rfl | rfl | rfl
  · have e : motionClocks (pokeRegister T u TIARegister.HMP0 value clock) =
        [(pokeHMxx u u.myHMP0 u.myPOSP0 u.myMotionClockP0 u.myHMP0mmr value clock).2.2.1,
          u.myMotionClockP1, u.myMotionClockM0, u.myMotionClockM1, u.myMotionClockBL] := rfl
    rw [e] at hm
    have := pokeHMxx_motion u u.myHMP0 u.myPOSP0 u.myMotionClockP0 u.myHMP0mmr value clock h0
    simp only [List.mem_cons, List.mem_singleton, List.not_mem_nil, or_false] at hm
    rcases hm with rfl | rfl | rfl | rfl | rfl <;> assumption
  · have e : motionClocks (pokeRegister T u TIARegister.HMP1 value clock) =
        [u.myMotionClockP0,
          (pokeHMxx u u.myHMP1 u.myPOSP1 u.myMotionClockP1 u.myHMP1mmr value clock).2.2.1,
          u.myMotionClockM0, u.myMotionClockM1, u.myMotionClockBL] := rfl
    rw [e] at hm
    have := pokeHMxx_motion u u.myHMP1 u.myPOSP1 u.myMotionClockP1 u.myHMP1mmr value clock h1
    simp only [List.mem_cons, List.mem_singleton, List.not_mem_nil, or_false] at hm
    rcases hm with rfl | rfl | rfl | rfl | rfl <;> assumption
  · have e : motionClocks (pokeRegister T u TIARegister.HMM0 value clock) =
        [u.myMotionClockP0, u.myMotionClockP1,
          (pokeHMxx u u.myHMM0 u.myPOSM0 u.myMotionClockM0 u.myHMM0mmr value clock).2.2.1,
          u.myMotionClockM1, u.myMotionClockBL] := rfl
    rw [e] at hm
    have := pokeHMxx_motion u u.myHMM0 u.myPOSM0 u.myMotionClockM0 u.myHMM0mmr value clock h2
    simp only [List.mem_cons, List.mem_singleton, List.not_mem_nil, or_false] at hm
    rcases hm with rfl | rfl | rfl | rfl | rfl <;> assumption
  · have e : motionClocks (pokeRegister T u TIARegister.HMM1 value clock) =
        [u.myMotionClockP0, u.myMotionClockP1, u.myMotionClockM0,
          (pokeHMxx u u.myHMM1 u.myPOSM1 u.myMotionClockM1 u.myHMM1mmr value clock).2.2.1,
          u.myMotionClockBL] := rfl
    rw [e] at hm
    have := pokeHMxx_motion u u.myHMM1 u.myPOSM1 u.myMotionClockM1 u.myHMM1mmr value clock h3
    simp only [List.mem_cons, List.mem_singleton, List.not_mem_nil, or_false] at hm
    rcases hm with rfl | rfl | rfl | rfl | rfl <;> assumption
  · have e : motionClocks (pokeRegister T u TIARegister.HMBL value clock) =
        [u.myMotionClockP0, u.myMotionClockP1, u.myMotionClockM0, u.myMotionClockM1,
          (pokeHMxx u u.myHMBL u.myPOSBL u.myMotionClockBL u.myHMBLmmr value clock).2.2.1] := rfl
    rw [e] at hm
    have := pokeHMxx_motion u u.myHMBL u.myPOSBL u.myMotionClockBL u.myHMBLmmr value clock h4
    simp only [List.mem_cons, List.mem_singleton, List.not_mem_nil, or_false] at hm
    rcases hm with rfl | rfl | rfl | rfl | rfl <;> assumption

theorem HMState.interLine_quiet (h : HMState) (h1 : h.currentHMOVEPos = 0x7FFFFFFF)
    (m0 : h.mmrP0 = false) (m1 : h.mmrP1 = false) (m2 : h.mmrM0 = false)
    (m3 : h.mmrM1 = false) (m4 : h.mmrBL = false) :
    HMState.interLine h = { h with previousHMOVEPos := 0x7FFFFFFF } := by
  unfold HMState.interLine interLinePos
  dsimp only
  rw [h1, m0, m1, m2, m3, m4]
  rfl

theorem HMState.lineLoop_quiet (clock : Int) (startLine : Nat) :
    ∀ (n line : Nat) (h : HMState), h.currentHMOVEPos = 0x7FFFFFFF →
      h.mmrP0 = false → h.mmrP1 = false → h.mmrM0 = false → h.mmrM1 = false →
      h.mmrBL = false →
      ∃ a b p, HMState.lineLoop clock startLine n line h =
        { h with clocksToEndOfScanLine := a, clockAtLastUpdate := b, previousHMOVEPos := p } := by
  intro n
  induction n with
  | zero => intro line h _ _ _ _ _ _; exact ⟨_, _, _, rfl⟩
  | succ n ih =>
    intro line h h1 m0 m1 m2 m3 m4
    unfold HMState.lineLoop
    dsimp only
    by_cases hl : line ≠ startLine
    · rw [if_pos hl, HMState.interLine_quiet h h1 m0 m1 m2 m3 m4, HMState.updateLine_eq]
      obtain ⟨a, b, p, e⟩ := ih (line + 1)
        { h with previousHMOVEPos := 0x7FFFFFFF,
                 clocksToEndOfScanLine :=
                   if clock > h.clockAtLastUpdate + h.clocksToEndOfScanLine then 228
                   else h.clocksToEndOfScanLine - (clock - h.clockAtLastUpdate),
                 clockAtLastUpdate :=
                   if clock > h.clockAtLastUpdate + h.clocksToEndOfScanLine
                   then h.clockAtLastUpdate + h.clocksToEndOfScanLine else clock }
        h1 m0 m1 m2 m3 m4
      exact ⟨a, b, p, e⟩
    · rw [if_neg hl, HMState.updateLine_eq]
      obtain ⟨a, b, p, e⟩ := ih (line + 1)
        { h with clocksToEndOfScanLine :=
                   if clock > h.clockAtLastUpdate + h.clocksToEndOfScanLine then 228
                   else h.clocksToEndOfScanLine - (clock - h.clockAtLastUpdate),
                 clockAtLastUpdate :=
                   if clock > h.clockAtLastUpdate + h.clocksToEndOfScanLine
                   then h.clockAtLastUpdate + h.clocksToEndOfScanLine else clock }
        h1 m0 m1 m2 m3 m4
      exact ⟨a, b, p, e⟩

/-- With no HMOVE pending and every more-motion latch clear, `updateFrame`
changes nothing but the two update clocks and the previous-HMOVE marker. -/
theorem HMState.updateFrame_quiet (h : HMState) (t : Int)
    (h1 : h.currentHMOVEPos = 0x7FFFFFFF)
    (m0 : h.mmrP0 = false) (m1 : h.mmrP1 = false) (m2 : h.mmrM0 = false)
    (m3 : h.mmrM1 = false) (m4 : h.mmrBL = false) :
    ∃ a b p, HMState.updateFrame h t =
      { h with clocksToEndOfScanLine := a, clockAtLastUpdate := b, previousHMOVEPos := p } := by
  unfold HMState.updateFrame
  split
  · exact ⟨_, _, _, rfl⟩
  · exact HMState.lineLoop_quiet _ _ _ _ h h1 m0 m1 m2 m3 m4

theorem hmState_positions (s : TIA) :
    positions s = [s.hmState.posP0, s.hmState.posP1, s.hmState.posM0, s.hmState.posM1,
      s.hmState.posBL] := rfl

theorem moreMotion_clear (s : TIA) (h : moreMotion s = [false, false, false, false, false]) :
    s.myHMP0mmr = false ∧ s.myHMP1mmr = false ∧ s.myHMM0mmr = false ∧ s.myHMM1mmr = false ∧
    s.myHMBLmmr = false := by
  unfold moreMotion at h
  simp only [List.cons.injEq, and_true] at h
  exact h

/-- With no HMOVE pending and every more-motion latch clear, the prologue of
`poke` leaves the five positions alone. -/
theorem positions_pokeFrame (T : TIATables) (s : TIA) (addr : Nat)
    (h1 : s.myCurrentHMOVEPos = 0x7FFFFFFF)
    (hm : moreMotion s = [false, false, false, false, false]) :
    positions (pokeFrame T s addr) = positions s := by
  obtain ⟨m0, m1, m2, m3, m4⟩ := moreMotion_clear s hm
  obtain ⟨a, b, p, e⟩ :=
    HMState.updateFrame_quiet s.hmState (clockNow s + pokeDelay T s addr) h1 m0 m1 m2 m3 m4
  rw [hmState_positions, hmState_pokeFrame, e]
  rfl

theorem hmoveMotionClock_early_map (hpos : Int) (l : List Nat) (h : hpos < -56) :
    l.map (hmoveMotionClock hpos) = l.map (fun hm => (((hm ^^^ 0x80) >>> 4 : Nat) : Int)) :=
  List.map_congr_left (fun hm _ => hmoveMotionClock_early hpos hm h)

theorem pokeRegister_HMOVE (T : TIATables) (u : TIA) (value : Nat) (clock : Int) :
    pokeRegister T u TIARegister.HMOVE value clock = pokeHMOVE T u clock := rfl

/-- The case `HMOVE` at `hpos < -56`. -/
theorem pokeHMOVE_early (T : TIATables) (u : TIA) (clock : Int)
    (hp : Int.tmod (clock - u.myClockWhenFrameStarted) 228 - HBLANK < -56)
    (hreg : ∀ hm ∈ hmRegisters u, hm < 256) :
    motionClocks (pokeHMOVE T u clock) =
      (hmRegisters u).map (fun hm => (((hm ^^^ 0x80) >>> 4 : Nat) : Int)) ∧
    (moreMotion u = [false, false, false, false, false] →
      (∀ p ∈ positions u, -153 ≤ p) →
      positions (pokeHMOVE T u clock) =
        List.zipWith (fun p m => (p + 8 - m) % 160) (positions u)
          (motionClocks (pokeHMOVE T u clock))) := by
  have hn : ¬ (-5 ≤ Int.tmod (clock - u.myClockWhenFrameStarted) 228 - HBLANK ∧
      Int.tmod (clock - u.myClockWhenFrameStarted) 228 - HBLANK < 97) := fun h => by omega
  have hmc : motionClocks (pokeHMOVE T u clock) =
      (hmRegisters u).map (fun hm => (((hm ^^^ 0x80) >>> 4 : Nat) : Int)) := by
    rw [motionClocks_pokeHMOVE, if_neg hn, hmoveMotionClock_early_map _ _ hp]
  refine ⟨hmc, fun hmm hpos5 => ?_⟩
  rw [hmc, positions_pokeHMOVE T _ _ hn, hmm]
  have q0 := hpos5 u.myPOSP0 (by simp [positions])
  have q1 := hpos5 u.myPOSP1 (by simp [positions])
  have q2 := hpos5 u.myPOSM0 (by simp [positions])
  have q3 := hpos5 u.myPOSM1 (by simp [positions])
  have q4 := hpos5 u.myPOSBL (by simp [positions])
  have r0 := hreg u.myHMP0 (by simp [hmRegisters])
  have r1 := hreg u.myHMP1 (by simp [hmRegisters])
  have r2 := hreg u.myHMM0 (by simp [hmRegisters])
  have r3 := hreg u.myHMM1 (by simp [hmRegisters])
  have r4 := hreg u.myHMBL (by simp [hmRegisters])
  unfold positions hmRegisters
  simp only [List.zip_cons_cons, List.zip_nil_right, List.zipWith_cons_cons,
    List.zipWith_nil_right, List.map_cons, List.map_nil, hmoveUndo_clear]
  rw [hmoveApply_early _ _ _ hp q0 (hmoveMotionClock_range _ _ r0),
    hmoveApply_early _ _ _ hp q1 (hmoveMotionClock_range _ _ r1),
    hmoveApply_early _ _ _ hp q2 (hmoveMotionClock_range _ _ r2),
    hmoveApply_early _ _ _ hp q3 (hmoveMotionClock_range _ _ r3),
    hmoveApply_early _ _ _ hp q4 (hmoveMotionClock_range _ _ r4),
    hmoveMotionClock_early _ _ hp, hmoveMotionClock_early _ _ hp,
    hmoveMotionClock_early _ _ hp, hmoveMotionClock_early _ _ hp,
    hmoveMotionClock_early _ _ hp]

/-- C23 fails as stated: in the scenario the more-motion latch of player 0 is
set, the HMOVE of CPU cycle 76 comes at `hpos = -68`, player 0 stands at 153
before the write (at 136 once the frame is up to date) and its counter is
`(0x90 XOR 0x80) >> 4 = 1`; the write leaves it at 159, which is neither
`(153 + 8 - 1) mod 160` nor `(136 + 8 - 1) mod 160`. -/
theorem C23_more_motion_counterexample :
    hposOf { hmoveScenario with cycles := 76 } = -68 ∧
    hmoveScenario.myHMP0mmr = true ∧
    hmoveScenario.myHMP0 = 0x90 ∧
    hmoveScenario.myPOSP0 = 153 ∧
    (pokeFrame sampleTables { hmoveScenario with cycles := 76 } 0x2A).myPOSP0 = 136 ∧
    (pokeAt sampleTables hmoveScenario 76 0x2A 0).myMotionClockP0 = 1 ∧
    (pokeAt sampleTables hmoveScenario 76 0x2A 0).myPOSP0 = 159 := by
  decide

/-- C23 (amended): after a write to HMOVE in a state whose `HMxx` registers are
bytes, each of the five motion clocks lies in `0..15`, and a write to one of
the five `HMxx` registers keeps them there.  When the HMOVE is written at
`hpos < -56`, each motion clock equals `(HMxx XOR 0x80) >> 4` for its own
register; and if no more-motion latch is set, each position `p` the case finds
(at least -153) becomes `(p + 8 - counter) mod 160`, where the positions the
case finds are those before the write when no HMOVE is pending. -/
theorem C23_HMOVE_motion_clocks (T : TIATables) (s : TIA) (addr value : Nat)
    (hr : T.writeRegister (addr &&& 0x003f) = some TIARegister.HMOVE)
    (hreg : ∀ hm ∈ hmRegisters s, hm < 256) :
    (∀ m ∈ motionClocks (poke T s addr value).2, 0 ≤ m ∧ m ≤ 15) ∧
    (∀ (u : TIA) (a v : Nat) (reg : TIARegister),
      (reg = TIARegister.HMP0 ∨ reg = TIARegister.HMP1 ∨ reg = TIARegister.HMM0 ∨
        reg = TIARegister.HMM1 ∨ reg = TIARegister.HMBL) →
      T.writeRegister (a &&& 0x003f) = some reg →
      (∀ m ∈ motionClocks u, 0 ≤ m ∧ m ≤ 15) →
      ∀ m ∈ motionClocks (poke T u a v).2, 0 ≤ m ∧ m ≤ 15) ∧
    (hposOf s < -56 →
      motionClocks (poke T s addr value).2 =
        (hmRegisters s).map (fun hm => (((hm ^^^ 0x80) >>> 4 : Nat) : Int)) ∧
      (moreMotion s = [false, false, false, false, false] →
        (∀ p ∈ positions (pokeFrame T s addr), -153 ≤ p) →
        positions (poke T s addr value).2 =
          List.zipWith (fun p m => (p + 8 - m) % 160) (positions (pokeFrame T s addr))
            (motionClocks (poke T s addr value).2)) ∧
      (moreMotion s = [false, false, false, false, false] →
        s.myCurrentHMOVEPos = 0x7FFFFFFF →
        positions (pokeFrame T s addr) = positions s)) := by
  have hregF : ∀ hm ∈ hmRegisters (pokeFrame T s addr), hm < 256 := by
    rw [(lists_pokeFrame T s addr).2.1]
    exact hreg
  have hmmF := (lists_pokeFrame T s addr).2.2
  have hrF := (lists_pokeFrame T s addr).2.1
  have hstart := (pokeFrame_fixed T s addr).2.2.1
  rw [poke_eq T s addr value _ hr, pokeRegister_HMOVE]
  refine ⟨motionClocks_in_range T _ _ hregF, ?_, ?_⟩
  · intro u a v reg hreg hw hu
    have hu2 : ∀ m ∈ motionClocks (pokeFrame T u a), 0 ≤ m ∧ m ≤ 15 := by
      rw [(lists_pokeFrame T u a).1]
      exact hu
    rw [poke_eq T u a v _ hw]
    exact motionClocks_pokeHMxx T _ reg v _ hreg hu2
  · intro hpos
    have hp : Int.tmod (clockNow s - (pokeFrame T s addr).myClockWhenFrameStarted) 228 - HBLANK
        < -56 := by
      rw [hstart]
      exact hpos
    obtain ⟨e1, e2⟩ := pokeHMOVE_early T (pokeFrame T s addr) (clockNow s) hp hregF
    rw [hrF] at e1
    rw [hmmF] at e2
    exact ⟨e1, e2, fun hmm hc => positions_pokeFrame T s addr hc hmm⟩

theorem C23_HMOVE_motion_clocks_witness :
    motionClocks (poke sampleTables (reset sampleTables sampleEnv sampleTIA) 0x2A 0).2
      = [8, 8, 8, 8, 8] ∧
    positions (poke sampleTables (reset sampleTables sampleEnv sampleTIA) 0x2A 0).2
      = [0, 0, 0, 0, 0] :=
  have h := (C23_HMOVE_motion_clocks sampleTables (reset sampleTables sampleEnv sampleTIA)
    0x2A 0 (by decide) (by decide)).2.2 (by decide)
  ⟨h.1.trans (by decide),
    (h.2.1 (by decide) (by decide)).trans (by decide)⟩

theorem resetPlayer_state (T : TIATables) (u : TIA) (clock motionClock : Int) (hm nusiz : Nat)
    (posOld : Int) (suppress : Nat) :
    (resetPlayer T u clock motionClock hm nusiz posOld suppress).1 = u ∨
    (resetPlayer T u clock motionClock hm nusiz posOld suppress).1
      = updateFrame T u (clock + 11) := by
  unfold resetPlayer
  dsimp only
  split_ifs <;> first | exact Or.inl rfl | exact Or.inr rfl

theorem hmState_pokeRegister_RESP0 (T : TIATables) (u : TIA) (value : Nat) (clock : Int) :
    (pokeRegister T u TIARegister.RESP0 value clock).hmState =
      { (resetPlayer T u clock u.myMotionClockP0 u.myHMP0 u.myNUSIZ0 u.myPOSP0
          u.mySuppressP0).1.hmState with
        posP0 := (resetPlayer T u clock u.myMotionClockP0 u.myHMP0 u.myNUSIZ0 u.myPOSP0
          u.mySuppressP0).2.1 } := rfl

theorem hmState_cycles (s : TIA) (c : Nat) : ({ s with cycles := c } : TIA).hmState = s.hmState :=
  rfl

theorem clockNow_set (s : TIA) (c : Nat) :
    clockNow { s with cycles := c } = toInt32 (((c * 3) % 4294967296 : Nat) : Int) := rfl

/-- A write to `RESP0` with no HMOVE pending or propagating and no more-motion
latch set, on the clocks and horizontal-motion state. -/
theorem hmState_poke_RESP0_quiet (T : TIATables) (s : TIA) (addr value : Nat)
    (hr : T.writeRegister (addr &&& 0x003f) = some TIARegister.RESP0)
    (hc : s.myCurrentHMOVEPos = 0x7FFFFFFF) (hp : s.myPreviousHMOVEPos = 0x7FFFFFFF)
    (hmm : moreMotion s = [false, false, false, false, false]) :
    ∃ a b p, (poke T s addr value).2.hmState =
      { s.hmState with
        clocksToEndOfScanLine := a, clockAtLastUpdate := b, previousHMOVEPos := p,
        posP0 := if hposOf s < -2 then 3 else (hposOf s + 5) % 160 } := by
  obtain ⟨m0, m1, m2, m3, m4⟩ := moreMotion_clear s hmm
  obtain ⟨a, b, p, e⟩ :=
    HMState.updateFrame_quiet s.hmState (clockNow s + pokeDelay T s addr) hc m0 m1 m2 m3 m4
  obtain ⟨c0, p0⟩ := pokeFrame_inactive T s addr hc hp
  have hpos := poke_RESP0_pos T s addr value hr
  rw [c0, p0, if_neg (show ¬ ((0x7FFFFFFF : Int) ≠ 0x7FFFFFFF) by decide),
    applyPreviousHMOVEMotion_inactive, reset_base (hposOf s) (-2) 5 (by decide)] at hpos
  rw [poke_eq T s addr value _ hr] at hpos ⊢
  rw [pokeRegister_RESP0] at hpos
  rw [hmState_pokeRegister_RESP0, hpos]
  have hF := hmState_pokeFrame T s addr
  rw [e] at hF
  generalize pokeFrame T s addr = u at hF ⊢
  rcases resetPlayer_state T u (clockNow s) u.myMotionClockP0 u.myHMP0 u.myNUSIZ0 u.myPOSP0
    u.mySuppressP0 with h | h
  · rw [h, hF]
    exact ⟨a, b, p, rfl⟩
  · rw [h, hmState_updateFrame, hF]
    obtain ⟨a2, b2, p2, e2⟩ := HMState.updateFrame_quiet
      { s.hmState with clocksToEndOfScanLine := a, clockAtLastUpdate := b,
                       previousHMOVEPos := p } (clockNow s + 11) hc m0 m1 m2 m3 m4
    rw [e2]
    exact ⟨a2, b2, p2, rfl⟩

theorem pokeHMxx_quiet (s : TIA) (hm : Nat) (pos motionClock : Int) (mmr : Bool) (value : Nat)
    (clock : Int) (hc : s.myCurrentHMOVEPos = 0x7FFFFFFF) :
    pokeHMxx s hm pos motionClock mmr value clock = (value &&& 0xF0, pos, motionClock, mmr) := by
  unfold pokeHMxx
  dsimp only
  by_cases h1 : hm = value &&& 0xF0
  · rw [if_pos h1, h1]
  · rw [if_neg h1, if_neg (fun h => h.1 hc)]

theorem hmState_pokeRegister_HMP0 (T : TIATables) (u : TIA) (value : Nat) (clock : Int) :
    (pokeRegister T u TIARegister.HMP0 value clock).hmState =
      { u.hmState with
        hmP0 := (pokeHMxx u u.hmState.hmP0 u.hmState.posP0 u.hmState.motionClockP0
          u.hmState.mmrP0 value clock).1,
        posP0 := (pokeHMxx u u.hmState.hmP0 u.hmState.posP0 u.hmState.motionClockP0
          u.hmState.mmrP0 value clock).2.1,
        motionClockP0 := (pokeHMxx u u.hmState.hmP0 u.hmState.posP0 u.hmState.motionClockP0
          u.hmState.mmrP0 value clock).2.2.1,
        mmrP0 := (pokeHMxx u u.hmState.hmP0 u.hmState.posP0 u.hmState.motionClockP0
          u.hmState.mmrP0 value clock).2.2.2 } :=
  rfl

/-- A write to `HMP0` with no HMOVE pending and no more-motion latch set, on the
clocks and horizontal-motion state. -/
theorem hmState_poke_HMP0_quiet (T : TIATables) (s : TIA) (addr value : Nat)
    (hr : T.writeRegister (addr &&& 0x003f) = some TIARegister.HMP0)
    (hc : s.myCurrentHMOVEPos = 0x7FFFFFFF)
    (hmm : moreMotion s = [false, false, false, false, false]) :
    ∃ a b p, (poke T s addr value).2.hmState =
      { s.hmState with
        clocksToEndOfScanLine := a, clockAtLastUpdate := b, previousHMOVEPos := p,
        hmP0 := value &&& 0xF0 } := by
  obtain ⟨m0, m1, m2, m3, m4⟩ := moreMotion_clear s hmm
  obtain ⟨a, b, p, e⟩ :=
    HMState.updateFrame_quiet s.hmState (clockNow s + pokeDelay T s addr) hc m0 m1 m2 m3 m4
  rw [poke_eq T s addr value _ hr, hmState_pokeRegister_HMP0]
  have hF := hmState_pokeFrame T s addr
  rw [e] at hF
  generalize pokeFrame T s addr = u at hF ⊢
  have hcu : u.myCurrentHMOVEPos = 0x7FFFFFFF := by
    rw [← (hmState_hmove u).1, hF]
    exact hc
  rw [pokeHMxx_quiet u _ _ _ _ value _ hcu, hF]
  exact ⟨a, b, p, rfl⟩

theorem hmState_posP0 (s : TIA) : s.hmState.posP0 = s.myPOSP0 := rfl

theorem HMState.hmove_quiet (h : HMState) (clock : Int)
    (hp : Int.tmod (clock - h.clockWhenFrameStarted) 228 - HBLANK = -68)
    (m0 : h.mmrP0 = false) :
    (HMState.hmove h clock).posP0 =
      CLAMP_POS (h.posP0 + ((8 : Int) - (((h.hmP0 ^^^ 0x80) >>> 4 : Nat) : Int))) := by
  unfold HMState.hmove
  dsimp only
  rw [hp, if_neg (by decide)]
  dsimp only
  rw [m0, hmoveUndo_clear, hmoveMotionClock_early _ _ (by decide)]
  unfold hmoveApply
  rw [if_pos (by decide)]

/-- A write to `HMOVE` at `hpos = -68` with no HMOVE pending and no more-motion
latch set moves player 0 from `pos` to `pos + 8 - counter`, clamped. -/
theorem poke_HMOVE_quiet (T : TIATables) (s : TIA) (addr value : Nat)
    (hr : T.writeRegister (addr &&& 0x003f) = some TIARegister.HMOVE)
    (hc : s.myCurrentHMOVEPos = 0x7FFFFFFF)
    (hmm : moreMotion s = [false, false, false, false, false])
    (hpos : hposOf s = -68) :
    (poke T s addr value).2.myPOSP0 =
      CLAMP_POS (s.myPOSP0 + ((8 : Int) - (((s.myHMP0 ^^^ 0x80) >>> 4 : Nat) : Int))) := by
  obtain ⟨m0, m1, m2, m3, m4⟩ := moreMotion_clear s hmm
  obtain ⟨a, b, p, e⟩ :=
    HMState.updateFrame_quiet s.hmState (clockNow s + pokeDelay T s addr) hc m0 m1 m2 m3 m4
  rw [← hmState_posP0, poke_eq T s addr value _ hr, pokeRegister_HMOVE, hmState_pokeHMOVE,
    hmState_pokeFrame, e]
  exact HMState.hmove_quiet _ _ hpos m0

theorem moreMotion_hmState (s : TIA) :
    moreMotion s = [s.hmState.mmrP0, s.hmState.mmrP1, s.hmState.mmrM0, s.hmState.mmrM1,
      s.hmState.mmrBL] := rfl

theorem hposOf_hmState (s : TIA) :
    hposOf s = Int.tmod (clockNow s - s.hmState.clockWhenFrameStarted) 228 - HBLANK := rfl

theorem hmState_hmP0 (s : TIA) : s.hmState.hmP0 = s.myHMP0 := rfl

theorem hmState_pokeAt_RESP0 (T : TIATables) (s : TIA) (c addr value : Nat)
    (hr : T.writeRegister (addr &&& 0x003f) = some TIARegister.RESP0)
    (hc : s.myCurrentHMOVEPos = 0x7FFFFFFF) (hp : s.myPreviousHMOVEPos = 0x7FFFFFFF)
    (hmm : moreMotion s = [false, false, false, false, false]) :
    ∃ a b p, (pokeAt T s c addr value).hmState =
      { s.hmState with
        clocksToEndOfScanLine := a, clockAtLastUpdate := b, previousHMOVEPos := p,
        posP0 := if hposOf { s with cycles := c } < -2 then 3
                 else (hposOf { s with cycles := c } + 5) % 160 } :=
  hmState_poke_RESP0_quiet T { s with cycles := c } addr value hr hc hp hmm

theorem hmState_pokeAt_HMP0 (T : TIATables) (s : TIA) (c addr value : Nat)
    (hr : T.writeRegister (addr &&& 0x003f) = some TIARegister.HMP0)
    (hc : s.myCurrentHMOVEPos = 0x7FFFFFFF)
    (hmm : moreMotion s = [false, false, false, false, false]) :
    ∃ a b p, (pokeAt T s c addr value).hmState =
      { s.hmState with
        clocksToEndOfScanLine := a, clockAtLastUpdate := b, previousHMOVEPos := p,
        hmP0 := value &&& 0xF0 } :=
  hmState_poke_HMP0_quiet T { s with cycles := c } addr value hr hc hmm

theorem pokeAt_HMOVE_quiet (T : TIATables) (s : TIA) (c addr value : Nat)
    (hr : T.writeRegister (addr &&& 0x003f) = some TIARegister.HMOVE)
    (hc : s.myCurrentHMOVEPos = 0x7FFFFFFF)
    (hmm : moreMotion s = [false, false, false, false, false])
    (hpos : hposOf { s with cycles := c } = -68) :
    (pokeAt T s c addr value).myPOSP0 =
      CLAMP_POS (s.myPOSP0 + ((8 : Int) - (((s.myHMP0 ^^^ 0x80) >>> 4 : Nat) : Int))) :=
  poke_HMOVE_quiet T { s with cycles := c } addr value hr hc hmm hpos

/-- With the dump enabled `dumpedInputPort` tells the minimum resistance from
every other one. -/
theorem dumpedInputPort_enabled (inp : TIAInputs) (s : TIA) (r : Int)
    (hd : s.myDumpEnabled = true) :
    dumpedInputPort inp s r = if r = inp.minimumResistance then 0x80 else 0x00 := by
  unfold dumpedInputPort
  split
  · rfl
  · rw [if_pos (Or.inr hd)]

theorem bit7_or (v : Nat) :
    ((v &&& 0x7F) ||| 0x80) &&& 0x80 = 0x80 ∧ ((v &&& 0x7F) ||| 0x00) &&& 0x80 = 0 := by
  have h : ∀ x, x < 128 → (x ||| 0x80) &&& 0x80 = 0x80 ∧ (x ||| 0x00) &&& 0x80 = 0 := by
    decide
  exact h _ (Nat.lt_succ_of_le Nat.and_le_right)

theorem withFrame_dump (s r : TIA) :
    (s.withFrame r).myDumpEnabled = s.myDumpEnabled ∧ (s.withFrame r).myVBLANK = s.myVBLANK ∧
    (s.withFrame r).myTIAPinsDriven = s.myTIAPinsDriven ∧
    (s.withFrame r).myDumpDisabledCycle = s.myDumpDisabledCycle :=
  ⟨rfl, rfl, rfl, rfl⟩

theorem updateFrame_dump (T : TIATables) (s : TIA) (clock : Int) :
    (updateFrame T s clock).myDumpEnabled = s.myDumpEnabled := by
  rw [updateFrame_frame]
  exact (withFrame_dump s _).1

theorem pokeFrame_dump (T : TIATables) (s : TIA) (addr : Nat) :
    (pokeFrame T s addr).myDumpEnabled = s.myDumpEnabled ∧
    (pokeFrame T s addr).myVBLANK = s.myVBLANK := by
  rw [pokeFrame_frame]
  exact ⟨(withFrame_dump s _).1, (withFrame_dump s _).2.1⟩

theorem pokeRegister_VBLANK (T : TIATables) (u : TIA) (value : Nat) (clock : Int) :
    (pokeRegister T u TIARegister.VBLANK value clock).myVBLANK = value ∧
    (pokeRegister T u TIARegister.VBLANK value clock).myDumpEnabled =
      (if u.myVBLANK &&& 0x80 = 0 ∧ value &&& 0x80 ≠ 0 then true
       else if u.myVBLANK &&& 0x80 ≠ 0 ∧ value &&& 0x80 = 0 then false
       else u.myDumpEnabled) := by
  unfold pokeRegister
  dsimp only
  refine ⟨rfl, ?_⟩
  split_ifs <;> rfl

/-- The value `peek` returns for `INPT0`..`INPT3`. -/
theorem peek_INPT (T : TIATables) (R : TIAReadTables) (inp : TIAInputs) (s : TIA)
    (addr : Nat) (reg : TIAReadRegister)
    (hreg : reg = TIAReadRegister.INPT0 ∨ reg = TIAReadRegister.INPT1 ∨
      reg = TIAReadRegister.INPT2 ∨ reg = TIAReadRegister.INPT3)
    (hr : R.readRegister (addr &&& 0x000f) = some reg) :
    (peek T R inp s addr).1 =
      ((0x3F &&& (if !(updateFrame T s (clockNow s)).myTIAPinsDriven then inp.busState
          else inp.busNoise)) &&& 0x7F) |||
        dumpedInputPort inp (updateFrame T s (clockNow s)) (inp.portResistance reg) := by
  unfold peek
  dsimp only
  rw [hr]
  rcases hreg with rfl | rfl | rfl | rfl <;> rfl

/-- C28 fails as stated: in the power-on state the write `VBLANK = 0x80` at CPU
cycle 0 sets bit 7 of `VBLANK` and enables the dump; with the paddle on pin Nine
of the left controller at the minimum resistance, the read of `INPT0` at CPU
cycle 10 returns 0x80, bit 7 set. -/
theorem C28_minimum_resistance_reads_high :
    (pokeAt sampleTables (reset sampleTables sampleEnv sampleTIA) 0 0x01 0x80).myVBLANK
      = 0x80 ∧
    (pokeAt sampleTables (reset sampleTables sampleEnv sampleTIA) 0 0x01 0x80).myDumpEnabled
      = true ∧
    ({ sampleInputs with leftNine := 0 } : TIAInputs).leftNine
      = ({ sampleInputs with leftNine := 0 } : TIAInputs).minimumResistance ∧
    (peekAt sampleTables sampleReadTables { sampleInputs with leftNine := 0 }
      (pokeAt sampleTables (reset sampleTables sampleEnv sampleTIA) 0 0x01 0x80) 10 0x08).1
      = 0x80 := by
  decide

/-- C28 (amended): a write to `VBLANK` that sets bit 7, made when bit 7 was clear
or the dump already enabled, enables the dump; and while the dump is enabled a
read of `INPT0`..`INPT3` returns bit 7 = 0 for every resistance of its paddle
other than the minimum resistance (the maximum included), and bit 7 = 1 for the
minimum resistance. -/
theorem C28_dumped_input_ports (T : TIATables) (R : TIAReadTables) (inp : TIAInputs) (s : TIA)
    (addr : Nat) (reg : TIAReadRegister)
    (hreg : reg = TIAReadRegister.INPT0 ∨ reg = TIAReadRegister.INPT1 ∨
      reg = TIAReadRegister.INPT2 ∨ reg = TIAReadRegister.INPT3)
    (hr : R.readRegister (addr &&& 0x000f) = some reg) :
    (s.myDumpEnabled = true →
      (peek T R inp s addr).1 &&& 0x80 =
        if inp.portResistance reg = inp.minimumResistance then 0x80 else 0) ∧
    (∀ (u : TIA) (aV value : Nat),
      T.writeRegister (aV &&& 0x003f) = some TIARegister.VBLANK →
      value &&& 0x80 ≠ 0 → (u.myVBLANK &&& 0x80 = 0 ∨ u.myDumpEnabled = true) →
      (poke T u aV value).2.myVBLANK = value ∧ (poke T u aV value).2.myDumpEnabled = true) := by
  refine ⟨fun hd => ?_, fun u aV value hV hv hu => ?_⟩
  · rw [peek_INPT T R inp s addr reg hreg hr,
      dumpedInputPort_enabled inp _ _ ((updateFrame_dump T s _).trans hd)]
    by_cases h : inp.portResistance reg = inp.minimumResistance
    · rw [if_pos h]
      exact (bit7_or _).1
    · rw [if_neg h]
      exact (bit7_or _).2
  · obtain ⟨e1, e2⟩ := pokeFrame_dump T u aV
    rw [poke_eq T u aV value _ hV, (pokeRegister_VBLANK T _ value _).1,
      (pokeRegister_VBLANK T _ value _).2, e1, e2]
    refine ⟨rfl, ?_⟩
    rcases hu with h | h
    · rw [if_pos ⟨h, hv⟩]
    · rw [h]
      split_ifs with h1 h2
      · rfl
      · exact absurd h2.2 hv
      · rfl

theorem C28_dumped_input_ports_witness :
    (peek sampleTables sampleReadTables { sampleInputs with leftNine := 1000 }
      (pokeAt sampleTables (reset sampleTables sampleEnv sampleTIA) 0 0x01 0x80) 0x08).1
      &&& 0x80 = 0 :=
  ((C28_dumped_input_ports sampleTables sampleReadTables { sampleInputs with leftNine := 1000 }
    (pokeAt sampleTables (reset sampleTables sampleEnv sampleTIA) 0 0x01 0x80) 0x08
    TIAReadRegister.INPT0 (Or.inl rfl) (by decide)).1 (by decide)).trans (by decide)

theorem scanlines_lt (s : TIA) : scanlines s < 4294967296 := by
  unfold scanlines
  omega

theorem memsetBuf_inside (buf : Nat → Nat) (start count value i : Nat)
    (h : start ≤ i ∧ i < start + count) : memsetBuf buf start count value i = value :=
  if_pos h

/-- The three fields of the claim after `endFrame` on an overrun frame that is
not skipped. -/
theorem endFrame_overrun (T : TIATables) (s : TIA)
    (h : s.myMaximumNumberOfScanlines + 1 < scanlines s)
    (hv : s.myStartScanline < scanlines s) :
    (endFrame T s).myScanlineCountForLastFrame = s.myMaximumNumberOfScanlines ∧
    (endFrame T s).myCurrentFrameBuffer =
      (if s.myScanlineCountForLastFrame < s.myMaximumNumberOfScanlines
       then memsetBuf s.myCurrentFrameBuffer 0 (160 * 320) 0 else s.myCurrentFrameBuffer) ∧
    (endFrame T s).myPreviousFrameBuffer =
      (if s.myScanlineCountForLastFrame < s.myMaximumNumberOfScanlines
       then memsetBuf s.myPreviousFrameBuffer 0 (160 * 320) 1 else s.myPreviousFrameBuffer) := by
  have hl := scanlines_lt s
  unfold endFrame
  dsimp only
  rw [if_neg (Nat.not_le.mpr hv), Nat.mod_eq_of_lt (by omega), if_pos h]
  by_cases hp : s.myScanlineCountForLastFrame < s.myMaximumNumberOfScanlines
  · rw [if_pos hp, if_pos hp, if_pos hp]
    dsimp only
    split_ifs <;> exact ⟨rfl, rfl, rfl⟩
  · rw [if_neg hp, if_neg hp, if_neg hp]
    dsimp only
    split_ifs <;> exact ⟨rfl, rfl, rfl⟩

/-- C29 fails as stated: at the end of the second overrun frame in a row the
scanline count 400 exceeds `maximumNumberOfScanlines + 1 = 291` and the count
recorded for the frame before is 290, not below the maximum; `endFrame` records
290 and leaves the buffers alone, byte 0 of the current buffer being 1 and
byte 0 of the previous buffer 0. -/
theorem C29_second_overrun_not_blanked :
    scanlines overrunScenario = 400 ∧
    overrunScenario.myMaximumNumberOfScanlines = 290 ∧
    overrunScenario.myStartScanline = 0 ∧
    overrunScenario.myScanlineCountForLastFrame = 290 ∧
    (endFrame sampleTables overrunScenario).myScanlineCountForLastFrame = 290 ∧
    (endFrame sampleTables overrunScenario).myCurrentFrameBuffer 0 = 1 ∧
    (endFrame sampleTables overrunScenario).myPreviousFrameBuffer 0 = 0 := by
  decide

/-- C29 (amended): in `endFrame`, whenever the finished frame's scanline count
exceeds `maximumNumberOfScanlines + 1` (and the start scanline, so that the
frame is not skipped), the recorded scanline count for the last frame is
`maximumNumberOfScanlines`; if the count recorded for the frame before was
below `maximumNumberOfScanlines`, all 160x320 bytes of the current frame buffer
are set to 0 and all those of the previous frame buffer to 1, and otherwise both
buffers are left as they are. -/
theorem C29_overrun_blanking (T : TIATables) (s : TIA)
    (h : s.myMaximumNumberOfScanlines + 1 < scanlines s)
    (hv : s.myStartScanline < scanlines s) :
    (endFrame T s).myScanlineCountForLastFrame = s.myMaximumNumberOfScanlines ∧
    (s.myScanlineCountForLastFrame < s.myMaximumNumberOfScanlines →
      ∀ i, i < 160 * 320 →
        (endFrame T s).myCurrentFrameBuffer i = 0 ∧
        (endFrame T s).myPreviousFrameBuffer i = 1) ∧
    (s.myMaximumNumberOfScanlines ≤ s.myScanlineCountForLastFrame →
      (endFrame T s).myCurrentFrameBuffer = s.myCurrentFrameBuffer ∧
      (endFrame T s).myPreviousFrameBuffer = s.myPreviousFrameBuffer) := by
  obtain ⟨e1, e2, e3⟩ := endFrame_overrun T s h hv
  refine ⟨e1, fun hp i hi => ?_, fun hp => ?_⟩
  · rw [e2, e3, if_pos hp, if_pos hp]
    exact ⟨memsetBuf_inside _ _ _ _ _ ⟨Nat.zero_le _, by omega⟩,
      memsetBuf_inside _ _ _ _ _ ⟨Nat.zero_le _, by omega⟩⟩
  · rw [e2, e3, if_neg (Nat.not_lt.mpr hp), if_neg (Nat.not_lt.mpr hp)]
    exact ⟨rfl, rfl⟩

theorem C29_overrun_blanking_witness :
    (endFrame sampleTables
      { reset sampleTables sampleEnv sampleTIA with cycles := 30400 }).myScanlineCountForLastFrame
      = 290 ∧
    (endFrame sampleTables
      { reset sampleTables sampleEnv sampleTIA with cycles := 30400 }).myPreviousFrameBuffer 7
      = 1 :=
  have h := C29_overrun_blanking sampleTables
    { reset sampleTables sampleEnv sampleTIA with cycles := 30400 } (by decide) (by decide)
  ⟨h.1.trans (by decide), (h.2.1 (by decide) 7 (by decide)).2⟩

theorem pixelLoop_shift (T : TIATables) (e : Nat) (k d : Int) :
    ∀ (n hpos : Nat) (s : TIA),
      pixelLoop T e n hpos (shiftClocks k d s) = shiftClocks k d (pixelLoop T e n hpos s) := by
  intro n
  induction n with
  | zero => intro hpos s; rfl
  | succ n ih =>
    intro hpos s
    show pixelLoop T e n (hpos + 1) _ = shiftClocks k d (pixelLoop T e n (hpos + 1) _)
    rw [← ih]
    rfl

theorem interLine_shift (k d : Int) (s : TIA) :
    interLine (shiftClocks k d s) = shiftClocks k d (interLine s) := rfl

theorem endOfScanLine_eq (s : TIA) :
    endOfScanLine s =
      { s with
        mySuppressP0 := if s.myClocksToEndOfScanLine = 228 then 0 else s.mySuppressP0,
        mySuppressP1 := if s.myClocksToEndOfScanLine = 228 then 0 else s.mySuppressP1 } := by
  unfold endOfScanLine
  split <;> rfl

theorem endOfScanLine_shift (k d : Int) (s : TIA) :
    endOfScanLine (shiftClocks k d s) = shiftClocks k d (endOfScanLine s) := by
  rw [endOfScanLine_eq, endOfScanLine_eq]
  rfl

theorem advanceClocks_eq (clock : Int) (s : TIA) :
    advanceClocks clock s =
      { s with
        myClocksToEndOfScanLine :=
          if clock > s.myClockAtLastUpdate + s.myClocksToEndOfScanLine then 228
          else s.myClocksToEndOfScanLine - (clock - s.myClockAtLastUpdate),
        myClockAtLastUpdate :=
          if clock > s.myClockAtLastUpdate + s.myClocksToEndOfScanLine
          then s.myClockAtLastUpdate + s.myClocksToEndOfScanLine else clock } := by
  unfold advanceClocks
  split <;> rfl

theorem shiftClocks_fields (k d : Int) (s : TIA) :
    (shiftClocks k d s).myClockAtLastUpdate = s.myClockAtLastUpdate - k ∧
    (shiftClocks k d s).myClocksToEndOfScanLine = s.myClocksToEndOfScanLine ∧
    (shiftClocks k d s).myClockStartDisplay = s.myClockStartDisplay - k ∧
    (shiftClocks k d s).myClockStopDisplay = s.myClockStopDisplay - k ∧
    (shiftClocks k d s).myClockWhenFrameStarted = s.myClockWhenFrameStarted - k :=
  ⟨rfl, rfl, rfl, rfl, rfl⟩

theorem clocksToUpdateOf_shift (clock k d : Int) (s : TIA) :
    clocksToUpdateOf (clock - k) (shiftClocks k d s) = clocksToUpdateOf clock s := by
  unfold clocksToUpdateOf
  rw [(shiftClocks_fields k d s).1, (shiftClocks_fields k d s).2.1]
  split_ifs <;> omega

theorem advanceClocks_shift (clock k d : Int) (s : TIA) :
    advanceClocks (clock - k) (shiftClocks k d s) = shiftClocks k d (advanceClocks clock s) := by
  rw [advanceClocks_eq, advanceClocks_eq, (shiftClocks_fields k d s).1,
    (shiftClocks_fields k d s).2.1]
  have e1 : (if clock - k > s.myClockAtLastUpdate - k + s.myClocksToEndOfScanLine then (228 : Int)
      else s.myClocksToEndOfScanLine - (clock - k - (s.myClockAtLastUpdate - k))) =
      (if clock > s.myClockAtLastUpdate + s.myClocksToEndOfScanLine then 228
      else s.myClocksToEndOfScanLine - (clock - s.myClockAtLastUpdate)) := by
    split_ifs <;> omega
  have e2 : (if clock - k > s.myClockAtLastUpdate - k + s.myClocksToEndOfScanLine
      then s.myClockAtLastUpdate - k + s.myClocksToEndOfScanLine else clock - k) =
      (if clock > s.myClockAtLastUpdate + s.myClocksToEndOfScanLine
      then s.myClockAtLastUpdate + s.myClocksToEndOfScanLine else clock) - k := by
    split_ifs <;> omega
  rw [e1, e2]
  rfl

/-- The body of `renderLine` is its two halves, one after the other. -/
theorem renderLine_split (T : TIATables) (a b : Int) (s : TIA) :
    renderLine T a b s =
      renderHMOVEBlank T s.myFramePointer (a + blankSkip a b) (b - blankSkip a b)
        (renderPixels T (a + blankSkip a b) (b - blankSkip a b) s) := rfl

theorem shiftClocks_read (k d : Int) (s : TIA) :
    (shiftClocks k d s).myVBLANK = s.myVBLANK ∧
    (shiftClocks k d s).myHMOVEBlankEnabled = s.myHMOVEBlankEnabled ∧
    (shiftClocks k d s).myFramePointer = s.myFramePointer :=
  ⟨rfl, rfl, rfl⟩

theorem renderPixels_shift (T : TIATables) (a b k d : Int) (s : TIA) :
    renderPixels T a b (shiftClocks k d s) = shiftClocks k d (renderPixels T a b s) := by
  unfold renderPixels
  by_cases h0 : b ≠ 0
  · rw [if_pos h0, if_pos h0]
    dsimp only
    rw [(shiftClocks_read k d s).1]
    by_cases hv : s.myVBLANK &&& 0x02 ≠ 0
    · rw [if_pos hv, if_pos hv]
      rfl
    · rw [if_neg hv, if_neg hv]
      exact congrArg
        (fun u : TIA => ({ u with myFramePointer := (s.myFramePointer + b).toNat } : TIA))
        (pixelLoop_shift T (s.myEnabledObjects &&& s.myDisabledObjects) k d
          ((s.myFramePointer + b).toNat - s.myFramePointer) (toU32 (a - HBLANK))
          { s with
            myFramePointerClocks := toU32 (s.myFramePointerClocks + b),
            myP0Mask := MaskPtr.px s.mySuppressP0 (s.myNUSIZ0 &&& 0x07) (160 - (s.myPOSP0 % 256)),
            myP1Mask := MaskPtr.px s.mySuppressP1 (s.myNUSIZ1 &&& 0x07) (160 - (s.myPOSP1 % 256)),
            myBLMask := MaskPtr.bl ((s.myCTRLPF &&& 0x30) >>> 4) (160 - (s.myPOSBL % 256)),
            myM0Mask := missileMask s.myHMM0mmr s.myNUSIZ0 s.myPOSM0,
            myM1Mask := missileMask s.myHMM1mmr s.myNUSIZ1 s.myPOSM1 })
  · rw [if_neg h0, if_neg h0]

theorem renderHMOVEBlank_shift (T : TIATables) (p : Nat) (a b k d : Int) (s : TIA) :
    renderHMOVEBlank T p a b (shiftClocks k d s) = shiftClocks k d (renderHMOVEBlank T p a b s) := by
  unfold renderHMOVEBlank
  rw [(shiftClocks_read k d s).2.1]
  by_cases h0 : s.myHMOVEBlankEnabled = true ∧ HBLANK < HBLANK + 8 ∧ a < HBLANK + 8
  · rw [if_pos h0, if_pos h0]
    dsimp only
    by_cases h1 : b + a ≥ HBLANK + 8
    · rw [if_pos h1, if_pos h1]
      rfl
    · rw [if_neg h1, if_neg h1]
      rfl
  · rw [if_neg h0, if_neg h0]

theorem renderLine_shift (T : TIATables) (a b k d : Int) (s : TIA) :
    renderLine T a b (shiftClocks k d s) = shiftClocks k d (renderLine T a b s) := by
  rw [renderLine_split, renderLine_split, renderPixels_shift, renderHMOVEBlank_shift,
    (shiftClocks_read k d s).2.2]

theorem updateLine_shift (T : TIATables) (clock k d : Int) (s : TIA) :
    updateLine T (clock - k) (shiftClocks k d s) = shiftClocks k d (updateLine T clock s) := by
  unfold updateLine
  rw [clocksToUpdateOf_shift, advanceClocks_shift, (shiftClocks_fields k d s).2.1,
    renderLine_shift, endOfScanLine_shift]

theorem lineLoop_shift (T : TIATables) (clock k d : Int) (startLine : Nat) :
    ∀ (n line : Nat) (s : TIA),
      lineLoop T (clock - k) startLine n line (shiftClocks k d s)
        = shiftClocks k d (lineLoop T clock startLine n line s) := by
  intro n
  induction n with
  | zero => intro line s; rfl
  | succ n ih =>
    intro line s
    unfold lineLoop
    dsimp only
    by_cases hl : line ≠ startLine
    · rw [if_pos hl, if_pos hl, interLine_shift, updateLine_shift, ih]
    · rw [if_neg hl, if_neg hl, updateLine_shift, ih]

theorem updateFrame_shift (T : TIATables) (s : TIA) (t k d : Int) :
    updateFrame T (shiftClocks k d s) (t - k) = shiftClocks k d (updateFrame T s t) := by
  unfold updateFrame
  obtain ⟨f1, _, f3, f4, f5⟩ := shiftClocks_fields k d s
  rw [f1, f3, f4, f5]
  by_cases hg : t < s.myClockStartDisplay ∨ s.myClockAtLastUpdate ≥ s.myClockStopDisplay ∨
      s.myClockAtLastUpdate ≥ t
  · rw [if_pos hg, if_pos (by omega)]
  · rw [if_neg hg, if_neg (by omega)]
    dsimp only
    have e1 : (if t - k > s.myClockStopDisplay - k then s.myClockStopDisplay - k else t - k)
        = (if t > s.myClockStopDisplay then s.myClockStopDisplay else t) - k := by
      split_ifs <;> omega
    rw [e1, sub_sub_sub_cancel_right, sub_sub_sub_cancel_right]
    exact lineLoop_shift T _ k d _ _ _ s

theorem toInt32_id (x : Int) (h : inInt32 x) : toInt32 x = x := by
  unfold toInt32
  obtain ⟨h1, h2⟩ := h
  omega

/-- Absent 32-bit overflow `systemCyclesReset` moves the five clocks back by
three times the cycle count and the dump-disabled cycle by the cycle count. -/
theorem systemCyclesReset_eq (s : TIA) (hc : s.cycles * 3 < 4294967296)
    (h1 : inInt32 (s.myDumpDisabledCycle - (s.cycles : Nat)))
    (h2 : inInt32 (s.myClockWhenFrameStarted - ((s.cycles * 3 : Nat) : Int)))
    (h3 : inInt32 (s.myClockStartDisplay - ((s.cycles * 3 : Nat) : Int)))
    (h4 : inInt32 (s.myClockStopDisplay - ((s.cycles * 3 : Nat) : Int)))
    (h5 : inInt32 (s.myClockAtLastUpdate - ((s.cycles * 3 : Nat) : Int)))
    (h6 : inInt32 (s.myVSYNCFinishClock - ((s.cycles * 3 : Nat) : Int))) :
    systemCyclesReset s = shiftClocks ((s.cycles * 3 : Nat) : Int) (s.cycles : Nat) s := by
  unfold systemCyclesReset shiftClocks
  dsimp only
  rw [Nat.mod_eq_of_lt (show s.cycles < 4294967296 by omega), Nat.mod_eq_of_lt hc,
    toInt32_id _ h1, toInt32_id _ h2, toInt32_id _ h3, toInt32_id _ h4, toInt32_id _ h5,
    toInt32_id _ h6]

theorem shiftClocks_same (k d : Int) (s : TIA) :
    (shiftClocks k d s).myCurrentFrameBuffer = s.myCurrentFrameBuffer ∧
    positions (shiftClocks k d s) = positions s ∧
    (shiftClocks k d s).myCollision = s.myCollision ∧
    (shiftClocks k d s).myHMOVEBlankEnabled = s.myHMOVEBlankEnabled ∧
    (shiftClocks k d s).myFramePointer = s.myFramePointer ∧
    (shiftClocks k d s).myClocksToEndOfScanLine = s.myClocksToEndOfScanLine :=
  ⟨rfl, rfl, rfl, rfl, rfl, rfl⟩

/-- C17: let `c` be the system cycle count of a state `S` and `S'` the state
after `systemCyclesReset`, no 32-bit subtraction of which wraps.  For every
`t`, `updateFrame(t - 3c)` on `S'` yields the state `updateFrame(t)` yields on
`S` with the five clock fields moved back by exactly `3c` (and the
dump-disabled cycle by `c`): the same frame-buffer bytes, positions, collision
latch, flags and every other field. -/
theorem C17_cycles_reset_commutes (T : TIATables) (s : TIA) (t : Int)
    (hc : s.cycles * 3 < 4294967296)
    (h1 : inInt32 (s.myDumpDisabledCycle - (s.cycles : Nat)))
    (h2 : inInt32 (s.myClockWhenFrameStarted - ((s.cycles * 3 : Nat) : Int)))
    (h3 : inInt32 (s.myClockStartDisplay - ((s.cycles * 3 : Nat) : Int)))
    (h4 : inInt32 (s.myClockStopDisplay - ((s.cycles * 3 : Nat) : Int)))
    (h5 : inInt32 (s.myClockAtLastUpdate - ((s.cycles * 3 : Nat) : Int)))
    (h6 : inInt32 (s.myVSYNCFinishClock - ((s.cycles * 3 : Nat) : Int))) :
    updateFrame T (systemCyclesReset s) (t - ((s.cycles * 3 : Nat) : Int))
      = shiftClocks ((s.cycles * 3 : Nat) : Int) (s.cycles : Nat) (updateFrame T s t) ∧
    (updateFrame T (systemCyclesReset s) (t - ((s.cycles * 3 : Nat) : Int))).myCurrentFrameBuffer
      = (updateFrame T s t).myCurrentFrameBuffer ∧
    positions (updateFrame T (systemCyclesReset s) (t - ((s.cycles * 3 : Nat) : Int)))
      = positions (updateFrame T s t) ∧
    (updateFrame T (systemCyclesReset s) (t - ((s.cycles * 3 : Nat) : Int))).myCollision
      = (updateFrame T s t).myCollision ∧
    (updateFrame T (systemCyclesReset s) (t - ((s.cycles * 3 : Nat) : Int))).myHMOVEBlankEnabled
      = (updateFrame T s t).myHMOVEBlankEnabled ∧
    (updateFrame T (systemCyclesReset s) (t - ((s.cycles * 3 : Nat) : Int))).myClockAtLastUpdate
      = (updateFrame T s t).myClockAtLastUpdate - ((s.cycles * 3 : Nat) : Int) := by
  have e : updateFrame T (systemCyclesReset s) (t - ((s.cycles * 3 : Nat) : Int))
      = shiftClocks ((s.cycles * 3 : Nat) : Int) (s.cycles : Nat) (updateFrame T s t) := by
    rw [systemCyclesReset_eq s hc h1 h2 h3 h4 h5 h6, updateFrame_shift]
  obtain ⟨q1, q2, q3, q4, _, _⟩ :=
    shiftClocks_same ((s.cycles * 3 : Nat) : Int) (s.cycles : Nat) (updateFrame T s t)
  refine ⟨e, ?_, ?_, ?_, ?_, ?_⟩
  · rw [e, q1]
  · rw [e, q2]
  · rw [e, q3]
  · rw [e, q4]
  · rw [e, (shiftClocks_fields _ _ _).1]

theorem C17_cycles_reset_commutes_witness :
    (updateFrame sampleTables
      (systemCyclesReset { reset sampleTables sampleEnv sampleTIA with cycles := 100 })
      (1000 - ((100 * 3 : Nat) : Int))).myClockAtLastUpdate
      = (updateFrame sampleTables { reset sampleTables sampleEnv sampleTIA with cycles := 100 }
          1000).myClockAtLastUpdate - ((100 * 3 : Nat) : Int) :=
  (C17_cycles_reset_commutes sampleTables
    { reset sampleTables sampleEnv sampleTIA with cycles := 100 } 1000
    (by decide) (by decide) (by decide) (by decide) (by decide) (by decide)
    (by decide)).2.2.2.2.2

/-- The stream `TIA::save` writes from the empty stream. -/
theorem TIA_save_stream (name : String) (s : TIA) :
    (save name s []).2 =
      [Item.str name,
      Item.int ((s.myClockWhenFrameStarted : Int) % 4294967296).toNat,
      Item.int ((s.myClockStartDisplay : Int) % 4294967296).toNat,
      Item.int ((s.myClockStopDisplay : Int) % 4294967296).toNat,
      Item.int ((s.myClockAtLastUpdate : Int) % 4294967296).toNat,
      Item.int ((s.myClocksToEndOfScanLine : Int) % 4294967296).toNat,
      Item.int (((s.myScanlineCountForLastFrame : Nat) : Int) % 4294967296).toNat,
      Item.int ((s.myVSYNCFinishClock : Int) % 4294967296).toNat,
      Item.byte (s.myEnabledObjects % 256),
      Item.byte (s.myDisabledObjects % 256),
      Item.byte (s.myVSYNC % 256),
      Item.byte (s.myVBLANK % 256),
      Item.byte (s.myNUSIZ0 % 256),
      Item.byte (s.myNUSIZ1 % 256),
      Item.bytes ((List.range 8).map (fun i => s.myColor i % 256)),
      Item.byte (s.myCTRLPF % 256),
      Item.byte (s.myPlayfieldPriorityAndScore % 256),
      Item.bool s.myREFP0,
      Item.bool s.myREFP1,
      Item.int (((s.myPF : Nat) : Int) % 4294967296).toNat,
      Item.byte (s.myGRP0 % 256),
      Item.byte (s.myGRP1 % 256),
      Item.byte (s.myDGRP0 % 256),
      Item.byte (s.myDGRP1 % 256),
      Item.bool s.myENAM0,
      Item.bool s.myENAM1,
      Item.bool s.myENABL,
      Item.bool s.myDENABL,
      Item.byte (s.myHMP0 % 256),
      Item.byte (s.myHMP1 % 256),
      Item.byte (s.myHMM0 % 256),
      Item.byte (s.myHMM1 % 256),
      Item.byte (s.myHMBL % 256),
      Item.bool s.myVDELP0,
      Item.bool s.myVDELP1,
      Item.bool s.myVDELBL,
      Item.bool s.myRESMP0,
      Item.bool s.myRESMP1,
      Item.short (((s.myCollision : Nat) : Int) % 65536).toNat,
      Item.int (((s.myCollisionEnabledMask : Nat) : Int) % 4294967296).toNat,
      Item.byte (s.myCurrentGRP0 % 256),
      Item.byte (s.myCurrentGRP1 % 256),
      Item.bool s.myDumpEnabled,
      Item.int ((s.myDumpDisabledCycle : Int) % 4294967296).toNat,
      Item.short ((s.myPOSP0 : Int) % 65536).toNat,
      Item.short ((s.myPOSP1 : Int) % 65536).toNat,
      Item.short ((s.myPOSM0 : Int) % 65536).toNat,
      Item.short ((s.myPOSM1 : Int) % 65536).toNat,
      Item.short ((s.myPOSBL : Int) % 65536).toNat,
      Item.int ((s.myMotionClockP0 : Int) % 4294967296).toNat,
      Item.int ((s.myMotionClockP1 : Int) % 4294967296).toNat,
      Item.int ((s.myMotionClockM0 : Int) % 4294967296).toNat,
      Item.int ((s.myMotionClockM1 : Int) % 4294967296).toNat,
      Item.int ((s.myMotionClockBL : Int) % 4294967296).toNat,
      Item.int ((s.myStartP0 : Int) % 4294967296).toNat,
      Item.int ((s.myStartP1 : Int) % 4294967296).toNat,
      Item.int ((s.myStartM0 : Int) % 4294967296).toNat,
      Item.int ((s.myStartM1 : Int) % 4294967296).toNat,
      Item.byte (s.mySuppressP0 % 256),
      Item.byte (s.mySuppressP1 % 256),
      Item.bool s.myHMP0mmr,
      Item.bool s.myHMP1mmr,
      Item.bool s.myHMM0mmr,
      Item.bool s.myHMM1mmr,
      Item.bool s.myHMBLmmr,
      Item.int ((s.myCurrentHMOVEPos : Int) % 4294967296).toNat,
      Item.int ((s.myPreviousHMOVEPos : Int) % 4294967296).toNat,
      Item.bool s.myHMOVEBlankEnabled,
      Item.int (((s.myFrameCounter : Nat) : Int) % 4294967296).toNat,
      Item.int (((s.myPALFrameCounter : Nat) : Int) % 4294967296).toNat] := by
  simp only [save, Serializer.putString, Serializer.putInt, Serializer.putShort,
    Serializer.putByte, Serializer.putBool, Serializer.putByteArray, List.nil_append,
    List.append_assoc, List.cons_append, List.singleton_append]

theorem loadStep_int (f : TIA → Nat → TIA) (s : TIA) (v : Nat) (rest : List Item) :
    loadStep Serializer.getInt f (some (s, Item.int v :: rest)) = some (f s v, rest) := rfl

theorem loadStep_short (f : TIA → Nat → TIA) (s : TIA) (v : Nat) (rest : List Item) :
    loadStep Serializer.getShort f (some (s, Item.short v :: rest)) = some (f s v, rest) := rfl

theorem loadStep_byte (f : TIA → Nat → TIA) (s : TIA) (v : Nat) (rest : List Item) :
    loadStep Serializer.getByte f (some (s, Item.byte v :: rest)) = some (f s v, rest) := rfl

theorem loadStep_bool (f : TIA → Bool → TIA) (s : TIA) (v : Bool) (rest : List Item) :
    loadStep Serializer.getBool f (some (s, Item.bool v :: rest)) = some (f s v, rest) := rfl

theorem loadColor_bytes (s : TIA) (a : Nat → Nat) (rest : List Item) :
    loadColor (some (s, Item.bytes ((List.range 8).map a) :: rest)) =
      some ({ s with myColor := fun i =>
        if i < 8 then ((List.range 8).map a).getD i 0 else s.myColor i }, rest) := rfl

/-- The state `TIA::load` leaves from the stream of `TIA::save`. -/
theorem TIA_load_save (T : TIATables) (name : String) (s t : TIA) :
    load T name t (save name s []).2 = some
      ({ (toggleFixedColors T (enableBits T { t with
      myClockWhenFrameStarted := toInt32 (((s.myClockWhenFrameStarted : Int) % 4294967296).toNat : Nat),
      myClockStartDisplay := toInt32 (((s.myClockStartDisplay : Int) % 4294967296).toNat : Nat),
      myClockStopDisplay := toInt32 (((s.myClockStopDisplay : Int) % 4294967296).toNat : Nat),
      myClockAtLastUpdate := toInt32 (((s.myClockAtLastUpdate : Int) % 4294967296).toNat : Nat),
      myClocksToEndOfScanLine := toInt32 (((s.myClocksToEndOfScanLine : Int) % 4294967296).toNat : Nat),
      myScanlineCountForLastFrame := (((s.myScanlineCountForLastFrame : Nat) : Int) % 4294967296).toNat,
      myVSYNCFinishClock := toInt32 (((s.myVSYNCFinishClock : Int) % 4294967296).toNat : Nat),
      myEnabledObjects := s.myEnabledObjects % 256,
      myDisabledObjects := s.myDisabledObjects % 256,
      myVSYNC := s.myVSYNC % 256,
      myVBLANK := s.myVBLANK % 256,
      myNUSIZ0 := s.myNUSIZ0 % 256,
      myNUSIZ1 := s.myNUSIZ1 % 256,
      myColor := fun i => if i < 8 then ((List.range 8).map (fun i => s.myColor i % 256)).getD i 0 else t.myColor i,
      myCTRLPF := s.myCTRLPF % 256,
      myPlayfieldPriorityAndScore := s.myPlayfieldPriorityAndScore % 256,
      myREFP0 := s.myREFP0,
      myREFP1 := s.myREFP1,
      myPF := (((s.myPF : Nat) : Int) % 4294967296).toNat,
      myGRP0 := s.myGRP0 % 256,
      myGRP1 := s.myGRP1 % 256,
      myDGRP0 := s.myDGRP0 % 256,
      myDGRP1 := s.myDGRP1 % 256,
      myENAM0 := s.myENAM0,
      myENAM1 := s.myENAM1,
      myENABL := s.myENABL,
      myDENABL := s.myDENABL,
      myHMP0 := s.myHMP0 % 256,
      myHMP1 := s.myHMP1 % 256,
      myHMM0 := s.myHMM0 % 256,
      myHMM1 := s.myHMM1 % 256,
      myHMBL := s.myHMBL % 256,
      myVDELP0 := s.myVDELP0,
      myVDELP1 := s.myVDELP1,
      myVDELBL := s.myVDELBL,
      myRESMP0 := s.myRESMP0,
      myRESMP1 := s.myRESMP1,
      myCollision := (((s.myCollision : Nat) : Int) % 65536).toNat,
      myCollisionEnabledMask := (((s.myCollisionEnabledMask : Nat) : Int) % 4294967296).toNat,
      myCurrentGRP0 := s.myCurrentGRP0 % 256,
      myCurrentGRP1 := s.myCurrentGRP1 % 256,
      myDumpEnabled := s.myDumpEnabled,
      myDumpDisabledCycle := toInt32 (((s.myDumpDisabledCycle : Int) % 4294967296).toNat : Nat),
      myPOSP0 := toInt16 (((s.myPOSP0 : Int) % 65536).toNat : Nat),
      myPOSP1 := toInt16 (((s.myPOSP1 : Int) % 65536).toNat : Nat),
      myPOSM0 := toInt16 (((s.myPOSM0 : Int) % 65536).toNat : Nat),
      myPOSM1 := toInt16 (((s.myPOSM1 : Int) % 65536).toNat : Nat),
      myPOSBL := toInt16 (((s.myPOSBL : Int) % 65536).toNat : Nat),
      myMotionClockP0 := toInt32 (((s.myMotionClockP0 : Int) % 4294967296).toNat : Nat),
      myMotionClockP1 := toInt32 (((s.myMotionClockP1 : Int) % 4294967296).toNat : Nat),
      myMotionClockM0 := toInt32 (((s.myMotionClockM0 : Int) % 4294967296).toNat : Nat),
      myMotionClockM1 := toInt32 (((s.myMotionClockM1 : Int) % 4294967296).toNat : Nat),
      myMotionClockBL := toInt32 (((s.myMotionClockBL : Int) % 4294967296).toNat : Nat),
      myStartP0 := toInt32 (((s.myStartP0 : Int) % 4294967296).toNat : Nat),
      myStartP1 := toInt32 (((s.myStartP1 : Int) % 4294967296).toNat : Nat),
      myStartM0 := toInt32 (((s.myStartM0 : Int) % 4294967296).toNat : Nat),
      myStartM1 := toInt32 (((s.myStartM1 : Int) % 4294967296).toNat : Nat),
      mySuppressP0 := s.mySuppressP0 % 256,
      mySuppressP1 := s.mySuppressP1 % 256,
      myHMP0mmr := s.myHMP0mmr,
      myHMP1mmr := s.myHMP1mmr,
      myHMM0mmr := s.myHMM0mmr,
      myHMM1mmr := s.myHMM1mmr,
      myHMBLmmr := s.myHMBLmmr,
      myCurrentHMOVEPos := toInt32 (((s.myCurrentHMOVEPos : Int) % 4294967296).toNat : Nat),
      myPreviousHMOVEPos := toInt32 (((s.myPreviousHMOVEPos : Int) % 4294967296).toNat : Nat),
      myHMOVEBlankEnabled := s.myHMOVEBlankEnabled,
      myFrameCounter := (((s.myFrameCounter : Nat) : Int) % 4294967296).toNat,
      myPALFrameCounter := (((s.myPALFrameCounter : Nat) : Int) % 4294967296).toNat } true) 0).2 with myAllowHMOVEBlanks := true }, []) := by
  rw [TIA_save_stream]
  unfold load
  dsimp only [Serializer.getString]
  rw [if_neg (not_not.mpr rfl)]
  simp only [loadStep_int, loadStep_short, loadStep_byte, loadStep_bool, loadColor_bytes]

theorem int32_round_trip (x : Int) (h : inInt32 x) :
    toInt32 (((x % 4294967296).toNat : Nat) : Int) = x := by
  obtain ⟨h1, h2⟩ := h
  unfold toInt32
  rw [Int.toNat_of_nonneg (Int.emod_nonneg _ (by norm_num))]
  omega

theorem int16_round_trip (x : Int) (h : -32768 ≤ x ∧ x < 32768) :
    toInt16 (((x % 65536).toNat : Nat) : Int) = x := by
  obtain ⟨h1, h2⟩ := h
  unfold toInt16
  rw [Int.toNat_of_nonneg (Int.emod_nonneg _ (by norm_num))]
  omega

theorem u32_round_trip (n : Nat) (h : n < 4294967296) :
    (((n : Nat) : Int) % 4294967296).toNat = n := by
  omega

theorem u16_round_trip (n : Nat) (h : n < 65536) :
    (((n : Nat) : Int) % 65536).toNat = n := by
  omega

theorem color_round_trip (a b : Nat → Nat) (h : ∀ i, i < 8 → a i < 256) (i : Nat) (hi : i < 8) :
    (if i < 8 then ((List.range 8).map (fun i => a i % 256)).getD i 0 else b i) = a i := by
  rw [if_pos hi]
  have : i = 0 ∨ i = 1 ∨ i = 2 ∨ i = 3 ∨ i = 4 ∨ i = 5 ∨ i = 6 ∨ i = 7 := by omega
  rcases this with h0 | h0 | h0 | h0 | h0 | h0 | h0 | h0 <;> subst h0 <;>
    exact Nat.mod_eq_of_lt (h _ hi)

theorem toggleBit_on (s : TIA) (b : Nat) :
    (toggleBit s b 1).2 = { s with myDisabledObjects := s.myDisabledObjects ||| b } := rfl

theorem enableBits_true (T : TIATables) (s : TIA) :
    enableBits T s true = { s with myDisabledObjects :=
      s.myDisabledObjects ||| T.P0Bit ||| T.P1Bit ||| T.M0Bit ||| T.M1Bit ||| T.BLBit ||| T.PFBit } := by
  unfold enableBits
  simp only [if_true, toggleBit_on]

/-- C37 (amended): loading the stream written by `TIA::save` succeeds, consumes
the whole stream, and leaves every saved field at its value at save time,
except `myDisabledObjects`, in which the final `enableBits(true)` of `load`
sets the six object bits. -/
theorem C37_load_restores_saved_fields (T : TIATables) (name : String) (s t : TIA)
    (h : s.savedFieldsInRange) :
    ∃ r : TIA, load T name t (save name s []).2 = some (r, []) ∧
      r.myClockWhenFrameStarted = s.myClockWhenFrameStarted ∧
      r.myClockStartDisplay = s.myClockStartDisplay ∧
      r.myClockStopDisplay = s.myClockStopDisplay ∧
      r.myClockAtLastUpdate = s.myClockAtLastUpdate ∧
      r.myClocksToEndOfScanLine = s.myClocksToEndOfScanLine ∧
      r.myScanlineCountForLastFrame = s.myScanlineCountForLastFrame ∧
      r.myVSYNCFinishClock = s.myVSYNCFinishClock ∧
      r.myEnabledObjects = s.myEnabledObjects ∧
      r.myDisabledObjects =
        s.myDisabledObjects ||| T.P0Bit ||| T.P1Bit ||| T.M0Bit ||| T.M1Bit ||| T.BLBit ||| T.PFBit ∧
      r.myVSYNC = s.myVSYNC ∧
      r.myVBLANK = s.myVBLANK ∧
      r.myNUSIZ0 = s.myNUSIZ0 ∧
      r.myNUSIZ1 = s.myNUSIZ1 ∧
      (∀ i, i < 8 → r.myColor i = s.myColor i) ∧
      r.myCTRLPF = s.myCTRLPF ∧
      r.myPlayfieldPriorityAndScore = s.myPlayfieldPriorityAndScore ∧
      r.myREFP0 = s.myREFP0 ∧
      r.myREFP1 = s.myREFP1 ∧
      r.myPF = s.myPF ∧
      r.myGRP0 = s.myGRP0 ∧
      r.myGRP1 = s.myGRP1 ∧
      r.myDGRP0 = s.myDGRP0 ∧
      r.myDGRP1 = s.myDGRP1 ∧
      r.myENAM0 = s.myENAM0 ∧
      r.myENAM1 = s.myENAM1 ∧
      r.myENABL = s.myENABL ∧
      r.myDENABL = s.myDENABL ∧
      r.myHMP0 = s.myHMP0 ∧
      r.myHMP1 = s.myHMP1 ∧
      r.myHMM0 = s.myHMM0 ∧
      r.myHMM1 = s.myHMM1 ∧
      r.myHMBL = s.myHMBL ∧
      r.myVDELP0 = s.myVDELP0 ∧
      r.myVDELP1 = s.myVDELP1 ∧
      r.myVDELBL = s.myVDELBL ∧
      r.myRESMP0 = s.myRESMP0 ∧
      r.myRESMP1 = s.myRESMP1 ∧
      r.myCollision = s.myCollision ∧
      r.myCollisionEnabledMask = s.myCollisionEnabledMask ∧
      r.myCurrentGRP0 = s.myCurrentGRP0 ∧
      r.myCurrentGRP1 = s.myCurrentGRP1 ∧
      r.myDumpEnabled = s.myDumpEnabled ∧
      r.myDumpDisabledCycle = s.myDumpDisabledCycle ∧
      r.myPOSP0 = s.myPOSP0 ∧
      r.myPOSP1 = s.myPOSP1 ∧
      r.myPOSM0 = s.myPOSM0 ∧
      r.myPOSM1 = s.myPOSM1 ∧
      r.myPOSBL = s.myPOSBL ∧
      r.myMotionClockP0 = s.myMotionClockP0 ∧
      r.myMotionClockP1 = s.myMotionClockP1 ∧
      r.myMotionClockM0 = s.myMotionClockM0 ∧
      r.myMotionClockM1 = s.myMotionClockM1 ∧
      r.myMotionClockBL = s.myMotionClockBL ∧
      r.myStartP0 = s.myStartP0 ∧
      r.myStartP1 = s.myStartP1 ∧
      r.myStartM0 = s.myStartM0 ∧
      r.myStartM1 = s.myStartM1 ∧
      r.mySuppressP0 = s.mySuppressP0 ∧
      r.mySuppressP1 = s.mySuppressP1 ∧
      r.myHMP0mmr = s.myHMP0mmr ∧
      r.myHMP1mmr = s.myHMP1mmr ∧
      r.myHMM0mmr = s.myHMM0mmr ∧
      r.myHMM1mmr = s.myHMM1mmr ∧
      r.myHMBLmmr = s.myHMBLmmr ∧
      r.myCurrentHMOVEPos = s.myCurrentHMOVEPos ∧
      r.myPreviousHMOVEPos = s.myPreviousHMOVEPos ∧
      r.myHMOVEBlankEnabled = s.myHMOVEBlankEnabled ∧
      r.myFrameCounter = s.myFrameCounter ∧
      r.myPALFrameCounter = s.myPALFrameCounter := by
  obtain ⟨h0, h1, h2, h3, h4, h5, h6, h7, h8, h9, h10, h11, h12, h13, h14, h15, h18, h19, h20, h21, h22, h27, h28, h29, h30, h31, h37, h38, h39, h40, h42, h43, h44, h45, h46, h47, h48, h49, h50, h51, h52, h53, h54, h55, h56, h57, h58, h64, h65, h67, h68⟩ := h
  refine ⟨_, TIA_load_save T name s t, ?_⟩
  refine ⟨?_, ?_, ?_, ?_, ?_, ?_, ?_, ?_, ?_, ?_, ?_, ?_, ?_, ?_, ?_, ?_, ?_, ?_, ?_, ?_, ?_, ?_, ?_, ?_, ?_, ?_, ?_, ?_, ?_, ?_, ?_, ?_, ?_, ?_, ?_, ?_, ?_, ?_, ?_, ?_, ?_, ?_, ?_, ?_, ?_, ?_, ?_, ?_, ?_, ?_, ?_, ?_, ?_, ?_, ?_, ?_, ?_, ?_, ?_, ?_, ?_, ?_, ?_, ?_, ?_, ?_, ?_, ?_, ?_⟩
  · exact int32_round_trip _ h0
  · exact int32_round_trip _ h1
  · exact int32_round_trip _ h2
  · exact int32_round_trip _ h3
  · exact int32_round_trip _ h4
  · exact u32_round_trip _ h5
  · exact int32_round_trip _ h6
  · exact Nat.mod_eq_of_lt h7
  · show s.myDisabledObjects % 256 ||| T.P0Bit ||| T.P1Bit ||| T.M0Bit ||| T.M1Bit ||| T.BLBit ||| T.PFBit = _
    rw [Nat.mod_eq_of_lt h8]
  · exact Nat.mod_eq_of_lt h9
  · exact Nat.mod_eq_of_lt h10
  · exact Nat.mod_eq_of_lt h11
  · exact Nat.mod_eq_of_lt h12
  · exact fun i hi => color_round_trip _ _ h13 i hi
  · exact Nat.mod_eq_of_lt h14
  · exact Nat.mod_eq_of_lt h15
  · rfl
  · rfl
  · exact u32_round_trip _ h18
  · exact Nat.mod_eq_of_lt h19
  · exact Nat.mod_eq_of_lt h20
  · exact Nat.mod_eq_of_lt h21
  · exact Nat.mod_eq_of_lt h22
  · rfl
  · rfl
  · rfl
  · rfl
  · exact Nat.mod_eq_of_lt h27
  · exact Nat.mod_eq_of_lt h28
  · exact Nat.mod_eq_of_lt h29
  · exact Nat.mod_eq_of_lt h30
  · exact Nat.mod_eq_of_lt h31
  · rfl
  · rfl
  · rfl
  · rfl
  · rfl
  · exact u16_round_trip _ h37
  · exact u32_round_trip _ h38
  · exact Nat.mod_eq_of_lt h39
  · exact Nat.mod_eq_of_lt h40
  · rfl
  · exact int32_round_trip _ h42
  · exact int16_round_trip _ h43
  · exact int16_round_trip _ h44
  · exact int16_round_trip _ h45
  · exact int16_round_trip _ h46
  · exact int16_round_trip _ h47
  · exact int32_round_trip _ h48
  · exact int32_round_trip _ h49
  · exact int32_round_trip _ h50
  · exact int32_round_trip _ h51
  · exact int32_round_trip _ h52
  · exact int32_round_trip _ h53
  · exact int32_round_trip _ h54
  · exact int32_round_trip _ h55
  · exact int32_round_trip _ h56
  · exact Nat.mod_eq_of_lt h57
  · exact Nat.mod_eq_of_lt h58
  · rfl
  · rfl
  · rfl
  · rfl
  · rfl
  · exact int32_round_trip _ h64
  · exact int32_round_trip _ h65
  · rfl
  · exact u32_round_trip _ h67
  · exact u32_round_trip _ h68

theorem reset_INPT4 (T : TIATables) (env : TIAEnv) (s : TIA) :
    (reset T env s).myINPT4 = 0x80 := by
  obtain ⟨a, b, c⟩ := env
  cases b <;> rfl

theorem updateFrame_INPT4 (T : TIATables) (s : TIA) (clock : Int) :
    (updateFrame T s clock).myINPT4 = s.myINPT4 ∧
    (updateFrame T s clock).myVBLANK = s.myVBLANK := by
  rw [updateFrame_frame]
  exact ⟨rfl, rfl⟩

theorem peek_INPT4 (T : TIATables) (R : TIAReadTables) (inp : TIAInputs) (s : TIA) (addr : Nat)
    (hr : R.readRegister (addr &&& 0x000f) = some TIAReadRegister.INPT4) :
    (peek T R inp s addr).1 =
      ((0x3F &&& (if !(updateFrame T s (clockNow s)).myTIAPinsDriven then inp.busState
          else inp.busNoise)) &&& 0x7F) |||
        (if s.myVBLANK &&& 0x40 ≠ 0 then s.myINPT4 &&& (if inp.buttonLeft then 0x80 else 0x00)
         else (if inp.buttonLeft then 0x80 else 0x00)) := by
  unfold peek
  dsimp only
  rw [hr]
  dsimp only
  rw [(updateFrame_INPT4 T s _).1, (updateFrame_INPT4 T s _).2]

theorem mod_256_and_40 (n : Nat) : n % 256 &&& 0x40 = n &&& 0x40 := by
  rw [show (256 : Nat) = 2 ^ 8 from rfl, ← Nat.and_pow_two_sub_one_eq_mod, Nat.and_assoc]
  rfl

theorem load_unsaved (T : TIATables) (name : String) (s t : TIA) :
    ∃ r : TIA, load T name t (save name s []).2 = some (r, []) ∧
      r.myINPT4 = t.myINPT4 ∧ r.myVBLANK = s.myVBLANK % 256 := by
  refine ⟨_, TIA_load_save T name s t, ?_, ?_⟩
  · simp only [enableBits_true, toggleFixedColors]
  · simp only [enableBits_true, toggleFixedColors]

/-- C37 (counterexample): a TIA with player 0 switched off is saved with the
object byte 0xFE, and the TIA loaded from that stream holds 0xFF. -/
theorem C37_disabled_objects_not_restored :
    disabledScenario.savedFieldsInRange ∧ disabledScenario.myDisabledObjects = 0xFE ∧
    (load sampleTables "TIA" sampleTIA (save "TIA" disabledScenario []).2).map
      (fun p => p.1.myDisabledObjects) = some 0xFF := by
  refine ⟨by decide, by decide, ?_⟩
  rw [TIA_load_save]
  decide

/-- C37 (witness): the amended statement at a TIA with non-zero registers. -/
theorem C37_load_restores_saved_fields_witness :
    ({ sampleTIA with myGRP0 := 0xA5, myClockAtLastUpdate := -12 } : TIA).savedFieldsInRange ∧
    ∃ r : TIA, load sampleTables "TIA" sampleTIA
        (save "TIA" { sampleTIA with myGRP0 := 0xA5, myClockAtLastUpdate := -12 } []).2
        = some (r, []) ∧ r.myClockAtLastUpdate = -12 ∧ r.myGRP0 = 0xA5 :=
  ⟨by decide,
   (C37_load_restores_saved_fields sampleTables "TIA"
      { sampleTIA with myGRP0 := 0xA5, myClockAtLastUpdate := -12 } sampleTIA (by decide)).elim
    fun r h => ⟨r, h.1, h.2.2.2.2.1, h.2.2.2.2.2.2.2.2.2.2.2.2.2.2.2.2.2.2.2.2.1⟩⟩

/-- C34 (code divergence): `TIA::save` does not write the latch `myINPT4`, so a
TIA loaded into a freshly reset instance holds the reset value 0x80 of the
latch.  With the latch of the saved TIA enabled and cleared by a pressed
button, a read of `INPT4` with the button released returns bit 7 clear on the
saved instance and bit 7 set on the loaded one. -/
theorem C34_INPT4_latch_not_restored (T : TIATables) (R : TIAReadTables) (inp : TIAInputs)
    (env : TIAEnv) (name : String) (s t : TIA) (addr : Nat)
    (hr : R.readRegister (addr &&& 0x000f) = some TIAReadRegister.INPT4)
    (hv : s.myVBLANK &&& 0x40 ≠ 0) (hl : s.myINPT4 = 0) (hb : inp.buttonLeft = true) :
    ∃ r : TIA, load T name (reset T env t) (save name s []).2 = some (r, []) ∧
      (peek T R inp s addr).1.testBit 7 = false ∧
      (peek T R inp r addr).1.testBit 7 = true := by
  obtain ⟨r, h1, h2, h3⟩ := load_unsaved T name s (reset T env t)
  refine ⟨r, h1, ?_, ?_⟩
  · rw [peek_INPT4 T R inp s addr hr, if_pos hv, hl, Nat.zero_and, Nat.or_zero,
      Nat.testBit_and]
    exact Bool.and_false _
  · rw [peek_INPT4 T R inp r addr hr, h2, h3, mod_256_and_40, if_pos hv, reset_INPT4, hb,
      Nat.testBit_or]
    exact Bool.or_true _

/-- C34 (witness): the divergence at the sample tables, with the left button
released. -/
theorem C34_INPT4_latch_not_restored_witness :
    ∃ r : TIA, load sampleTables "TIA" (reset sampleTables sampleEnv sampleTIA)
        (save "TIA" latchedScenario []).2 = some (r, []) ∧
      (peek sampleTables sampleReadTables { sampleInputs with buttonLeft := true }
        latchedScenario 0x0C).1.testBit 7 = false ∧
      (peek sampleTables sampleReadTables { sampleInputs with buttonLeft := true }
        r 0x0C).1.testBit 7 = true :=
  C34_INPT4_latch_not_restored sampleTables sampleReadTables
    { sampleInputs with buttonLeft := true } sampleEnv "TIA" latchedScenario sampleTIA 0x0C
    (by decide) (by decide) rfl rfl

theorem CLAMP_POS_mod (x : Int) (h : -160 ≤ x) : CLAMP_POS x = x % 160 := by
  unfold CLAMP_POS
  split_ifs with hx
  · rw [Int.tmod_eq_emod (by omega) (by norm_num)]
    omega
  · rw [Int.tmod_eq_emod (by omega) (by norm_num)]

theorem newMotion_range (value : Nat) :
    (0 : Int) ≤ ((((value &&& 0xF0) ^^^ 0x80) >>> 4 : Nat) : Int) ∧
    ((((value &&& 0xF0) ^^^ 0x80) >>> 4 : Nat) : Int) ≤ 15 := by
  have h1 : value &&& 0xF0 < 256 := Nat.lt_of_le_of_lt Nat.and_le_right (by norm_num)
  have h2 : (value &&& 0xF0) ^^^ 0x80 < 2 ^ 8 := Nat.xor_lt_two_pow h1 (by norm_num)
  have h3 : ((value &&& 0xF0) ^^^ 0x80) >>> 4 < 16 := by
    rw [Nat.shiftRight_eq_div_pow]
    omega
  omega

/-- C36: the outcomes of a write of `v` to a horizontal-motion register, on the
register `hm`, position `pos`, motion clock `mc` and more-motion latch `mmr` of
the object, with `value = v & 0xF0`, `m = (value XOR 0x80) >> 4` and `hpos` the
horizontal position of the write.  A write of the value the register holds
changes nothing.  Otherwise, while an HMOVE is active and
`hpos < min(HMOVEpos + 6 + 4*mc, 7)`: if `m > mc` or
`hpos <= min(HMOVEpos + 6 + 4*m, 7)` the position becomes
`(pos - (m - mc)) mod 160`, the motion clock `m`, and the latch is unchanged;
if not, the position becomes `(pos - (15 - mc)) mod 160`, the motion clock 15,
and the latch is set when `value` is neither 0x70 nor 0x80 and unchanged when
it is one of them.  In every other situation only the register changes.  The
five functions `pokeHMP0` .. `pokeHMBL` apply these outcomes to the fields of
their object and change no other field. -/
theorem C36_HMxx_write_outcomes (s : TIA) (hm : Nat) (pos mc : Int) (mmr : Bool) (v : Nat)
    (clock : Int) (value : Nat) (m hpos : Int)
    (hvalue : value = v &&& 0xF0)
    (hm_def : m = (((value ^^^ 0x80) >>> 4 : Nat) : Int))
    (hhpos : hpos = Int.tmod (clock - s.myClockWhenFrameStarted) 228 - 68)
    (hp : 0 ≤ pos) (hc : 0 ≤ mc) :
    (hm = value → pokeHMxx s hm pos mc mmr v clock = (hm, pos, mc, mmr)) ∧
    (hm ≠ value →
      (s.myCurrentHMOVEPos ≠ 0x7FFFFFFF ∧ hpos < min (s.myCurrentHMOVEPos + 6 + mc * 4) 7) →
      (m > mc ∨ hpos ≤ min (s.myCurrentHMOVEPos + 6 + m * 4) 7) →
      pokeHMxx s hm pos mc mmr v clock = (value, (pos - (m - mc)) % 160, m, mmr)) ∧
    (hm ≠ value →
      (s.myCurrentHMOVEPos ≠ 0x7FFFFFFF ∧ hpos < min (s.myCurrentHMOVEPos + 6 + mc * 4) 7) →
      ¬ (m > mc ∨ hpos ≤ min (s.myCurrentHMOVEPos + 6 + m * 4) 7) →
      pokeHMxx s hm pos mc mmr v clock =
        (value, (pos - (15 - mc)) % 160, 15,
          if value ≠ 0x70 ∧ value ≠ 0x80 then true else mmr)) ∧
    (hm ≠ value →
      ¬ (s.myCurrentHMOVEPos ≠ 0x7FFFFFFF ∧ hpos < min (s.myCurrentHMOVEPos + 6 + mc * 4) 7) →
      pokeHMxx s hm pos mc mmr v clock = (value, pos, mc, mmr)) ∧
    pokeHMP0 s v clock =
      { s with
        myHMP0 := (pokeHMxx s s.myHMP0 s.myPOSP0 s.myMotionClockP0 s.myHMP0mmr v clock).1,
        myPOSP0 := (pokeHMxx s s.myHMP0 s.myPOSP0 s.myMotionClockP0 s.myHMP0mmr v clock).2.1,
        myMotionClockP0 :=
          (pokeHMxx s s.myHMP0 s.myPOSP0 s.myMotionClockP0 s.myHMP0mmr v clock).2.2.1,
        myHMP0mmr := (pokeHMxx s s.myHMP0 s.myPOSP0 s.myMotionClockP0 s.myHMP0mmr v clock).2.2.2 } ∧
    pokeHMP1 s v clock =
      { s with
        myHMP1 := (pokeHMxx s s.myHMP1 s.myPOSP1 s.myMotionClockP1 s.myHMP1mmr v clock).1,
        myPOSP1 := (pokeHMxx s s.myHMP1 s.myPOSP1 s.myMotionClockP1 s.myHMP1mmr v clock).2.1,
        myMotionClockP1 :=
          (pokeHMxx s s.myHMP1 s.myPOSP1 s.myMotionClockP1 s.myHMP1mmr v clock).2.2.1,
        myHMP1mmr := (pokeHMxx s s.myHMP1 s.myPOSP1 s.myMotionClockP1 s.myHMP1mmr v clock).2.2.2 } ∧
    pokeHMM0 s v clock =
      { s with
        myHMM0 := (pokeHMxx s s.myHMM0 s.myPOSM0 s.myMotionClockM0 s.myHMM0mmr v clock).1,
        myPOSM0 := (pokeHMxx s s.myHMM0 s.myPOSM0 s.myMotionClockM0 s.myHMM0mmr v clock).2.1,
        myMotionClockM0 :=
          (pokeHMxx s s.myHMM0 s.myPOSM0 s.myMotionClockM0 s.myHMM0mmr v clock).2.2.1,
        myHMM0mmr := (pokeHMxx s s.myHMM0 s.myPOSM0 s.myMotionClockM0 s.myHMM0mmr v clock).2.2.2 } ∧
    pokeHMM1 s v clock =
      { s with
        myHMM1 := (pokeHMxx s s.myHMM1 s.myPOSM1 s.myMotionClockM1 s.myHMM1mmr v clock).1,
        myPOSM1 := (pokeHMxx s s.myHMM1 s.myPOSM1 s.myMotionClockM1 s.myHMM1mmr v clock).2.1,
        myMotionClockM1 :=
          (pokeHMxx s s.myHMM1 s.myPOSM1 s.myMotionClockM1 s.myHMM1mmr v clock).2.2.1,
        myHMM1mmr := (pokeHMxx s s.myHMM1 s.myPOSM1 s.myMotionClockM1 s.myHMM1mmr v clock).2.2.2 } ∧
    pokeHMBL s v clock =
      { s with
        myHMBL := (pokeHMxx s s.myHMBL s.myPOSBL s.myMotionClockBL s.myHMBLmmr v clock).1,
        myPOSBL := (pokeHMxx s s.myHMBL s.myPOSBL s.myMotionClockBL s.myHMBLmmr v clock).2.1,
        myMotionClockBL :=
          (pokeHMxx s s.myHMBL s.myPOSBL s.myMotionClockBL s.myHMBLmmr v clock).2.2.1,
        myHMBLmmr := (pokeHMxx s s.myHMBL s.myPOSBL s.myMotionClockBL s.myHMBLmmr v clock).2.2.2 } := by
  subst hvalue hm_def hhpos
  have hr := newMotion_range v
  refine ⟨?_, ?_, ?_, ?_, rfl, rfl, rfl, rfl, rfl⟩
  · intro h
    unfold pokeHMxx
    dsimp only
    rw [if_pos h]
  · intro h ha hb
    unfold pokeHMxx
    dsimp only [HBLANK]
    rw [if_neg h, if_pos ha, if_pos hb, CLAMP_POS_mod _ (by omega)]
  · intro h ha hb
    unfold pokeHMxx
    dsimp only [HBLANK]
    rw [if_neg h, if_pos ha, if_neg hb, CLAMP_POS_mod _ (by omega)]
  · intro h ha
    unfold pokeHMxx
    dsimp only [HBLANK]
    rw [if_neg h, if_neg ha]

/-- C36 (witness): during an HMOVE started at `hpos` -68 with motion clock 8
for the register value 0, the write of 0x90 at colour clock 18 (`hpos` -50)
comes after the comparator has passed the new count 1:
the position moves from 0 to `(0 - 7) mod 160 = 153`, the motion clock becomes
15 and the latch is set. -/
theorem C36_HMxx_write_outcomes_witness :
    pokeHMxx { sampleTIA with myCurrentHMOVEPos := -68 } 0 0 8 false 0x90 18
      = (0x90, 153, 15, true) :=
  ((C36_HMxx_write_outcomes { sampleTIA with myCurrentHMOVEPos := -68 } 0 0 8 false 0x90 18
      0x90 1 (-50) (by decide) (by decide) (by decide) (by decide) (by decide)).2.2.1
    (by decide) (by decide) (by decide)).trans (by decide)

theorem hasBit_iff (x j : Nat) : x &&& 2 ^ j ≠ 0 ↔ x.testBit j = true := by
  rw [Nat.and_two_pow]
  cases x.testBit j <;> simp

theorem orBit_self (e i : Nat) (hi : i < 8) : orBit e (2 ^ i) &&& 2 ^ i ≠ 0 := by
  rw [hasBit_iff]
  unfold orBit
  rw [show (256 : Nat) = 2 ^ 8 from rfl, Nat.testBit_mod_two_pow, Nat.testBit_or,
    Nat.testBit_two_pow_self]
  simp [hi]

theorem orBit_other (e i j : Nat) (hj : j < 8) (hij : i ≠ j) :
    orBit e (2 ^ i) &&& 2 ^ j ≠ 0 ↔ e &&& 2 ^ j ≠ 0 := by
  rw [hasBit_iff, hasBit_iff]
  unfold orBit
  rw [show (256 : Nat) = 2 ^ 8 from rfl, Nat.testBit_mod_two_pow, Nat.testBit_or,
    Nat.testBit_two_pow]
  simp [hj, hij]

theorem andNotBit_self (e i : Nat) (hi : i < 8) : ¬ (andNotBit e (2 ^ i) &&& 2 ^ i ≠ 0) := by
  rw [hasBit_iff]
  unfold andNotBit
  rw [show (256 : Nat) = 2 ^ 8 from rfl, Nat.testBit_and, Nat.testBit_mod_two_pow,
    Nat.testBit_xor, Nat.testBit_two_pow_self, show (255 : Nat) = 2 ^ 8 - 1 from rfl,
    Nat.testBit_two_pow_sub_one]
  simp [hi]

theorem andNotBit_other (e i j : Nat) (hj : j < 8) (hij : i ≠ j) :
    andNotBit e (2 ^ i) &&& 2 ^ j ≠ 0 ↔ e &&& 2 ^ j ≠ 0 := by
  rw [hasBit_iff, hasBit_iff]
  unfold andNotBit
  rw [show (256 : Nat) = 2 ^ 8 from rfl, Nat.testBit_and, Nat.testBit_mod_two_pow,
    Nat.testBit_xor, Nat.testBit_two_pow, show (255 : Nat) = 2 ^ 8 - 1 from rfl,
    Nat.testBit_two_pow_sub_one]
  simp [hj, hij]

theorem single_bit (b : Nat) (h : b ∈ [1, 2, 4, 8, 16, 32, 64, 128]) :
    ∃ i, i < 8 ∧ b = 2 ^ i := by
  simp only [List.mem_cons, List.mem_singleton, List.not_mem_nil, or_false] at h
  rcases h with rfl | rfl | rfl | rfl | rfl | rfl | rfl | rfl
  · exact ⟨0, by decide, rfl⟩
  · exact ⟨1, by decide, rfl⟩
  · exact ⟨2, by decide, rfl⟩
  · exact ⟨3, by decide, rfl⟩
  · exact ⟨4, by decide, rfl⟩
  · exact ⟨5, by decide, rfl⟩
  · exact ⟨6, by decide, rfl⟩
  · exact ⟨7, by decide, rfl⟩

theorem bitOf_single (T : TIATables) (hT : T.objectBits) (o : TIAObject) :
    ∃ i, i < 8 ∧ T.bitOf o = 2 ^ i := by
  apply single_bit
  apply hT.1
  cases o <;> simp [TIATables.bitOf]

theorem bitOf_injective (T : TIATables) (hT : T.objectBits) (o p : TIAObject)
    (h : T.bitOf o = T.bitOf p) : o = p := by
  have hn := hT.2
  simp only [List.nodup_cons, List.mem_cons, List.mem_singleton, List.not_mem_nil, or_false,
    not_or, List.nodup_nil, and_true] at hn
  obtain ⟨⟨a1, a2, a3, a4, a5⟩, ⟨b2, b3, b4, b5⟩, ⟨c3, c4, c5⟩, ⟨d4, d5⟩, e5, _⟩ := hn
  cases o <;> cases p <;> first
    | rfl
    | (simp only [TIATables.bitOf] at h; first
        | exact absurd h a1 | exact absurd h a2 | exact absurd h a3 | exact absurd h a4
        | exact absurd h a5 | exact absurd h b2 | exact absurd h b3 | exact absurd h b4
        | exact absurd h b5 | exact absurd h c3 | exact absurd h c4 | exact absurd h c5
        | exact absurd h d4 | exact absurd h d5 | exact absurd h e5
        | exact absurd h.symm a1 | exact absurd h.symm a2 | exact absurd h.symm a3
        | exact absurd h.symm a4 | exact absurd h.symm a5 | exact absurd h.symm b2
        | exact absurd h.symm b3 | exact absurd h.symm b4 | exact absurd h.symm b5
        | exact absurd h.symm c3 | exact absurd h.symm c4 | exact absurd h.symm c5
        | exact absurd h.symm d4 | exact absurd h.symm d5 | exact absurd h.symm e5)

/-- Setting or clearing the bit of one object leaves the mask in agreement with
the conditions of the other objects and makes it agree with `P` for that
object. -/
theorem agree_set (T : TIATables) (hT : T.objectBits) (e : Nat) (want : TIAObject → Prop)
    (o0 : TIAObject) (P : Prop) [Decidable P]
    (h : ∀ o, e &&& T.bitOf o ≠ 0 ↔ want o) (o : TIAObject) :
    (if P then orBit e (T.bitOf o0) else andNotBit e (T.bitOf o0)) &&& T.bitOf o ≠ 0 ↔
      (if o = o0 then P else want o) := by
  obtain ⟨i, hi, hbi⟩ := bitOf_single T hT o0
  obtain ⟨j, hj, hbj⟩ := bitOf_single T hT o
  by_cases hoo : o = o0
  · subst hoo
    rw [if_pos rfl, hbi]
    by_cases hP : P
    · rw [if_pos hP]
      exact ⟨fun _ => hP, fun _ => orBit_self e i hi⟩
    · rw [if_neg hP]
      exact ⟨fun hx => absurd hx (andNotBit_self e i hi), fun hx => absurd hx hP⟩
  · rw [if_neg hoo, ← h o, hbi, hbj]
    have hij : i ≠ j := by
      intro hij
      apply hoo
      apply bitOf_injective T hT
      rw [hbi, hbj, hij]
    by_cases hP : P
    · rw [if_pos hP]
      exact orBit_other e i j hj hij
    · rw [if_neg hP]
      exact andNotBit_other e i j hj hij

set_option maxRecDepth 100000 in
theorem reverseBits8_lt : ∀ x, x < 256 → reverseBits8 x < 256 := by decide

set_option maxRecDepth 100000 in
theorem reverseBits8_twice : ∀ x, x < 256 → reverseBits8 (reverseBits8 x) = x := by decide

set_option maxRecDepth 100000 in
theorem reverseBits8_zero : ∀ x, x < 256 → (reverseBits8 x = 0 ↔ x = 0) := by decide

theorem missile_iff (a b : Bool) : (a = true ∧ ¬ b = true) ↔ (a = true ∧ b = false) :=
  and_congr Iff.rfl (Iff.of_eq (Bool.not_eq_true b))

theorem setM0Bit_agree (T : TIATables) (hT : T.objectBits) (s : TIA) (want : TIAObject → Prop)
    (h : ∀ o, s.myEnabledObjects &&& T.bitOf o ≠ 0 ↔ want o) (o : TIAObject) :
    (setM0Bit T s).myEnabledObjects &&& T.bitOf o ≠ 0 ↔
      (if o = TIAObject.M0 then (s.myENAM0 = true ∧ ¬ s.myRESMP0 = true) else want o) :=
  agree_set T hT s.myEnabledObjects want TIAObject.M0 _ h o

theorem setM1Bit_agree (T : TIATables) (hT : T.objectBits) (s : TIA) (want : TIAObject → Prop)
    (h : ∀ o, s.myEnabledObjects &&& T.bitOf o ≠ 0 ↔ want o) (o : TIAObject) :
    (setM1Bit T s).myEnabledObjects &&& T.bitOf o ≠ 0 ↔
      (if o = TIAObject.M1 then (s.myENAM1 = true ∧ ¬ s.myRESMP1 = true) else want o) :=
  agree_set T hT s.myEnabledObjects want TIAObject.M1 _ h o

theorem setBLBit_agree (T : TIATables) (hT : T.objectBits) (s : TIA) (want : TIAObject → Prop)
    (h : ∀ o, s.myEnabledObjects &&& T.bitOf o ≠ 0 ↔ want o) (o : TIAObject) :
    (setBLBit T s).myEnabledObjects &&& T.bitOf o ≠ 0 ↔
      (if o = TIAObject.BL then (if s.myVDELBL then s.myDENABL else s.myENABL) = true
       else want o) :=
  agree_set T hT s.myEnabledObjects want TIAObject.BL _ h o

theorem setPFBit_agree (T : TIATables) (hT : T.objectBits) (s : TIA) (want : TIAObject → Prop)
    (h : ∀ o, s.myEnabledObjects &&& T.bitOf o ≠ 0 ↔ want o) (o : TIAObject) :
    (setPFBit T s).myEnabledObjects &&& T.bitOf o ≠ 0 ↔
      (if o = TIAObject.PF then s.myPF ≠ 0 else want o) := by
  have key := agree_set T hT s.myEnabledObjects want TIAObject.PF (s.myPF ≠ 0) h o
  rw [ite_not] at key
  exact key

theorem setP0Bit_agree (T : TIATables) (hT : T.objectBits) (e cur : Nat)
    (want : TIAObject → Prop) (h : ∀ o, e &&& T.bitOf o ≠ 0 ↔ want o) (o : TIAObject) :
    (if cur ≠ 0 then orBit e T.P0Bit else andNotBit e T.P0Bit) &&& T.bitOf o ≠ 0 ↔
      (if o = TIAObject.P0 then cur ≠ 0 else want o) :=
  agree_set T hT e want TIAObject.P0 _ h o

theorem setP1Bit_agree (T : TIATables) (hT : T.objectBits) (e cur : Nat)
    (want : TIAObject → Prop) (h : ∀ o, e &&& T.bitOf o ≠ 0 ↔ want o) (o : TIAObject) :
    (if cur ≠ 0 then orBit e T.P1Bit else andNotBit e T.P1Bit) &&& T.bitOf o ≠ 0 ↔
      (if o = TIAObject.P1 then cur ≠ 0 else want o) :=
  agree_set T hT e want TIAObject.P1 _ h o

theorem setPlayerBits_agree (T : TIATables) (hT : T.objectBits) (s : TIA)
    (want : TIAObject → Prop)
    (h : ∀ o, s.myEnabledObjects &&& T.bitOf o ≠ 0 ↔ want o) (o : TIAObject) :
    (setPlayerBits T s).myEnabledObjects &&& T.bitOf o ≠ 0 ↔
      (if o = TIAObject.P1 then s.myCurrentGRP1 ≠ 0
       else if o = TIAObject.P0 then s.myCurrentGRP0 ≠ 0 else want o) :=
  setP1Bit_agree T hT _ s.myCurrentGRP1 _
    (setP0Bit_agree T hT s.myEnabledObjects s.myCurrentGRP0 want h) o

theorem currentGRP_eq (T : TIATables)
    (hR : ∀ x, x < 256 → T.GRPReflect x = reverseBits8 x) (refp vdel : Bool) (d g : Nat)
    (hd : d < 256) (hg : g < 256) :
    (if refp then T.GRPReflect (if vdel then d else g) else (if vdel then d else g)) =
      (if refp then reverseBits8 (if vdel then d else g) else (if vdel then d else g)) := by
  cases refp
  · rfl
  · cases vdel
    · exact hR g hg
    · exact hR d hd

theorem reflected_eq (T : TIATables)
    (hR : ∀ x, x < 256 → T.GRPReflect x = reverseBits8 x) (refp : Bool) (value cur g : Nat)
    (hg : g < 256) (hcur : cur = if refp then reverseBits8 g else g)
    (hc : (value &&& 0x08 ≠ 0 ∧ ¬ refp = true) ∨ (value &&& 0x08 = 0 ∧ refp = true)) :
    T.GRPReflect cur = (if decide (value &&& 0x08 ≠ 0) then reverseBits8 g else g) ∧
    (T.GRPReflect cur ≠ 0 ↔ cur ≠ 0) := by
  have hcl : cur < 256 := by
    rw [hcur]
    cases refp
    · exact hg
    · exact reverseBits8_lt g hg
  refine ⟨?_, ?_⟩
  · rcases hc with ⟨h1, h2⟩ | ⟨h1, h2⟩
    · rw [Bool.not_eq_true] at h2
      subst h2
      rw [if_pos (decide_eq_true h1)]
      rw [hcur]
      exact hR g hg
    · subst h2
      rw [if_neg (by simpa using h1)]
      rw [hcur, if_pos rfl, hR _ (reverseBits8_lt g hg)]
      exact reverseBits8_twice g hg
  · rw [hR cur hcl]
    exact not_congr (reverseBits8_zero cur hcl)

theorem byte_ite (c : Bool) (a b : Nat) (ha : a < 256) (hb : b < 256) :
    (if c then a else b) < 256 := by
  cases c
  · exact hb
  · exact ha

theorem agrees_cycles (T : TIATables) (s : TIA) (c : Nat) :
    (derivedStateAgrees T { s with cycles := c } ∧
      ({ s with cycles := c } : TIA).graphicsAreBytes) ↔
    (derivedStateAgrees T s ∧ s.graphicsAreBytes) := Iff.rfl

theorem agrees_pokeHMP0 (T : TIATables) (s : TIA) (v : Nat) (c : Int) :
    (derivedStateAgrees T (pokeHMP0 s v c) ∧ (pokeHMP0 s v c).graphicsAreBytes) ↔
    (derivedStateAgrees T s ∧ s.graphicsAreBytes) := Iff.rfl

theorem agrees_pokeHMP1 (T : TIATables) (s : TIA) (v : Nat) (c : Int) :
    (derivedStateAgrees T (pokeHMP1 s v c) ∧ (pokeHMP1 s v c).graphicsAreBytes) ↔
    (derivedStateAgrees T s ∧ s.graphicsAreBytes) := Iff.rfl

theorem agrees_pokeHMM0 (T : TIATables) (s : TIA) (v : Nat) (c : Int) :
    (derivedStateAgrees T (pokeHMM0 s v c) ∧ (pokeHMM0 s v c).graphicsAreBytes) ↔
    (derivedStateAgrees T s ∧ s.graphicsAreBytes) := Iff.rfl

theorem agrees_pokeHMM1 (T : TIATables) (s : TIA) (v : Nat) (c : Int) :
    (derivedStateAgrees T (pokeHMM1 s v c) ∧ (pokeHMM1 s v c).graphicsAreBytes) ↔
    (derivedStateAgrees T s ∧ s.graphicsAreBytes) := Iff.rfl

theorem agrees_pokeHMBL (T : TIATables) (s : TIA) (v : Nat) (c : Int) :
    (derivedStateAgrees T (pokeHMBL s v c) ∧ (pokeHMBL s v c).graphicsAreBytes) ↔
    (derivedStateAgrees T s ∧ s.graphicsAreBytes) := Iff.rfl

theorem setCurrentGRP_step (T : TIATables)
    (hR : ∀ x, x < 256 → T.GRPReflect x = reverseBits8 x) (s : TIA)
    (hby : s.graphicsAreBytes)
    (h : ∀ o, o ≠ TIAObject.P0 → o ≠ TIAObject.P1 → o ≠ TIAObject.BL → (s.myEnabledObjects &&& T.bitOf o ≠ 0 ↔ s.objectOn o)) :
    ((setCurrentGRP T s).myCurrentGRP0 =
      (if (setCurrentGRP T s).myREFP0 then reverseBits8 (if (setCurrentGRP T s).myVDELP0 then (setCurrentGRP T s).myDGRP0 else (setCurrentGRP T s).myGRP0)
       else (if (setCurrentGRP T s).myVDELP0 then (setCurrentGRP T s).myDGRP0 else (setCurrentGRP T s).myGRP0)) ∧
    (setCurrentGRP T s).myCurrentGRP1 =
      (if (setCurrentGRP T s).myREFP1 then reverseBits8 (if (setCurrentGRP T s).myVDELP1 then (setCurrentGRP T s).myDGRP1 else (setCurrentGRP T s).myGRP1)
       else (if (setCurrentGRP T s).myVDELP1 then (setCurrentGRP T s).myDGRP1 else (setCurrentGRP T s).myGRP1))) ∧
    (setCurrentGRP T s).graphicsAreBytes ∧
    ∀ o, o ≠ TIAObject.P0 → o ≠ TIAObject.P1 → o ≠ TIAObject.BL → ((setCurrentGRP T s).myEnabledObjects &&& T.bitOf o ≠ 0 ↔ (setCurrentGRP T s).objectOn o) := by
  refine ⟨⟨currentGRP_eq T hR s.myREFP0 s.myVDELP0 s.myDGRP0 s.myGRP0 hby.2.2.1 hby.1,
    currentGRP_eq T hR s.myREFP1 s.myVDELP1 s.myDGRP1 s.myGRP1 hby.2.2.2 hby.2.1⟩, hby,
    fun o h0 h1 h2 => ?_⟩
  cases o with
  | P0 => exact absurd rfl h0
  | P1 => exact absurd rfl h1
  | BL => exact absurd rfl h2
  | M0 => exact h TIAObject.M0 h0 h1 h2
  | M1 => exact h TIAObject.M1 h0 h1 h2
  | PF => exact h TIAObject.PF h0 h1 h2

theorem setPlayerBits_step (T : TIATables) (hT : T.objectBits) (s : TIA)
    (hc : s.myCurrentGRP0 =
      (if s.myREFP0 then reverseBits8 (if s.myVDELP0 then s.myDGRP0 else s.myGRP0)
       else (if s.myVDELP0 then s.myDGRP0 else s.myGRP0)) ∧
    s.myCurrentGRP1 =
      (if s.myREFP1 then reverseBits8 (if s.myVDELP1 then s.myDGRP1 else s.myGRP1)
       else (if s.myVDELP1 then s.myDGRP1 else s.myGRP1)))
    (hby : s.graphicsAreBytes)
    (h : ∀ o, o ≠ TIAObject.P0 → o ≠ TIAObject.P1 → o ≠ TIAObject.BL → (s.myEnabledObjects &&& T.bitOf o ≠ 0 ↔ s.objectOn o)) :
    ((setPlayerBits T s).myCurrentGRP0 =
      (if (setPlayerBits T s).myREFP0 then reverseBits8 (if (setPlayerBits T s).myVDELP0 then (setPlayerBits T s).myDGRP0 else (setPlayerBits T s).myGRP0)
       else (if (setPlayerBits T s).myVDELP0 then (setPlayerBits T s).myDGRP0 else (setPlayerBits T s).myGRP0)) ∧
    (setPlayerBits T s).myCurrentGRP1 =
      (if (setPlayerBits T s).myREFP1 then reverseBits8 (if (setPlayerBits T s).myVDELP1 then (setPlayerBits T s).myDGRP1 else (setPlayerBits T s).myGRP1)
       else (if (setPlayerBits T s).myVDELP1 then (setPlayerBits T s).myDGRP1 else (setPlayerBits T s).myGRP1))) ∧
    (setPlayerBits T s).graphicsAreBytes ∧
    ∀ o, o ≠ TIAObject.BL → ((setPlayerBits T s).myEnabledObjects &&& T.bitOf o ≠ 0 ↔ (setPlayerBits T s).objectOn o) := by
  refine ⟨hc, hby, fun o h2 => ?_⟩
  refine Iff.trans (setPlayerBits_agree T hT s (fun p => s.myEnabledObjects &&& T.bitOf p ≠ 0)
    (fun _ => Iff.rfl) o) ?_
  cases o with
  | P0 => exact Iff.rfl
  | P1 => exact Iff.rfl
  | BL => exact absurd rfl h2
  | M0 => exact h TIAObject.M0 (by decide) (by decide) (by decide)
  | M1 => exact h TIAObject.M1 (by decide) (by decide) (by decide)
  | PF => exact h TIAObject.PF (by decide) (by decide) (by decide)

theorem setBLBit_step (T : TIATables) (hT : T.objectBits) (s : TIA)
    (hc : s.myCurrentGRP0 =
      (if s.myREFP0 then reverseBits8 (if s.myVDELP0 then s.myDGRP0 else s.myGRP0)
       else (if s.myVDELP0 then s.myDGRP0 else s.myGRP0)) ∧
    s.myCurrentGRP1 =
      (if s.myREFP1 then reverseBits8 (if s.myVDELP1 then s.myDGRP1 else s.myGRP1)
       else (if s.myVDELP1 then s.myDGRP1 else s.myGRP1)))
    (hby : s.graphicsAreBytes)
    (h : ∀ o, o ≠ TIAObject.BL → (s.myEnabledObjects &&& T.bitOf o ≠ 0 ↔ s.objectOn o)) :
    derivedStateAgrees T (setBLBit T s) ∧ (setBLBit T s).graphicsAreBytes := by
  refine ⟨⟨hc.1, hc.2, fun o => ?_⟩, hby⟩
  refine Iff.trans (setBLBit_agree T hT s (fun p => s.myEnabledObjects &&& T.bitOf p ≠ 0)
    (fun _ => Iff.rfl) o) ?_
  cases o with
  | BL => exact Iff.rfl
  | P0 => exact h TIAObject.P0 (by decide)
  | P1 => exact h TIAObject.P1 (by decide)
  | M0 => exact h TIAObject.M0 (by decide)
  | M1 => exact h TIAObject.M1 (by decide)
  | PF => exact h TIAObject.PF (by decide)

theorem agrees_VSYNC (T : TIATables)
    (u : TIA) (value : Nat) (clock : Int)
    (h : derivedStateAgrees T u ∧ u.graphicsAreBytes) :
    derivedStateAgrees T (pokeRegister T u TIARegister.VSYNC value clock) ∧
    (pokeRegister T u TIARegister.VSYNC value clock).graphicsAreBytes := by
  unfold pokeRegister
  dsimp only
  split_ifs <;> exact h

set_option maxRecDepth 8000 in
theorem agrees_VBLANK (T : TIATables)
    (u : TIA) (value : Nat) (clock : Int)
    (h : derivedStateAgrees T u ∧ u.graphicsAreBytes) :
    derivedStateAgrees T (pokeRegister T u TIARegister.VBLANK value clock) ∧
    (pokeRegister T u TIARegister.VBLANK value clock).graphicsAreBytes := by
  unfold pokeRegister
  dsimp only
  split_ifs <;> exact h

theorem agrees_WSYNC (T : TIATables)
    (u : TIA) (value : Nat) (clock : Int)
    (h : derivedStateAgrees T u ∧ u.graphicsAreBytes) :
    derivedStateAgrees T (pokeRegister T u TIARegister.WSYNC value clock) ∧
    (pokeRegister T u TIARegister.WSYNC value clock).graphicsAreBytes := by
  unfold pokeRegister waitHorizontalSync
  dsimp only
  split_ifs <;> exact h

theorem agrees_RSYNC (T : TIATables)
    (u : TIA) (value : Nat) (clock : Int)
    (h : derivedStateAgrees T u ∧ u.graphicsAreBytes) :
    derivedStateAgrees T (pokeRegister T u TIARegister.RSYNC value clock) ∧
    (pokeRegister T u TIARegister.RSYNC value clock).graphicsAreBytes := by
  exact (agrees_cycles T u _).mpr h

theorem agrees_NUSIZ0 (T : TIATables)
    (u : TIA) (value : Nat) (clock : Int)
    (h : derivedStateAgrees T u ∧ u.graphicsAreBytes) :
    derivedStateAgrees T (pokeRegister T u TIARegister.NUSIZ0 value clock) ∧
    (pokeRegister T u TIARegister.NUSIZ0 value clock).graphicsAreBytes := by
  unfold pokeRegister
  dsimp only
  rw [updateFrame_frame]
  exact h

theorem agrees_NUSIZ1 (T : TIATables)
    (u : TIA) (value : Nat) (clock : Int)
    (h : derivedStateAgrees T u ∧ u.graphicsAreBytes) :
    derivedStateAgrees T (pokeRegister T u TIARegister.NUSIZ1 value clock) ∧
    (pokeRegister T u TIARegister.NUSIZ1 value clock).graphicsAreBytes := by
  unfold pokeRegister
  dsimp only
  rw [updateFrame_frame]
  exact h

theorem agrees_COLUP0 (T : TIATables)
    (u : TIA) (value : Nat) (clock : Int)
    (h : derivedStateAgrees T u ∧ u.graphicsAreBytes) :
    derivedStateAgrees T (pokeRegister T u TIARegister.COLUP0 value clock) ∧
    (pokeRegister T u TIARegister.COLUP0 value clock).graphicsAreBytes := by
  exact h

theorem agrees_COLUP1 (T : TIATables)
    (u : TIA) (value : Nat) (clock : Int)
    (h : derivedStateAgrees T u ∧ u.graphicsAreBytes) :
    derivedStateAgrees T (pokeRegister T u TIARegister.COLUP1 value clock) ∧
    (pokeRegister T u TIARegister.COLUP1 value clock).graphicsAreBytes := by
  exact h

theorem agrees_COLUPF (T : TIATables)
    (u : TIA) (value : Nat) (clock : Int)
    (h : derivedStateAgrees T u ∧ u.graphicsAreBytes) :
    derivedStateAgrees T (pokeRegister T u TIARegister.COLUPF value clock) ∧
    (pokeRegister T u TIARegister.COLUPF value clock).graphicsAreBytes := by
  exact h

theorem agrees_COLUBK (T : TIATables)
    (u : TIA) (value : Nat) (clock : Int)
    (h : derivedStateAgrees T u ∧ u.graphicsAreBytes) :
    derivedStateAgrees T (pokeRegister T u TIARegister.COLUBK value clock) ∧
    (pokeRegister T u TIARegister.COLUBK value clock).graphicsAreBytes := by
  exact h

theorem agrees_CTRLPF (T : TIATables)
    (u : TIA) (value : Nat) (clock : Int)
    (h : derivedStateAgrees T u ∧ u.graphicsAreBytes) :
    derivedStateAgrees T (pokeRegister T u TIARegister.CTRLPF value clock) ∧
    (pokeRegister T u TIARegister.CTRLPF value clock).graphicsAreBytes := by
  unfold pokeRegister
  dsimp only
  split_ifs <;> exact h

theorem agrees_REFP0 (T : TIATables)
    (hR : ∀ x, x < 256 → T.GRPReflect x = reverseBits8 x)
    (u : TIA) (value : Nat) (clock : Int)
    (h : derivedStateAgrees T u ∧ u.graphicsAreBytes) :
    derivedStateAgrees T (pokeRegister T u TIARegister.REFP0 value clock) ∧
    (pokeRegister T u TIARegister.REFP0 value clock).graphicsAreBytes := by
  have H := h
  obtain ⟨⟨hg0, hg1, hb⟩, b0, b1, d0, d1⟩ := h
  unfold pokeRegister
  dsimp only
  split_ifs with hc
  · obtain ⟨e1, e2⟩ := reflected_eq T hR u.myREFP0 value u.myCurrentGRP0
      (if u.myVDELP0 then u.myDGRP0 else u.myGRP0) (byte_ite _ _ _ d0 b0) hg0 hc
    refine ⟨⟨e1, hg1, fun o => ?_⟩, b0, b1, d0, d1⟩
    cases o with
    | P0 => exact (hb TIAObject.P0).trans e2.symm
    | _ => exact hb _
  · exact H

theorem agrees_REFP1 (T : TIATables)
    (hR : ∀ x, x < 256 → T.GRPReflect x = reverseBits8 x)
    (u : TIA) (value : Nat) (clock : Int)
    (h : derivedStateAgrees T u ∧ u.graphicsAreBytes) :
    derivedStateAgrees T (pokeRegister T u TIARegister.REFP1 value clock) ∧
    (pokeRegister T u TIARegister.REFP1 value clock).graphicsAreBytes := by
  have H := h
  obtain ⟨⟨hg0, hg1, hb⟩, b0, b1, d0, d1⟩ := h
  unfold pokeRegister
  dsimp only
  split_ifs with hc
  · obtain ⟨e1, e2⟩ := reflected_eq T hR u.myREFP1 value u.myCurrentGRP1
      (if u.myVDELP1 then u.myDGRP1 else u.myGRP1) (byte_ite _ _ _ d1 b1) hg1 hc
    refine ⟨⟨hg0, e1, fun o => ?_⟩, b0, b1, d0, d1⟩
    cases o with
    | P1 => exact (hb TIAObject.P1).trans e2.symm
    | _ => exact hb _
  · exact H

theorem agrees_PF0 (T : TIATables) (hT : T.objectBits)
    (u : TIA) (value : Nat) (clock : Int)
    (h : derivedStateAgrees T u ∧ u.graphicsAreBytes) :
    derivedStateAgrees T (pokeRegister T u TIARegister.PF0 value clock) ∧
    (pokeRegister T u TIARegister.PF0 value clock).graphicsAreBytes := by
  obtain ⟨⟨hg0, hg1, hb⟩, b0, b1, d0, d1⟩ := h
  refine ⟨⟨hg0, hg1, fun o => ?_⟩, b0, b1, d0, d1⟩
  refine Iff.trans (setPFBit_agree T hT _ u.objectOn ?_ o) ?_
  · exact hb
  cases o <;> exact Iff.rfl

theorem agrees_PF1 (T : TIATables) (hT : T.objectBits)
    (u : TIA) (value : Nat) (clock : Int)
    (h : derivedStateAgrees T u ∧ u.graphicsAreBytes) :
    derivedStateAgrees T (pokeRegister T u TIARegister.PF1 value clock) ∧
    (pokeRegister T u TIARegister.PF1 value clock).graphicsAreBytes := by
  obtain ⟨⟨hg0, hg1, hb⟩, b0, b1, d0, d1⟩ := h
  refine ⟨⟨hg0, hg1, fun o => ?_⟩, b0, b1, d0, d1⟩
  refine Iff.trans (setPFBit_agree T hT _ u.objectOn ?_ o) ?_
  · exact hb
  cases o <;> exact Iff.rfl

theorem agrees_PF2 (T : TIATables) (hT : T.objectBits)
    (u : TIA) (value : Nat) (clock : Int)
    (h : derivedStateAgrees T u ∧ u.graphicsAreBytes) :
    derivedStateAgrees T (pokeRegister T u TIARegister.PF2 value clock) ∧
    (pokeRegister T u TIARegister.PF2 value clock).graphicsAreBytes := by
  obtain ⟨⟨hg0, hg1, hb⟩, b0, b1, d0, d1⟩ := h
  refine ⟨⟨hg0, hg1, fun o => ?_⟩, b0, b1, d0, d1⟩
  refine Iff.trans (setPFBit_agree T hT _ u.objectOn ?_ o) ?_
  · exact hb
  cases o <;> exact Iff.rfl

theorem agrees_RESP0 (T : TIATables)
    (u : TIA) (value : Nat) (clock : Int)
    (h : derivedStateAgrees T u ∧ u.graphicsAreBytes) :
    derivedStateAgrees T (pokeRegister T u TIARegister.RESP0 value clock) ∧
    (pokeRegister T u TIARegister.RESP0 value clock).graphicsAreBytes := by
  unfold pokeRegister resetPlayer
  dsimp only
  split_ifs <;> first
    | exact h
    | (rw [updateFrame_frame]
       exact h)

theorem agrees_RESP1 (T : TIATables)
    (u : TIA) (value : Nat) (clock : Int)
    (h : derivedStateAgrees T u ∧ u.graphicsAreBytes) :
    derivedStateAgrees T (pokeRegister T u TIARegister.RESP1 value clock) ∧
    (pokeRegister T u TIARegister.RESP1 value clock).graphicsAreBytes := by
  unfold pokeRegister resetPlayer
  dsimp only
  split_ifs <;> first
    | exact h
    | (rw [updateFrame_frame]
       exact h)

theorem agrees_RESM0 (T : TIATables)
    (u : TIA) (value : Nat) (clock : Int)
    (h : derivedStateAgrees T u ∧ u.graphicsAreBytes) :
    derivedStateAgrees T (pokeRegister T u TIARegister.RESM0 value clock) ∧
    (pokeRegister T u TIARegister.RESM0 value clock).graphicsAreBytes := by
  exact h

theorem agrees_RESM1 (T : TIATables)
    (u : TIA) (value : Nat) (clock : Int)
    (h : derivedStateAgrees T u ∧ u.graphicsAreBytes) :
    derivedStateAgrees T (pokeRegister T u TIARegister.RESM1 value clock) ∧
    (pokeRegister T u TIARegister.RESM1 value clock).graphicsAreBytes := by
  exact h

theorem agrees_RESBL (T : TIATables)
    (u : TIA) (value : Nat) (clock : Int)
    (h : derivedStateAgrees T u ∧ u.graphicsAreBytes) :
    derivedStateAgrees T (pokeRegister T u TIARegister.RESBL value clock) ∧
    (pokeRegister T u TIARegister.RESBL value clock).graphicsAreBytes := by
  exact h

theorem agrees_AUDC0 (T : TIATables)
    (u : TIA) (value : Nat) (clock : Int)
    (h : derivedStateAgrees T u ∧ u.graphicsAreBytes) :
    derivedStateAgrees T (pokeRegister T u TIARegister.AUDC0 value clock) ∧
    (pokeRegister T u TIARegister.AUDC0 value clock).graphicsAreBytes := by
  exact h

theorem agrees_AUDC1 (T : TIATables)
    (u : TIA) (value : Nat) (clock : Int)
    (h : derivedStateAgrees T u ∧ u.graphicsAreBytes) :
    derivedStateAgrees T (pokeRegister T u TIARegister.AUDC1 value clock) ∧
    (pokeRegister T u TIARegister.AUDC1 value clock).graphicsAreBytes := by
  exact h

theorem agrees_AUDF0 (T : TIATables)
    (u : TIA) (value : Nat) (clock : Int)
    (h : derivedStateAgrees T u ∧ u.graphicsAreBytes) :
    derivedStateAgrees T (pokeRegister T u TIARegister.AUDF0 value clock) ∧
    (pokeRegister T u TIARegister.AUDF0 value clock).graphicsAreBytes := by
  exact h

theorem agrees_AUDF1 (T : TIATables)
    (u : TIA) (value : Nat) (clock : Int)
    (h : derivedStateAgrees T u ∧ u.graphicsAreBytes) :
    derivedStateAgrees T (pokeRegister T u TIARegister.AUDF1 value clock) ∧
    (pokeRegister T u TIARegister.AUDF1 value clock).graphicsAreBytes := by
  exact h

theorem agrees_AUDV0 (T : TIATables)
    (u : TIA) (value : Nat) (clock : Int)
    (h : derivedStateAgrees T u ∧ u.graphicsAreBytes) :
    derivedStateAgrees T (pokeRegister T u TIARegister.AUDV0 value clock) ∧
    (pokeRegister T u TIARegister.AUDV0 value clock).graphicsAreBytes := by
  exact h

theorem agrees_AUDV1 (T : TIATables)
    (u : TIA) (value : Nat) (clock : Int)
    (h : derivedStateAgrees T u ∧ u.graphicsAreBytes) :
    derivedStateAgrees T (pokeRegister T u TIARegister.AUDV1 value clock) ∧
    (pokeRegister T u TIARegister.AUDV1 value clock).graphicsAreBytes := by
  exact h

theorem agrees_GRP0 (T : TIATables) (hT : T.objectBits)
    (hR : ∀ x, x < 256 → T.GRPReflect x = reverseBits8 x)
    (u : TIA) (value : Nat) (clock : Int) (hv : value < 256)
    (h : derivedStateAgrees T u ∧ u.graphicsAreBytes) :
    derivedStateAgrees T (pokeRegister T u TIARegister.GRP0 value clock) ∧
    (pokeRegister T u TIARegister.GRP0 value clock).graphicsAreBytes := by
  obtain ⟨⟨hg0, hg1, hb⟩, b0, b1, d0, d1⟩ := h
  refine ⟨⟨currentGRP_eq T hR u.myREFP0 u.myVDELP0 u.myDGRP0 value d0 hv,
    currentGRP_eq T hR u.myREFP1 u.myVDELP1 u.myGRP1 u.myGRP1 b1 b1, fun o => ?_⟩,
    hv, b1, d0, b1⟩
  refine Iff.trans (setPlayerBits_agree T hT _ u.objectOn ?_ o) ?_
  · exact hb
  cases o <;> exact Iff.rfl

theorem agrees_GRP1 (T : TIATables) (hT : T.objectBits)
    (hR : ∀ x, x < 256 → T.GRPReflect x = reverseBits8 x)
    (u : TIA) (value : Nat) (clock : Int) (hv : value < 256)
    (h : derivedStateAgrees T u ∧ u.graphicsAreBytes) :
    derivedStateAgrees T (pokeRegister T u TIARegister.GRP1 value clock) ∧
    (pokeRegister T u TIARegister.GRP1 value clock).graphicsAreBytes := by
  obtain ⟨⟨hg0, hg1, hb⟩, b0, b1, d0, d1⟩ := h
  have hu : ∀ o, o ≠ TIAObject.P0 → o ≠ TIAObject.P1 → o ≠ TIAObject.BL →
      (({ u with myGRP1 := value, myDGRP0 := u.myGRP0, myDENABL := u.myENABL } :
          TIA).myEnabledObjects &&& T.bitOf o ≠ 0 ↔
        ({ u with myGRP1 := value, myDGRP0 := u.myGRP0, myDENABL := u.myENABL } :
          TIA).objectOn o) := by
    intro o h0 h1 h2
    cases o with
    | P0 => exact absurd rfl h0
    | P1 => exact absurd rfl h1
    | BL => exact absurd rfl h2
    | M0 => exact hb TIAObject.M0
    | M1 => exact hb TIAObject.M1
    | PF => exact hb TIAObject.PF
  have hX := setCurrentGRP_step T hR
    { u with myGRP1 := value, myDGRP0 := u.myGRP0, myDENABL := u.myENABL }
    ⟨b0, hv, b0, d1⟩ hu
  have hW := setPlayerBits_step T hT _ hX.1 hX.2.1 hX.2.2
  exact setBLBit_step T hT _ hW.1 hW.2.1 hW.2.2

theorem agrees_ENAM0 (T : TIATables) (hT : T.objectBits)
    (u : TIA) (value : Nat) (clock : Int)
    (h : derivedStateAgrees T u ∧ u.graphicsAreBytes) :
    derivedStateAgrees T (pokeRegister T u TIARegister.ENAM0 value clock) ∧
    (pokeRegister T u TIARegister.ENAM0 value clock).graphicsAreBytes := by
  obtain ⟨⟨hg0, hg1, hb⟩, b0, b1, d0, d1⟩ := h
  refine ⟨⟨hg0, hg1, fun o => ?_⟩, b0, b1, d0, d1⟩
  refine Iff.trans (setM0Bit_agree T hT _ u.objectOn ?_ o) ?_
  · exact hb
  cases o <;> first | exact Iff.rfl | exact missile_iff _ _

theorem agrees_ENAM1 (T : TIATables) (hT : T.objectBits)
    (u : TIA) (value : Nat) (clock : Int)
    (h : derivedStateAgrees T u ∧ u.graphicsAreBytes) :
    derivedStateAgrees T (pokeRegister T u TIARegister.ENAM1 value clock) ∧
    (pokeRegister T u TIARegister.ENAM1 value clock).graphicsAreBytes := by
  obtain ⟨⟨hg0, hg1, hb⟩, b0, b1, d0, d1⟩ := h
  refine ⟨⟨hg0, hg1, fun o => ?_⟩, b0, b1, d0, d1⟩
  refine Iff.trans (setM1Bit_agree T hT _ u.objectOn ?_ o) ?_
  · exact hb
  cases o <;> first | exact Iff.rfl | exact missile_iff _ _

theorem agrees_ENABL (T : TIATables) (hT : T.objectBits)
    (u : TIA) (value : Nat) (clock : Int)
    (h : derivedStateAgrees T u ∧ u.graphicsAreBytes) :
    derivedStateAgrees T (pokeRegister T u TIARegister.ENABL value clock) ∧
    (pokeRegister T u TIARegister.ENABL value clock).graphicsAreBytes := by
  obtain ⟨⟨hg0, hg1, hb⟩, b0, b1, d0, d1⟩ := h
  refine ⟨⟨hg0, hg1, fun o => ?_⟩, b0, b1, d0, d1⟩
  refine Iff.trans (setBLBit_agree T hT _ u.objectOn ?_ o) ?_
  · exact hb
  cases o <;> exact Iff.rfl

theorem agrees_HMP0 (T : TIATables)
    (u : TIA) (value : Nat) (clock : Int)
    (h : derivedStateAgrees T u ∧ u.graphicsAreBytes) :
    derivedStateAgrees T (pokeRegister T u TIARegister.HMP0 value clock) ∧
    (pokeRegister T u TIARegister.HMP0 value clock).graphicsAreBytes := by
  exact (agrees_pokeHMP0 T u value clock).mpr h

theorem agrees_HMP1 (T : TIATables)
    (u : TIA) (value : Nat) (clock : Int)
    (h : derivedStateAgrees T u ∧ u.graphicsAreBytes) :
    derivedStateAgrees T (pokeRegister T u TIARegister.HMP1 value clock) ∧
    (pokeRegister T u TIARegister.HMP1 value clock).graphicsAreBytes := by
  exact (agrees_pokeHMP1 T u value clock).mpr h

theorem agrees_HMM0 (T : TIATables)
    (u : TIA) (value : Nat) (clock : Int)
    (h : derivedStateAgrees T u ∧ u.graphicsAreBytes) :
    derivedStateAgrees T (pokeRegister T u TIARegister.HMM0 value clock) ∧
    (pokeRegister T u TIARegister.HMM0 value clock).graphicsAreBytes := by
  exact (agrees_pokeHMM0 T u value clock).mpr h

theorem agrees_HMM1 (T : TIATables)
    (u : TIA) (value : Nat) (clock : Int)
    (h : derivedStateAgrees T u ∧ u.graphicsAreBytes) :
    derivedStateAgrees T (pokeRegister T u TIARegister.HMM1 value clock) ∧
    (pokeRegister T u TIARegister.HMM1 value clock).graphicsAreBytes := by
  exact (agrees_pokeHMM1 T u value clock).mpr h

theorem agrees_HMBL (T : TIATables)
    (u : TIA) (value : Nat) (clock : Int)
    (h : derivedStateAgrees T u ∧ u.graphicsAreBytes) :
    derivedStateAgrees T (pokeRegister T u TIARegister.HMBL value clock) ∧
    (pokeRegister T u TIARegister.HMBL value clock).graphicsAreBytes := by
  exact (agrees_pokeHMBL T u value clock).mpr h

theorem agrees_VDELP0 (T : TIATables) (hT : T.objectBits)
    (hR : ∀ x, x < 256 → T.GRPReflect x = reverseBits8 x)
    (u : TIA) (value : Nat) (clock : Int)
    (h : derivedStateAgrees T u ∧ u.graphicsAreBytes) :
    derivedStateAgrees T (pokeRegister T u TIARegister.VDELP0 value clock) ∧
    (pokeRegister T u TIARegister.VDELP0 value clock).graphicsAreBytes := by
  obtain ⟨⟨hg0, hg1, hb⟩, b0, b1, d0, d1⟩ := h
  refine ⟨⟨currentGRP_eq T hR u.myREFP0 (decide (value &&& 0x01 ≠ 0)) u.myDGRP0 u.myGRP0 d0 b0,
    hg1, fun o => ?_⟩, b0, b1, d0, d1⟩
  refine (setP0Bit_agree T hT u.myEnabledObjects _ u.objectOn hb o).trans ?_
  cases o <;> exact Iff.rfl

theorem agrees_VDELP1 (T : TIATables) (hT : T.objectBits)
    (hR : ∀ x, x < 256 → T.GRPReflect x = reverseBits8 x)
    (u : TIA) (value : Nat) (clock : Int)
    (h : derivedStateAgrees T u ∧ u.graphicsAreBytes) :
    derivedStateAgrees T (pokeRegister T u TIARegister.VDELP1 value clock) ∧
    (pokeRegister T u TIARegister.VDELP1 value clock).graphicsAreBytes := by
  obtain ⟨⟨hg0, hg1, hb⟩, b0, b1, d0, d1⟩ := h
  refine ⟨⟨hg0,
    currentGRP_eq T hR u.myREFP1 (decide (value &&& 0x01 ≠ 0)) u.myDGRP1 u.myGRP1 d1 b1,
    fun o => ?_⟩, b0, b1, d0, d1⟩
  refine (setP1Bit_agree T hT u.myEnabledObjects _ u.objectOn hb o).trans ?_
  cases o <;> exact Iff.rfl

theorem agrees_VDELBL (T : TIATables) (hT : T.objectBits)
    (u : TIA) (value : Nat) (clock : Int)
    (h : derivedStateAgrees T u ∧ u.graphicsAreBytes) :
    derivedStateAgrees T (pokeRegister T u TIARegister.VDELBL value clock) ∧
    (pokeRegister T u TIARegister.VDELBL value clock).graphicsAreBytes := by
  obtain ⟨⟨hg0, hg1, hb⟩, b0, b1, d0, d1⟩ := h
  refine ⟨⟨hg0, hg1, fun o => ?_⟩, b0, b1, d0, d1⟩
  refine Iff.trans (setBLBit_agree T hT _ u.objectOn ?_ o) ?_
  · exact hb
  cases o <;> exact Iff.rfl

theorem agrees_RESMP0 (T : TIATables) (hT : T.objectBits)
    (u : TIA) (value : Nat) (clock : Int)
    (h : derivedStateAgrees T u ∧ u.graphicsAreBytes) :
    derivedStateAgrees T (pokeRegister T u TIARegister.RESMP0 value clock) ∧
    (pokeRegister T u TIARegister.RESMP0 value clock).graphicsAreBytes := by
  have H := h
  obtain ⟨⟨hg0, hg1, hb⟩, b0, b1, d0, d1⟩ := h
  have key : ∀ v : TIA, (derivedStateAgrees T v ∧ v.graphicsAreBytes) →
      (derivedStateAgrees T (setM0Bit T { v with myRESMP0 := decide (value &&& 0x02 ≠ 0) }) ∧
       (setM0Bit T { v with myRESMP0 := decide (value &&& 0x02 ≠ 0) }).graphicsAreBytes) := by
    intro v hvv
    obtain ⟨⟨hg0, hg1, hb⟩, b0, b1, d0, d1⟩ := hvv
    refine ⟨⟨hg0, hg1, fun o => ?_⟩, b0, b1, d0, d1⟩
    refine Iff.trans (setM0Bit_agree T hT _ v.objectOn ?_ o) ?_
    · exact hb
    cases o <;> first | exact Iff.rfl | exact missile_iff _ _
  exact key
    (if u.myRESMP0 ∧ value &&& 0x02 = 0 then
      { u with
        myPOSM0 :=
          resmpPosition u u.myNUSIZ0 u.myPOSP0 u.myMotionClockP0 u.myMotionClockM0 }
     else u)
    (by split <;> exact H)

theorem agrees_RESMP1 (T : TIATables) (hT : T.objectBits)
    (u : TIA) (value : Nat) (clock : Int)
    (h : derivedStateAgrees T u ∧ u.graphicsAreBytes) :
    derivedStateAgrees T (pokeRegister T u TIARegister.RESMP1 value clock) ∧
    (pokeRegister T u TIARegister.RESMP1 value clock).graphicsAreBytes := by
  have H := h
  obtain ⟨⟨hg0, hg1, hb⟩, b0, b1, d0, d1⟩ := h
  have key : ∀ v : TIA, (derivedStateAgrees T v ∧ v.graphicsAreBytes) →
      (derivedStateAgrees T (setM1Bit T { v with myRESMP1 := decide (value &&& 0x02 ≠ 0) }) ∧
       (setM1Bit T { v with myRESMP1 := decide (value &&& 0x02 ≠ 0) }).graphicsAreBytes) := by
    intro v hvv
    obtain ⟨⟨hg0, hg1, hb⟩, b0, b1, d0, d1⟩ := hvv
    refine ⟨⟨hg0, hg1, fun o => ?_⟩, b0, b1, d0, d1⟩
    refine Iff.trans (setM1Bit_agree T hT _ v.objectOn ?_ o) ?_
    · exact hb
    cases o <;> first | exact Iff.rfl | exact missile_iff _ _
  exact key
    (if u.myRESMP1 ∧ value &&& 0x02 = 0 then
      { u with
        myPOSM1 :=
          resmpPosition u u.myNUSIZ1 u.myPOSP1 u.myMotionClockP1 u.myMotionClockM1 }
     else u)
    (by split <;> exact H)

theorem agrees_HMOVE (T : TIATables)
    (u : TIA) (value : Nat) (clock : Int)
    (h : derivedStateAgrees T u ∧ u.graphicsAreBytes) :
    derivedStateAgrees T (pokeRegister T u TIARegister.HMOVE value clock) ∧
    (pokeRegister T u TIARegister.HMOVE value clock).graphicsAreBytes := by
  unfold pokeRegister pokeHMOVE
  dsimp only
  split_ifs <;> exact h

theorem agrees_HMCLR (T : TIATables)
    (u : TIA) (value : Nat) (clock : Int)
    (h : derivedStateAgrees T u ∧ u.graphicsAreBytes) :
    derivedStateAgrees T (pokeRegister T u TIARegister.HMCLR value clock) ∧
    (pokeRegister T u TIARegister.HMCLR value clock).graphicsAreBytes := by
  exact (agrees_pokeHMBL T _ 0 clock).mpr ((agrees_pokeHMM1 T _ 0 clock).mpr
    ((agrees_pokeHMM0 T _ 0 clock).mpr ((agrees_pokeHMP1 T _ 0 clock).mpr
      ((agrees_pokeHMP0 T u 0 clock).mpr h))))

theorem agrees_CXCLR (T : TIATables)
    (u : TIA) (value : Nat) (clock : Int)
    (h : derivedStateAgrees T u ∧ u.graphicsAreBytes) :
    derivedStateAgrees T (pokeRegister T u TIARegister.CXCLR value clock) ∧
    (pokeRegister T u TIARegister.CXCLR value clock).graphicsAreBytes := by
  exact h

/-- Every case of the `switch` of `TIA::poke` keeps the derived state in
agreement with the registers. -/
theorem agrees_pokeRegister (T : TIATables) (hT : T.objectBits)
    (hR : ∀ x, x < 256 → T.GRPReflect x = reverseBits8 x) (u : TIA) (reg : TIARegister)
    (value : Nat) (clock : Int) (hv : value < 256)
    (h : derivedStateAgrees T u ∧ u.graphicsAreBytes) :
    derivedStateAgrees T (pokeRegister T u reg value clock) ∧
    (pokeRegister T u reg value clock).graphicsAreBytes := by
  cases reg
  case VSYNC => exact agrees_VSYNC T u value clock h
  case VBLANK => exact agrees_VBLANK T u value clock h
  case WSYNC => exact agrees_WSYNC T u value clock h
  case RSYNC => exact agrees_RSYNC T u value clock h
  case NUSIZ0 => exact agrees_NUSIZ0 T u value clock h
  case NUSIZ1 => exact agrees_NUSIZ1 T u value clock h
  case COLUP0 => exact agrees_COLUP0 T u value clock h
  case COLUP1 => exact agrees_COLUP1 T u value clock h
  case COLUPF => exact agrees_COLUPF T u value clock h
  case COLUBK => exact agrees_COLUBK T u value clock h
  case CTRLPF => exact agrees_CTRLPF T u value clock h
  case REFP0 => exact agrees_REFP0 T hR u value clock h
  case REFP1 => exact agrees_REFP1 T hR u value clock h
  case PF0 => exact agrees_PF0 T hT u value clock h
  case PF1 => exact agrees_PF1 T hT u value clock h
  case PF2 => exact agrees_PF2 T hT u value clock h
  case RESP0 => exact agrees_RESP0 T u value clock h
  case RESP1 => exact agrees_RESP1 T u value clock h
  case RESM0 => exact agrees_RESM0 T u value clock h
  case RESM1 => exact agrees_RESM1 T u value clock h
  case RESBL => exact agrees_RESBL T u value clock h
  case AUDC0 => exact agrees_AUDC0 T u value clock h
  case AUDC1 => exact agrees_AUDC1 T u value clock h
  case AUDF0 => exact agrees_AUDF0 T u value clock h
  case AUDF1 => exact agrees_AUDF1 T u value clock h
  case AUDV0 => exact agrees_AUDV0 T u value clock h
  case AUDV1 => exact agrees_AUDV1 T u value clock h
  case GRP0 => exact agrees_GRP0 T hT hR u value clock hv h
  case GRP1 => exact agrees_GRP1 T hT hR u value clock hv h
  case ENAM0 => exact agrees_ENAM0 T hT u value clock h
  case ENAM1 => exact agrees_ENAM1 T hT u value clock h
  case ENABL => exact agrees_ENABL T hT u value clock h
  case HMP0 => exact agrees_HMP0 T u value clock h
  case HMP1 => exact agrees_HMP1 T u value clock h
  case HMM0 => exact agrees_HMM0 T u value clock h
  case HMM1 => exact agrees_HMM1 T u value clock h
  case HMBL => exact agrees_HMBL T u value clock h
  case VDELP0 => exact agrees_VDELP0 T hT hR u value clock h
  case VDELP1 => exact agrees_VDELP1 T hT hR u value clock h
  case VDELBL => exact agrees_VDELBL T hT u value clock h
  case RESMP0 => exact agrees_RESMP0 T hT u value clock h
  case RESMP1 => exact agrees_RESMP1 T hT u value clock h
  case HMOVE => exact agrees_HMOVE T u value clock h
  case HMCLR => exact agrees_HMCLR T u value clock h
  case CXCLR => exact agrees_CXCLR T u value clock h

theorem poke_unmatched (T : TIATables) (s : TIA) (addr value : Nat)
    (hr : T.writeRegister (addr &&& 0x003f) = none) :
    (poke T s addr value).2 = pokeFrame T s addr := by
  unfold poke pokeFrame
  dsimp only
  rw [hr]

theorem agrees_pokeAt (T : TIATables) (hT : T.objectBits)
    (hR : ∀ x, x < 256 → T.GRPReflect x = reverseBits8 x) (s : TIA) (c addr value : Nat)
    (hv : value < 256) (h : derivedStateAgrees T s ∧ s.graphicsAreBytes) :
    derivedStateAgrees T (pokeAt T s c addr value) ∧ (pokeAt T s c addr value).graphicsAreBytes := by
  have hf : derivedStateAgrees T (pokeFrame T { s with cycles := c } addr) ∧
      (pokeFrame T { s with cycles := c } addr).graphicsAreBytes := by
    rw [pokeFrame_frame]
    exact h
  unfold pokeAt
  cases hr : T.writeRegister (addr &&& 0x003f) with
  | none =>
    rw [poke_unmatched T _ addr value hr]
    exact hf
  | some reg =>
    rw [poke_eq T _ addr value reg hr]
    exact agrees_pokeRegister T hT hR _ reg value _ hv hf

theorem agrees_pokeAll (T : TIATables) (hT : T.objectBits)
    (hR : ∀ x, x < 256 → T.GRPReflect x = reverseBits8 x) (writes : List (Nat × Nat × Nat))
    (hv : ∀ w, w ∈ writes → w.2.2 < 256) (s : TIA)
    (h : derivedStateAgrees T s ∧ s.graphicsAreBytes) :
    derivedStateAgrees T (pokeAll T s writes) ∧ (pokeAll T s writes).graphicsAreBytes := by
  induction writes generalizing s with
  | nil => exact h
  | cons w ws ih =>
    exact ih (fun x hx => hv x (List.mem_cons_of_mem w hx)) (pokeAt T s w.1 w.2.1 w.2.2)
      (agrees_pokeAt T hT hR s w.1 w.2.1 w.2.2 (hv w (List.mem_cons_self w ws)) h)

theorem reset_derived (T : TIATables) (env : TIAEnv) (s : TIA) :
    (reset T env s).myCurrentGRP0 = 0 ∧ (reset T env s).myCurrentGRP1 = 0 ∧
    (reset T env s).myGRP0 = 0 ∧ (reset T env s).myGRP1 = 0 ∧
    (reset T env s).myDGRP0 = 0 ∧ (reset T env s).myDGRP1 = 0 ∧
    (reset T env s).myREFP0 = false ∧ (reset T env s).myREFP1 = false ∧
    (reset T env s).myVDELP0 = false ∧ (reset T env s).myVDELP1 = false ∧
    (reset T env s).myVDELBL = false ∧ (reset T env s).myENABL = false ∧
    (reset T env s).myENAM0 = false ∧ (reset T env s).myENAM1 = false ∧
    (reset T env s).myPF = 0 ∧ (reset T env s).myEnabledObjects = 0 := by
  obtain ⟨a, b, c⟩ := env
  cases b <;> exact ⟨rfl, rfl, rfl, rfl, rfl, rfl, rfl, rfl, rfl, rfl, rfl, rfl, rfl, rfl, rfl, rfl⟩

theorem agrees_reset (T : TIATables) (env : TIAEnv) (s : TIA) :
    derivedStateAgrees T (reset T env s) ∧ (reset T env s).graphicsAreBytes := by
  obtain ⟨c0, c1, g0, g1, d0, d1, r0, r1, v0, v1, vb, eb, m0, m1, pf, e⟩ := reset_derived T env s
  refine ⟨⟨?_, ?_, fun o => ?_⟩, ?_, ?_, ?_, ?_⟩
  · rw [c0, r0, v0, g0]
    rfl
  · rw [c1, r1, v1, g1]
    rfl
  · rw [e, Nat.zero_and]
    cases o with
    | P0 => exact ⟨fun hx => absurd rfl hx, fun hx => absurd c0 hx⟩
    | P1 => exact ⟨fun hx => absurd rfl hx, fun hx => absurd c1 hx⟩
    | PF => exact ⟨fun hx => absurd rfl hx, fun hx => absurd pf hx⟩
    | M0 =>
      refine ⟨fun hx => absurd rfl hx, fun hx => ?_⟩
      have h1 : (reset T env s).myENAM0 = true := hx.1
      rw [m0] at h1
      exact absurd h1 (by decide)
    | M1 =>
      refine ⟨fun hx => absurd rfl hx, fun hx => ?_⟩
      have h1 : (reset T env s).myENAM1 = true := hx.1
      rw [m1] at h1
      exact absurd h1 (by decide)
    | BL =>
      refine ⟨fun hx => absurd rfl hx, fun hx => ?_⟩
      have h1 : (if (reset T env s).myVDELBL then (reset T env s).myDENABL
        else (reset T env s).myENABL) = true := hx
      rw [vb, if_neg (by decide), eb] at h1
      exact absurd h1 (by decide)
  · rw [g0]
    decide
  · rw [g1]
    decide
  · rw [d0]
    decide
  · rw [d1]
    decide

/-- C38: from `TIA::reset`, after any sequence of writes of bytes, each made at
any CPU cycle to any address, the current graphics byte of each player is the
byte `g` selected by `VDELPx` (`DGRPx` when set, `GRPx` otherwise), bit-reversed
when `REFPx` is set, and each object bit of `myEnabledObjects` is set exactly
when the registers enable the object.  The tables are parameters: `GRPReflect`
is the bit reversal on bytes, and the six object bits are different single
bits of a byte. -/
theorem C38_derived_state_agrees (T : TIATables) (env : TIAEnv) (s0 s : TIA)
    (writes : List (Nat × Nat × Nat))
    (hT : T.objectBits) (hR : ∀ x, x < 256 → T.GRPReflect x = reverseBits8 x)
    (hv : ∀ w, w ∈ writes → w.2.2 < 256)
    (hs : s = pokeAll T (reset T env s0) writes) :
    s.myCurrentGRP0 =
      (if s.myREFP0 then reverseBits8 (if s.myVDELP0 then s.myDGRP0 else s.myGRP0)
       else (if s.myVDELP0 then s.myDGRP0 else s.myGRP0)) ∧
    s.myCurrentGRP1 =
      (if s.myREFP1 then reverseBits8 (if s.myVDELP1 then s.myDGRP1 else s.myGRP1)
       else (if s.myVDELP1 then s.myDGRP1 else s.myGRP1)) ∧
    (s.myEnabledObjects &&& T.P0Bit ≠ 0 ↔ s.myCurrentGRP0 ≠ 0) ∧
    (s.myEnabledObjects &&& T.P1Bit ≠ 0 ↔ s.myCurrentGRP1 ≠ 0) ∧
    (s.myEnabledObjects &&& T.PFBit ≠ 0 ↔ s.myPF ≠ 0) ∧
    (s.myEnabledObjects &&& T.M0Bit ≠ 0 ↔ (s.myENAM0 = true ∧ s.myRESMP0 = false)) ∧
    (s.myEnabledObjects &&& T.M1Bit ≠ 0 ↔ (s.myENAM1 = true ∧ s.myRESMP1 = false)) ∧
    (s.myEnabledObjects &&& T.BLBit ≠ 0 ↔
      (if s.myVDELBL then s.myDENABL else s.myENABL) = true) := by
  obtain ⟨⟨h0, h1, hb⟩, _⟩ :=
    agrees_pokeAll T hT hR writes hv (reset T env s0) (agrees_reset T env s0)
  rw [← hs] at h0 h1 hb
  exact ⟨h0, h1, hb TIAObject.P0, hb TIAObject.P1, hb TIAObject.PF, hb TIAObject.M0,
    hb TIAObject.M1, hb TIAObject.BL⟩

/-- C38 (witness): after `GRP0 = 0xA5` and `REFP0 = 0x08` the current graphics
byte of player 0 agrees with the registers and the `P0` bit with the byte. -/
theorem C38_derived_state_agrees_witness :
    ∃ s : TIA, s = pokeAll reflectTables (reset reflectTables sampleEnv sampleTIA)
        [(0, 0x1B, 0xA5), (1, 0x0B, 0x08)] ∧
      s.myCurrentGRP0 =
        (if s.myREFP0 then reverseBits8 (if s.myVDELP0 then s.myDGRP0 else s.myGRP0)
         else (if s.myVDELP0 then s.myDGRP0 else s.myGRP0)) ∧
      (s.myEnabledObjects &&& reflectTables.P0Bit ≠ 0 ↔ s.myCurrentGRP0 ≠ 0) :=
  ⟨_, rfl,
    (C38_derived_state_agrees reflectTables sampleEnv sampleTIA _
      [(0, 0x1B, 0xA5), (1, 0x0B, 0x08)] (by decide) (fun _ _ => rfl) (by decide) rfl).1,
    (C38_derived_state_agrees reflectTables sampleEnv sampleTIA _
      [(0, 0x1B, 0xA5), (1, 0x0B, 0x08)] (by decide) (fun _ _ => rfl) (by decide) rfl).2.2.1⟩

/-- The colour clock of a CPU access is three times the cycle count: as long as
the product stays an `Int32` it is never `228 + 68 + 80 = 376`. -/
theorem clockNow_ne_376 (s : TIA) (c : Nat) (hc : c * 3 < 2147483648) :
    clockNow { s with cycles := c } ≠ 376 := by
  rw [clockNow_cycles s c hc]
  omega

/-- C24 fails as stated.  From the power-on state (frame started at clock 0) the
CPU writes next to the colour clock 376 of the claim are those of the CPU
cycles 125 and 126 (colour clocks 375 and 378, `hpos` 79 and 82).  A write to
`RESP0` there puts player 0 at 84 and at 87, and after `HMP0 = 0x70` the write
to `HMOVE` at CPU cycle 152 (colour clock 456, `hpos = -68`) leaves it at 77 and
at 80: seven to the left of the position set by `RESP0` and two to the left of
the `hpos` of the write, not one. -/
theorem C24_player_ends_at_hpos_minus_2 :
    (reset sampleTables sampleEnv sampleTIA).myClockWhenFrameStarted = 0 ∧
    hposOf { reset sampleTables sampleEnv sampleTIA with cycles := 125 } = 79 ∧
    (pokeAt sampleTables (reset sampleTables sampleEnv sampleTIA) 125 0x10 0).myPOSP0 = 84 ∧
    (pokeAt sampleTables
      (pokeAt sampleTables
        (pokeAt sampleTables (reset sampleTables sampleEnv sampleTIA) 125 0x10 0)
        129 0x20 0x70) 152 0x2A 0).myPOSP0 = 77 ∧
    hposOf { reset sampleTables sampleEnv sampleTIA with cycles := 126 } = 82 ∧
    (pokeAt sampleTables (reset sampleTables sampleEnv sampleTIA) 126 0x10 0).myPOSP0 = 87 ∧
    hposOf { pokeAt sampleTables
        (pokeAt sampleTables (reset sampleTables sampleEnv sampleTIA) 126 0x10 0)
        130 0x20 0x70 with cycles := 152 } = -68 ∧
    (pokeAt sampleTables
      (pokeAt sampleTables
        (pokeAt sampleTables (reset sampleTables sampleEnv sampleTIA) 126 0x10 0)
        130 0x20 0x70) 152 0x2A 0).myPOSP0 = 80 := by
  decide

/-- C24 (amended): from any state with no HMOVE pending or propagating and no
more-motion latch set (the power-on state is one), a write to `RESP0` at
`hpos = h` with `h >= -2`, then a write `HMP0 = 0x70`, then a write to `HMOVE`
at `hpos = -68`: after the first two writes player 0 is at `(h + 5) mod 160`,
and the `HMOVE` moves it seven to the left, wrapped into `0..159`; for
`2 <= h < 155` the player ends at `h - 2`. -/
theorem C24_RESP0_HMP0_HMOVE (T : TIATables) (s : TIA) (c1 c2 c3 a0 aH aM v0 vM : Nat)
    (h : Int)
    (h0 : T.writeRegister (a0 &&& 0x003f) = some TIARegister.RESP0)
    (hH : T.writeRegister (aH &&& 0x003f) = some TIARegister.HMP0)
    (hM : T.writeRegister (aM &&& 0x003f) = some TIARegister.HMOVE)
    (hc : s.myCurrentHMOVEPos = 0x7FFFFFFF) (hp : s.myPreviousHMOVEPos = 0x7FFFFFFF)
    (hmm : moreMotion s = [false, false, false, false, false])
    (hh : -2 ≤ h)
    (h1 : hposOf { s with cycles := c1 } = h)
    (h3 : hposOf { s with cycles := c3 } = -68) :
    (pokeAt T (pokeAt T s c1 a0 v0) c2 aH 0x70).myPOSP0 = (h + 5) % 160 ∧
    (pokeAt T (pokeAt T (pokeAt T s c1 a0 v0) c2 aH 0x70) c3 aM vM).myPOSP0
      = CLAMP_POS ((h + 5) % 160 - 7) ∧
    (2 ≤ h → h < 155 →
      (pokeAt T (pokeAt T (pokeAt T s c1 a0 v0) c2 aH 0x70) c3 aM vM).myPOSP0 = h - 2) := by
  obtain ⟨a, b, p, e1⟩ := hmState_pokeAt_RESP0 T s c1 a0 v0 h0 hc hp hmm
  rw [h1, if_neg (by omega)] at e1
  generalize pokeAt T s c1 a0 v0 = x at e1 ⊢
  have xc : x.myCurrentHMOVEPos = 0x7FFFFFFF := by
    rw [← (hmState_hmove x).1, e1]
    exact hc
  have xm : moreMotion x = [false, false, false, false, false] := by
    rw [moreMotion_hmState, e1]
    exact hmm
  obtain ⟨a2, b2, p2, e2⟩ := hmState_pokeAt_HMP0 T x c2 aH 0x70 hH xc xm
  rw [e1] at e2
  generalize pokeAt T x c2 aH 0x70 = y at e2 ⊢
  have yc : y.myCurrentHMOVEPos = 0x7FFFFFFF := by
    rw [← (hmState_hmove y).1, e2]
    exact hc
  have ym : moreMotion y = [false, false, false, false, false] := by
    rw [moreMotion_hmState, e2]
    exact hmm
  have yh : hposOf { y with cycles := c3 } = -68 := by
    rw [hposOf_hmState, hmState_cycles, e2, clockNow_set]
    exact h3
  have y1 : y.myPOSP0 = (h + 5) % 160 := by
    rw [← hmState_posP0, e2]
  have y2 : y.myHMP0 = 0x70 := by
    rw [← hmState_hmP0, e2]
    rfl
  have e3 : (pokeAt T y c3 aM vM).myPOSP0 = CLAMP_POS ((h + 5) % 160 - 7) := by
    rw [pokeAt_HMOVE_quiet T y c3 aM vM hM yc ym yh, y1, y2]
    rfl
  refine ⟨y1, e3, fun ha hb => ?_⟩
  rw [e3]
  unfold CLAMP_POS
  rw [Int.emod_eq_of_lt (by omega) (by omega), if_neg (by omega),
    Int.tmod_eq_emod (by omega) (by norm_num), Int.emod_eq_of_lt (by omega) (by omega)]
  omega

/-- C24 (witness): from the power-on state, `RESP0` at CPU cycle 126 (`hpos`
82), `HMP0 = 0x70` at cycle 130 and `HMOVE` at cycle 152 (`hpos` -68) leave
player 0 at 80. -/
theorem C24_RESP0_HMP0_HMOVE_witness :
    (pokeAt sampleTables
      (pokeAt sampleTables
        (pokeAt sampleTables (reset sampleTables sampleEnv sampleTIA) 126 0x10 0)
        130 0x20 0x70) 152 0x2A 0).myPOSP0 = 82 - 2 :=
  (C24_RESP0_HMP0_HMOVE sampleTables (reset sampleTables sampleEnv sampleTIA)
    126 130 152 0x10 0x20 0x2A 0 0 82 (by decide) (by decide) (by decide) (by decide)
    (by decide) (by decide) (by decide) (by decide) (by decide)).2.2 (by decide) (by decide)

end TIAProofs

end Stella
